import Mathlib

/-!
# A shallow embedding of `OptixTemplate/SampleRenderer.cpp`

The renderer drives two external libraries (the CUDA runtime and OptiX).  They are
embedded as follows.

* Device memory is a list of live allocations, each carrying its size and a typed view
  of its contents.  Every call into the libraries that the claims speak about is also
  appended to a call trace.
* Results that only the libraries can determine (status codes, traversable handles,
  buffer-size requirements, packed record headers, rendered pixels) come from a
  `Backend`, a record of functions from the arguments of a call to its outputs; the calls
  made by `initOptix`, `createContext`, `createModule`, the program-group functions and
  `createPipeline` take their results from a `SetupBackend`.
* `OPTIX_CHECK` / `CUDA_CHECK` / `CUDA_SYNC_CHECK` turn a non-zero status into an
  `Except.error`; a call whose status the source does not examine is recorded with the
  status it reported and execution goes on.
* An `Except.error` carries no state, so the constructor and its steps are embedded a second
  time (`initOptix.traced`, ...), with each call recorded before its status is examined and
  the calls made so far kept when a check aborts the run; the two embeddings are proved to
  return the same result.
* The scalar type `float` is a parameter `α`; the camera theorems instantiate it with `ℝ`.
* `std::vector` is `List`; `size()` is `List.length`; the narrowing casts `(int)` and
  `(uint32_t)` that the source applies to sizes are kept (`castInt`, `castUInt32`).
-/

namespace osc

/-! ## Machine integers -/

/-- Value of `(int)n` for a `size_t` value `n` (two's-complement narrowing to 32 bits). -/
def castInt (n : Nat) : Int :=
  if n % 2 ^ 32 < 2 ^ 31 then ((n % 2 ^ 32 : Nat) : Int) else ((n % 2 ^ 32 : Nat) : Int) - 2 ^ 32

/-- Value of `(uint32_t)n` for a `size_t` value `n`. -/
def castUInt32 (n : Nat) : Nat := n % 2 ^ 32

/-- Value of an `int` expression whose mathematical value is `i` (wrapping to 32 bits). -/
def wrapInt (i : Int) : Int :=
  if i % 2 ^ 32 < 2 ^ 31 then i % 2 ^ 32 else i % 2 ^ 32 - 2 ^ 32

/-- Value of `(size_t)i` for an `int` value `i` (64-bit `size_t`). -/
def castSizeT (i : Int) : Nat := (i % 2 ^ 64).toNat

/-! ## gdt vectors -/

/-- Modelled from the spec: gdt's vector types are declared outside src/; a three-component
vector, `vec3f` over the scalar type and `vec3i` over `Int`. -/
structure vec3 (α : Type) where
  x : α
  y : α
  z : α
deriving DecidableEq

/-- Integer index triplet `gdt::vec3i`. -/
abbrev vec3i := vec3 Int

/-- Modelled from the spec: gdt's `vec2i` is declared outside src/; a pair of `int`
components `x`, `y` (the frame dimensions). -/
structure vec2i where
  x : Int
  y : Int
deriving DecidableEq

namespace vec3

variable {α : Type}

/-- Componentwise difference `a - b`. -/
def sub [Sub α] (a b : vec3 α) : vec3 α := ⟨a.x - b.x, a.y - b.y, a.z - b.z⟩

/-- Componentwise sum `a + b`. -/
def add [Add α] (a b : vec3 α) : vec3 α := ⟨a.x + b.x, a.y + b.y, a.z + b.z⟩

/-- Scalar times vector, `s * v`. -/
def smul [Mul α] (s : α) (v : vec3 α) : vec3 α := ⟨s * v.x, s * v.y, s * v.z⟩

/-- Dot product. -/
def dot [Add α] [Mul α] (a b : vec3 α) : α := a.x * b.x + a.y * b.y + a.z * b.z

/-- Modelled from the spec: gdt's `cross` is not under src/; this is the cross product the
spec names, with the usual right-handed component formula. -/
def cross [Sub α] [Mul α] (a b : vec3 α) : vec3 α :=
  ⟨a.y * b.z - a.z * b.y, a.z * b.x - a.x * b.z, a.x * b.y - a.y * b.x⟩

/-- Euclidean length, given the scalar square root. -/
def length [Add α] [Mul α] (sqrt : α → α) (v : vec3 α) : α := sqrt (dot v v)

/-- Modelled from the spec: gdt's `normalize` is not under src/; the spec's "normalized"
vector is the vector times the reciprocal of its length. -/
def normalize [Add α] [Mul α] [One α] [Div α] (sqrt : α → α) (v : vec3 α) : vec3 α :=
  smul (1 / length sqrt v) v

end vec3

/-! ## Scene data -/

/-- Modelled from the spec: `TriangleMesh` is declared in a header outside src/; an ordered
sequence of vertex positions, an ordered sequence of index triplets and a single flat colour,
with the member names the source uses. -/
structure TriangleMesh (α : Type) where
  vertex : List (vec3 α)
  index : List vec3i
  color : vec3 α
deriving DecidableEq

/-- Modelled from the spec: gdt's `linear3f` is declared outside src/; the three columns
`vx`, `vy`, `vz` of a 3×3 matrix. -/
structure linear3 (α : Type) where
  vx : vec3 α
  vy : vec3 α
  vz : vec3 α
deriving DecidableEq

/-- Modelled from the spec: gdt's `affine3f` is declared outside src/; a linear part `l` and
a translation `p`. -/
structure affine3 (α : Type) where
  l : linear3 α
  p : vec3 α
deriving DecidableEq

/-- Modelled from the spec: gdt's `xfmPoint` is not under src/; the image of the point `p`
under the affine map `m`, that is `p.x * vx + (p.y * vy + (p.z * vz + m.p))`. -/
def xfmPoint {α : Type} [Add α] [Mul α] (m : affine3 α) (p : vec3 α) : vec3 α :=
  vec3.add (vec3.smul p.x m.l.vx) (vec3.add (vec3.smul p.y m.l.vy)
    (vec3.add (vec3.smul p.z m.l.vz) m.p))

/-- Embeds gdt's `int + vec3i`: the scalar is added to every component, in `int`
arithmetic. -/
def vec3i.addScalar (s : Int) (v : vec3i) : vec3i :=
  ⟨wrapInt (s + v.x), wrapInt (s + v.y), wrapInt (s + v.z)⟩

/-- Embeds `TriangleMesh::addUnitCube`: add a unit cube (subject to the given `xfm` matrix)
to the mesh. -/
def TriangleMesh.addUnitCube {α : Type} [Zero α] [One α] [Add α] [Mul α]
    (mesh : TriangleMesh α) (xfm : affine3 α) : TriangleMesh α :=
  let firstVertexID : Int := castInt mesh.vertex.length
  let vertex := mesh.vertex ++ [xfmPoint xfm ⟨0, 0, 0⟩]
  let vertex := vertex ++ [xfmPoint xfm ⟨1, 0, 0⟩]
  let vertex := vertex ++ [xfmPoint xfm ⟨0, 1, 0⟩]
  let vertex := vertex ++ [xfmPoint xfm ⟨1, 1, 0⟩]
  let vertex := vertex ++ [xfmPoint xfm ⟨0, 0, 1⟩]
  let vertex := vertex ++ [xfmPoint xfm ⟨1, 0, 1⟩]
  let vertex := vertex ++ [xfmPoint xfm ⟨0, 1, 1⟩]
  let vertex := vertex ++ [xfmPoint xfm ⟨1, 1, 1⟩]
  let indices : List Int := [0, 1, 3, 2, 3, 0,
                             5, 7, 6, 5, 6, 4,
                             0, 4, 5, 0, 5, 1,
                             2, 3, 7, 2, 7, 6,
                             1, 5, 7, 1, 7, 3,
                             4, 0, 2, 4, 2, 6]
  let index := (List.range 12).foldl (fun index i =>
    index ++ [vec3i.addScalar firstVertexID
      ⟨indices.getD (3 * i + 0) 0, indices.getD (3 * i + 1) 0, indices.getD (3 * i + 2) 0⟩])
    mesh.index
  { mesh with vertex := vertex, index := index }

/-- Embeds `TriangleMesh::addCube`, over a field of scalars; the constant `0.5f` is the
fraction 1/2. -/
def TriangleMesh.addCube {α : Type} [Field α] (mesh : TriangleMesh α) (center size : vec3 α) :
    TriangleMesh α :=
  let xfm_p := vec3.sub center (vec3.smul (1 / 2) size)
  let xfm : affine3 α :=
    { p := xfm_p
      l := { vx := ⟨size.x, 0, 0⟩
             vy := ⟨0, size.y, 0⟩
             vz := ⟨0, 0, size.z⟩ } }
  mesh.addUnitCube xfm

/-- The `TriangleMesh` invariant: every component of every index triplet is a valid index
into the vertex sequence. -/
def TriangleMesh.Valid {α : Type} (mesh : TriangleMesh α) : Prop :=
  ∀ t ∈ mesh.index,
    (0 ≤ t.x ∧ t.x < mesh.vertex.length) ∧ (0 ≤ t.y ∧ t.y < mesh.vertex.length) ∧
    (0 ≤ t.z ∧ t.z < mesh.vertex.length)

/-- Modelled from the spec: `Sphere` is declared in a header outside src/; a radius and a
colour. -/
structure Sphere (α : Type) where
  radius : α
  color : vec3 α
deriving DecidableEq

/-- Modelled from the spec: `Geometry` (the scene) is declared in a header outside src/; a
vector of meshes and a vector of spheres. -/
structure Geometry (α : Type) where
  meshes : List (TriangleMesh α)
  spheres : List (Sphere α)
deriving DecidableEq

/-- Modelled from the spec: `Camera` is declared in a header outside src/; position,
look-at point and up vector (`from`, `at`, `up` in the source). -/
structure Camera (α : Type) where
  from_ : vec3 α
  at_ : vec3 α
  up : vec3 α
deriving DecidableEq

/-! ## OptiX / CUDA value types -/

/-- Device address; `0` is the null pointer. -/
abbrev CUdeviceptr := Nat

/-- Traversable handle. -/
abbrev OptixTraversableHandle := Nat

/-- Status of an OptiX call; `0` is `OPTIX_SUCCESS`. -/
abbrev OptixResult := Nat

/-- Status of a CUDA call; `0` is `cudaSuccess`. -/
abbrev CudaResult := Nat

/-- Program group handle. -/
abbrev OptixProgramGroup := Nat

/-- The packed header of an SBT record (opaque bytes written by OptiX). -/
abbrev SbtHeader := Nat

/-- Embeds `OPTIX_SUCCESS`. -/
def OPTIX_SUCCESS : OptixResult := 0

/-- Embeds `OPTIX_BUILD_FLAG_NONE`. -/
def OPTIX_BUILD_FLAG_NONE : Nat := 0

/-- Embeds `OPTIX_BUILD_FLAG_ALLOW_COMPACTION`. -/
def OPTIX_BUILD_FLAG_ALLOW_COMPACTION : Nat := 2

/-- Embeds `OPTIX_GEOMETRY_FLAG_NONE`. -/
def OPTIX_GEOMETRY_FLAG_NONE : Nat := 0

/-- Embeds `OPTIX_INSTANCE_FLAG_NONE`. -/
def OPTIX_INSTANCE_FLAG_NONE : Nat := 0

/-- Embeds `sizeof(vec3f)`. -/
def sizeof_vec3f : Nat := 12

/-- Embeds `sizeof(vec3i)`. -/
def sizeof_vec3i : Nat := 12

/-- Embeds `sizeof(uint32_t)`. -/
def sizeof_uint32_t : Nat := 4

/-- Embeds `sizeof(uint64_t)`. -/
def sizeof_uint64_t : Nat := 8

/-- Embeds `sizeof(OptixAabb)`: six floats. -/
def sizeof_OptixAabb : Nat := 24

/-- Embeds `sizeof(OptixInstance)`. -/
def sizeof_OptixInstance : Nat := 80

/-- Embeds `sizeof(RaygenRecord)` and `sizeof(MissRecord)`: a 32-byte header and a pointer, padded
to the 16-byte record alignment. -/
def sizeof_RaygenRecord : Nat := 48

/-- The two build operations. -/
inductive OptixBuildOperation where
  | build
  | update
deriving DecidableEq

/-- The vertex formats used (`OPTIX_VERTEX_FORMAT_*`). -/
inductive OptixVertexFormat where
  | none
  | float3
deriving DecidableEq

/-- The index formats used (`OPTIX_INDICES_FORMAT_*`). -/
inductive OptixIndicesFormat where
  | none
  | unsignedInt3
deriving DecidableEq

/-- Embeds `OptixAccelBuildOptions`. -/
structure OptixAccelBuildOptions where
  buildFlags : Nat
  motionNumKeys : Nat
  operation : OptixBuildOperation
deriving DecidableEq

/-- Embeds `OptixAccelBufferSizes` (the two sizes the source reads). -/
structure OptixAccelBufferSizes where
  outputSizeInBytes : Nat
  tempSizeInBytes : Nat
deriving DecidableEq

/-- Embeds `OptixBuildInputTriangleArray`.  Host pointers to a single value (`vertexBuffers`,
`flags`) are represented by the value they point to when the build reads them. -/
structure OptixBuildInputTriangleArray where
  vertexBuffers : CUdeviceptr
  numVertices : Int
  vertexFormat : OptixVertexFormat
  vertexStrideInBytes : Nat
  indexBuffer : CUdeviceptr
  numIndexTriplets : Int
  indexFormat : OptixIndicesFormat
  indexStrideInBytes : Nat
  flags : Nat
  numSbtRecords : Nat
  sbtIndexOffsetBuffer : CUdeviceptr
  sbtIndexOffsetSizeInBytes : Nat
  sbtIndexOffsetStrideInBytes : Nat
deriving DecidableEq

/-- Embeds `OptixBuildInputCustomPrimitiveArray`. -/
structure OptixBuildInputCustomPrimitiveArray where
  aabbBuffers : CUdeviceptr
  numPrimitives : Nat
  strideInBytes : Nat
  flags : Nat
  numSbtRecords : Nat
  sbtIndexOffsetBuffer : CUdeviceptr
  sbtIndexOffsetSizeInBytes : Nat
  sbtIndexOffsetStrideInBytes : Nat
  primitiveIndexOffset : Nat
deriving DecidableEq

/-- Embeds `OptixBuildInputInstanceArray`. -/
structure OptixBuildInputInstanceArray where
  instances : CUdeviceptr
  numInstances : Nat
  aabbs : CUdeviceptr
  numAabbs : Nat
deriving DecidableEq

/-- Embeds `OptixBuildInput`: the type tag together with the member of the union that the source
fills in.  `zeroed` is the value-initialised entry of a freshly sized vector. -/
inductive OptixBuildInput where
  | zeroed
  | triangles (triangleArray : OptixBuildInputTriangleArray)
  | customPrimitives (aabbArray : OptixBuildInputCustomPrimitiveArray)
  | instances (instanceArray : OptixBuildInputInstanceArray)
deriving DecidableEq

/-- Number of SBT records a build input owns. -/
def OptixBuildInput.numSbtRecords : OptixBuildInput → Nat
  | .zeroed => 0
  | .triangles t => t.numSbtRecords
  | .customPrimitives a => a.numSbtRecords
  | .instances _ => 0

/-- Embeds `OptixAabb`. -/
structure OptixAabb (α : Type) where
  minX : α
  minY : α
  minZ : α
  maxX : α
  maxY : α
  maxZ : α
deriving DecidableEq

/-- Embeds `OptixInstance`; `transform` is the row-major 3x4 matrix as 12 scalars. -/
structure OptixInstance (α : Type) where
  transform : List α
  instanceId : Nat
  sbtOffset : Nat
  visibilityMask : Nat
  flags : Nat
  traversableHandle : OptixTraversableHandle
deriving DecidableEq

/-- Embeds `RaygenRecord`: header and a dummy data pointer. -/
structure RaygenRecord where
  header : SbtHeader
  data : Nat
deriving DecidableEq

/-- Embeds `MissRecord`: header and a dummy data pointer. -/
structure MissRecord where
  header : SbtHeader
  data : Nat
deriving DecidableEq

/-- Modelled from the spec: `GeometrySBTData` is declared in a header outside src/; a payload
that is either mesh shading data (colour and vertex/index buffer addresses) or sphere shading
data (colour and radius).  A value is the member that the source writes for a record. -/
inductive GeometrySBTData (α : Type) where
  | triangle_data (color : vec3 α) (vertex : CUdeviceptr) (index : CUdeviceptr)
  | sphere_data (color : vec3 α) (radius : α)
deriving DecidableEq

/-- Embeds `HitgroupRecord`: header and geometry payload. -/
structure HitgroupRecord (α : Type) where
  header : SbtHeader
  data : GeometrySBTData α
deriving DecidableEq

/-- Embeds `OptixShaderBindingTable` (the fields the source sets). -/
structure OptixShaderBindingTable where
  raygenRecord : CUdeviceptr
  missRecordBase : CUdeviceptr
  missRecordStrideInBytes : Nat
  missRecordCount : Int
  hitgroupRecordBase : CUdeviceptr
  hitgroupRecordStrideInBytes : Nat
  hitgroupRecordCount : Int
deriving DecidableEq

/-- Modelled from the spec: `LaunchParams` is declared in a header outside src/; this is its
`frame` member, the output buffer address and the frame dimensions. -/
structure LaunchParamsFrame where
  colorBuffer : CUdeviceptr
  size : vec2i
deriving DecidableEq

/-- Modelled from the spec: `LaunchParams` is declared in a header outside src/; this is its
`camera` member, the camera basis. -/
structure LaunchParamsCamera (α : Type) where
  position : vec3 α
  direction : vec3 α
  horizontal : vec3 α
  vertical : vec3 α
deriving DecidableEq

/-- Modelled from the spec: `LaunchParams` is declared in a header outside src/; frame,
camera basis and the traversable handle of the scene. -/
structure LaunchParams (α : Type) where
  frame : LaunchParamsFrame
  camera : LaunchParamsCamera α
  traversable : OptixTraversableHandle
deriving DecidableEq

/-! ## Device memory and the call trace -/

/-- Typed view of the contents of one device allocation. -/
inductive DevData (α : Type) where
  | raw
  | u64 (value : Nat)
  | vertices (v : List (vec3 α))
  | indices (v : List vec3i)
  | aabb (b : OptixAabb α)
  | instances (v : List (OptixInstance α))
  | raygenRecords (v : List RaygenRecord)
  | missRecords (v : List MissRecord)
  | hitgroupRecords (v : List (HitgroupRecord α))
  | launchParams (p : LaunchParams α)
  | pixels (v : List Nat)
deriving DecidableEq

/-- One live device allocation. -/
structure Allocation (α : Type) where
  ptr : CUdeviceptr
  sizeInBytes : Nat
  data : DevData α
deriving DecidableEq

/-- Arguments of one `optixAccelBuild` call, with the device memory it can read. -/
structure AccelBuildCall (α : Type) where
  memory : List (Allocation α)
  accelOptions : OptixAccelBuildOptions
  buildInputs : List OptixBuildInput
  numBuildInputs : Int
  tempBuffer : CUdeviceptr
  tempBufferSizeInBytes : Nat
  outputBuffer : CUdeviceptr
  outputBufferSizeInBytes : Nat
  emitResult : CUdeviceptr
  numEmittedProperties : Nat
deriving DecidableEq

/-- Arguments of one `optixAccelComputeMemoryUsage` call. -/
structure MemoryUsageCall where
  accelOptions : OptixAccelBuildOptions
  buildInputs : List OptixBuildInput
  numBuildInputs : Int
deriving DecidableEq

/-- Arguments of one `optixAccelCompact` call. -/
structure AccelCompactCall where
  inputHandle : OptixTraversableHandle
  outputBuffer : CUdeviceptr
  outputBufferSizeInBytes : Nat
deriving DecidableEq

/-- Value of `OPTIX_COMPILE_OPTIMIZATION_DEFAULT`. -/
def OPTIX_COMPILE_OPTIMIZATION_DEFAULT : Nat := 0

/-- Value of `OPTIX_COMPILE_DEBUG_LEVEL_NONE`. -/
def OPTIX_COMPILE_DEBUG_LEVEL_NONE : Nat := 0

/-- Value of `OPTIX_TRAVERSABLE_GRAPH_FLAG_ALLOW_ANY`. -/
def OPTIX_TRAVERSABLE_GRAPH_FLAG_ALLOW_ANY : Nat := 0

/-- Value of `OPTIX_EXCEPTION_FLAG_NONE`. -/
def OPTIX_EXCEPTION_FLAG_NONE : Nat := 0

/-- The fields of `OptixModuleCompileOptions`. -/
structure OptixModuleCompileOptions where
  maxRegisterCount : Int
  optLevel : Nat
  debugLevel : Nat
deriving DecidableEq

/-- The fields of `OptixPipelineCompileOptions`. -/
structure OptixPipelineCompileOptions where
  usesMotionBlur : Bool
  traversableGraphFlags : Nat
  numPayloadValues : Int
  numAttributeValues : Int
  exceptionFlags : Nat
  pipelineLaunchParamsVariableName : String
deriving DecidableEq

/-- The fields of `OptixPipelineLinkOptions`. -/
structure OptixPipelineLinkOptions where
  maxTraceDepth : Nat
  debugLevel : Nat
  overrideUsesMotionBlur : Bool
deriving DecidableEq

/-- A program-group description `OptixProgramGroupDesc`: its kind with the modules and entry
function names of that kind. -/
inductive OptixProgramGroupDesc where
  | raygen (module : Nat) (entryFunctionName : String)
  | miss (module : Nat) (entryFunctionName : String)
  | hitgroup (moduleCH : Nat) (entryFunctionNameCH : String)
      (moduleAH : Nat) (entryFunctionNameAH : String)
      (moduleIS : Nat) (entryFunctionNameIS : String)
deriving DecidableEq

/-- Arguments of one `optixLaunch` call, with the device memory it can read. -/
structure LaunchCall (α : Type) where
  memory : List (Allocation α)
  pipeline : Nat
  stream : Nat
  pipelineParams : CUdeviceptr
  pipelineParamsSize : Nat
  sbt : OptixShaderBindingTable
  width : Int
  height : Int
  depth : Int
deriving DecidableEq

/-- A call into CUDA or OptiX, as recorded in the trace. -/
inductive Event (α : Type) where
  | memcpyHtoD (dst : CUdeviceptr) (bytes : Nat)
  | memcpyDtoH (src : CUdeviceptr) (bytes : Nat)
  | accelComputeMemoryUsage (call : MemoryUsageCall) (sizes : OptixAccelBufferSizes)
  | accelBuild (call : AccelBuildCall α) (handle : OptixTraversableHandle) (compactedSize : Nat)
  | accelCompact (call : AccelCompactCall) (handle : OptixTraversableHandle)
  | launch (call : LaunchCall α)
  | sync
  | cudaFree (devPtr : CUdeviceptr) (status : CudaResult)
  | cudaGetDeviceCount (status : CudaResult) (count : Int)
  | optixInit (status : OptixResult)
  | cudaSetDevice (device : Int) (status : CudaResult)
  | cudaStreamCreate (status : CudaResult) (stream : Nat)
  | cudaGetDeviceProperties (device : Int) (status : CudaResult)
  | cuCtxGetCurrent (status : Nat) (context : Nat)
  | deviceContextCreate (cudaContext : Nat) (status : OptixResult) (context : Nat)
  | deviceContextSetLogCallback (context : Nat) (callbackLevel : Nat) (status : OptixResult)
  | moduleCreateFromPTX (context : Nat) (moduleCompileOptions : OptixModuleCompileOptions)
      (pipelineCompileOptions : OptixPipelineCompileOptions) (status : OptixResult)
      (module : Nat)
  | programGroupCreate (context : Nat) (programDescription : OptixProgramGroupDesc)
      (status : OptixResult) (programGroup : OptixProgramGroup)
  | pipelineCreate (context : Nat) (pipelineCompileOptions : OptixPipelineCompileOptions)
      (pipelineLinkOptions : OptixPipelineLinkOptions) (programGroups : List OptixProgramGroup)
      (numProgramGroups : Int) (status : OptixResult) (pipeline : Nat)
  | pipelineSetStackSize (pipeline : Nat) (directCallableStackSizeFromTraversal : Nat)
      (directCallableStackSizeFromState : Nat) (continuationStackSize : Nat)
      (maxTraversableGraphDepth : Nat) (status : OptixResult)
deriving DecidableEq

/-- The allocation at address `p` in a snapshot of device memory, if any. -/
def blockAt {α : Type} (memory : List (Allocation α)) (p : CUdeviceptr) : Option (Allocation α) :=
  memory.find? (fun a => a.ptr = p)

/-- Contents of the allocation at address `p` in a snapshot of device memory, if any. -/
def readAt {α : Type} (memory : List (Allocation α)) (p : CUdeviceptr) : Option (DevData α) :=
  (blockAt memory p).map (fun a => a.data)

/-- The CUDA device as the host sees it: the live allocations, the highest address handed
out so far, and the trace of calls. -/
structure Device (α : Type) where
  next : CUdeviceptr
  allocs : List (Allocation α)
  calls : List (Event α)
deriving DecidableEq

section
variable {α : Type}

/-- An address above every live allocation and every address handed out before. -/
def Device.fresh (d : Device α) : CUdeviceptr :=
  d.allocs.foldl (fun m a => max m a.ptr) d.next + 1

/-- Results of `cudaMalloc`: a new allocation of `size` bytes at a fresh address. -/
def Device.malloc (d : Device α) (size : Nat) : CUdeviceptr × Device α :=
  (d.fresh, { d with next := d.fresh, allocs := d.allocs ++ [⟨d.fresh, size, .raw⟩] })

/-- Effect of `cudaFree`: the allocation at `p` is no longer live. -/
def Device.free (d : Device α) (p : CUdeviceptr) : Device α :=
  { d with allocs := d.allocs.filter (fun a => a.ptr ≠ p) }

/-- Store `data` in the allocation at `p`. -/
def Device.write (d : Device α) (p : CUdeviceptr) (data : DevData α) : Device α :=
  { d with allocs := d.allocs.map (fun a => if a.ptr = p then { a with data := data } else a) }

/-- The live allocation at `p`, if any. -/
def Device.block (d : Device α) (p : CUdeviceptr) : Option (Allocation α) :=
  blockAt d.allocs p

/-- Contents of the live allocation at `p`, if any. -/
def Device.read (d : Device α) (p : CUdeviceptr) : Option (DevData α) :=
  readAt d.allocs p

/-- Append a call to the trace. -/
def Device.record (d : Device α) (e : Event α) : Device α :=
  { d with calls := d.calls ++ [e] }

/-- Addresses of the live allocations, in allocation order. -/
def Device.live (d : Device α) : List CUdeviceptr := d.allocs.map (fun a => a.ptr)

end

/-- Modelled from the spec: `CUDABuffer` is declared outside src/; the spec describes it as
an opaque device allocation with alloc / alloc-and-upload / download / free / address
operations.  A buffer is released only by `free`. -/
structure CUDABuffer where
  sizeInBytes : Nat
  d_ptr : CUdeviceptr
deriving DecidableEq

section
variable {α : Type}

/-- A buffer that owns no allocation (the default-constructed `CUDABuffer`). -/
def CUDABuffer.null : CUDABuffer := ⟨0, 0⟩

/-- Device address of the buffer. -/
def CUDABuffer.d_pointer (b : CUDABuffer) : CUdeviceptr := b.d_ptr

/-- Modelled from the spec: `alloc(size)` allocates `size` bytes on the device. -/
def CUDABuffer.alloc (_b : CUDABuffer) (size : Nat) (d : Device α) : CUDABuffer × Device α :=
  (⟨size, (d.malloc size).1⟩, (d.malloc size).2)

/-- Modelled from the spec: `free()` releases the allocation and resets the buffer. -/
def CUDABuffer.free (b : CUDABuffer) (d : Device α) : CUDABuffer × Device α :=
  (⟨0, 0⟩, d.free b.d_ptr)

/-- Modelled from the spec: `resize(size)` frees the old allocation, if any, and allocates
`size` bytes. -/
def CUDABuffer.resize (b : CUDABuffer) (size : Nat) (d : Device α) : CUDABuffer × Device α :=
  if b.d_ptr ≠ 0 then (b.free d).1.alloc size (b.free d).2 else b.alloc size d

/-- Modelled from the spec: `upload(t, count)` copies `count` elements of `elemSize` bytes
from the host into the buffer. -/
def CUDABuffer.upload (b : CUDABuffer) (elemSize count : Nat) (data : DevData α) (d : Device α) :
    Device α :=
  (d.write b.d_ptr data).record (.memcpyHtoD b.d_ptr (count * elemSize))

/-- Modelled from the spec: `alloc_and_upload` allocates room for `count` elements of
`elemSize` bytes and uploads them. -/
def CUDABuffer.alloc_and_upload (b : CUDABuffer) (elemSize count : Nat) (data : DevData α)
    (d : Device α) : CUDABuffer × Device α :=
  ((b.alloc (count * elemSize) d).1,
   (b.alloc (count * elemSize) d).1.upload elemSize count data (b.alloc (count * elemSize) d).2)

/-- Modelled from the spec: `download(t, count)` copies `count` elements of `elemSize`
bytes from the buffer to the host; the result is what the host receives. -/
def CUDABuffer.download (b : CUDABuffer) (elemSize count : Nat) (d : Device α) :
    Option (DevData α) × Device α :=
  (d.read b.d_ptr, d.record (.memcpyDtoH b.d_ptr (count * elemSize)))

end

/-! ## The backend and error signalling -/

/-- What the external libraries return for each call the renderer makes. -/
structure Backend (α : Type) where
  sizeofGeometrySBTData : Nat
  optixAccelComputeMemoryUsage : MemoryUsageCall → OptixResult × OptixAccelBufferSizes
  optixAccelBuild : AccelBuildCall α → OptixResult × OptixTraversableHandle × Nat
  optixAccelCompact : AccelCompactCall → OptixResult × OptixTraversableHandle
  optixSbtRecordPackHeader : OptixProgramGroup → OptixResult × SbtHeader
  optixLaunch : LaunchCall α → OptixResult × List Nat
  cudaDeviceSynchronize : List (Event α) → CudaResult

/-- Every call into the libraries reports success. -/
def Backend.succeeds {α : Type} (be : Backend α) : Prop :=
  (∀ c, (be.optixAccelComputeMemoryUsage c).1 = OPTIX_SUCCESS) ∧
  (∀ c, (be.optixAccelBuild c).1 = OPTIX_SUCCESS) ∧
  (∀ c, (be.optixAccelCompact c).1 = OPTIX_SUCCESS) ∧
  (∀ pg, (be.optixSbtRecordPackHeader pg).1 = OPTIX_SUCCESS) ∧
  (∀ c, (be.optixLaunch c).1 = OPTIX_SUCCESS) ∧
  (∀ t, be.cudaDeviceSynchronize t = 0)

/-- What the external libraries return for the calls that only the constructor makes, and
the device code `embedded_ptx_code` that the build links in. -/
structure SetupBackend where
  embedded_ptx_code : String
  cudaFree : CUdeviceptr → CudaResult
  cudaGetDeviceCount : CudaResult × Int
  optixInit : OptixResult
  cudaSetDevice : Int → CudaResult
  cudaStreamCreate : CudaResult × Nat
  cudaGetDeviceProperties : Int → CudaResult × String
  cuCtxGetCurrent : Nat × Nat
  optixDeviceContextCreate : Nat → OptixResult × Nat
  optixDeviceContextSetLogCallback : Nat → Nat → OptixResult
  optixModuleCreateFromPTX : Nat → OptixModuleCompileOptions → OptixPipelineCompileOptions →
    String → Nat → OptixResult × Nat
  optixProgramGroupCreate : Nat → OptixProgramGroupDesc → Nat → OptixResult × OptixProgramGroup
  optixPipelineCreate : Nat → OptixPipelineCompileOptions → OptixPipelineLinkOptions →
    List OptixProgramGroup → Int → OptixResult × Nat
  optixPipelineSetStackSize : Nat → Nat → Nat → Nat → Nat → OptixResult

/-- A device is present and every call whose status the constructor checks reports
success.  Nothing is asked of `cudaFree`, of the status of the device-count and
device-properties queries, or of `cuCtxGetCurrent`. -/
def SetupBackend.succeeds (sbe : SetupBackend) : Prop :=
  sbe.cudaGetDeviceCount.2 ≠ 0 ∧
  sbe.optixInit = OPTIX_SUCCESS ∧
  (∀ dev, sbe.cudaSetDevice dev = 0) ∧
  sbe.cudaStreamCreate.1 = 0 ∧
  (∀ c, (sbe.optixDeviceContextCreate c).1 = OPTIX_SUCCESS) ∧
  (∀ c l, sbe.optixDeviceContextSetLogCallback c l = OPTIX_SUCCESS) ∧
  (∀ c m p s n, (sbe.optixModuleCreateFromPTX c m p s n).1 = OPTIX_SUCCESS) ∧
  (∀ c g n, (sbe.optixProgramGroupCreate c g n).1 = OPTIX_SUCCESS) ∧
  (∀ c p l g n, (sbe.optixPipelineCreate c p l g n).1 = OPTIX_SUCCESS) ∧
  (∀ p a b c g, sbe.optixPipelineSetStackSize p a b c g = OPTIX_SUCCESS)

/-- Ways in which a renderer operation can fail to return. -/
inductive Error where
  | optixCallFailed (code : Nat)
  | cudaCallFailed (code : Nat)
  | runtimeError (msg : String)
  | undefinedBehaviour
deriving DecidableEq

/-- Modelled from the spec: the macro `OPTIX_CHECK` is defined outside src/; a backend call
that reports an error status is detected at the call site and is fatal. -/
def OPTIX_CHECK (res : OptixResult) : Except Error Unit :=
  if res = OPTIX_SUCCESS then .ok () else .error (.optixCallFailed res)

/-- Modelled from the spec: the macro `CUDA_CHECK` is defined outside src/; a CUDA runtime
call that reports an error status is detected at the call site and is fatal. -/
def CUDA_CHECK (res : CudaResult) : Except Error Unit :=
  if res = 0 then .ok () else .error (.cudaCallFailed res)

/-- Modelled from the spec: the macro `CUDA_SYNC_CHECK` is defined outside src/; the host
blocks until the device completes, and a pending error is fatal. -/
def CUDA_SYNC_CHECK {α : Type} (be : Backend α) (d : Device α) : Except Error (Device α) :=
  if be.cudaDeviceSynchronize d.calls = 0 then .ok (d.record .sync)
  else .error (.cudaCallFailed (be.cudaDeviceSynchronize d.calls))

/-- Embeds `sizeof(HitgroupRecord)`: a 32-byte header followed by the payload, padded to the
16-byte record alignment. -/
def sizeof_HitgroupRecord {α : Type} (be : Backend α) : Nat :=
  (32 + be.sizeofGeometrySBTData + 15) / 16 * 16

/-! ## Renderer state -/

/-- Modelled from the spec: the class `SampleRenderer` is declared in a header outside src/;
these are the members that the embedded member functions read or write, under the names the
source uses, together with the device the renderer runs on. -/
structure SampleRenderer (α : Type) where
  scene : Geometry α
  pipeline : Nat
  stream : Nat
  raygenPGs : List OptixProgramGroup
  missPGs : List OptixProgramGroup
  hitgroupPGs : List OptixProgramGroup
  raygenRecordsBuffer : CUDABuffer
  missRecordsBuffer : CUDABuffer
  hitgroupRecordsBuffer : CUDABuffer
  sbt : OptixShaderBindingTable
  launchParams : LaunchParams α
  launchParamsBuffer : CUDABuffer
  colorBuffer : CUDABuffer
  lastSetCamera : Camera α
  vertexBuffer : List CUDABuffer
  indexBuffer : List CUDABuffer
  aabbBuffer : List CUDABuffer
  meshBlasBuffer : CUDABuffer
  sphereBlasBuffer : CUDABuffer
  sceneTlasBuffer : CUDABuffer
  device : Device α
  cudaContext : Nat
  deviceProps : String
  optixContext : Nat
  module : Nat
  moduleCompileOptions : OptixModuleCompileOptions
  pipelineCompileOptions : OptixPipelineCompileOptions
  pipelineLinkOptions : OptixPipelineLinkOptions
deriving DecidableEq

/-- Embeds `std::vector<CUDABuffer>::resize(n)`: keep the first `n` buffers and pad with
default-constructed ones. -/
def resizeBuffers (v : List CUDABuffer) (n : Nat) : List CUDABuffer :=
  v.take n ++ List.replicate (n - v.length) CUDABuffer.null

/-! ## Acceleration structures -/

/-- The host-side vectors that `buildAccelMeshes` and `buildAccelSpheres` fill in their
loops. -/
structure BuildLocals where
  geometryInput : List OptixBuildInput
  d_vertices : List CUdeviceptr
  d_indices : List CUdeviceptr
  geometryInputFlags : List Nat
deriving DecidableEq

/-- The build options all three builds use: compaction allowed, one motion key, a full
build. -/
def accelOptions : OptixAccelBuildOptions :=
  ⟨OPTIX_BUILD_FLAG_NONE ||| OPTIX_BUILD_FLAG_ALLOW_COMPACTION, 1, .build⟩

/-- Embeds `compactedSizeBuffer.download(&compactedSize,1)`: the 64-bit value the host reads back.
Reading anything else than a stored value is undefined. -/
def downloadedSize {α : Type} (data : Option (DevData α)) : Except Error Nat :=
  match data with
  | some (.u64 v) => .ok v
  | _ => .error .undefinedBehaviour

/-- One iteration of the loop of `buildAccelMeshes`, for mesh number `e.1`, which is
`e.2`. -/
def buildAccelMeshes.body {α : Type} (s : SampleRenderer α × BuildLocals)
    (e : Nat × TriangleMesh α) : SampleRenderer α × BuildLocals :=
  let meshID := e.1
  let mesh := e.2
  let r := s.1
  -- upload the model to the device
  let vb := (r.vertexBuffer.getD meshID CUDABuffer.null).alloc_and_upload
    sizeof_vec3f mesh.vertex.length (.vertices mesh.vertex) r.device
  let r := { r with vertexBuffer := r.vertexBuffer.set meshID vb.1, device := vb.2 }
  let ib := (r.indexBuffer.getD meshID CUDABuffer.null).alloc_and_upload
    sizeof_vec3i mesh.index.length (.indices mesh.index) r.device
  let r := { r with indexBuffer := r.indexBuffer.set meshID ib.1, device := ib.2 }
  let d_vertices := s.2.d_vertices.set meshID (r.vertexBuffer.getD meshID CUDABuffer.null).d_pointer
  let d_indices := s.2.d_indices.set meshID (r.indexBuffer.getD meshID CUDABuffer.null).d_pointer
  let geometryInputFlags := s.2.geometryInputFlags.set meshID OPTIX_GEOMETRY_FLAG_NONE
  let geometryInput := s.2.geometryInput.set meshID (.triangles
    { vertexFormat := .float3
      vertexStrideInBytes := sizeof_vec3f
      numVertices := castInt mesh.vertex.length
      vertexBuffers := d_vertices.getD meshID 0
      indexFormat := .unsignedInt3
      indexStrideInBytes := sizeof_vec3i
      numIndexTriplets := castInt mesh.index.length
      indexBuffer := d_indices.getD meshID 0
      flags := geometryInputFlags.getD meshID 0
      numSbtRecords := 1
      sbtIndexOffsetBuffer := 0
      sbtIndexOffsetSizeInBytes := 0
      sbtIndexOffsetStrideInBytes := 0 })
  (r, ⟨geometryInput, d_vertices, d_indices, geometryInputFlags⟩)

/-- Embeds `SampleRenderer::buildAccelMeshes`. -/
def buildAccelMeshes {α : Type} (be : Backend α) (r : SampleRenderer α) :
    Except Error (OptixTraversableHandle × SampleRenderer α) := do
  let r := { r with
    vertexBuffer := resizeBuffers r.vertexBuffer r.scene.meshes.length
    indexBuffer := resizeBuffers r.indexBuffer r.scene.meshes.length }
  -- triangle inputs
  let locals : BuildLocals :=
    ⟨List.replicate r.scene.meshes.length .zeroed, List.replicate r.scene.meshes.length 0,
     List.replicate r.scene.meshes.length 0, List.replicate r.scene.meshes.length 0⟩
  let s := r.scene.meshes.enum.foldl buildAccelMeshes.body (r, locals)
  let r := s.1
  let geometryInput := s.2.geometryInput
  -- BLAS setup
  let usageCall : MemoryUsageCall := ⟨accelOptions, geometryInput, castInt r.scene.meshes.length⟩
  let usage := be.optixAccelComputeMemoryUsage usageCall
  OPTIX_CHECK usage.1
  let blasBufferSizes := usage.2
  let d := r.device.record (.accelComputeMemoryUsage usageCall blasBufferSizes)
  -- prepare compaction
  let cs := CUDABuffer.null.alloc sizeof_uint64_t d
  let compactedSizeBuffer := cs.1
  let emitResult := compactedSizeBuffer.d_pointer
  -- execute build (main stage)
  let tb := CUDABuffer.null.alloc blasBufferSizes.tempSizeInBytes cs.2
  let tempBuffer := tb.1
  let ob := CUDABuffer.null.alloc blasBufferSizes.outputSizeInBytes tb.2
  let outputBuffer := ob.1
  let d := ob.2
  let buildCall : AccelBuildCall α :=
    ⟨d.allocs, accelOptions, geometryInput, castInt r.scene.meshes.length,
     tempBuffer.d_pointer, tempBuffer.sizeInBytes,
     outputBuffer.d_pointer, outputBuffer.sizeInBytes, emitResult, 1⟩
  let built := be.optixAccelBuild buildCall
  OPTIX_CHECK built.1
  let asHandle := built.2.1
  let d := (d.write emitResult (.u64 built.2.2)).record (.accelBuild buildCall asHandle built.2.2)
  let d ← CUDA_SYNC_CHECK be d
  -- perform compaction
  let dl := compactedSizeBuffer.download sizeof_uint64_t 1 d
  let compactedSize ← downloadedSize dl.1
  let mb := r.meshBlasBuffer.alloc compactedSize dl.2
  let r := { r with meshBlasBuffer := mb.1 }
  let compactCall : AccelCompactCall :=
    ⟨asHandle, r.meshBlasBuffer.d_pointer, r.meshBlasBuffer.sizeInBytes⟩
  let compacted := be.optixAccelCompact compactCall
  OPTIX_CHECK compacted.1
  let asHandle := compacted.2
  let d := mb.2.record (.accelCompact compactCall asHandle)
  let d ← CUDA_SYNC_CHECK be d
  -- clean up
  let d := (outputBuffer.free d).2
  let d := (tempBuffer.free d).2
  let d := (compactedSizeBuffer.free d).2
  return (asHandle, { r with device := d })

/-- One iteration of the loop of `buildAccelSpheres`, for sphere number `e.1`, which is
`e.2`. -/
def buildAccelSpheres.body {α : Type} [Neg α] (s : SampleRenderer α × BuildLocals)
    (e : Nat × Sphere α) : SampleRenderer α × BuildLocals :=
  let sphereID := e.1
  let model := e.2
  let r := s.1
  let aabb : OptixAabb α :=
    ⟨-model.radius, -model.radius, -model.radius, model.radius, model.radius, model.radius⟩
  let ab := (r.aabbBuffer.getD sphereID CUDABuffer.null).alloc_and_upload
    sizeof_OptixAabb 1 (.aabb aabb) r.device
  let r := { r with aabbBuffer := r.aabbBuffer.set sphereID ab.1, device := ab.2 }
  let d_vertices := s.2.d_vertices.set sphereID (r.aabbBuffer.getD sphereID CUDABuffer.null).d_pointer
  let geometryInputFlags := s.2.geometryInputFlags.set sphereID OPTIX_GEOMETRY_FLAG_NONE
  let geometryInput := s.2.geometryInput.set sphereID (.customPrimitives
    { aabbBuffers := d_vertices.getD sphereID 0
      numPrimitives := 1
      strideInBytes := 0
      flags := geometryInputFlags.getD sphereID 0
      numSbtRecords := 1
      sbtIndexOffsetBuffer := 0
      sbtIndexOffsetSizeInBytes := 0
      sbtIndexOffsetStrideInBytes := 0
      primitiveIndexOffset := 0 })
  (r, ⟨geometryInput, d_vertices, s.2.d_indices, geometryInputFlags⟩)

/-- Embeds `SampleRenderer::buildAccelSpheres`. -/
def buildAccelSpheres {α : Type} [Neg α] (be : Backend α) (r : SampleRenderer α) :
    Except Error (OptixTraversableHandle × SampleRenderer α) := do
  let r := { r with aabbBuffer := resizeBuffers r.aabbBuffer r.scene.spheres.length }
  let locals : BuildLocals :=
    ⟨List.replicate r.scene.spheres.length .zeroed, List.replicate r.scene.spheres.length 0,
     List.replicate r.scene.spheres.length 0, List.replicate r.scene.spheres.length 0⟩
  let s := r.scene.spheres.enum.foldl buildAccelSpheres.body (r, locals)
  let r := s.1
  let geometryInput := s.2.geometryInput
  -- BLAS setup
  let usageCall : MemoryUsageCall := ⟨accelOptions, geometryInput, castInt r.scene.meshes.length⟩
  let usage := be.optixAccelComputeMemoryUsage usageCall
  OPTIX_CHECK usage.1
  let blasBufferSizes := usage.2
  let d := r.device.record (.accelComputeMemoryUsage usageCall blasBufferSizes)
  -- prepare compaction
  let cs := CUDABuffer.null.alloc sizeof_uint64_t d
  let compactedSizeBuffer := cs.1
  let emitResult := compactedSizeBuffer.d_pointer
  -- execute build (main stage)
  let tb := CUDABuffer.null.alloc blasBufferSizes.tempSizeInBytes cs.2
  let tempBuffer := tb.1
  let ob := CUDABuffer.null.alloc blasBufferSizes.outputSizeInBytes tb.2
  let outputBuffer := ob.1
  let d := ob.2
  let buildCall : AccelBuildCall α :=
    ⟨d.allocs, accelOptions, geometryInput, castInt r.scene.meshes.length,
     tempBuffer.d_pointer, tempBuffer.sizeInBytes,
     outputBuffer.d_pointer, outputBuffer.sizeInBytes, emitResult, 1⟩
  let built := be.optixAccelBuild buildCall
  OPTIX_CHECK built.1
  let asHandle := built.2.1
  let d := (d.write emitResult (.u64 built.2.2)).record (.accelBuild buildCall asHandle built.2.2)
  let d ← CUDA_SYNC_CHECK be d
  -- perform compaction
  let dl := compactedSizeBuffer.download sizeof_uint64_t 1 d
  let compactedSize ← downloadedSize dl.1
  let sb := r.sphereBlasBuffer.alloc compactedSize dl.2
  let r := { r with sphereBlasBuffer := sb.1 }
  let compactCall : AccelCompactCall :=
    ⟨asHandle, r.sphereBlasBuffer.d_pointer, r.sphereBlasBuffer.sizeInBytes⟩
  let compacted := be.optixAccelCompact compactCall
  OPTIX_CHECK compacted.1
  let asHandle := compacted.2
  let d := sb.2.record (.accelCompact compactCall asHandle)
  let d ← CUDA_SYNC_CHECK be d
  -- clean up
  let d := (outputBuffer.free d).2
  let d := (tempBuffer.free d).2
  let d := (compactedSizeBuffer.free d).2
  return (asHandle, { r with device := d })

/-- Embeds `SampleRenderer::buildAccelInstances`. -/
def buildAccelInstances {α : Type} [Zero α] [One α] (be : Backend α) (r : SampleRenderer α)
    (meshes spheres : OptixTraversableHandle) :
    Except Error (OptixTraversableHandle × SampleRenderer α) := do
  let transform : List α := [1, 0, 0, 0,
                             0, 1, 0, 0,
                             0, 0, 1, 0]
  let instances : List (OptixInstance α) := []
  let meshInstance : OptixInstance α :=
    { transform := transform
      instanceId := 0
      visibilityMask := 255
      sbtOffset := 0
      flags := OPTIX_INSTANCE_FLAG_NONE
      traversableHandle := meshes }
  let instances := instances ++ [meshInstance]
  let sphereInstance : OptixInstance α :=
    { transform := transform
      instanceId := 1
      visibilityMask := 255
      sbtOffset := castUInt32 r.scene.meshes.length
      flags := OPTIX_INSTANCE_FLAG_NONE
      traversableHandle := spheres }
  let instances := instances ++ [sphereInstance]
  let ibuf := CUDABuffer.null.alloc_and_upload sizeof_OptixInstance instances.length
    (.instances instances) r.device
  let instanceBuffer := ibuf.1
  let buildInput : OptixBuildInput := .instances
    { instances := instanceBuffer.d_pointer
      numInstances := 2
      aabbs := 0
      numAabbs := 0 }
  let usageCall : MemoryUsageCall := ⟨accelOptions, [buildInput], 1⟩
  let usage := be.optixAccelComputeMemoryUsage usageCall
  OPTIX_CHECK usage.1
  let tlasBufferSizes := usage.2
  let d := ibuf.2.record (.accelComputeMemoryUsage usageCall tlasBufferSizes)
  -- prepare compaction
  let cs := CUDABuffer.null.alloc sizeof_uint64_t d
  let compactedSizeBuffer := cs.1
  let emitResult := compactedSizeBuffer.d_pointer
  -- execute build (main stage)
  let tb := CUDABuffer.null.alloc tlasBufferSizes.tempSizeInBytes cs.2
  let tempBuffer := tb.1
  let ob := CUDABuffer.null.alloc tlasBufferSizes.outputSizeInBytes tb.2
  let outputBuffer := ob.1
  let d := ob.2
  let buildCall : AccelBuildCall α :=
    ⟨d.allocs, accelOptions, [buildInput], 1,
     tempBuffer.d_pointer, tempBuffer.sizeInBytes,
     outputBuffer.d_pointer, outputBuffer.sizeInBytes, emitResult, 1⟩
  let built := be.optixAccelBuild buildCall
  OPTIX_CHECK built.1
  let asHandle := built.2.1
  let d := (d.write emitResult (.u64 built.2.2)).record (.accelBuild buildCall asHandle built.2.2)
  let d ← CUDA_SYNC_CHECK be d
  -- perform compaction
  let dl := compactedSizeBuffer.download sizeof_uint64_t 1 d
  let compactedSize ← downloadedSize dl.1
  let tl := r.sceneTlasBuffer.alloc compactedSize dl.2
  let r := { r with sceneTlasBuffer := tl.1 }
  let compactCall : AccelCompactCall :=
    ⟨asHandle, r.sceneTlasBuffer.d_pointer, r.sceneTlasBuffer.sizeInBytes⟩
  let compacted := be.optixAccelCompact compactCall
  OPTIX_CHECK compacted.1
  let asHandle := compacted.2
  let d := tl.2.record (.accelCompact compactCall asHandle)
  let d ← CUDA_SYNC_CHECK be d
  -- clean up
  let d := (outputBuffer.free d).2
  let d := (tempBuffer.free d).2
  let d := (compactedSizeBuffer.free d).2
  return (asHandle, { r with device := d })

/-! ## Shader binding table -/

/-- Element `i` of a vector; indexing past the end is undefined. -/
def vectorAt {β : Type} (v : List β) (i : Nat) : Except Error β :=
  match v[i]? with
  | some x => .ok x
  | none => .error .undefinedBehaviour

/-- One iteration of the raygen loop of `buildSBT`. -/
def buildSBT.raygenBody {α : Type} (be : Backend α) (raygenRecords : List RaygenRecord)
    (pg : OptixProgramGroup) : Except Error (List RaygenRecord) := do
  OPTIX_CHECK (be.optixSbtRecordPackHeader pg).1
  let rec_ : RaygenRecord := ⟨(be.optixSbtRecordPackHeader pg).2, 0⟩
  return raygenRecords ++ [rec_]

/-- One iteration of the miss loop of `buildSBT`. -/
def buildSBT.missBody {α : Type} (be : Backend α) (missRecords : List MissRecord)
    (pg : OptixProgramGroup) : Except Error (List MissRecord) := do
  OPTIX_CHECK (be.optixSbtRecordPackHeader pg).1
  let rec_ : MissRecord := ⟨(be.optixSbtRecordPackHeader pg).2, 0⟩
  return missRecords ++ [rec_]

/-- One iteration of the mesh loop of `buildSBT`. -/
def buildSBT.meshBody {α : Type} (be : Backend α) (r : SampleRenderer α)
    (hitgroupRecords : List (HitgroupRecord α)) (meshID : Nat) :
    Except Error (List (HitgroupRecord α)) := do
  -- all meshes use the same code, so all same hit group
  let pg ← vectorAt r.hitgroupPGs 0
  OPTIX_CHECK (be.optixSbtRecordPackHeader pg).1
  let mesh ← vectorAt r.scene.meshes meshID
  let vb ← vectorAt r.vertexBuffer meshID
  let ib ← vectorAt r.indexBuffer meshID
  let rec_ : HitgroupRecord α :=
    ⟨(be.optixSbtRecordPackHeader pg).2, .triangle_data mesh.color vb.d_pointer ib.d_pointer⟩
  return hitgroupRecords ++ [rec_]

/-- One iteration of the sphere loop of `buildSBT`. -/
def buildSBT.sphereBody {α : Type} (be : Backend α) (r : SampleRenderer α)
    (hitgroupRecords : List (HitgroupRecord α)) (sphereID : Nat) :
    Except Error (List (HitgroupRecord α)) := do
  let pg ← vectorAt r.hitgroupPGs 0
  OPTIX_CHECK (be.optixSbtRecordPackHeader pg).1
  let sphere ← vectorAt r.scene.spheres sphereID
  let rec_ : HitgroupRecord α :=
    ⟨(be.optixSbtRecordPackHeader pg).2, .sphere_data sphere.color sphere.radius⟩
  return hitgroupRecords ++ [rec_]

/-- Embeds `SampleRenderer::buildSBT`. -/
def buildSBT {α : Type} (be : Backend α) (r : SampleRenderer α) :
    Except Error (SampleRenderer α) := do
  -- build raygen records
  let raygenRecords ← r.raygenPGs.foldlM (buildSBT.raygenBody be) []
  let rb := r.raygenRecordsBuffer.alloc_and_upload sizeof_RaygenRecord raygenRecords.length
    (.raygenRecords raygenRecords) r.device
  let r := { r with raygenRecordsBuffer := rb.1, device := rb.2 }
  let r := { r with sbt := { r.sbt with raygenRecord := r.raygenRecordsBuffer.d_pointer } }
  -- build miss records
  let missRecords ← r.missPGs.foldlM (buildSBT.missBody be) []
  let mb := r.missRecordsBuffer.alloc_and_upload sizeof_RaygenRecord missRecords.length
    (.missRecords missRecords) r.device
  let r := { r with missRecordsBuffer := mb.1, device := mb.2 }
  let r := { r with sbt := { r.sbt with
    missRecordBase := r.missRecordsBuffer.d_pointer
    missRecordStrideInBytes := sizeof_RaygenRecord
    missRecordCount := castInt missRecords.length } }
  -- build hitgroup records
  let numMeshes := castInt r.scene.meshes.length
  let numSpheres := castInt r.scene.spheres.length
  let hitgroupRecords : List (HitgroupRecord α) := []
  let hitgroupRecords ← (List.range numMeshes.toNat).foldlM (buildSBT.meshBody be r)
    hitgroupRecords
  let hitgroupRecords ← (List.range numSpheres.toNat).foldlM (buildSBT.sphereBody be r)
    hitgroupRecords
  let hb := r.hitgroupRecordsBuffer.alloc_and_upload (sizeof_HitgroupRecord be)
    hitgroupRecords.length (.hitgroupRecords hitgroupRecords) r.device
  let r := { r with hitgroupRecordsBuffer := hb.1, device := hb.2 }
  let r := { r with sbt := { r.sbt with
    hitgroupRecordBase := r.hitgroupRecordsBuffer.d_pointer
    hitgroupRecordStrideInBytes := sizeof_HitgroupRecord be
    hitgroupRecordCount := castInt hitgroupRecords.length } }
  return r

/-! ## Frame control -/

/-- Modelled from the spec: `LaunchParams` is declared outside src/; its size is that of a
pointer, a `vec2i`, four `vec3f` and a handle. -/
def sizeof_LaunchParams : Nat := 72

/-- Embeds `SampleRenderer::render`. -/
def render {α : Type} (be : Backend α) (r : SampleRenderer α) :
    Except Error (SampleRenderer α) := do
  -- sanity check: make sure we launch only after first resize is already done
  if r.launchParams.frame.size.x = 0 then return r
  let d := r.launchParamsBuffer.upload sizeof_LaunchParams 1 (.launchParams r.launchParams)
    r.device
  let call : LaunchCall α :=
    ⟨d.allocs, r.pipeline, r.stream,
     r.launchParamsBuffer.d_pointer, r.launchParamsBuffer.sizeInBytes, r.sbt,
     r.launchParams.frame.size.x, r.launchParams.frame.size.y, 1⟩
  let launched := be.optixLaunch call
  OPTIX_CHECK launched.1
  let d := (d.write r.launchParams.frame.colorBuffer (.pixels launched.2)).record (.launch call)
  let d ← CUDA_SYNC_CHECK be d
  return { r with device := d }

/-- Embeds `SampleRenderer::setCamera`, over a field of scalars with square root `sqrt`; the
constant `0.66f` is the rational 66/100. -/
def setCamera {α : Type} [Field α] (sqrt : α → α) (r : SampleRenderer α) (camera : Camera α) :
    SampleRenderer α :=
  let r := { r with lastSetCamera := camera }
  let r := { r with launchParams := { r.launchParams with
    camera := { r.launchParams.camera with position := camera.from_ } } }
  let r := { r with launchParams := { r.launchParams with
    camera := { r.launchParams.camera with
      direction := vec3.normalize sqrt (vec3.sub camera.at_ camera.from_) } } }
  let cosFovy : α := 66 / 100
  let aspect : α := (r.launchParams.frame.size.x : α) / (r.launchParams.frame.size.y : α)
  let r := { r with launchParams := { r.launchParams with
    camera := { r.launchParams.camera with
      horizontal := vec3.smul (cosFovy * aspect)
        (vec3.normalize sqrt (vec3.cross r.launchParams.camera.direction camera.up)) } } }
  { r with launchParams := { r.launchParams with
    camera := { r.launchParams.camera with
      vertical := vec3.smul cosFovy
        (vec3.normalize sqrt (vec3.cross r.launchParams.camera.horizontal
          r.launchParams.camera.direction)) } } }

/-- Embeds `SampleRenderer::resize`. -/
def resize {α : Type} [Field α] (sqrt : α → α) (r : SampleRenderer α) (newSize : vec2i) :
    SampleRenderer α :=
  -- resize our cuda frame buffer
  let cb := r.colorBuffer.resize
    (castSizeT (wrapInt (newSize.x * newSize.y)) * sizeof_uint32_t % 2 ^ 64) r.device
  let r := { r with colorBuffer := cb.1, device := cb.2 }
  -- update the launch parameters that we'll pass to the optix launch
  let r := { r with launchParams := { r.launchParams with
    frame := { r.launchParams.frame with size := newSize } } }
  let r := { r with launchParams := { r.launchParams with
    frame := { r.launchParams.frame with colorBuffer := r.colorBuffer.d_pointer } } }
  -- and re-set the camera, since aspect may have changed
  setCamera sqrt r r.lastSetCamera

/-- Embeds `SampleRenderer::downloadPixels`: what the host array receives, and the renderer
afterwards. -/
def downloadPixels {α : Type} (r : SampleRenderer α) : Option (DevData α) × SampleRenderer α :=
  let dl := r.colorBuffer.download sizeof_uint32_t
    (castSizeT (wrapInt (r.launchParams.frame.size.x * r.launchParams.frame.size.y))) r.device
  (dl.1, { r with device := dl.2 })

/-! ## Construction -/

/-- Embeds `std::vector<OptixProgramGroup>::resize(n)`: keep the first `n` program groups
and pad with null handles. -/
def resizePGs (v : List OptixProgramGroup) (n : Nat) : List OptixProgramGroup :=
  v.take n ++ List.replicate (n - v.length) 0

/-- Embeds `SampleRenderer::initOptix`: helper function that initializes optix and checks
for errors.  The results of `cudaFree(0)` and the status of `cudaGetDeviceCount` are not
looked at by the source. -/
def initOptix {α : Type} (sbe : SetupBackend) (r : SampleRenderer α) :
    Except Error (SampleRenderer α) := do
  -- check for available optix7 capable devices
  let d := r.device.record (.cudaFree 0 (sbe.cudaFree 0))
  let queried := sbe.cudaGetDeviceCount
  let numDevices := queried.2
  let d := d.record (.cudaGetDeviceCount queried.1 numDevices)
  if numDevices = 0 then
    throw (Error.runtimeError "#osc: no CUDA capable devices found!")
  -- initialize optix
  let res := sbe.optixInit
  OPTIX_CHECK res
  return { r with device := d.record (.optixInit res) }

/-- Embeds `SampleRenderer::createContext`: creates and configures an optix device context.
The status of `cudaGetDeviceProperties` is not looked at; a status of `cuCtxGetCurrent` other
than `CUDA_SUCCESS` is written to `stderr` and the function goes on. -/
def createContext {α : Type} (sbe : SetupBackend) (r : SampleRenderer α) :
    Except Error (SampleRenderer α) := do
  -- for this sample, do everything on one device
  let deviceID : Int := 0
  let res := sbe.cudaSetDevice deviceID
  CUDA_CHECK res
  let d := r.device.record (.cudaSetDevice deviceID res)
  let created := sbe.cudaStreamCreate
  CUDA_CHECK created.1
  let r := { r with stream := created.2 }
  let d := d.record (.cudaStreamCreate created.1 created.2)
  let props := sbe.cudaGetDeviceProperties deviceID
  let r := { r with deviceProps := props.2 }
  let d := d.record (.cudaGetDeviceProperties deviceID props.1)
  let current := sbe.cuCtxGetCurrent
  let cuRes := current.1
  let r := { r with cudaContext := current.2 }
  -- `if( cuRes != CUDA_SUCCESS ) fprintf( stderr, ... )`: a message only
  let d := d.record (.cuCtxGetCurrent cuRes r.cudaContext)
  let ctx := sbe.optixDeviceContextCreate r.cudaContext
  OPTIX_CHECK ctx.1
  let r := { r with optixContext := ctx.2 }
  let d := d.record (.deviceContextCreate r.cudaContext ctx.1 r.optixContext)
  let res := sbe.optixDeviceContextSetLogCallback r.optixContext 4
  OPTIX_CHECK res
  return { r with device := d.record (.deviceContextSetLogCallback r.optixContext 4 res) }

/-- Embeds `SampleRenderer::createModule`: creates the module that contains all the programs,
from the single embedded ptx string. -/
def createModule {α : Type} (sbe : SetupBackend) (r : SampleRenderer α) :
    Except Error (SampleRenderer α) := do
  let r := { r with moduleCompileOptions := { r.moduleCompileOptions with
    maxRegisterCount := 50 } }
  let r := { r with moduleCompileOptions := { r.moduleCompileOptions with
    optLevel := OPTIX_COMPILE_OPTIMIZATION_DEFAULT } }
  let r := { r with moduleCompileOptions := { r.moduleCompileOptions with
    debugLevel := OPTIX_COMPILE_DEBUG_LEVEL_NONE } }
  -- `pipelineCompileOptions = {}`
  let r := { r with pipelineCompileOptions := ⟨false, 0, 0, 0, 0, ""⟩ }
  let r := { r with pipelineCompileOptions := { r.pipelineCompileOptions with
    traversableGraphFlags := OPTIX_TRAVERSABLE_GRAPH_FLAG_ALLOW_ANY } }
  let r := { r with pipelineCompileOptions := { r.pipelineCompileOptions with
    usesMotionBlur := false } }
  let r := { r with pipelineCompileOptions := { r.pipelineCompileOptions with
    numPayloadValues := 4 } }
  let r := { r with pipelineCompileOptions := { r.pipelineCompileOptions with
    numAttributeValues := 4 } }
  let r := { r with pipelineCompileOptions := { r.pipelineCompileOptions with
    exceptionFlags := OPTIX_EXCEPTION_FLAG_NONE } }
  let r := { r with pipelineCompileOptions := { r.pipelineCompileOptions with
    pipelineLaunchParamsVariableName := "optixLaunchParams" } }
  let r := { r with pipelineLinkOptions := { r.pipelineLinkOptions with
    overrideUsesMotionBlur := false } }
  let r := { r with pipelineLinkOptions := { r.pipelineLinkOptions with
    maxTraceDepth := 2 } }
  let ptxCode := sbe.embedded_ptx_code
  let created := sbe.optixModuleCreateFromPTX r.optixContext r.moduleCompileOptions
    r.pipelineCompileOptions ptxCode ptxCode.length
  OPTIX_CHECK created.1
  let r := { r with module := created.2 }
  -- `if (sizeof_log > 1) PRINT(log)`: a message only
  let d := r.device.record
    (.moduleCreateFromPTX r.optixContext r.moduleCompileOptions r.pipelineCompileOptions
      created.1 r.module)
  return { r with device := d }

/-- Embeds `SampleRenderer::createRaygenPrograms`: does all setup for the raygen program. -/
def createRaygenPrograms {α : Type} (sbe : SetupBackend) (r : SampleRenderer α) :
    Except Error (SampleRenderer α) := do
  -- we do a single ray gen program in this example
  let r := { r with raygenPGs := resizePGs r.raygenPGs 1 }
  let pgDesc : OptixProgramGroupDesc := .raygen r.module "__raygen__renderFrame"
  let created := sbe.optixProgramGroupCreate r.optixContext pgDesc 1
  OPTIX_CHECK created.1
  let r := { r with raygenPGs := r.raygenPGs.set 0 created.2 }
  let d := r.device.record
    (.programGroupCreate r.optixContext pgDesc created.1 created.2)
  return { r with device := d }

/-- Embeds `SampleRenderer::createMissPrograms`: does all setup for the miss program. -/
def createMissPrograms {α : Type} (sbe : SetupBackend) (r : SampleRenderer α) :
    Except Error (SampleRenderer α) := do
  let r := { r with missPGs := resizePGs r.missPGs 1 }
  let pgDesc : OptixProgramGroupDesc := .miss r.module "__miss__radiance"
  let created := sbe.optixProgramGroupCreate r.optixContext pgDesc 1
  OPTIX_CHECK created.1
  let r := { r with missPGs := r.missPGs.set 0 created.2 }
  let d := r.device.record
    (.programGroupCreate r.optixContext pgDesc created.1 created.2)
  return { r with device := d }

/-- Embeds `SampleRenderer::createHitgroupPrograms`: does all setup for the hitgroup
program. -/
def createHitgroupPrograms {α : Type} (sbe : SetupBackend) (r : SampleRenderer α) :
    Except Error (SampleRenderer α) := do
  -- for this simple example, we set up a single hit group
  let r := { r with hitgroupPGs := resizePGs r.hitgroupPGs 1 }
  let pgDesc : OptixProgramGroupDesc :=
    .hitgroup r.module "__closesthit__radiance" r.module "__anyhit__radiance"
      r.module "__intersection__is"
  let created := sbe.optixProgramGroupCreate r.optixContext pgDesc 1
  OPTIX_CHECK created.1
  let r := { r with hitgroupPGs := r.hitgroupPGs.set 0 created.2 }
  let d := r.device.record
    (.programGroupCreate r.optixContext pgDesc created.1 created.2)
  return { r with device := d }

/-- Embeds `SampleRenderer::createPipeline`: assembles the full pipeline of all programs. -/
def createPipeline {α : Type} (sbe : SetupBackend) (r : SampleRenderer α) :
    Except Error (SampleRenderer α) := do
  let programGroups : List OptixProgramGroup := []
  let programGroups := r.raygenPGs.foldl (fun v pg => v ++ [pg]) programGroups
  let programGroups := r.missPGs.foldl (fun v pg => v ++ [pg]) programGroups
  let programGroups := r.hitgroupPGs.foldl (fun v pg => v ++ [pg]) programGroups
  let created := sbe.optixPipelineCreate r.optixContext r.pipelineCompileOptions
    r.pipelineLinkOptions programGroups (castInt programGroups.length)
  OPTIX_CHECK created.1
  let d := r.device.record
    (.pipelineCreate r.optixContext r.pipelineCompileOptions r.pipelineLinkOptions
      programGroups (castInt programGroups.length) created.1 created.2)
  let r := { r with pipeline := created.2 }
  let res := sbe.optixPipelineSetStackSize r.pipeline
    -- direct stack size requirement for direct callables invoked from IS or AH
    (2 * 1024)
    -- direct stack size requirement for direct callables invoked from RG, MS, or CH
    (2 * 1024)
    -- continuation stack requirement
    (2 * 1024)
    -- maximum depth of a traversable graph passed to trace
    1
  OPTIX_CHECK res
  let d := d.record
    (.pipelineSetStackSize r.pipeline (2 * 1024) (2 * 1024) (2 * 1024) 1 res)
  return { r with device := d }

/-- Embeds the constructor `SampleRenderer::SampleRenderer`: performs all setup, including
initializing optix, creating module, pipeline, programs, SBT.  `members` holds the data
members as their default initialisers leave them (the class is declared outside src/). -/
def SampleRenderer.SampleRenderer {α : Type} [Zero α] [One α] [Neg α] (be : Backend α)
    (sbe : SetupBackend) (members : SampleRenderer α) (scene : Geometry α) :
    Except Error (SampleRenderer α) := do
  let r := { members with scene := scene }
  let r ← initOptix sbe r
  let r ← createContext sbe r
  let r ← createModule sbe r
  let r ← createRaygenPrograms sbe r
  let r ← createMissPrograms sbe r
  let r ← createHitgroupPrograms sbe r
  let meshes ← buildAccelMeshes be r
  let meshesGAS := meshes.1
  let spheres ← buildAccelSpheres be meshes.2
  let spheresGAS := spheres.1
  let scene_ ← buildAccelInstances be spheres.2 meshesGAS spheresGAS
  let sceneTAS := scene_.1
  let r := scene_.2
  let r := { r with launchParams := { r.launchParams with traversable := sceneTAS } }
  let r ← createPipeline sbe r
  let r ← buildSBT be r
  let lp := r.launchParamsBuffer.alloc sizeof_LaunchParams r.device
  return { r with launchParamsBuffer := lp.1, device := lp.2 }

/-! ## Predicates used to state what the builds leave behind -/

section
variable {α : Type}

/-- Mesh `mesh` has been uploaded as element `k`: the `k`-th vertex and index buffers hold
its vertices and indices on the device and the `k`-th build input describes them. -/
def MeshUploaded (s : SampleRenderer α × BuildLocals) (k : Nat) (mesh : TriangleMesh α) : Prop :=
  ∃ vb ib : CUDABuffer,
    s.1.vertexBuffer[k]? = some vb ∧ s.1.indexBuffer[k]? = some ib ∧
    s.1.device.read vb.d_ptr = some (.vertices mesh.vertex) ∧
    s.1.device.read ib.d_ptr = some (.indices mesh.index) ∧
    s.2.geometryInput[k]? = some (.triangles
      ⟨vb.d_ptr, castInt mesh.vertex.length, .float3, sizeof_vec3f,
       ib.d_ptr, castInt mesh.index.length, .unsignedInt3, sizeof_vec3i,
       OPTIX_GEOMETRY_FLAG_NONE, 1, 0, 0, 0⟩)

/-- Sphere `sphere` has been uploaded as element `k`: the `k`-th bounding-box buffer holds
its box on the device and the `k`-th build input describes it. -/
def SphereUploaded [Neg α] (s : SampleRenderer α × BuildLocals) (k : Nat) (sphere : Sphere α) :
    Prop :=
  ∃ ab : CUDABuffer,
    s.1.aabbBuffer[k]? = some ab ∧
    s.1.device.read ab.d_ptr = some (.aabb
      ⟨-sphere.radius, -sphere.radius, -sphere.radius,
       sphere.radius, sphere.radius, sphere.radius⟩) ∧
    s.2.geometryInput[k]? = some (.customPrimitives
      ⟨ab.d_ptr, 1, 0, OPTIX_GEOMETRY_FLAG_NONE, 1, 0, 0, 0, 0⟩)

/-- The pair (number of entries in the build-input array, build-input count passed) of every
memory-usage query and build call in a trace. -/
def buildInputCounts : List (Event α) → List (Nat × Int)
  | [] => []
  | .accelComputeMemoryUsage c _ :: t => (c.buildInputs.length, c.numBuildInputs) :: buildInputCounts t
  | .accelBuild c _ _ :: t => (c.buildInputs.length, c.numBuildInputs) :: buildInputCounts t
  | _ :: t => buildInputCounts t

/-- Device addresses held by the buffer members of the renderer. -/
def ownedBuffers (r : SampleRenderer α) : List CUdeviceptr :=
  r.vertexBuffer.map CUDABuffer.d_pointer ++ r.indexBuffer.map CUDABuffer.d_pointer ++
  r.aabbBuffer.map CUDABuffer.d_pointer ++
  [r.meshBlasBuffer.d_pointer, r.sphereBlasBuffer.d_pointer, r.sceneTlasBuffer.d_pointer,
   r.raygenRecordsBuffer.d_pointer, r.missRecordsBuffer.d_pointer,
   r.hitgroupRecordsBuffer.d_pointer, r.launchParamsBuffer.d_pointer, r.colorBuffer.d_pointer]

end

/-! ## Concrete inputs used to exercise the embedding -/

/-- A backend on which every call succeeds.  The uncompacted build reports handle
`2 * outputBuffer` and compacted size `tempBufferSizeInBytes / 2`; compaction reports
handle `2 * outputBuffer + 1`. -/
def okBackend (α : Type) : Backend α where
  sizeofGeometrySBTData := 32
  optixAccelComputeMemoryUsage := fun c => (0, ⟨1024 * (c.buildInputs.length + 1), 256⟩)
  optixAccelBuild := fun c => (0, 2 * c.outputBuffer, c.tempBufferSizeInBytes / 2)
  optixAccelCompact := fun c => (0, 2 * c.outputBuffer + 1)
  optixSbtRecordPackHeader := fun pg => (0, pg + 100)
  optixLaunch := fun c => (0, List.replicate (c.width * c.height).toNat 0)
  cudaDeviceSynchronize := fun _ => 0

/-- A renderer for `scene` on an empty device, before any acceleration structure, SBT or
frame buffer exists; one program group of each kind. -/
def blankRenderer {α : Type} [Zero α] (scene : Geometry α) : SampleRenderer α where
  scene := scene
  pipeline := 1
  stream := 1
  raygenPGs := [1]
  missPGs := [2]
  hitgroupPGs := [3]
  raygenRecordsBuffer := CUDABuffer.null
  missRecordsBuffer := CUDABuffer.null
  hitgroupRecordsBuffer := CUDABuffer.null
  sbt := ⟨0, 0, 0, 0, 0, 0, 0⟩
  launchParams := ⟨⟨0, ⟨0, 0⟩⟩, ⟨⟨0, 0, 0⟩, ⟨0, 0, 0⟩, ⟨0, 0, 0⟩, ⟨0, 0, 0⟩⟩, 0⟩
  launchParamsBuffer := CUDABuffer.null
  colorBuffer := CUDABuffer.null
  lastSetCamera := ⟨⟨0, 0, 0⟩, ⟨0, 0, 0⟩, ⟨0, 0, 0⟩⟩
  vertexBuffer := []
  indexBuffer := []
  aabbBuffer := []
  meshBlasBuffer := CUDABuffer.null
  sphereBlasBuffer := CUDABuffer.null
  sceneTlasBuffer := CUDABuffer.null
  device := ⟨0, [], []⟩
  cudaContext := 0
  deviceProps := ""
  optixContext := 0
  module := 0
  moduleCompileOptions := ⟨0, 0, 0⟩
  pipelineCompileOptions := ⟨false, 0, 0, 0, 0, ""⟩
  pipelineLinkOptions := ⟨0, 0, false⟩

/-- A one-triangle mesh with colour `c`. -/
def sampleMesh (c : Int) : TriangleMesh Int :=
  ⟨[⟨0, 0, 0⟩, ⟨1, 0, 0⟩, ⟨0, 1, 0⟩], [⟨0, 1, 2⟩], ⟨c, c, c⟩⟩

/-- A scene with two meshes and one sphere. -/
def sampleScene : Geometry Int :=
  ⟨[sampleMesh 1, sampleMesh 2], [⟨5, ⟨7, 8, 9⟩⟩]⟩

/-- The camera of the end-to-end scenario: at `(0,0,5)`, looking at the origin, up `(0,1,0)`. -/
def sampleCamera : Camera ℝ := ⟨⟨0, 0, 5⟩, ⟨0, 0, 0⟩, ⟨0, 1, 0⟩⟩

/-- Which library function a recorded call went to. -/
inductive CallKind where
  | memcpyHtoD | memcpyDtoH | accelComputeMemoryUsage | accelBuild | accelCompact | launch
  | sync | cudaFree | cudaGetDeviceCount | optixInit | cudaSetDevice | cudaStreamCreate
  | cudaGetDeviceProperties | cuCtxGetCurrent | deviceContextCreate
  | deviceContextSetLogCallback | moduleCreateFromPTX | programGroupCreate | pipelineCreate
  | pipelineSetStackSize
deriving DecidableEq

/-- The library function of a recorded call. -/
def Event.kind {α : Type} : Event α → CallKind
  | .memcpyHtoD _ _ => .memcpyHtoD
  | .memcpyDtoH _ _ => .memcpyDtoH
  | .accelComputeMemoryUsage _ _ => .accelComputeMemoryUsage
  | .accelBuild _ _ _ => .accelBuild
  | .accelCompact _ _ => .accelCompact
  | .launch _ => .launch
  | .sync => .sync
  | .cudaFree _ _ => .cudaFree
  | .cudaGetDeviceCount _ _ => .cudaGetDeviceCount
  | .optixInit _ => .optixInit
  | .cudaSetDevice _ _ => .cudaSetDevice
  | .cudaStreamCreate _ _ => .cudaStreamCreate
  | .cudaGetDeviceProperties _ _ => .cudaGetDeviceProperties
  | .cuCtxGetCurrent _ _ => .cuCtxGetCurrent
  | .deviceContextCreate _ _ _ => .deviceContextCreate
  | .deviceContextSetLogCallback _ _ _ => .deviceContextSetLogCallback
  | .moduleCreateFromPTX _ _ _ _ _ => .moduleCreateFromPTX
  | .programGroupCreate _ _ _ _ => .programGroupCreate
  | .pipelineCreate _ _ _ _ _ _ _ => .pipelineCreate
  | .pipelineSetStackSize _ _ _ _ _ _ => .pipelineSetStackSize

/-- The status a recorded call reported, for the calls that report one.  The acceleration
and launch calls are recorded without their status; the backend is a function, so asking it
again gives what the call reported.  Synchronisation is accounted for separately, since its
status depends on the calls before it. -/
def Event.status {α : Type} (be : Backend α) : Event α → Option Nat
  | .memcpyHtoD _ _ => none
  | .memcpyDtoH _ _ => none
  | .accelComputeMemoryUsage c _ => some (be.optixAccelComputeMemoryUsage c).1
  | .accelBuild c _ _ => some (be.optixAccelBuild c).1
  | .accelCompact c _ => some (be.optixAccelCompact c).1
  | .launch c => some (be.optixLaunch c).1
  | .sync => none
  | .cudaFree _ s => some s
  | .cudaGetDeviceCount s _ => some s
  | .optixInit s => some s
  | .cudaSetDevice _ s => some s
  | .cudaStreamCreate s _ => some s
  | .cudaGetDeviceProperties _ s => some s
  | .cuCtxGetCurrent s _ => some s
  | .deviceContextCreate _ s _ => some s
  | .deviceContextSetLogCallback _ _ s => some s
  | .moduleCreateFromPTX _ _ _ s _ => some s
  | .programGroupCreate _ _ s _ => some s
  | .pipelineCreate _ _ _ _ _ s _ => some s
  | .pipelineSetStackSize _ _ _ _ _ s => some s

/-- The calls whose status the source passes through `OPTIX_CHECK` or `CUDA_CHECK`: all but
`cudaFree`, `cudaGetDeviceCount`, `cudaGetDeviceProperties` and `cuCtxGetCurrent`. -/
def CallKind.checked : CallKind → Bool
  | .cudaFree => false
  | .cudaGetDeviceCount => false
  | .cudaGetDeviceProperties => false
  | .cuCtxGetCurrent => false
  | _ => true

/-- Every call of the trace `t`, made after the calls `base`, that reports a status and
whose kind satisfies `p` reported success, and every synchronisation in `t` found no pending
error. -/
def callsSucceeded {α : Type} (be : Backend α) (p : CallKind → Bool) :
    List (Event α) → List (Event α) → Prop
  | _, [] => True
  | base, e :: t =>
    (p e.kind = true → ∀ s, e.status be = some s → s = 0) ∧
    (e.kind = .sync → be.cudaDeviceSynchronize base = 0) ∧
    callsSucceeded be p (base ++ [e]) t

/-- The arguments and results of the calls that one acceleration-structure build makes. -/
structure BuildStep (α : Type) where
  usage : MemoryUsageCall
  sizes : OptixAccelBufferSizes
  build : AccelBuildCall α
  uncompacted : OptixTraversableHandle
  compactedSize : Nat
  compact : AccelCompactCall
  handle : OptixTraversableHandle

/-- The calls of one acceleration-structure build, in the order in which the source makes
them: size query, build, synchronisation, read-back of the compacted size, compaction,
synchronisation. -/
def BuildStep.calls {α : Type} (b : BuildStep α) : List (Event α) :=
  [.accelComputeMemoryUsage b.usage b.sizes,
   .accelBuild b.build b.uncompacted b.compactedSize, .sync,
   .memcpyDtoH b.build.emitResult (1 * sizeof_uint64_t),
   .accelCompact b.compact b.handle, .sync]

/-- The calls that `initOptix`, `createContext`, `createModule` and the three program-group
functions make, in the order in which the constructor runs them, written with the members
of the constructed renderer `r` and the program groups created. -/
def setupCalls {α : Type} (sbe : SetupBackend) (r : SampleRenderer α)
    (pgR pgM pgH : OptixProgramGroup) : List (Event α) :=
  [.cudaFree 0 (sbe.cudaFree 0),
   .cudaGetDeviceCount sbe.cudaGetDeviceCount.1 sbe.cudaGetDeviceCount.2,
   .optixInit sbe.optixInit,
   .cudaSetDevice 0 (sbe.cudaSetDevice 0),
   .cudaStreamCreate sbe.cudaStreamCreate.1 r.stream,
   .cudaGetDeviceProperties 0 (sbe.cudaGetDeviceProperties 0).1,
   .cuCtxGetCurrent sbe.cuCtxGetCurrent.1 r.cudaContext,
   .deviceContextCreate r.cudaContext OPTIX_SUCCESS r.optixContext,
   .deviceContextSetLogCallback r.optixContext 4 OPTIX_SUCCESS,
   .moduleCreateFromPTX r.optixContext r.moduleCompileOptions r.pipelineCompileOptions
     OPTIX_SUCCESS r.module,
   .programGroupCreate r.optixContext (.raygen r.module "__raygen__renderFrame")
     OPTIX_SUCCESS pgR,
   .programGroupCreate r.optixContext (.miss r.module "__miss__radiance") OPTIX_SUCCESS pgM,
   .programGroupCreate r.optixContext
     (.hitgroup r.module "__closesthit__radiance" r.module "__anyhit__radiance"
       r.module "__intersection__is") OPTIX_SUCCESS pgH]

/-- The two calls that `createPipeline` makes, written with the members of the constructed
renderer `r` and the program groups created. -/
def pipelineCalls {α : Type} (r : SampleRenderer α) (pgR pgM pgH : OptixProgramGroup) :
    List (Event α) :=
  [.pipelineCreate r.optixContext r.pipelineCompileOptions r.pipelineLinkOptions
     [pgR, pgM, pgH] 3 OPTIX_SUCCESS r.pipeline,
   .pipelineSetStackSize r.pipeline (2 * 1024) (2 * 1024) (2 * 1024) 1 OPTIX_SUCCESS]

/-- A set-up backend on which a device is present and every call succeeds. -/
def okSetupBackend : SetupBackend where
  embedded_ptx_code := "ptx"
  cudaFree := fun _ => 0
  cudaGetDeviceCount := (0, 1)
  optixInit := 0
  cudaSetDevice := fun _ => 0
  cudaStreamCreate := (0, 5)
  cudaGetDeviceProperties := fun _ => (0, "device")
  cuCtxGetCurrent := (0, 6)
  optixDeviceContextCreate := fun c => (0, c + 1)
  optixDeviceContextSetLogCallback := fun _ _ => 0
  optixModuleCreateFromPTX := fun c _ _ _ _ => (0, c + 1)
  optixProgramGroupCreate := fun _ g _ =>
    match g with
    | .raygen m _ => (0, m + 1)
    | .miss m _ => (0, m + 2)
    | .hitgroup m _ _ _ _ _ => (0, m + 3)
  optixPipelineCreate := fun c _ _ _ _ => (0, c + 5)
  optixPipelineSetStackSize := fun _ _ _ _ _ => 0

/-- A set-up backend without a device: the device-count query reports `cudaErrorNoDevice`
and a count of zero. -/
def noDeviceBackend : SetupBackend :=
  { okSetupBackend with cudaGetDeviceCount := (100, 0) }

/-- A set-up backend on which only `cuCtxGetCurrent` fails, with
`CUDA_ERROR_NOT_INITIALIZED`. -/
def noContextBackend : SetupBackend :=
  { okSetupBackend with cuCtxGetCurrent := (3, 0) }

/-- A mesh without vertices, over the rationals. -/
def emptyMesh : TriangleMesh ℚ := ⟨[], [], ⟨0, 0, 0⟩⟩

/-! ## Construction, keeping the calls made when a check aborts it -/

/-- An aborted run: the error, and the calls made up to the abort. -/
abbrev Abort (α : Type) := Error × List (Event α)

/-- The fallible step `x`, taken when the calls made so far are `calls`: an abort carries
`calls` with it. -/
def abortsAt {α σ : Type} (calls : List (Event α)) (x : Except Error σ) : Except (Abort α) σ :=
  match x with
  | .ok a => .ok a
  | .error e => .error (e, calls)

/-- Embeds `SampleRenderer::initOptix` once more, keeping the calls made when the function
aborts: each call is recorded before the source looks at what it returned. -/
def initOptix.traced {α : Type} (sbe : SetupBackend) (r : SampleRenderer α) :
    Except (Abort α) (SampleRenderer α) := do
  -- check for available optix7 capable devices
  let d := r.device.record (.cudaFree 0 (sbe.cudaFree 0))
  let queried := sbe.cudaGetDeviceCount
  let numDevices := queried.2
  let d := d.record (.cudaGetDeviceCount queried.1 numDevices)
  if numDevices = 0 then
    throw (Error.runtimeError "#osc: no CUDA capable devices found!", d.calls)
  -- initialize optix
  let res := sbe.optixInit
  let d := d.record (.optixInit res)
  abortsAt d.calls (OPTIX_CHECK res)
  return { r with device := d }

/-- Embeds `SampleRenderer::createContext` once more, keeping the calls made when a check
aborts the function. -/
def createContext.traced {α : Type} (sbe : SetupBackend) (r : SampleRenderer α) :
    Except (Abort α) (SampleRenderer α) := do
  -- for this sample, do everything on one device
  let deviceID : Int := 0
  let res := sbe.cudaSetDevice deviceID
  let d := r.device.record (.cudaSetDevice deviceID res)
  abortsAt d.calls (CUDA_CHECK res)
  let created := sbe.cudaStreamCreate
  let d := d.record (.cudaStreamCreate created.1 created.2)
  abortsAt d.calls (CUDA_CHECK created.1)
  let r := { r with stream := created.2 }
  let props := sbe.cudaGetDeviceProperties deviceID
  let r := { r with deviceProps := props.2 }
  let d := d.record (.cudaGetDeviceProperties deviceID props.1)
  let current := sbe.cuCtxGetCurrent
  let cuRes := current.1
  let r := { r with cudaContext := current.2 }
  -- `if( cuRes != CUDA_SUCCESS ) fprintf( stderr, ... )`: a message only
  let d := d.record (.cuCtxGetCurrent cuRes r.cudaContext)
  let ctx := sbe.optixDeviceContextCreate r.cudaContext
  let d := d.record (.deviceContextCreate r.cudaContext ctx.1 ctx.2)
  abortsAt d.calls (OPTIX_CHECK ctx.1)
  let r := { r with optixContext := ctx.2 }
  let res := sbe.optixDeviceContextSetLogCallback r.optixContext 4
  let d := d.record (.deviceContextSetLogCallback r.optixContext 4 res)
  abortsAt d.calls (OPTIX_CHECK res)
  return { r with device := d }

/-- Embeds `SampleRenderer::createModule` once more, keeping the calls made when the check
aborts the function. -/
def createModule.traced {α : Type} (sbe : SetupBackend) (r : SampleRenderer α) :
    Except (Abort α) (SampleRenderer α) := do
  let r := { r with moduleCompileOptions := { r.moduleCompileOptions with
    maxRegisterCount := 50 } }
  let r := { r with moduleCompileOptions := { r.moduleCompileOptions with
    optLevel := OPTIX_COMPILE_OPTIMIZATION_DEFAULT } }
  let r := { r with moduleCompileOptions := { r.moduleCompileOptions with
    debugLevel := OPTIX_COMPILE_DEBUG_LEVEL_NONE } }
  -- `pipelineCompileOptions = {}`
  let r := { r with pipelineCompileOptions := ⟨false, 0, 0, 0, 0, ""⟩ }
  let r := { r with pipelineCompileOptions := { r.pipelineCompileOptions with
    traversableGraphFlags := OPTIX_TRAVERSABLE_GRAPH_FLAG_ALLOW_ANY } }
  let r := { r with pipelineCompileOptions := { r.pipelineCompileOptions with
    usesMotionBlur := false } }
  let r := { r with pipelineCompileOptions := { r.pipelineCompileOptions with
    numPayloadValues := 4 } }
  let r := { r with pipelineCompileOptions := { r.pipelineCompileOptions with
    numAttributeValues := 4 } }
  let r := { r with pipelineCompileOptions := { r.pipelineCompileOptions with
    exceptionFlags := OPTIX_EXCEPTION_FLAG_NONE } }
  let r := { r with pipelineCompileOptions := { r.pipelineCompileOptions with
    pipelineLaunchParamsVariableName := "optixLaunchParams" } }
  let r := { r with pipelineLinkOptions := { r.pipelineLinkOptions with
    overrideUsesMotionBlur := false } }
  let r := { r with pipelineLinkOptions := { r.pipelineLinkOptions with
    maxTraceDepth := 2 } }
  let ptxCode := sbe.embedded_ptx_code
  let created := sbe.optixModuleCreateFromPTX r.optixContext r.moduleCompileOptions
    r.pipelineCompileOptions ptxCode ptxCode.length
  let d := r.device.record
    (.moduleCreateFromPTX r.optixContext r.moduleCompileOptions r.pipelineCompileOptions
      created.1 created.2)
  abortsAt d.calls (OPTIX_CHECK created.1)
  let r := { r with module := created.2 }
  -- `if (sizeof_log > 1) PRINT(log)`: a message only
  return { r with device := d }

/-- Embeds `SampleRenderer::createRaygenPrograms` once more, keeping the calls made when the
check aborts the function. -/
def createRaygenPrograms.traced {α : Type} (sbe : SetupBackend) (r : SampleRenderer α) :
    Except (Abort α) (SampleRenderer α) := do
  -- we do a single ray gen program in this example
  let r := { r with raygenPGs := resizePGs r.raygenPGs 1 }
  let pgDesc : OptixProgramGroupDesc := .raygen r.module "__raygen__renderFrame"
  let created := sbe.optixProgramGroupCreate r.optixContext pgDesc 1
  let d := r.device.record
    (.programGroupCreate r.optixContext pgDesc created.1 created.2)
  abortsAt d.calls (OPTIX_CHECK created.1)
  let r := { r with raygenPGs := r.raygenPGs.set 0 created.2 }
  return { r with device := d }

/-- Embeds `SampleRenderer::createMissPrograms` once more, keeping the calls made when the
check aborts the function. -/
def createMissPrograms.traced {α : Type} (sbe : SetupBackend) (r : SampleRenderer α) :
    Except (Abort α) (SampleRenderer α) := do
  let r := { r with missPGs := resizePGs r.missPGs 1 }
  let pgDesc : OptixProgramGroupDesc := .miss r.module "__miss__radiance"
  let created := sbe.optixProgramGroupCreate r.optixContext pgDesc 1
  let d := r.device.record
    (.programGroupCreate r.optixContext pgDesc created.1 created.2)
  abortsAt d.calls (OPTIX_CHECK created.1)
  let r := { r with missPGs := r.missPGs.set 0 created.2 }
  return { r with device := d }

/-- Embeds `SampleRenderer::createHitgroupPrograms` once more, keeping the calls made when
the check aborts the function. -/
def createHitgroupPrograms.traced {α : Type} (sbe : SetupBackend) (r : SampleRenderer α) :
    Except (Abort α) (SampleRenderer α) := do
  -- for this simple example, we set up a single hit group
  let r := { r with hitgroupPGs := resizePGs r.hitgroupPGs 1 }
  let pgDesc : OptixProgramGroupDesc :=
    .hitgroup r.module "__closesthit__radiance" r.module "__anyhit__radiance"
      r.module "__intersection__is"
  let created := sbe.optixProgramGroupCreate r.optixContext pgDesc 1
  let d := r.device.record
    (.programGroupCreate r.optixContext pgDesc created.1 created.2)
  abortsAt d.calls (OPTIX_CHECK created.1)
  let r := { r with hitgroupPGs := r.hitgroupPGs.set 0 created.2 }
  return { r with device := d }

/-- Embeds `SampleRenderer::createPipeline` once more, keeping the calls made when a check
aborts the function. -/
def createPipeline.traced {α : Type} (sbe : SetupBackend) (r : SampleRenderer α) :
    Except (Abort α) (SampleRenderer α) := do
  let programGroups : List OptixProgramGroup := []
  let programGroups := r.raygenPGs.foldl (fun v pg => v ++ [pg]) programGroups
  let programGroups := r.missPGs.foldl (fun v pg => v ++ [pg]) programGroups
  let programGroups := r.hitgroupPGs.foldl (fun v pg => v ++ [pg]) programGroups
  let created := sbe.optixPipelineCreate r.optixContext r.pipelineCompileOptions
    r.pipelineLinkOptions programGroups (castInt programGroups.length)
  let d := r.device.record
    (.pipelineCreate r.optixContext r.pipelineCompileOptions r.pipelineLinkOptions
      programGroups (castInt programGroups.length) created.1 created.2)
  abortsAt d.calls (OPTIX_CHECK created.1)
  let r := { r with pipeline := created.2 }
  let res := sbe.optixPipelineSetStackSize r.pipeline
    -- direct stack size requirement for direct callables invoked from IS or AH
    (2 * 1024)
    -- direct stack size requirement for direct callables invoked from RG, MS, or CH
    (2 * 1024)
    -- continuation stack requirement
    (2 * 1024)
    -- maximum depth of a traversable graph passed to trace
    1
  let d := d.record
    (.pipelineSetStackSize r.pipeline (2 * 1024) (2 * 1024) (2 * 1024) 1 res)
  abortsAt d.calls (OPTIX_CHECK res)
  return { r with device := d }

/-- Embeds `SampleRenderer::buildAccelMeshes` once more, keeping the calls made when a check aborts
the function: each call is recorded before the source looks at its status. -/
def buildAccelMeshes.traced {α : Type} (be : Backend α) (r : SampleRenderer α) :
    Except (Abort α) (OptixTraversableHandle × SampleRenderer α) := do
  let r := { r with
    vertexBuffer := resizeBuffers r.vertexBuffer r.scene.meshes.length
    indexBuffer := resizeBuffers r.indexBuffer r.scene.meshes.length }
  -- triangle inputs
  let locals : BuildLocals :=
    ⟨List.replicate r.scene.meshes.length .zeroed, List.replicate r.scene.meshes.length 0,
     List.replicate r.scene.meshes.length 0, List.replicate r.scene.meshes.length 0⟩
  let s := r.scene.meshes.enum.foldl buildAccelMeshes.body (r, locals)
  let r := s.1
  let geometryInput := s.2.geometryInput
  -- BLAS setup
  let usageCall : MemoryUsageCall := ⟨accelOptions, geometryInput, castInt r.scene.meshes.length⟩
  let usage := be.optixAccelComputeMemoryUsage usageCall
  let blasBufferSizes := usage.2
  let d := r.device.record (.accelComputeMemoryUsage usageCall blasBufferSizes)
  abortsAt d.calls (OPTIX_CHECK usage.1)
  -- prepare compaction
  let cs := CUDABuffer.null.alloc sizeof_uint64_t d
  let compactedSizeBuffer := cs.1
  let emitResult := compactedSizeBuffer.d_pointer
  -- execute build (main stage)
  let tb := CUDABuffer.null.alloc blasBufferSizes.tempSizeInBytes cs.2
  let tempBuffer := tb.1
  let ob := CUDABuffer.null.alloc blasBufferSizes.outputSizeInBytes tb.2
  let outputBuffer := ob.1
  let d := ob.2
  let buildCall : AccelBuildCall α :=
    ⟨d.allocs, accelOptions, geometryInput, castInt r.scene.meshes.length,
     tempBuffer.d_pointer, tempBuffer.sizeInBytes,
     outputBuffer.d_pointer, outputBuffer.sizeInBytes, emitResult, 1⟩
  let built := be.optixAccelBuild buildCall
  let asHandle := built.2.1
  let d := (d.write emitResult (.u64 built.2.2)).record (.accelBuild buildCall asHandle built.2.2)
  abortsAt d.calls (OPTIX_CHECK built.1)
  let d ← abortsAt (d.record .sync).calls (CUDA_SYNC_CHECK be d)
  -- perform compaction
  let dl := compactedSizeBuffer.download sizeof_uint64_t 1 d
  let compactedSize ← abortsAt dl.2.calls (downloadedSize dl.1)
  let mb := r.meshBlasBuffer.alloc compactedSize dl.2
  let r := { r with meshBlasBuffer := mb.1 }
  let compactCall : AccelCompactCall :=
    ⟨asHandle, r.meshBlasBuffer.d_pointer, r.meshBlasBuffer.sizeInBytes⟩
  let compacted := be.optixAccelCompact compactCall
  let asHandle := compacted.2
  let d := mb.2.record (.accelCompact compactCall asHandle)
  abortsAt d.calls (OPTIX_CHECK compacted.1)
  let d ← abortsAt (d.record .sync).calls (CUDA_SYNC_CHECK be d)
  -- clean up
  let d := (outputBuffer.free d).2
  let d := (tempBuffer.free d).2
  let d := (compactedSizeBuffer.free d).2
  return (asHandle, { r with device := d })

/-- Embeds `SampleRenderer::buildAccelSpheres` once more, keeping the calls made when a check aborts
the function: each call is recorded before the source looks at its status. -/
def buildAccelSpheres.traced {α : Type} [Neg α] (be : Backend α) (r : SampleRenderer α) :
    Except (Abort α) (OptixTraversableHandle × SampleRenderer α) := do
  let r := { r with aabbBuffer := resizeBuffers r.aabbBuffer r.scene.spheres.length }
  let locals : BuildLocals :=
    ⟨List.replicate r.scene.spheres.length .zeroed, List.replicate r.scene.spheres.length 0,
     List.replicate r.scene.spheres.length 0, List.replicate r.scene.spheres.length 0⟩
  let s := r.scene.spheres.enum.foldl buildAccelSpheres.body (r, locals)
  let r := s.1
  let geometryInput := s.2.geometryInput
  -- BLAS setup
  let usageCall : MemoryUsageCall := ⟨accelOptions, geometryInput, castInt r.scene.meshes.length⟩
  let usage := be.optixAccelComputeMemoryUsage usageCall
  let blasBufferSizes := usage.2
  let d := r.device.record (.accelComputeMemoryUsage usageCall blasBufferSizes)
  abortsAt d.calls (OPTIX_CHECK usage.1)
  -- prepare compaction
  let cs := CUDABuffer.null.alloc sizeof_uint64_t d
  let compactedSizeBuffer := cs.1
  let emitResult := compactedSizeBuffer.d_pointer
  -- execute build (main stage)
  let tb := CUDABuffer.null.alloc blasBufferSizes.tempSizeInBytes cs.2
  let tempBuffer := tb.1
  let ob := CUDABuffer.null.alloc blasBufferSizes.outputSizeInBytes tb.2
  let outputBuffer := ob.1
  let d := ob.2
  let buildCall : AccelBuildCall α :=
    ⟨d.allocs, accelOptions, geometryInput, castInt r.scene.meshes.length,
     tempBuffer.d_pointer, tempBuffer.sizeInBytes,
     outputBuffer.d_pointer, outputBuffer.sizeInBytes, emitResult, 1⟩
  let built := be.optixAccelBuild buildCall
  let asHandle := built.2.1
  let d := (d.write emitResult (.u64 built.2.2)).record (.accelBuild buildCall asHandle built.2.2)
  abortsAt d.calls (OPTIX_CHECK built.1)
  let d ← abortsAt (d.record .sync).calls (CUDA_SYNC_CHECK be d)
  -- perform compaction
  let dl := compactedSizeBuffer.download sizeof_uint64_t 1 d
  let compactedSize ← abortsAt dl.2.calls (downloadedSize dl.1)
  let sb := r.sphereBlasBuffer.alloc compactedSize dl.2
  let r := { r with sphereBlasBuffer := sb.1 }
  let compactCall : AccelCompactCall :=
    ⟨asHandle, r.sphereBlasBuffer.d_pointer, r.sphereBlasBuffer.sizeInBytes⟩
  let compacted := be.optixAccelCompact compactCall
  let asHandle := compacted.2
  let d := sb.2.record (.accelCompact compactCall asHandle)
  abortsAt d.calls (OPTIX_CHECK compacted.1)
  let d ← abortsAt (d.record .sync).calls (CUDA_SYNC_CHECK be d)
  -- clean up
  let d := (outputBuffer.free d).2
  let d := (tempBuffer.free d).2
  let d := (compactedSizeBuffer.free d).2
  return (asHandle, { r with device := d })

/-- Embeds `SampleRenderer::buildAccelInstances` once more, keeping the calls made when a check aborts
the function: each call is recorded before the source looks at its status. -/
def buildAccelInstances.traced {α : Type} [Zero α] [One α] (be : Backend α) (r : SampleRenderer α)
    (meshes spheres : OptixTraversableHandle) :
    Except (Abort α) (OptixTraversableHandle × SampleRenderer α) := do
  let transform : List α := [1, 0, 0, 0,
                             0, 1, 0, 0,
                             0, 0, 1, 0]
  let instances : List (OptixInstance α) := []
  let meshInstance : OptixInstance α :=
    { transform := transform
      instanceId := 0
      visibilityMask := 255
      sbtOffset := 0
      flags := OPTIX_INSTANCE_FLAG_NONE
      traversableHandle := meshes }
  let instances := instances ++ [meshInstance]
  let sphereInstance : OptixInstance α :=
    { transform := transform
      instanceId := 1
      visibilityMask := 255
      sbtOffset := castUInt32 r.scene.meshes.length
      flags := OPTIX_INSTANCE_FLAG_NONE
      traversableHandle := spheres }
  let instances := instances ++ [sphereInstance]
  let ibuf := CUDABuffer.null.alloc_and_upload sizeof_OptixInstance instances.length
    (.instances instances) r.device
  let instanceBuffer := ibuf.1
  let buildInput : OptixBuildInput := .instances
    { instances := instanceBuffer.d_pointer
      numInstances := 2
      aabbs := 0
      numAabbs := 0 }
  let usageCall : MemoryUsageCall := ⟨accelOptions, [buildInput], 1⟩
  let usage := be.optixAccelComputeMemoryUsage usageCall
  let tlasBufferSizes := usage.2
  let d := ibuf.2.record (.accelComputeMemoryUsage usageCall tlasBufferSizes)
  abortsAt d.calls (OPTIX_CHECK usage.1)
  -- prepare compaction
  let cs := CUDABuffer.null.alloc sizeof_uint64_t d
  let compactedSizeBuffer := cs.1
  let emitResult := compactedSizeBuffer.d_pointer
  -- execute build (main stage)
  let tb := CUDABuffer.null.alloc tlasBufferSizes.tempSizeInBytes cs.2
  let tempBuffer := tb.1
  let ob := CUDABuffer.null.alloc tlasBufferSizes.outputSizeInBytes tb.2
  let outputBuffer := ob.1
  let d := ob.2
  let buildCall : AccelBuildCall α :=
    ⟨d.allocs, accelOptions, [buildInput], 1,
     tempBuffer.d_pointer, tempBuffer.sizeInBytes,
     outputBuffer.d_pointer, outputBuffer.sizeInBytes, emitResult, 1⟩
  let built := be.optixAccelBuild buildCall
  let asHandle := built.2.1
  let d := (d.write emitResult (.u64 built.2.2)).record (.accelBuild buildCall asHandle built.2.2)
  abortsAt d.calls (OPTIX_CHECK built.1)
  let d ← abortsAt (d.record .sync).calls (CUDA_SYNC_CHECK be d)
  -- perform compaction
  let dl := compactedSizeBuffer.download sizeof_uint64_t 1 d
  let compactedSize ← abortsAt dl.2.calls (downloadedSize dl.1)
  let tl := r.sceneTlasBuffer.alloc compactedSize dl.2
  let r := { r with sceneTlasBuffer := tl.1 }
  let compactCall : AccelCompactCall :=
    ⟨asHandle, r.sceneTlasBuffer.d_pointer, r.sceneTlasBuffer.sizeInBytes⟩
  let compacted := be.optixAccelCompact compactCall
  let asHandle := compacted.2
  let d := tl.2.record (.accelCompact compactCall asHandle)
  abortsAt d.calls (OPTIX_CHECK compacted.1)
  let d ← abortsAt (d.record .sync).calls (CUDA_SYNC_CHECK be d)
  -- clean up
  let d := (outputBuffer.free d).2
  let d := (tempBuffer.free d).2
  let d := (compactedSizeBuffer.free d).2
  return (asHandle, { r with device := d })

/-- Embeds `SampleRenderer::buildSBT` once more, keeping the calls made when a check aborts
the function.  The loops that fill the records make no recorded call, so an abort inside a
loop leaves the calls as they were when the loop began. -/
def buildSBT.traced {α : Type} (be : Backend α) (r : SampleRenderer α) :
    Except (Abort α) (SampleRenderer α) := do
  -- build raygen records
  let raygenRecords ← abortsAt r.device.calls
    (r.raygenPGs.foldlM (buildSBT.raygenBody be) [])
  let rb := r.raygenRecordsBuffer.alloc_and_upload sizeof_RaygenRecord raygenRecords.length
    (.raygenRecords raygenRecords) r.device
  let r := { r with raygenRecordsBuffer := rb.1, device := rb.2 }
  let r := { r with sbt := { r.sbt with raygenRecord := r.raygenRecordsBuffer.d_pointer } }
  -- build miss records
  let missRecords ← abortsAt r.device.calls
    (r.missPGs.foldlM (buildSBT.missBody be) [])
  let mb := r.missRecordsBuffer.alloc_and_upload sizeof_RaygenRecord missRecords.length
    (.missRecords missRecords) r.device
  let r := { r with missRecordsBuffer := mb.1, device := mb.2 }
  let r := { r with sbt := { r.sbt with
    missRecordBase := r.missRecordsBuffer.d_pointer
    missRecordStrideInBytes := sizeof_RaygenRecord
    missRecordCount := castInt missRecords.length } }
  -- build hitgroup records
  let numMeshes := castInt r.scene.meshes.length
  let numSpheres := castInt r.scene.spheres.length
  let hitgroupRecords : List (HitgroupRecord α) := []
  let hitgroupRecords ← abortsAt r.device.calls
    ((List.range numMeshes.toNat).foldlM (buildSBT.meshBody be r) hitgroupRecords)
  let hitgroupRecords ← abortsAt r.device.calls
    ((List.range numSpheres.toNat).foldlM (buildSBT.sphereBody be r) hitgroupRecords)
  let hb := r.hitgroupRecordsBuffer.alloc_and_upload (sizeof_HitgroupRecord be)
    hitgroupRecords.length (.hitgroupRecords hitgroupRecords) r.device
  let r := { r with hitgroupRecordsBuffer := hb.1, device := hb.2 }
  let r := { r with sbt := { r.sbt with
    hitgroupRecordBase := r.hitgroupRecordsBuffer.d_pointer
    hitgroupRecordStrideInBytes := sizeof_HitgroupRecord be
    hitgroupRecordCount := castInt hitgroupRecords.length } }
  return r

/-- Embeds the constructor `SampleRenderer::SampleRenderer` once more, keeping the calls made
when a check in one of its steps aborts it. -/
def SampleRenderer.SampleRenderer.traced {α : Type} [Zero α] [One α] [Neg α] (be : Backend α)
    (sbe : SetupBackend) (members : osc.SampleRenderer α) (scene : Geometry α) :
    Except (Abort α) (osc.SampleRenderer α) := do
  let r := { members with scene := scene }
  let r ← initOptix.traced sbe r
  let r ← createContext.traced sbe r
  let r ← createModule.traced sbe r
  let r ← createRaygenPrograms.traced sbe r
  let r ← createMissPrograms.traced sbe r
  let r ← createHitgroupPrograms.traced sbe r
  let meshes ← buildAccelMeshes.traced be r
  let meshesGAS := meshes.1
  let spheres ← buildAccelSpheres.traced be meshes.2
  let spheresGAS := spheres.1
  let scene_ ← buildAccelInstances.traced be spheres.2 meshesGAS spheresGAS
  let sceneTAS := scene_.1
  let r := scene_.2
  let r := { r with launchParams := { r.launchParams with traversable := sceneTAS } }
  let r ← createPipeline.traced sbe r
  let r ← buildSBT.traced be r
  let lp := r.launchParamsBuffer.alloc sizeof_LaunchParams r.device
  return { r with launchParamsBuffer := lp.1, device := lp.2 }

/-- The error with which the check that the source applies to the recorded call `c`, made
after the calls `base`, aborts the run; `none` when the call reported success or the source
does not look at its status.  `cudaSetDevice` and `cudaStreamCreate` go through `CUDA_CHECK`,
a synchronisation through `CUDA_SYNC_CHECK`, the other checked calls through `OPTIX_CHECK`. -/
def Event.failure {α : Type} (be : Backend α) (base : List (Event α)) (c : Event α) :
    Option Error :=
  match c with
  | .sync =>
    if be.cudaDeviceSynchronize base = 0 then none
    else some (.cudaCallFailed (be.cudaDeviceSynchronize base))
  | .cudaSetDevice _ s => if s = 0 then none else some (.cudaCallFailed s)
  | .cudaStreamCreate s _ => if s = 0 then none else some (.cudaCallFailed s)
  | c =>
    if c.kind.checked then
      match c.status be with
      | some s => if s = OPTIX_SUCCESS then none else some (.optixCallFailed s)
      | none => none
    else none

/-- The calls `t`, made after the calls `base`, end in a call whose check fails with `e`,
and every checked call before that one succeeded. -/
def AbortedAt {α : Type} (be : Backend α) (base t : List (Event α)) (e : Error) : Prop :=
  ∃ (pre : List (Event α)) (c : Event α), t = pre ++ [c] ∧
    callsSucceeded be CallKind.checked base pre ∧ c.failure be (base ++ pre) = some e

/-- The kinds of the calls in `t` other than uploads, in order. -/
def callKinds {α : Type} (t : List (Event α)) : List CallKind :=
  (t.map Event.kind).filter (fun k => decide (k ≠ .memcpyHtoD))

/-- The kinds of the calls of one acceleration-structure build. -/
def buildKinds : List CallKind :=
  [.accelComputeMemoryUsage, .accelBuild, .sync, .memcpyDtoH, .accelCompact, .sync]

/-- The kinds of the calls that a completed construction makes, uploads apart, in order:
`initOptix`, `createContext`, `createModule`, the three program-group functions, the three
builds, and `createPipeline`. -/
def constructionKinds : List CallKind :=
  [.cudaFree, .cudaGetDeviceCount, .optixInit] ++
  [.cudaSetDevice, .cudaStreamCreate, .cudaGetDeviceProperties, .cuCtxGetCurrent,
   .deviceContextCreate, .deviceContextSetLogCallback] ++
  [.moduleCreateFromPTX] ++ [.programGroupCreate] ++ [.programGroupCreate] ++
  [.programGroupCreate] ++ buildKinds ++ buildKinds ++ buildKinds ++
  [.pipelineCreate, .pipelineSetStackSize]

/-- The calls `cur` extend the calls `base`; every checked call made since `base` succeeded,
and uploads apart the calls made since `base` have the kinds `ks`. -/
def Ran {α : Type} (be : Backend α) (base cur : List (Event α)) (ks : List CallKind) : Prop :=
  ∃ t : List (Event α), cur = base ++ t ∧ callsSucceeded be CallKind.checked base t ∧
    callKinds t = ks

/-- The calls `tr` extend the calls `base` and end in a call whose check fails with `e`;
every checked call between `base` and that call succeeded, and uploads apart the calls made
since `base` have the kinds `ks`. -/
def AbortsWith {α : Type} (be : Backend α) (base tr : List (Event α)) (e : Error)
    (ks : List CallKind) : Prop :=
  ∃ t : List (Event α), tr = base ++ t ∧ callKinds t = ks ∧ AbortedAt be base t e

/-- How many record arrays `buildSBT` has uploaded when it packs the header of a record for
a program group of this kind: the raygen records are packed first, the miss records after
the raygen records are uploaded, the hitgroup records after the miss records are uploaded. -/
def OptixProgramGroupDesc.uploadsBefore : OptixProgramGroupDesc → Nat
  | .raygen _ _ => 0
  | .miss _ _ => 1
  | .hitgroup _ _ _ _ _ _ => 2

/-- A set-up backend on which only `cudaStreamCreate` fails, with `cudaErrorMemoryAllocation`. -/
def noStreamBackend : SetupBackend :=
  { okSetupBackend with cudaStreamCreate := (2, 0) }

/-! # Lemmas -/

section Lemmas
variable {α : Type}

theorem foldl_max_ge (l : List (Allocation α)) (n : Nat) :
    n ≤ l.foldl (fun m a => max m a.ptr) n ∧
    ∀ a ∈ l, a.ptr ≤ l.foldl (fun m a => max m a.ptr) n := by
  induction l generalizing n with
  | nil => simp
  | cons b t ih =>
    simp only [List.foldl_cons, List.mem_cons, forall_eq_or_imp]
    have h := ih (max n b.ptr)
    refine ⟨le_trans (le_max_left _ _) h.1, le_trans (le_max_right _ _) h.1, h.2⟩

theorem Device.ptr_lt_fresh (d : Device α) {a : Allocation α} (h : a ∈ d.allocs) :
    a.ptr < d.fresh := by
  unfold Device.fresh
  exact Nat.lt_succ_of_le ((foldl_max_ge d.allocs d.next).2 a h)

theorem Device.fresh_pos (d : Device α) : 0 < d.fresh := by
  unfold Device.fresh; exact Nat.succ_pos _

theorem blockAt_some_mem {m : List (Allocation α)} {p : CUdeviceptr} {a : Allocation α}
    (h : blockAt m p = some a) : a ∈ m ∧ a.ptr = p := by
  unfold blockAt at h
  exact ⟨List.mem_of_find?_eq_some h, by simpa using List.find?_some h⟩

theorem blockAt_eq_none {m : List (Allocation α)} {p : CUdeviceptr}
    (h : ∀ a ∈ m, a.ptr ≠ p) : blockAt m p = none := by
  unfold blockAt
  simpa using h

theorem readAt_some_mem {m : List (Allocation α)} {p : CUdeviceptr} {v : DevData α}
    (h : readAt m p = some v) : ∃ a ∈ m, a.ptr = p := by
  unfold readAt at h
  cases hb : blockAt m p with
  | none => simp [hb] at h
  | some a => exact ⟨a, (blockAt_some_mem hb).1, (blockAt_some_mem hb).2⟩

theorem blockAt_append_left {m l : List (Allocation α)} {p : CUdeviceptr} {a : Allocation α}
    (h : blockAt m p = some a) : blockAt (m ++ l) p = some a := by
  unfold blockAt at *
  simp [List.find?_append, h]

theorem blockAt_append_right {m l : List (Allocation α)} {p : CUdeviceptr}
    (h : ∀ a ∈ m, a.ptr ≠ p) : blockAt (m ++ l) p = blockAt l p := by
  have := blockAt_eq_none h
  unfold blockAt at *
  simp [List.find?_append, this]

theorem readAt_append_left {m l : List (Allocation α)} {p : CUdeviceptr} {v : DevData α}
    (h : readAt m p = some v) : readAt (m ++ l) p = some v := by
  unfold readAt at *
  cases hb : blockAt m p with
  | none => simp [hb] at h
  | some a => rw [blockAt_append_left hb]; simpa [hb] using h

theorem blockAt_filter_ne {m : List (Allocation α)} {p q : CUdeviceptr} (h : p ≠ q) :
    blockAt (m.filter (fun a => a.ptr ≠ q)) p = blockAt m p := by
  unfold blockAt
  induction m with
  | nil => rfl
  | cons b t ih =>
    by_cases hb : b.ptr = q
    · have hbp : ¬ b.ptr = p := by rw [hb]; exact fun e => h e.symm
      rw [List.filter_cons_of_neg (by simpa using hb), List.find?_cons_of_neg _ (by simpa using hbp)]
      exact ih
    · rw [List.filter_cons_of_pos (by simpa using hb)]
      by_cases hp : b.ptr = p
      · rw [List.find?_cons_of_pos _ (by simpa using hp), List.find?_cons_of_pos _ (by simpa using hp)]
      · rw [List.find?_cons_of_neg _ (by simpa using hp), List.find?_cons_of_neg _ (by simpa using hp)]
        exact ih

theorem blockAt_map_write_ne {m : List (Allocation α)} {p q : CUdeviceptr} {w : DevData α}
    (h : p ≠ q) :
    blockAt (m.map (fun a => if a.ptr = q then { a with data := w } else a)) p = blockAt m p := by
  unfold blockAt
  induction m with
  | nil => rfl
  | cons b t ih =>
    rw [List.map_cons]
    by_cases hb : b.ptr = q
    · have hbp : ¬ b.ptr = p := by rw [hb]; exact fun e => h e.symm
      rw [if_pos hb, List.find?_cons_of_neg _ (by simpa using hbp),
        List.find?_cons_of_neg _ (by simpa using hbp)]
      exact ih
    · rw [if_neg hb]
      by_cases hp : b.ptr = p
      · rw [List.find?_cons_of_pos _ (by simpa using hp), List.find?_cons_of_pos _ (by simpa using hp)]
      · rw [List.find?_cons_of_neg _ (by simpa using hp), List.find?_cons_of_neg _ (by simpa using hp)]
        exact ih

theorem blockAt_map_write_same {m : List (Allocation α)} {p : CUdeviceptr} {w : DevData α}
    {a : Allocation α} (h : blockAt m p = some a) :
    blockAt (m.map (fun a => if a.ptr = p then { a with data := w } else a)) p
      = some { a with data := w } := by
  unfold blockAt at *
  induction m with
  | nil => simp at h
  | cons b t ih =>
    rw [List.map_cons]
    by_cases hp : b.ptr = p
    · rw [List.find?_cons_of_pos _ (by simpa using hp)] at h
      rw [if_pos hp, List.find?_cons_of_pos _ (by simpa using hp)]
      cases h
      rfl
    · rw [List.find?_cons_of_neg _ (by simpa using hp)] at h
      rw [if_neg hp, List.find?_cons_of_neg _ (by simpa using hp)]
      exact ih h

/-! ### The device between calls -/

section
variable {α : Type}

@[simp] theorem Device.record_allocs (d : Device α) (e : Event α) : (d.record e).allocs = d.allocs := rfl

@[simp] theorem Device.record_next (d : Device α) (e : Event α) : (d.record e).next = d.next := rfl

@[simp] theorem Device.record_calls (d : Device α) (e : Event α) :
    (d.record e).calls = d.calls ++ [e] := rfl

@[simp] theorem Device.record_fresh (d : Device α) (e : Event α) : (d.record e).fresh = d.fresh := rfl

@[simp] theorem Device.write_next (d : Device α) (p : CUdeviceptr) (w : DevData α) :
    (d.write p w).next = d.next := rfl

@[simp] theorem Device.write_calls (d : Device α) (p : CUdeviceptr) (w : DevData α) :
    (d.write p w).calls = d.calls := rfl

@[simp] theorem Device.free_next (d : Device α) (p : CUdeviceptr) : (d.free p).next = d.next := rfl

@[simp] theorem Device.free_calls (d : Device α) (p : CUdeviceptr) : (d.free p).calls = d.calls := rfl

@[simp] theorem Device.malloc_fst (d : Device α) (n : Nat) : (d.malloc n).1 = d.fresh := rfl

@[simp] theorem Device.malloc_next (d : Device α) (n : Nat) : (d.malloc n).2.next = d.fresh := rfl

@[simp] theorem Device.malloc_calls (d : Device α) (n : Nat) : (d.malloc n).2.calls = d.calls := rfl

@[simp] theorem Device.malloc_allocs (d : Device α) (n : Nat) :
    (d.malloc n).2.allocs = d.allocs ++ [⟨d.fresh, n, .raw⟩] := rfl

theorem Device.next_lt_fresh (d : Device α) : d.next < d.fresh := by
  unfold Device.fresh
  exact Nat.lt_succ_of_le (foldl_max_ge d.allocs d.next).1

theorem Device.lt_fresh_of_block {d : Device α} {p : CUdeviceptr} {a : Allocation α}
    (h : d.block p = some a) : p < d.fresh := by
  have := blockAt_some_mem h
  rw [← this.2]
  exact ptr_lt_fresh d this.1

theorem Device.lt_fresh_of_read {d : Device α} {p : CUdeviceptr} {v : DevData α}
    (h : d.read p = some v) : p < d.fresh := by
  obtain ⟨a, ha, hp⟩ := readAt_some_mem h
  rw [← hp]
  exact ptr_lt_fresh d ha

theorem Device.block_record (d : Device α) (e : Event α) (p : CUdeviceptr) :
    (d.record e).block p = d.block p := rfl

theorem Device.read_record (d : Device α) (e : Event α) (p : CUdeviceptr) :
    (d.record e).read p = d.read p := rfl

theorem Device.block_malloc_fresh (d : Device α) (n : Nat) :
    (d.malloc n).2.block d.fresh = some ⟨d.fresh, n, .raw⟩ := by
  unfold Device.block
  rw [Device.malloc_allocs, blockAt_append_right]
  · simp [blockAt]
  · intro a ha hp
    have hlt := ptr_lt_fresh d ha
    rw [hp] at hlt
    exact Nat.lt_irrefl _ hlt

theorem Device.block_malloc_of_some {d : Device α} {p : CUdeviceptr} {a : Allocation α} (n : Nat)
    (h : d.block p = some a) : (d.malloc n).2.block p = some a := by
  unfold Device.block at *
  rw [Device.malloc_allocs]
  exact blockAt_append_left h

theorem Device.read_malloc_of_some {d : Device α} {p : CUdeviceptr} {v : DevData α} (n : Nat)
    (h : d.read p = some v) : (d.malloc n).2.read p = some v := by
  unfold Device.read at *
  rw [Device.malloc_allocs]
  exact readAt_append_left h

theorem Device.block_write_ne (d : Device α) {p q : CUdeviceptr} (w : DevData α) (h : p ≠ q) :
    (d.write q w).block p = d.block p :=
  blockAt_map_write_ne h

theorem Device.read_write_ne (d : Device α) {p q : CUdeviceptr} (w : DevData α) (h : p ≠ q) :
    (d.write q w).read p = d.read p := by
  unfold Device.read readAt
  exact congrArg _ (blockAt_map_write_ne h)

theorem Device.block_write_same {d : Device α} {p : CUdeviceptr} {a : Allocation α} (w : DevData α)
    (h : d.block p = some a) : (d.write p w).block p = some { a with data := w } :=
  blockAt_map_write_same h

theorem Device.read_write_same {d : Device α} {p : CUdeviceptr} {a : Allocation α} (w : DevData α)
    (h : d.block p = some a) : (d.write p w).read p = some w := by
  have := Device.block_write_same w h
  unfold Device.block at this
  unfold Device.read readAt
  rw [this]
  rfl

theorem Device.block_free_ne (d : Device α) {p q : CUdeviceptr} (h : p ≠ q) :
    (d.free q).block p = d.block p :=
  blockAt_filter_ne h

theorem Device.read_free_ne (d : Device α) {p q : CUdeviceptr} (h : p ≠ q) :
    (d.free q).read p = d.read p := by
  unfold Device.read readAt
  exact congrArg _ (blockAt_filter_ne h)

theorem Device.write_fresh (d : Device α) (p : CUdeviceptr) (w : DevData α) :
    (d.write p w).fresh = d.fresh := by
  have key : ∀ (l : List (Allocation α)) (n : Nat),
      (l.map (fun a => if a.ptr = p then { a with data := w } else a)).foldl
        (fun m a => max m a.ptr) n = l.foldl (fun m a => max m a.ptr) n := by
    intro l
    induction l with
    | nil => intro n; rfl
    | cons b t ih =>
      intro n
      simp only [List.map_cons, List.foldl_cons]
      have : (if b.ptr = p then ({ b with data := w } : Allocation α) else b).ptr = b.ptr := by
        split <;> rfl
      rw [this]
      exact ih _
  unfold Device.fresh Device.write
  exact congrArg (· + 1) (key d.allocs d.next)

theorem Device.read_of_block {d : Device α} {p : CUdeviceptr} {a : Allocation α}
    (h : d.block p = some a) : d.read p = some a.data := by
  unfold Device.block at h
  unfold Device.read readAt
  rw [h]
  rfl

end



/-- The allocation, build, read-back, compaction and release steps that all three builds
perform, as a chain of device states. -/
theorem compaction_steps (d D1 D2 D3 Dw Dl D4 D5 Df : Device α) (n1 n2 n3 v c : Nat)
    (e1 e2 e3 e4 e5 : Event α)
    (h1 : D1 = (d.malloc n1).2) (h2 : D2 = (D1.malloc n2).2) (h3 : D3 = (D2.malloc n3).2)
    (hw : Dw = ((D3.write d.fresh (.u64 v)).record e1).record e2)
    (hl : Dl = Dw.record e3)
    (h4 : D4 = (Dl.malloc c).2)
    (h5 : D5 = (D4.record e4).record e5)
    (hf : Df = ((D5.free D2.fresh).free D1.fresh).free d.fresh) :
    Dw.read d.fresh = some (.u64 v) ∧
    Df.block Dl.fresh = some ⟨Dl.fresh, c, .raw⟩ ∧
    Df.calls = d.calls ++ [e1, e2, e3, e4, e5] ∧
    (∀ p w, d.read p = some w → readAt D3.allocs p = some w ∧ Df.read p = some w) := by
  have o1 : (d.fresh : Nat) < D1.fresh := by
    have := D1.next_lt_fresh
    rw [h1] at this ⊢
    exact this
  have o2 : (D1.fresh : Nat) < D2.fresh := by
    have := D2.next_lt_fresh
    rw [h2] at this ⊢
    exact this
  have o3 : (D2.fresh : Nat) < Dl.fresh := by
    have := Dl.next_lt_fresh
    rw [hl, hw, h3] at this ⊢
    exact this
  have b1 : D3.block d.fresh = some ⟨d.fresh, n1, .raw⟩ := by
    rw [h3, h2, h1]
    exact Device.block_malloc_of_some _ (Device.block_malloc_of_some _ (Device.block_malloc_fresh d n1))
  have n43 : Dl.fresh ≠ D2.fresh := Nat.ne_of_gt o3
  have n42 : Dl.fresh ≠ D1.fresh := Nat.ne_of_gt (Nat.lt_trans o2 o3)
  have n41 : Dl.fresh ≠ d.fresh := Nat.ne_of_gt (Nat.lt_trans o1 (Nat.lt_trans o2 o3))
  refine ⟨?_, ?_, ?_, ?_⟩
  · rw [hw, Device.read_record, Device.read_record]
    exact Device.read_write_same _ b1
  · rw [hf, Device.block_free_ne _ n41, Device.block_free_ne _ n42,
      Device.block_free_ne _ n43, h5, Device.block_record, Device.block_record, h4]
    exact Device.block_malloc_fresh Dl c
  · subst hf h5 h4 hl hw h3 h2 h1
    simp
  · intro p w hp
    have hlt : (p : Nat) < d.fresh := Device.lt_fresh_of_read hp
    have m1 : p ≠ d.fresh := Nat.ne_of_lt hlt
    have m2 : p ≠ D1.fresh := Nat.ne_of_lt (Nat.lt_trans hlt o1)
    have m3 : p ≠ D2.fresh := Nat.ne_of_lt (Nat.lt_trans hlt (Nat.lt_trans o1 o2))
    have r3 : D3.read p = some w := by
      rw [h3, h2, h1]
      exact Device.read_malloc_of_some _ (Device.read_malloc_of_some _ (Device.read_malloc_of_some _ hp))
    refine ⟨r3, ?_⟩
    rw [hf, Device.read_free_ne _ m1, Device.read_free_ne _ m2,
      Device.read_free_ne _ m3, h5, Device.read_record, Device.read_record, h4]
    apply Device.read_malloc_of_some
    rw [hl, hw, Device.read_record, Device.read_record, Device.read_record,
      Device.read_write_ne _ _ m1]
    exact r3


theorem OPTIX_CHECK_success : OPTIX_CHECK OPTIX_SUCCESS = .ok () := rfl

theorem CUDA_SYNC_CHECK_ok {be : Backend α} (h : be.succeeds) (d : Device α) :
    CUDA_SYNC_CHECK be d = .ok (d.record .sync) := by
  unfold CUDA_SYNC_CHECK
  rw [if_pos (h.2.2.2.2.2 _)]

theorem bind_ok_eq {ε β γ : Type} (a : β) (f : β → Except ε γ) :
    (Except.ok a >>= f) = f a := rfl


section
variable {α : Type}

theorem CUDABuffer.alloc_and_upload_read_self (b : CUDABuffer) (es n : Nat) (data : DevData α)
    (d : Device α) :
    (b.alloc_and_upload es n data d).2.read (b.alloc_and_upload es n data d).1.d_ptr
      = some data := by
  show ((((d.malloc (n * es)).2.write d.fresh data).record _).read d.fresh) = _
  rw [Device.read_record]
  exact Device.read_write_same _ (Device.block_malloc_fresh d _)

theorem CUDABuffer.alloc_and_upload_read_of_some (b : CUDABuffer) (es n : Nat) (data : DevData α)
    {d : Device α} {p : CUdeviceptr} {w : DevData α} (h : d.read p = some w) :
    (b.alloc_and_upload es n data d).2.read p = some w := by
  show ((((d.malloc (n * es)).2.write d.fresh data).record _).read p) = _
  rw [Device.read_record, Device.read_write_ne _ _ (Nat.ne_of_lt (Device.lt_fresh_of_read h))]
  exact Device.read_malloc_of_some _ h

theorem CUDABuffer.alloc_and_upload_calls (b : CUDABuffer) (es n : Nat) (data : DevData α) (d : Device α) :
    (b.alloc_and_upload es n data d).2.calls
      = d.calls ++ [.memcpyHtoD (b.alloc_and_upload es n data d).1.d_ptr (n * es)] := rfl

theorem CUDABuffer.alloc_and_upload_next (b : CUDABuffer) (es n : Nat) (data : DevData α) (d : Device α) :
    (b.alloc_and_upload es n data d).2.next = (b.alloc_and_upload es n data d).1.d_ptr := rfl

theorem CUDABuffer.alloc_and_upload_ptr (b : CUDABuffer) (es n : Nat) (data : DevData α) (d : Device α) :
    (b.alloc_and_upload es n data d).1.d_ptr = d.fresh := rfl

end


theorem getD_set_self {β : Type} {l : List β} {k : Nat} (h : k < l.length) (x d : β) :
    (l.set k x).getD k d = x := by
  rw [List.getD_eq_getElem?_getD, List.getElem?_set_self h]
  rfl

/-- The triangle build input that `buildAccelMeshes` writes for a mesh whose vertex and
index buffers are at `vp` and `ip`. -/
theorem buildAccelMeshes_body_spec (s : SampleRenderer α × BuildLocals) (k : Nat)
    (mesh : TriangleMesh α) :
    (buildAccelMeshes.body s (k, mesh)).1 =
      { s.1 with
        vertexBuffer := (buildAccelMeshes.body s (k, mesh)).1.vertexBuffer
        indexBuffer := (buildAccelMeshes.body s (k, mesh)).1.indexBuffer
        device := (buildAccelMeshes.body s (k, mesh)).1.device } ∧
    (buildAccelMeshes.body s (k, mesh)).1.vertexBuffer.length = s.1.vertexBuffer.length ∧
    (buildAccelMeshes.body s (k, mesh)).1.indexBuffer.length = s.1.indexBuffer.length ∧
    (buildAccelMeshes.body s (k, mesh)).2.geometryInput.length = s.2.geometryInput.length ∧
    (buildAccelMeshes.body s (k, mesh)).2.d_vertices.length = s.2.d_vertices.length ∧
    (buildAccelMeshes.body s (k, mesh)).2.d_indices.length = s.2.d_indices.length ∧
    (buildAccelMeshes.body s (k, mesh)).2.geometryInputFlags.length
      = s.2.geometryInputFlags.length ∧
    (∀ p w, s.1.device.read p = some w →
      (buildAccelMeshes.body s (k, mesh)).1.device.read p = some w) ∧
    (∀ j, j ≠ k →
      (buildAccelMeshes.body s (k, mesh)).1.vertexBuffer[j]? = s.1.vertexBuffer[j]? ∧
      (buildAccelMeshes.body s (k, mesh)).1.indexBuffer[j]? = s.1.indexBuffer[j]? ∧
      (buildAccelMeshes.body s (k, mesh)).2.geometryInput[j]? = s.2.geometryInput[j]?) ∧
    (k < s.1.vertexBuffer.length → k < s.1.indexBuffer.length →
      k < s.2.geometryInput.length → k < s.2.d_vertices.length → k < s.2.d_indices.length →
      k < s.2.geometryInputFlags.length →
      ∃ vb ib : CUDABuffer,
        (buildAccelMeshes.body s (k, mesh)).1.vertexBuffer[k]? = some vb ∧
        (buildAccelMeshes.body s (k, mesh)).1.indexBuffer[k]? = some ib ∧
        (buildAccelMeshes.body s (k, mesh)).1.device.read vb.d_ptr
          = some (.vertices mesh.vertex) ∧
        (buildAccelMeshes.body s (k, mesh)).1.device.read ib.d_ptr
          = some (.indices mesh.index) ∧
        (buildAccelMeshes.body s (k, mesh)).2.geometryInput[k]? = some (.triangles
          ⟨vb.d_ptr, castInt mesh.vertex.length, .float3, sizeof_vec3f,
           ib.d_ptr, castInt mesh.index.length, .unsignedInt3, sizeof_vec3i,
           OPTIX_GEOMETRY_FLAG_NONE, 1, 0, 0, 0⟩)) := by
  refine ⟨rfl, ?_, ?_, ?_, ?_, ?_, ?_, ?_, ?_, ?_⟩
  · simp [buildAccelMeshes.body]
  · simp [buildAccelMeshes.body]
  · simp [buildAccelMeshes.body]
  · simp [buildAccelMeshes.body]
  · simp [buildAccelMeshes.body]
  · simp [buildAccelMeshes.body]
  · intro p w hp
    exact CUDABuffer.alloc_and_upload_read_of_some _ _ _ _
      (CUDABuffer.alloc_and_upload_read_of_some _ _ _ _ hp)
  · intro j hj
    have hj' : k ≠ j := fun e => hj e.symm
    simp only [buildAccelMeshes.body]
    exact ⟨List.getElem?_set_ne hj', List.getElem?_set_ne hj', List.getElem?_set_ne hj'⟩
  · intro hv hi hg hdv hdi hf
    refine ⟨_, _, List.getElem?_set_self hv, List.getElem?_set_self hi, ?_, ?_, ?_⟩
    · exact CUDABuffer.alloc_and_upload_read_of_some _ _ _ _
        (CUDABuffer.alloc_and_upload_read_self _ _ _ _ _)
    · exact CUDABuffer.alloc_and_upload_read_self _ _ _ _ _
    · simp only [buildAccelMeshes.body]
      rw [List.getElem?_set_self hg, getD_set_self hdv, getD_set_self hdi, getD_set_self hf,
        getD_set_self hv, getD_set_self (by simpa using hi)]
      rfl


theorem frame_trans {a b c : SampleRenderer α}
    (h1 : b = { a with vertexBuffer := b.vertexBuffer, indexBuffer := b.indexBuffer,
                       device := b.device })
    (h2 : c = { b with vertexBuffer := c.vertexBuffer, indexBuffer := c.indexBuffer,
                       device := c.device }) :
    c = { a with vertexBuffer := c.vertexBuffer, indexBuffer := c.indexBuffer,
                 device := c.device } := by
  cases a; cases b; cases c
  simp only [SampleRenderer.mk.injEq] at h1 h2 ⊢
  obtain ⟨a1, a2, a3, a4, a5, a6, a7, a8, a9, a10, a11, a12, a13, a14, -, -, a17, a18, a19, a20, -,
    a22, a23, a24, a25, a26, a27, a28⟩ := h1
  obtain ⟨b1, b2, b3, b4, b5, b6, b7, b8, b9, b10, b11, b12, b13, b14, -, -, b17, b18, b19, b20, -,
    b22, b23, b24, b25, b26, b27, b28⟩ := h2
  subst_vars
  simp


theorem buildAccelMeshes_loop_spec (ms : List (TriangleMesh α)) :
    ∀ (k : Nat) (s : SampleRenderer α × BuildLocals),
      ((ms.enumFrom k).foldl buildAccelMeshes.body s).1 =
        { s.1 with
          vertexBuffer := ((ms.enumFrom k).foldl buildAccelMeshes.body s).1.vertexBuffer
          indexBuffer := ((ms.enumFrom k).foldl buildAccelMeshes.body s).1.indexBuffer
          device := ((ms.enumFrom k).foldl buildAccelMeshes.body s).1.device } ∧
      (((ms.enumFrom k).foldl buildAccelMeshes.body s).1.vertexBuffer.length
          = s.1.vertexBuffer.length ∧
        ((ms.enumFrom k).foldl buildAccelMeshes.body s).1.indexBuffer.length
          = s.1.indexBuffer.length ∧
        ((ms.enumFrom k).foldl buildAccelMeshes.body s).2.geometryInput.length
          = s.2.geometryInput.length ∧
        ((ms.enumFrom k).foldl buildAccelMeshes.body s).2.d_vertices.length
          = s.2.d_vertices.length ∧
        ((ms.enumFrom k).foldl buildAccelMeshes.body s).2.d_indices.length
          = s.2.d_indices.length ∧
        ((ms.enumFrom k).foldl buildAccelMeshes.body s).2.geometryInputFlags.length
          = s.2.geometryInputFlags.length) ∧
      (∀ p w, s.1.device.read p = some w →
        ((ms.enumFrom k).foldl buildAccelMeshes.body s).1.device.read p = some w) ∧
      (∀ j, j < k →
        ((ms.enumFrom k).foldl buildAccelMeshes.body s).1.vertexBuffer[j]? = s.1.vertexBuffer[j]? ∧
        ((ms.enumFrom k).foldl buildAccelMeshes.body s).1.indexBuffer[j]? = s.1.indexBuffer[j]? ∧
        ((ms.enumFrom k).foldl buildAccelMeshes.body s).2.geometryInput[j]?
          = s.2.geometryInput[j]?) ∧
      (k + ms.length ≤ s.1.vertexBuffer.length → k + ms.length ≤ s.1.indexBuffer.length →
        k + ms.length ≤ s.2.geometryInput.length → k + ms.length ≤ s.2.d_vertices.length →
        k + ms.length ≤ s.2.d_indices.length → k + ms.length ≤ s.2.geometryInputFlags.length →
        ∀ i mesh, ms[i]? = some mesh →
          MeshUploaded ((ms.enumFrom k).foldl buildAccelMeshes.body s) (k + i) mesh) := by
  induction ms with
  | nil =>
    intro k s
    refine ⟨rfl, ⟨rfl, rfl, rfl, rfl, rfl, rfl⟩, fun _ _ h => h, fun _ _ => ⟨rfl, rfl, rfl⟩, ?_⟩
    intro _ _ _ _ _ _ i mesh h
    simp at h
  | cons m t ih =>
    intro k s
    rw [List.enumFrom_cons, List.foldl_cons]
    obtain ⟨b1, b2, b3, b4, b5, b6, b7, b8, b9, b10⟩ := buildAccelMeshes_body_spec s k m
    obtain ⟨i1, ⟨i2, i3, i4, i5, i6, i7⟩, i8, i9, i10⟩ := ih (k + 1) (buildAccelMeshes.body s (k, m))
    refine ⟨frame_trans b1 i1,
      ⟨i2.trans b2, i3.trans b3, i4.trans b4, i5.trans b5, i6.trans b6, i7.trans b7⟩,
      fun p w h => i8 p w (b8 p w h), ?_, ?_⟩
    · intro j hj
      have h1 := i9 j (Nat.lt_succ_of_lt hj)
      have h2 := b9 j (Nat.ne_of_lt hj)
      exact ⟨h1.1.trans h2.1, h1.2.1.trans h2.2.1, h1.2.2.trans h2.2.2⟩
    · intro hv hi hg hdv hdi hf i mesh hmesh
      simp only [List.length_cons] at hv hi hg hdv hdi hf
      cases i with
      | zero =>
        simp only [List.getElem?_cons_zero, Option.some.injEq] at hmesh
        subst hmesh
        obtain ⟨vb, ib, u1, u2, u3, u4, u5⟩ :=
          b10 (by omega) (by omega) (by omega) (by omega) (by omega) (by omega)
        have h1 := i9 k (Nat.lt_succ_self k)
        exact ⟨vb, ib, h1.1.trans u1, h1.2.1.trans u2, i8 _ _ u3, i8 _ _ u4, h1.2.2.trans u5⟩
      | succ i =>
        simp only [List.getElem?_cons_succ] at hmesh
        have := i10 (by omega) (by omega) (by omega) (by omega) (by omega) (by omega) i mesh hmesh
        rw [show k + (i + 1) = k + 1 + i by omega]
        exact this



theorem length_resizeBuffers (v : List CUDABuffer) (n : Nat) : (resizeBuffers v n).length = n := by
  unfold resizeBuffers
  simp only [List.length_append, List.length_take, List.length_replicate]
  omega

theorem buildAccelMeshes_spec {be : Backend α} (hbe : be.succeeds) (r : SampleRenderer α) :
    ∃ h r' bc h1 c cc uc us pre,
      buildAccelMeshes be r = .ok (h, r') ∧
      r' = { r with vertexBuffer := r'.vertexBuffer, indexBuffer := r'.indexBuffer,
                    meshBlasBuffer := r'.meshBlasBuffer, device := r'.device } ∧
      r'.vertexBuffer.length = r.scene.meshes.length ∧
      r'.indexBuffer.length = r.scene.meshes.length ∧
      (∀ (i : Nat) (mesh : TriangleMesh α), r.scene.meshes[i]? = some mesh → ∃ vb ib : CUDABuffer,
        r'.vertexBuffer[i]? = some vb ∧ r'.indexBuffer[i]? = some ib ∧
        r'.device.read vb.d_ptr = some (.vertices mesh.vertex) ∧
        r'.device.read ib.d_ptr = some (.indices mesh.index) ∧
        bc.buildInputs[i]? = some (.triangles
          ⟨vb.d_ptr, castInt mesh.vertex.length, .float3, sizeof_vec3f,
           ib.d_ptr, castInt mesh.index.length, .unsignedInt3, sizeof_vec3i,
           OPTIX_GEOMETRY_FLAG_NONE, 1, 0, 0, 0⟩)) ∧
      bc.buildInputs.length = r.scene.meshes.length ∧
      bc.numBuildInputs = castInt r.scene.meshes.length ∧
      uc = ⟨accelOptions, bc.buildInputs, bc.numBuildInputs⟩ ∧
      r'.device.calls = pre ++
        [.accelComputeMemoryUsage uc us, .accelBuild bc h1 c, .sync,
         .memcpyDtoH bc.emitResult (1 * sizeof_uint64_t), .accelCompact cc h, .sync] ∧
      (be.optixAccelBuild bc).2 = (h1, c) ∧
      cc = ⟨h1, r'.meshBlasBuffer.d_ptr, c⟩ ∧
      (be.optixAccelCompact cc).2 = h ∧
      r'.meshBlasBuffer.sizeInBytes = c ∧
      r'.device.block r'.meshBlasBuffer.d_ptr = some ⟨r'.meshBlasBuffer.d_ptr, c, .raw⟩ ∧
      (∀ p w, r.device.read p = some w → r'.device.read p = some w) := by
  obtain ⟨s1, s2, s3, -, -, -⟩ := id hbe
  unfold buildAccelMeshes
  lift_lets
  intro r0 locals S r1 geometryInput usageCall usage blasBufferSizes d0 cs compactedSizeBuffer
    emitResult tb tempBuffer ob outputBuffer d1 buildCall built asHandle d2
  have e1 : OPTIX_CHECK usage.1 = .ok () := by
    rw [show usage.1 = OPTIX_SUCCESS from s1 _]; rfl
  have e2 : OPTIX_CHECK built.1 = .ok () := by
    rw [show built.1 = OPTIX_SUCCESS from s2 _]; rfl
  have e3 : ∀ c, OPTIX_CHECK (be.optixAccelCompact c).1 = .ok () := by
    intro c; rw [s3 c]; rfl
  have key := fun c e4 e5 => compaction_steps d0 cs.2 tb.2 ob.2 (d2.record .sync)
    ((d2.record .sync).record (.memcpyDtoH compactedSizeBuffer.d_ptr (1 * sizeof_uint64_t)))
    _ _ _ sizeof_uint64_t blasBufferSizes.tempSizeInBytes blasBufferSizes.outputSizeInBytes
    built.2.2 c (.accelBuild buildCall asHandle built.2.2) .sync
    (.memcpyDtoH compactedSizeBuffer.d_ptr (1 * sizeof_uint64_t)) e4 e5
    rfl rfl rfl rfl rfl rfl rfl rfl
  have hdl : downloadedSize (compactedSizeBuffer.download sizeof_uint64_t 1 (d2.record .sync)).1
      = .ok built.2.2 := by
    have := (key 0 .sync .sync).1
    show downloadedSize (Device.read _ _) = _
    rw [show (d2.record Event.sync).read compactedSizeBuffer.d_ptr = _ from this]
    rfl
  obtain ⟨l1, ⟨l2, l3, l4, l5, l6, l7⟩, l8, -, l10⟩ :=
    buildAccelMeshes_loop_spec r.scene.meshes 0 (r0, locals)
  have hlen : ∀ n : Nat, 0 + r.scene.meshes.length ≤ (List.replicate r.scene.meshes.length n).length := by
    intro n; simp
  have hup := l10 (by simp [r0, length_resizeBuffers]) (by simp [r0, length_resizeBuffers])
    (by simp [locals, r0]) (by simp [locals, r0]) (by simp [locals, r0]) (by simp [locals, r0])
  simp only [e1, e2, e3, hdl, CUDA_SYNC_CHECK_ok hbe, bind_ok_eq, pure, Except.pure]
  refine ⟨_, _, buildCall, built.2.1, built.2.2, _, usageCall, usage.2, r1.device.calls,
    rfl, ?_, ?_, ?_, ?_, ?_, ?_, rfl, ?_, rfl, rfl, rfl, rfl, ?_, ?_⟩
  · show ({ r1 with meshBlasBuffer := _, device := _ } : SampleRenderer α) = _
    have hr1 : r1 = _ := l1
    rw [hr1]
  · exact l2.trans (length_resizeBuffers _ _)
  · exact l3.trans (length_resizeBuffers _ _)
  · intro i mesh hmesh
    obtain ⟨vb, ib, u1, u2, u3, u4, u5⟩ := hup i mesh hmesh
    rw [Nat.zero_add] at u1 u2 u5
    exact ⟨vb, ib, u1, u2, ((key _ _ _).2.2.2 _ _ u3).2, ((key _ _ _).2.2.2 _ _ u4).2, u5⟩
  · exact l4.trans (by simp [locals, r0])
  · show castInt r1.scene.meshes.length = _
    have hr1 : r1 = _ := l1
    rw [hr1]
  · refine ((key _ _ _).2.2.1).trans ?_
    show (r1.device.calls ++ [_]) ++ _ = _
    simp only [List.append_assoc, List.singleton_append, List.cons_append, List.nil_append]
    rfl
  · exact (key _ _ _).2.1
  · intro p w hp
    exact ((key _ _ _).2.2.2 p w (l8 p w hp)).2


theorem buildAccelInstances_spec [Zero α] [One α] {be : Backend α} (hbe : be.succeeds)
    (r : SampleRenderer α) (meshes spheres : OptixTraversableHandle) :
    ∃ h r' bc uc us h1 c cc ip,
      buildAccelInstances be r meshes spheres = .ok (h, r') ∧
      r' = { r with sceneTlasBuffer := r'.sceneTlasBuffer, device := r'.device } ∧
      r'.device.calls = r.device.calls ++
        [.memcpyHtoD ip (2 * sizeof_OptixInstance), .accelComputeMemoryUsage uc us,
         .accelBuild bc h1 c, .sync, .memcpyDtoH bc.emitResult (1 * sizeof_uint64_t),
         .accelCompact cc h, .sync] ∧
      bc.buildInputs = [.instances ⟨ip, 2, 0, 0⟩] ∧ bc.numBuildInputs = 1 ∧
      readAt bc.memory ip = some (.instances
        [⟨[1, 0, 0, 0, 0, 1, 0, 0, 0, 0, 1, 0], 0, 0, 255, OPTIX_INSTANCE_FLAG_NONE, meshes⟩,
         ⟨[1, 0, 0, 0, 0, 1, 0, 0, 0, 0, 1, 0], 1, castUInt32 r.scene.meshes.length, 255,
           OPTIX_INSTANCE_FLAG_NONE, spheres⟩]) ∧
      (be.optixAccelBuild bc).2 = (h1, c) ∧
      cc = ⟨h1, r'.sceneTlasBuffer.d_ptr, c⟩ ∧
      (be.optixAccelCompact cc).2 = h ∧
      r'.sceneTlasBuffer.sizeInBytes = c ∧
      r'.device.block r'.sceneTlasBuffer.d_ptr = some ⟨r'.sceneTlasBuffer.d_ptr, c, .raw⟩ ∧
      (∀ p w, r.device.read p = some w → r'.device.read p = some w) := by
  obtain ⟨s1, s2, s3, -, -, -⟩ := id hbe
  unfold buildAccelInstances
  lift_lets
  intro transform instances meshInstance instances1 sphereInstance instances2 ibuf instanceBuffer
    buildInput usageCall usage tlasBufferSizes d0 cs compactedSizeBuffer emitResult tb tempBuffer
    ob outputBuffer d1 buildCall built asHandle d2
  have e1 : OPTIX_CHECK usage.1 = .ok () := by
    rw [show usage.1 = OPTIX_SUCCESS from s1 _]; rfl
  have e2 : OPTIX_CHECK built.1 = .ok () := by
    rw [show built.1 = OPTIX_SUCCESS from s2 _]; rfl
  have e3 : ∀ c, OPTIX_CHECK (be.optixAccelCompact c).1 = .ok () := by
    intro c; rw [s3 c]; rfl
  have key := fun c e4 e5 => compaction_steps d0 cs.2 tb.2 ob.2 (d2.record .sync)
    ((d2.record .sync).record (.memcpyDtoH compactedSizeBuffer.d_ptr (1 * sizeof_uint64_t)))
    _ _ _ sizeof_uint64_t tlasBufferSizes.tempSizeInBytes tlasBufferSizes.outputSizeInBytes
    built.2.2 c (.accelBuild buildCall asHandle built.2.2) .sync
    (.memcpyDtoH compactedSizeBuffer.d_ptr (1 * sizeof_uint64_t)) e4 e5
    rfl rfl rfl rfl rfl rfl rfl rfl
  have hdl : downloadedSize (compactedSizeBuffer.download sizeof_uint64_t 1 (d2.record .sync)).1
      = .ok built.2.2 := by
    have := (key 0 .sync .sync).1
    show downloadedSize (Device.read _ _) = _
    rw [show (d2.record Event.sync).read compactedSizeBuffer.d_ptr = _ from this]
    rfl
  simp only [e1, e2, e3, hdl, CUDA_SYNC_CHECK_ok hbe, bind_ok_eq, pure, Except.pure]
  refine ⟨_, _, buildCall, usageCall, usage.2, built.2.1, built.2.2, _, instanceBuffer.d_ptr,
    rfl, rfl, ?_, rfl, rfl, ?_, rfl, rfl, rfl, rfl, ?_, ?_⟩
  · refine ((key _ _ _).2.2.1).trans ?_
    show (r.device.calls ++ [_] ++ [_]) ++ _ = _
    simp only [List.append_assoc, List.singleton_append, List.cons_append, List.nil_append]
    rfl
  · exact ((key 0 .sync .sync).2.2.2 _ _
      (CUDABuffer.alloc_and_upload_read_self _ _ _ _ _)).1
  · exact (key _ _ _).2.1
  · intro p w hp
    exact ((key _ _ _).2.2.2 p w (CUDABuffer.alloc_and_upload_read_of_some _ _ _ _ hp)).2



theorem frame_trans_aabb {a b c : SampleRenderer α}
    (h1 : b = { a with aabbBuffer := b.aabbBuffer, device := b.device })
    (h2 : c = { b with aabbBuffer := c.aabbBuffer, device := c.device }) :
    c = { a with aabbBuffer := c.aabbBuffer, device := c.device } := by
  rw [h2, h1]

theorem buildAccelSpheres_body_spec [Neg α] (s : SampleRenderer α × BuildLocals) (k : Nat)
    (sphere : Sphere α) :
    (buildAccelSpheres.body s (k, sphere)).1 =
      { s.1 with
        aabbBuffer := (buildAccelSpheres.body s (k, sphere)).1.aabbBuffer
        device := (buildAccelSpheres.body s (k, sphere)).1.device } ∧
    ((buildAccelSpheres.body s (k, sphere)).1.aabbBuffer.length = s.1.aabbBuffer.length ∧
      (buildAccelSpheres.body s (k, sphere)).2.geometryInput.length = s.2.geometryInput.length ∧
      (buildAccelSpheres.body s (k, sphere)).2.d_vertices.length = s.2.d_vertices.length ∧
      (buildAccelSpheres.body s (k, sphere)).2.geometryInputFlags.length
        = s.2.geometryInputFlags.length) ∧
    (∀ p w, s.1.device.read p = some w →
      (buildAccelSpheres.body s (k, sphere)).1.device.read p = some w) ∧
    (∀ j, j ≠ k →
      (buildAccelSpheres.body s (k, sphere)).1.aabbBuffer[j]? = s.1.aabbBuffer[j]? ∧
      (buildAccelSpheres.body s (k, sphere)).2.geometryInput[j]? = s.2.geometryInput[j]?) ∧
    (k < s.1.aabbBuffer.length → k < s.2.geometryInput.length → k < s.2.d_vertices.length →
      k < s.2.geometryInputFlags.length →
      SphereUploaded (buildAccelSpheres.body s (k, sphere)) k sphere) := by
  refine ⟨rfl, ⟨?_, ?_, ?_, ?_⟩, ?_, ?_, ?_⟩
  · simp [buildAccelSpheres.body]
  · simp [buildAccelSpheres.body]
  · simp [buildAccelSpheres.body]
  · simp [buildAccelSpheres.body]
  · intro p w hp
    exact CUDABuffer.alloc_and_upload_read_of_some _ _ _ _ hp
  · intro j hj
    have hj' : k ≠ j := fun e => hj e.symm
    simp only [buildAccelSpheres.body]
    exact ⟨List.getElem?_set_ne hj', List.getElem?_set_ne hj'⟩
  · intro ha hg hdv hf
    refine ⟨_, List.getElem?_set_self ha, ?_, ?_⟩
    · exact CUDABuffer.alloc_and_upload_read_self _ _ _ _ _
    · simp only [buildAccelSpheres.body]
      rw [List.getElem?_set_self hg, getD_set_self hdv, getD_set_self hf, getD_set_self ha]
      rfl

theorem buildAccelSpheres_loop_spec [Neg α] (ss : List (Sphere α)) :
    ∀ (k : Nat) (s : SampleRenderer α × BuildLocals),
      ((ss.enumFrom k).foldl buildAccelSpheres.body s).1 =
        { s.1 with
          aabbBuffer := ((ss.enumFrom k).foldl buildAccelSpheres.body s).1.aabbBuffer
          device := ((ss.enumFrom k).foldl buildAccelSpheres.body s).1.device } ∧
      (((ss.enumFrom k).foldl buildAccelSpheres.body s).1.aabbBuffer.length
          = s.1.aabbBuffer.length ∧
        ((ss.enumFrom k).foldl buildAccelSpheres.body s).2.geometryInput.length
          = s.2.geometryInput.length ∧
        ((ss.enumFrom k).foldl buildAccelSpheres.body s).2.d_vertices.length
          = s.2.d_vertices.length ∧
        ((ss.enumFrom k).foldl buildAccelSpheres.body s).2.geometryInputFlags.length
          = s.2.geometryInputFlags.length) ∧
      (∀ p w, s.1.device.read p = some w →
        ((ss.enumFrom k).foldl buildAccelSpheres.body s).1.device.read p = some w) ∧
      (∀ j, j < k →
        ((ss.enumFrom k).foldl buildAccelSpheres.body s).1.aabbBuffer[j]? = s.1.aabbBuffer[j]? ∧
        ((ss.enumFrom k).foldl buildAccelSpheres.body s).2.geometryInput[j]?
          = s.2.geometryInput[j]?) ∧
      (k + ss.length ≤ s.1.aabbBuffer.length → k + ss.length ≤ s.2.geometryInput.length →
        k + ss.length ≤ s.2.d_vertices.length → k + ss.length ≤ s.2.geometryInputFlags.length →
        ∀ (i : Nat) (sphere : Sphere α), ss[i]? = some sphere →
          SphereUploaded ((ss.enumFrom k).foldl buildAccelSpheres.body s) (k + i) sphere) := by
  induction ss with
  | nil =>
    intro k s
    refine ⟨rfl, ⟨rfl, rfl, rfl, rfl⟩, fun _ _ h => h, fun _ _ => ⟨rfl, rfl⟩, ?_⟩
    intro _ _ _ _ i sphere h
    simp at h
  | cons m t ih =>
    intro k s
    rw [List.enumFrom_cons, List.foldl_cons]
    obtain ⟨b1, ⟨b2, b3, b4, b5⟩, b8, b9, b10⟩ := buildAccelSpheres_body_spec s k m
    obtain ⟨i1, ⟨i2, i3, i4, i5⟩, i8, i9, i10⟩ := ih (k + 1) (buildAccelSpheres.body s (k, m))
    refine ⟨frame_trans_aabb b1 i1, ⟨i2.trans b2, i3.trans b3, i4.trans b4, i5.trans b5⟩,
      fun p w h => i8 p w (b8 p w h), ?_, ?_⟩
    · intro j hj
      have h1 := i9 j (Nat.lt_succ_of_lt hj)
      have h2 := b9 j (Nat.ne_of_lt hj)
      exact ⟨h1.1.trans h2.1, h1.2.trans h2.2⟩
    · intro ha hg hdv hf i sphere hsphere
      simp only [List.length_cons] at ha hg hdv hf
      cases i with
      | zero =>
        simp only [List.getElem?_cons_zero, Option.some.injEq] at hsphere
        subst hsphere
        obtain ⟨ab, u1, u2, u3⟩ := b10 (by omega) (by omega) (by omega) (by omega)
        have h1 := i9 k (Nat.lt_succ_self k)
        exact ⟨ab, h1.1.trans u1, i8 _ _ u2, h1.2.trans u3⟩
      | succ i =>
        simp only [List.getElem?_cons_succ] at hsphere
        have := i10 (by omega) (by omega) (by omega) (by omega) i sphere hsphere
        rw [show k + (i + 1) = k + 1 + i by omega]
        exact this

theorem buildAccelSpheres_spec [Neg α] {be : Backend α} (hbe : be.succeeds)
    (r : SampleRenderer α) :
    ∃ h r' bc h1 c cc uc us pre,
      buildAccelSpheres be r = .ok (h, r') ∧
      r' = { r with aabbBuffer := r'.aabbBuffer, sphereBlasBuffer := r'.sphereBlasBuffer,
                    device := r'.device } ∧
      r'.aabbBuffer.length = r.scene.spheres.length ∧
      (∀ (i : Nat) (sphere : Sphere α), r.scene.spheres[i]? = some sphere → ∃ ab : CUDABuffer,
        r'.aabbBuffer[i]? = some ab ∧
        r'.device.read ab.d_ptr = some (.aabb
          ⟨-sphere.radius, -sphere.radius, -sphere.radius,
           sphere.radius, sphere.radius, sphere.radius⟩) ∧
        bc.buildInputs[i]? = some (.customPrimitives
          ⟨ab.d_ptr, 1, 0, OPTIX_GEOMETRY_FLAG_NONE, 1, 0, 0, 0, 0⟩)) ∧
      bc.buildInputs.length = r.scene.spheres.length ∧
      bc.numBuildInputs = castInt r.scene.meshes.length ∧
      uc = ⟨accelOptions, bc.buildInputs, bc.numBuildInputs⟩ ∧
      r'.device.calls = pre ++
        [.accelComputeMemoryUsage uc us, .accelBuild bc h1 c, .sync,
         .memcpyDtoH bc.emitResult (1 * sizeof_uint64_t), .accelCompact cc h, .sync] ∧
      (be.optixAccelBuild bc).2 = (h1, c) ∧
      cc = ⟨h1, r'.sphereBlasBuffer.d_ptr, c⟩ ∧
      (be.optixAccelCompact cc).2 = h ∧
      r'.sphereBlasBuffer.sizeInBytes = c ∧
      r'.device.block r'.sphereBlasBuffer.d_ptr = some ⟨r'.sphereBlasBuffer.d_ptr, c, .raw⟩ ∧
      (∀ p w, r.device.read p = some w → r'.device.read p = some w) := by
  obtain ⟨s1, s2, s3, -, -, -⟩ := id hbe
  unfold buildAccelSpheres
  lift_lets
  intro r0 locals S r1 geometryInput usageCall usage blasBufferSizes d0 cs compactedSizeBuffer
    emitResult tb tempBuffer ob outputBuffer d1 buildCall built asHandle d2
  have e1 : OPTIX_CHECK usage.1 = .ok () := by
    rw [show usage.1 = OPTIX_SUCCESS from s1 _]; rfl
  have e2 : OPTIX_CHECK built.1 = .ok () := by
    rw [show built.1 = OPTIX_SUCCESS from s2 _]; rfl
  have e3 : ∀ c, OPTIX_CHECK (be.optixAccelCompact c).1 = .ok () := by
    intro c; rw [s3 c]; rfl
  have key := fun c e4 e5 => compaction_steps d0 cs.2 tb.2 ob.2 (d2.record .sync)
    ((d2.record .sync).record (.memcpyDtoH compactedSizeBuffer.d_ptr (1 * sizeof_uint64_t)))
    _ _ _ sizeof_uint64_t blasBufferSizes.tempSizeInBytes blasBufferSizes.outputSizeInBytes
    built.2.2 c (.accelBuild buildCall asHandle built.2.2) .sync
    (.memcpyDtoH compactedSizeBuffer.d_ptr (1 * sizeof_uint64_t)) e4 e5
    rfl rfl rfl rfl rfl rfl rfl rfl
  have hdl : downloadedSize (compactedSizeBuffer.download sizeof_uint64_t 1 (d2.record .sync)).1
      = .ok built.2.2 := by
    have := (key 0 .sync .sync).1
    show downloadedSize (Device.read _ _) = _
    rw [show (d2.record Event.sync).read compactedSizeBuffer.d_ptr = _ from this]
    rfl
  obtain ⟨l1, ⟨l2, l3, l4, l5⟩, l8, -, l10⟩ :=
    buildAccelSpheres_loop_spec r.scene.spheres 0 (r0, locals)
  have hup := l10 (by simp [r0, length_resizeBuffers])
    (by simp [locals, r0]) (by simp [locals, r0]) (by simp [locals, r0])
  simp only [e1, e2, e3, hdl, CUDA_SYNC_CHECK_ok hbe, bind_ok_eq, pure, Except.pure]
  refine ⟨_, _, buildCall, built.2.1, built.2.2, _, usageCall, usage.2, r1.device.calls,
    rfl, ?_, ?_, ?_, ?_, ?_, rfl, ?_, rfl, rfl, rfl, rfl, ?_, ?_⟩
  · show ({ r1 with sphereBlasBuffer := _, device := _ } : SampleRenderer α) = _
    have hr1 : r1 = _ := l1
    rw [hr1]
  · exact l2.trans (length_resizeBuffers _ _)
  · intro i sphere hsphere
    obtain ⟨ab, u1, u2, u3⟩ := hup i sphere hsphere
    rw [Nat.zero_add] at u1 u3
    exact ⟨ab, u1, ((key _ _ _).2.2.2 _ _ u2).2, u3⟩
  · exact l3.trans (by simp [locals, r0])
  · show castInt r1.scene.meshes.length = _
    have hr1 : r1 = _ := l1
    rw [hr1]
  · refine ((key _ _ _).2.2.1).trans ?_
    show (r1.device.calls ++ [_]) ++ _ = _
    simp only [List.append_assoc, List.singleton_append, List.cons_append, List.nil_append]
    rfl
  · exact (key _ _ _).2.1
  · intro p w hp
    exact ((key _ _ _).2.2.2 p w (l8 p w hp)).2



theorem castInt_of_lt {n : Nat} (h : n < 2 ^ 31) : castInt n = (n : Int) := by
  unfold castInt
  have h1 : n % 2 ^ 32 = n := Nat.mod_eq_of_lt (by omega)
  rw [h1, if_pos h]

theorem castUInt32_of_lt {n : Nat} (h : n < 2 ^ 32) : castUInt32 n = n :=
  Nat.mod_eq_of_lt h

theorem vectorAt_of_some {β : Type} {v : List β} {i : Nat} {x : β} (h : v[i]? = some x) :
    vectorAt v i = .ok x := by
  unfold vectorAt
  rw [h]

theorem buildSBT_raygen_loop {be : Backend α} (hbe : be.succeeds) (pgs : List OptixProgramGroup) :
    ∀ recs : List RaygenRecord,
      pgs.foldlM (buildSBT.raygenBody be) recs
        = .ok (recs ++ pgs.map (fun pg => ⟨(be.optixSbtRecordPackHeader pg).2, 0⟩)) := by
  induction pgs with
  | nil => intro recs; simp [pure, Except.pure]
  | cons pg t ih =>
    intro recs
    rw [List.foldlM_cons]
    have : buildSBT.raygenBody be recs pg
        = .ok (recs ++ [⟨(be.optixSbtRecordPackHeader pg).2, 0⟩]) := by
      unfold buildSBT.raygenBody
      rw [hbe.2.2.2.1 pg]
      rfl
    rw [this, bind_ok_eq, ih]
    simp

theorem buildSBT_miss_loop {be : Backend α} (hbe : be.succeeds) (pgs : List OptixProgramGroup) :
    ∀ recs : List MissRecord,
      pgs.foldlM (buildSBT.missBody be) recs
        = .ok (recs ++ pgs.map (fun pg => ⟨(be.optixSbtRecordPackHeader pg).2, 0⟩)) := by
  induction pgs with
  | nil => intro recs; simp [pure, Except.pure]
  | cons pg t ih =>
    intro recs
    rw [List.foldlM_cons]
    have : buildSBT.missBody be recs pg
        = .ok (recs ++ [⟨(be.optixSbtRecordPackHeader pg).2, 0⟩]) := by
      unfold buildSBT.missBody
      rw [hbe.2.2.2.1 pg]
      rfl
    rw [this, bind_ok_eq, ih]
    simp

theorem buildSBT_mesh_loop {be : Backend α} (hbe : be.succeeds) (r : SampleRenderer α)
    {pg : OptixProgramGroup} (hpg : r.hitgroupPGs[0]? = some pg) (n : Nat)
    (h1 : n ≤ r.scene.meshes.length) (h2 : n ≤ r.vertexBuffer.length)
    (h3 : n ≤ r.indexBuffer.length) (recs : List (HitgroupRecord α)) :
    ∃ out : List (HitgroupRecord α),
      (List.range n).foldlM (buildSBT.meshBody be r) recs = .ok (recs ++ out) ∧
      out.length = n ∧
      ∀ (i : Nat) (mesh : TriangleMesh α) (vb ib : CUDABuffer), i < n →
        r.scene.meshes[i]? = some mesh → r.vertexBuffer[i]? = some vb →
        r.indexBuffer[i]? = some ib →
        out[i]? = some ⟨(be.optixSbtRecordPackHeader pg).2,
          .triangle_data mesh.color vb.d_ptr ib.d_ptr⟩ := by
  induction n with
  | zero => exact ⟨[], by simp [pure, Except.pure], rfl, fun i _ _ _ hi => absurd hi (by omega)⟩
  | succ n ih =>
    obtain ⟨out, e1, e2, e3⟩ := ih (by omega) (by omega) (by omega)
    obtain ⟨mesh, hm⟩ : ∃ mesh, r.scene.meshes[n]? = some mesh :=
      ⟨r.scene.meshes[n], List.getElem?_eq_getElem (by omega)⟩
    obtain ⟨vb, hv⟩ : ∃ vb, r.vertexBuffer[n]? = some vb :=
      ⟨r.vertexBuffer[n], List.getElem?_eq_getElem (by omega)⟩
    obtain ⟨ib, hi⟩ : ∃ ib, r.indexBuffer[n]? = some ib :=
      ⟨r.indexBuffer[n], List.getElem?_eq_getElem (by omega)⟩
    have step : buildSBT.meshBody be r (recs ++ out) n
        = .ok (recs ++ out ++ [⟨(be.optixSbtRecordPackHeader pg).2,
            .triangle_data mesh.color vb.d_ptr ib.d_ptr⟩]) := by
      unfold buildSBT.meshBody
      rw [vectorAt_of_some hpg, bind_ok_eq, hbe.2.2.2.1 pg, OPTIX_CHECK_success,
        bind_ok_eq, vectorAt_of_some hm, bind_ok_eq, vectorAt_of_some hv,
        bind_ok_eq, vectorAt_of_some hi, bind_ok_eq]
      rfl
    refine ⟨out ++ [⟨(be.optixSbtRecordPackHeader pg).2,
      .triangle_data mesh.color vb.d_ptr ib.d_ptr⟩], ?_, ?_, ?_⟩
    · rw [List.range_succ, List.foldlM_append, e1, bind_ok_eq, List.foldlM_cons, step,
        bind_ok_eq, List.foldlM_nil, List.append_assoc]
      rfl
    · simp [e2]
    · intro i mesh' vb' ib' hlt hm' hv' hi'
      by_cases hin : i < n
      · rw [List.getElem?_append_left (by omega)]
        exact e3 i mesh' vb' ib' hin hm' hv' hi'
      · have : i = n := by omega
        subst this
        rw [hm] at hm'; rw [hv] at hv'; rw [hi] at hi'
        cases hm'; cases hv'; cases hi'
        rw [List.getElem?_append_right (by omega), e2]
        simp

theorem buildSBT_sphere_loop {be : Backend α} (hbe : be.succeeds) (r : SampleRenderer α)
    {pg : OptixProgramGroup} (hpg : r.hitgroupPGs[0]? = some pg) (n : Nat)
    (h1 : n ≤ r.scene.spheres.length) (recs : List (HitgroupRecord α)) :
    ∃ out : List (HitgroupRecord α),
      (List.range n).foldlM (buildSBT.sphereBody be r) recs = .ok (recs ++ out) ∧
      out.length = n ∧
      ∀ (i : Nat) (sphere : Sphere α), i < n → r.scene.spheres[i]? = some sphere →
        out[i]? = some ⟨(be.optixSbtRecordPackHeader pg).2,
          .sphere_data sphere.color sphere.radius⟩ := by
  induction n with
  | zero => exact ⟨[], by simp [pure, Except.pure], rfl, fun i _ hi => absurd hi (by omega)⟩
  | succ n ih =>
    obtain ⟨out, e1, e2, e3⟩ := ih (by omega)
    obtain ⟨sphere, hm⟩ : ∃ sphere, r.scene.spheres[n]? = some sphere :=
      ⟨r.scene.spheres[n], List.getElem?_eq_getElem (by omega)⟩
    have step : buildSBT.sphereBody be r (recs ++ out) n
        = .ok (recs ++ out ++ [⟨(be.optixSbtRecordPackHeader pg).2,
            .sphere_data sphere.color sphere.radius⟩]) := by
      unfold buildSBT.sphereBody
      rw [vectorAt_of_some hpg, bind_ok_eq, hbe.2.2.2.1 pg, OPTIX_CHECK_success,
        bind_ok_eq, vectorAt_of_some hm, bind_ok_eq]
      rfl
    refine ⟨out ++ [⟨(be.optixSbtRecordPackHeader pg).2,
      .sphere_data sphere.color sphere.radius⟩], ?_, ?_, ?_⟩
    · rw [List.range_succ, List.foldlM_append, e1, bind_ok_eq, List.foldlM_cons, step,
        bind_ok_eq, List.foldlM_nil, List.append_assoc]
      rfl
    · simp [e2]
    · intro i sphere' hlt hm'
      by_cases hin : i < n
      · rw [List.getElem?_append_left (by omega)]
        exact e3 i sphere' hin hm'
      · have : i = n := by omega
        subst this
        rw [hm] at hm'
        cases hm'
        rw [List.getElem?_append_right (by omega), e2]
        simp



theorem lt_length_of_getElem? {β : Type} {l : List β} {i : Nat} {x : β} (h : l[i]? = some x) :
    i < l.length := by
  by_contra hn
  rw [List.getElem?_eq_none (by omega)] at h
  cases h

theorem buildSBT_spec {be : Backend α} (hbe : be.succeeds) (r : SampleRenderer α)
    {pg : OptixProgramGroup} (hpg : r.hitgroupPGs[0]? = some pg)
    (hcount : r.scene.meshes.length + r.scene.spheres.length < 2 ^ 31)
    (hv : r.scene.meshes.length ≤ r.vertexBuffer.length)
    (hi : r.scene.meshes.length ≤ r.indexBuffer.length) :
    ∃ (r' : SampleRenderer α) (recs : List (HitgroupRecord α)),
      buildSBT be r = .ok r' ∧
      r' = { r with raygenRecordsBuffer := r'.raygenRecordsBuffer,
                    missRecordsBuffer := r'.missRecordsBuffer,
                    hitgroupRecordsBuffer := r'.hitgroupRecordsBuffer,
                    sbt := r'.sbt, device := r'.device } ∧
      r'.sbt.hitgroupRecordBase = r'.hitgroupRecordsBuffer.d_ptr ∧
      r'.device.read r'.sbt.hitgroupRecordBase = some (.hitgroupRecords recs) ∧
      recs.length = r.scene.meshes.length + r.scene.spheres.length ∧
      r'.sbt.hitgroupRecordCount
        = ((r.scene.meshes.length + r.scene.spheres.length : Nat) : Int) ∧
      (∀ (i : Nat) (mesh : TriangleMesh α) (vb ib : CUDABuffer),
        r.scene.meshes[i]? = some mesh → r.vertexBuffer[i]? = some vb →
        r.indexBuffer[i]? = some ib →
        recs[i]? = some ⟨(be.optixSbtRecordPackHeader pg).2,
          .triangle_data mesh.color vb.d_ptr ib.d_ptr⟩) ∧
      (∀ (j : Nat) (sphere : Sphere α), r.scene.spheres[j]? = some sphere →
        recs[r.scene.meshes.length + j]? = some ⟨(be.optixSbtRecordPackHeader pg).2,
          .sphere_data sphere.color sphere.radius⟩) ∧
      (∀ p w, r.device.read p = some w → r'.device.read p = some w) := by
  have main : ∀ res, buildSBT be r = res →
      ∃ (r' : SampleRenderer α) (recs : List (HitgroupRecord α)),
      res = .ok r' ∧
      r' = { r with raygenRecordsBuffer := r'.raygenRecordsBuffer,
                    missRecordsBuffer := r'.missRecordsBuffer,
                    hitgroupRecordsBuffer := r'.hitgroupRecordsBuffer,
                    sbt := r'.sbt, device := r'.device } ∧
      r'.sbt.hitgroupRecordBase = r'.hitgroupRecordsBuffer.d_ptr ∧
      r'.device.read r'.sbt.hitgroupRecordBase = some (.hitgroupRecords recs) ∧
      recs.length = r.scene.meshes.length + r.scene.spheres.length ∧
      r'.sbt.hitgroupRecordCount
        = ((r.scene.meshes.length + r.scene.spheres.length : Nat) : Int) ∧
      (∀ (i : Nat) (mesh : TriangleMesh α) (vb ib : CUDABuffer),
        r.scene.meshes[i]? = some mesh → r.vertexBuffer[i]? = some vb →
        r.indexBuffer[i]? = some ib →
        recs[i]? = some ⟨(be.optixSbtRecordPackHeader pg).2,
          .triangle_data mesh.color vb.d_ptr ib.d_ptr⟩) ∧
      (∀ (j : Nat) (sphere : Sphere α), r.scene.spheres[j]? = some sphere →
        recs[r.scene.meshes.length + j]? = some ⟨(be.optixSbtRecordPackHeader pg).2,
          .sphere_data sphere.color sphere.radius⟩) ∧
      (∀ p w, r.device.read p = some w → r'.device.read p = some w) := by
    intro res hres
    unfold buildSBT at hres
    rw [buildSBT_raygen_loop hbe, bind_ok_eq] at hres
    lift_lets at hres
    extract_lets rb ra src1 rb1 recs0 at hres
    rw [buildSBT_miss_loop hbe, bind_ok_eq] at hres
    lift_lets at hres
    extract_lets mb rc src2 rd numMeshes numSpheres at hres
    have hnm : numMeshes.toNat = r.scene.meshes.length := by
      show (castInt r.scene.meshes.length).toNat = _
      rw [castInt_of_lt (by omega)]; rfl
    have hns : numSpheres.toNat = r.scene.spheres.length := by
      show (castInt r.scene.spheres.length).toNat = _
      rw [castInt_of_lt (by omega)]; rfl
    obtain ⟨out1, m1, m2, m3⟩ := buildSBT_mesh_loop hbe rd hpg r.scene.meshes.length
      (Nat.le_refl _) hv hi []
    rw [hnm, m1, bind_ok_eq, hns] at hres
    obtain ⟨out2, p1, p2, p3⟩ := buildSBT_sphere_loop hbe rd hpg r.scene.spheres.length
      (Nat.le_refl _) ([] ++ out1)
    rw [p1, bind_ok_eq] at hres
    lift_lets at hres
    extract_lets hb re src3 rf at hres
    have hlen : ([] ++ out1 ++ out2).length = r.scene.meshes.length + r.scene.spheres.length := by
      simp [m2, p2]
    refine ⟨rf, [] ++ out1 ++ out2, hres.symm, rfl, rfl,
      CUDABuffer.alloc_and_upload_read_self _ _ _ _ _, hlen, ?_, ?_, ?_, ?_⟩
    · show castInt ([] ++ out1 ++ out2).length = _
      rw [hlen, castInt_of_lt hcount]
    · intro i mesh vb ib hm hvb hib
      have hlt := lt_length_of_getElem? hm
      rw [List.append_assoc, List.nil_append, List.getElem?_append_left (by omega)]
      exact m3 i mesh vb ib hlt hm hvb hib
    · intro j sphere hs
      have hlt := lt_length_of_getElem? hs
      have hl1 : ([] ++ out1).length = r.scene.meshes.length := by simp [m2]
      rw [List.getElem?_append_right (by omega), hl1, Nat.add_sub_cancel_left]
      exact p3 j sphere hlt hs
    · intro p w hp
      exact CUDABuffer.alloc_and_upload_read_of_some _ _ _ _
        (CUDABuffer.alloc_and_upload_read_of_some _ _ _ _
          (CUDABuffer.alloc_and_upload_read_of_some _ _ _ _ hp))
  exact main _ rfl

end Lemmas

/-! ## Further lemmas used by the claims -/

theorem okBackend_succeeds (α : Type) : (okBackend α).succeeds :=
  ⟨fun _ => rfl, fun _ => rfl, fun _ => rfl, fun _ => rfl, fun _ => rfl, fun _ => rfl⟩

section
variable {α : Type}

theorem buildAccelMeshes_one_record {be : Backend α} (hbe : be.succeeds) (r : SampleRenderer α) :
    ∃ (h : OptixTraversableHandle) (r1 : SampleRenderer α) (bc : AccelBuildCall α)
      (h1 c : Nat) (pre post : List (Event α)),
      buildAccelMeshes be r = .ok (h, r1) ∧
      r1.device.calls = pre ++ .accelBuild bc h1 c :: post ∧
      bc.buildInputs.length = r.scene.meshes.length ∧
      ∀ gi ∈ bc.buildInputs, gi.numSbtRecords = 1 := by
  obtain ⟨h, r1, bc, h1, c, cc, uc, us, pre, e, -, -, -, hmesh, hlen, -, -, hcalls, -⟩ :=
    buildAccelMeshes_spec hbe r
  refine ⟨h, r1, bc, h1, c, pre ++ [.accelComputeMemoryUsage uc us],
    [.sync, .memcpyDtoH bc.emitResult (1 * sizeof_uint64_t), .accelCompact cc h, .sync],
    e, ?_, hlen, ?_⟩
  · rw [hcalls]
    exact (List.append_assoc _ [_] _).symm
  · intro gi hgi
    obtain ⟨i, hi, rfl⟩ := List.mem_iff_getElem.1 hgi
    obtain ⟨vb, ib, -, -, -, -, hb⟩ :=
      hmesh i r.scene.meshes[i] (List.getElem?_eq_getElem (by omega))
    rw [List.getElem?_eq_getElem hi] at hb
    rw [Option.some.inj hb]
    rfl

theorem buildAccelSpheres_one_record [Neg α] {be : Backend α} (hbe : be.succeeds)
    (r : SampleRenderer α) :
    ∃ (h : OptixTraversableHandle) (r1 : SampleRenderer α) (bc : AccelBuildCall α)
      (h1 c : Nat) (pre post : List (Event α)),
      buildAccelSpheres be r = .ok (h, r1) ∧
      r1.device.calls = pre ++ .accelBuild bc h1 c :: post ∧
      bc.buildInputs.length = r.scene.spheres.length ∧
      ∀ gi ∈ bc.buildInputs, gi.numSbtRecords = 1 := by
  obtain ⟨h, r1, bc, h1, c, cc, uc, us, pre, e, -, -, hsph, hlen, -, -, hcalls, -⟩ :=
    buildAccelSpheres_spec hbe r
  refine ⟨h, r1, bc, h1, c, pre ++ [.accelComputeMemoryUsage uc us],
    [.sync, .memcpyDtoH bc.emitResult (1 * sizeof_uint64_t), .accelCompact cc h, .sync],
    e, ?_, hlen, ?_⟩
  · rw [hcalls]
    exact (List.append_assoc _ [_] _).symm
  · intro gi hgi
    obtain ⟨i, hi, rfl⟩ := List.mem_iff_getElem.1 hgi
    obtain ⟨ab, -, -, hb⟩ :=
      hsph i r.scene.spheres[i] (List.getElem?_eq_getElem (by omega))
    rw [List.getElem?_eq_getElem hi] at hb
    rw [Option.some.inj hb]
    rfl

end

section
variable {α : Type}

theorem wrapInt_of_range {i : Int} (h0 : 0 ≤ i) (h1 : i < 2 ^ 31) : wrapInt i = i := by
  unfold wrapInt
  have : i % 2 ^ 32 = i := Int.emod_eq_of_lt h0 (by omega)
  rw [this, if_pos h1]

theorem castSizeT_of_range {i : Int} (h0 : 0 ≤ i) (h1 : i < 2 ^ 31) : castSizeT i = i.toNat := by
  unfold castSizeT
  rw [Int.emod_eq_of_lt h0 (by omega)]

theorem pixelBytes_of_range {w h : Int} (h0 : 0 ≤ w * h) (h1 : w * h < 2 ^ 31) :
    castSizeT (wrapInt (w * h)) * sizeof_uint32_t % 2 ^ 64 = 4 * (w * h).toNat := by
  rw [wrapInt_of_range h0 h1, castSizeT_of_range h0 h1]
  have : (w * h).toNat < 2 ^ 31 := by omega
  unfold sizeof_uint32_t
  omega

theorem CUDABuffer_resize_spec (b : CUDABuffer) {n m : Nat} (hn : n = m) (d : Device α) :
    (b.resize n d).1.sizeInBytes = m ∧
    (b.resize n d).2.block (b.resize n d).1.d_ptr = some ⟨(b.resize n d).1.d_ptr, m, .raw⟩ ∧
    (b.resize n d).2.calls = d.calls := by
  subst hn
  unfold CUDABuffer.resize
  split
  · exact ⟨rfl, Device.block_malloc_fresh _ n, rfl⟩
  · exact ⟨rfl, Device.block_malloc_fresh _ n, rfl⟩

end

/-! ## The camera basis over the reals -/

section Camera

theorem vec3_dot_self_pos {v : vec3 ℝ} (hv : v ≠ ⟨0, 0, 0⟩) : 0 < vec3.dot v v := by
  obtain ⟨x, y, z⟩ := v
  unfold vec3.dot
  simp only
  by_contra hle
  have hx := sq_nonneg x
  have hy := sq_nonneg y
  have hz := sq_nonneg z
  have h0 : x * x + y * y + z * z = 0 := by nlinarith
  have ex : x = 0 := by nlinarith
  have ey : y = 0 := by nlinarith
  have ez : z = 0 := by nlinarith
  exact hv (by rw [ex, ey, ez])

theorem vec3_dot_smul (a b : ℝ) (u v : vec3 ℝ) :
    vec3.dot (vec3.smul a u) (vec3.smul b v) = a * b * vec3.dot u v := by
  unfold vec3.dot vec3.smul
  simp only
  ring

theorem vec3_dot_smul_left (a : ℝ) (u v : vec3 ℝ) :
    vec3.dot (vec3.smul a u) v = a * vec3.dot u v := by
  unfold vec3.dot vec3.smul
  simp only
  ring

theorem vec3_cross_smul_left (a : ℝ) (u v : vec3 ℝ) :
    vec3.cross (vec3.smul a u) v = vec3.smul a (vec3.cross u v) := by
  unfold vec3.cross vec3.smul
  simp only [vec3.mk.injEq]
  refine ⟨?_, ?_, ?_⟩ <;> ring

theorem vec3_dot_cross_left (u v : vec3 ℝ) : vec3.dot (vec3.cross u v) u = 0 := by
  unfold vec3.dot vec3.cross
  simp only
  ring

theorem vec3_dot_cross_right (u v : vec3 ℝ) : vec3.dot (vec3.cross u v) v = 0 := by
  unfold vec3.dot vec3.cross
  simp only
  ring

theorem vec3_dot_comm (u v : vec3 ℝ) : vec3.dot u v = vec3.dot v u := by
  unfold vec3.dot
  ring

theorem vec3_lagrange (u v : vec3 ℝ) :
    vec3.dot (vec3.cross u v) (vec3.cross u v)
      = vec3.dot u u * vec3.dot v v - vec3.dot u v * vec3.dot u v := by
  unfold vec3.dot vec3.cross
  simp only
  ring

theorem vec3_normalize_dot_self {v : vec3 ℝ} (hv : 0 < vec3.dot v v) :
    vec3.dot (vec3.normalize Real.sqrt v) (vec3.normalize Real.sqrt v) = 1 := by
  unfold vec3.normalize vec3.length
  rw [vec3_dot_smul]
  have hs : Real.sqrt (vec3.dot v v) * Real.sqrt (vec3.dot v v) = vec3.dot v v :=
    Real.mul_self_sqrt hv.le
  have hne : Real.sqrt (vec3.dot v v) ≠ 0 := (Real.sqrt_pos.2 hv).ne'
  rw [show 1 / Real.sqrt (vec3.dot v v) * (1 / Real.sqrt (vec3.dot v v)) * vec3.dot v v
      = vec3.dot v v / (Real.sqrt (vec3.dot v v) * Real.sqrt (vec3.dot v v)) from by ring, hs]
  exact div_self hv.ne'

theorem vec3_smul_ne_zero {a : ℝ} {v : vec3 ℝ} (ha : a ≠ 0) (hv : v ≠ ⟨0, 0, 0⟩) :
    vec3.smul a v ≠ ⟨0, 0, 0⟩ := by
  obtain ⟨x, y, z⟩ := v
  unfold vec3.smul
  simp only [ne_eq, vec3.mk.injEq, mul_eq_zero, ha, false_or] at hv ⊢
  exact hv

theorem vec3_ne_zero_of_dot_pos {v : vec3 ℝ} (hv : 0 < vec3.dot v v) : v ≠ ⟨0, 0, 0⟩ := by
  intro h
  rw [h] at hv
  unfold vec3.dot at hv
  simp at hv

/-- The camera basis written by `setCamera`, for a frame of size `(w,h)`. -/
theorem setCamera_basis (r : SampleRenderer ℝ) (cam : Camera ℝ) :
    (setCamera Real.sqrt r cam).launchParams.camera.direction
      = vec3.normalize Real.sqrt (vec3.sub cam.at_ cam.from_) ∧
    (setCamera Real.sqrt r cam).launchParams.camera.horizontal
      = vec3.smul (66 / 100 * ((r.launchParams.frame.size.x : ℝ) / (r.launchParams.frame.size.y : ℝ)))
          (vec3.normalize Real.sqrt
            (vec3.cross (vec3.normalize Real.sqrt (vec3.sub cam.at_ cam.from_)) cam.up)) ∧
    (setCamera Real.sqrt r cam).launchParams.camera.vertical
      = vec3.smul (66 / 100)
          (vec3.normalize Real.sqrt
            (vec3.cross (setCamera Real.sqrt r cam).launchParams.camera.horizontal
              (setCamera Real.sqrt r cam).launchParams.camera.direction)) ∧
    (setCamera Real.sqrt r cam).launchParams.camera.position = cam.from_ ∧
    (setCamera Real.sqrt r cam).lastSetCamera = cam ∧
    (setCamera Real.sqrt r cam).launchParams.frame = r.launchParams.frame :=
  ⟨rfl, rfl, rfl, rfl, rfl, rfl⟩

/-- Lengths in the camera basis of a non-degenerate camera on a frame with positive
dimensions: the direction is a unit vector, the horizontal vector is non-zero, the cross
product that is normalised into the vertical vector is non-zero, and the vertical vector has
squared length `(66/100)^2`. -/
theorem setCamera_lengths (r : SampleRenderer ℝ) (cam : Camera ℝ)
    (hw : 0 < r.launchParams.frame.size.x) (hh : 0 < r.launchParams.frame.size.y)
    (hat : cam.at_ ≠ cam.from_)
    (hpar : vec3.cross (vec3.sub cam.at_ cam.from_) cam.up ≠ ⟨0, 0, 0⟩) :
    vec3.dot (setCamera Real.sqrt r cam).launchParams.camera.direction
      (setCamera Real.sqrt r cam).launchParams.camera.direction = 1 ∧
    0 < vec3.dot (setCamera Real.sqrt r cam).launchParams.camera.horizontal
      (setCamera Real.sqrt r cam).launchParams.camera.horizontal ∧
    0 < vec3.dot
      (vec3.cross (setCamera Real.sqrt r cam).launchParams.camera.horizontal
        (setCamera Real.sqrt r cam).launchParams.camera.direction)
      (vec3.cross (setCamera Real.sqrt r cam).launchParams.camera.horizontal
        (setCamera Real.sqrt r cam).launchParams.camera.direction) ∧
    vec3.dot (setCamera Real.sqrt r cam).launchParams.camera.vertical
      (setCamera Real.sqrt r cam).launchParams.camera.vertical = 66 / 100 * (66 / 100) := by
  obtain ⟨ed, eh, ev, -, -, -⟩ := setCamera_basis r cam
  have hD : vec3.sub cam.at_ cam.from_ ≠ ⟨0, 0, 0⟩ := by
    intro h0
    apply hat
    obtain ⟨⟨fx, fy, fz⟩, ⟨ax, ay, az⟩, u⟩ := cam
    unfold vec3.sub at h0
    simp only [vec3.mk.injEq] at h0 ⊢
    exact ⟨by linarith [h0.1], by linarith [h0.2.1], by linarith [h0.2.2]⟩
  have hDpos := vec3_dot_self_pos hD
  have hsq : Real.sqrt (vec3.dot (vec3.sub cam.at_ cam.from_) (vec3.sub cam.at_ cam.from_)) ≠ 0 :=
    (Real.sqrt_pos.2 hDpos).ne'
  have hdd : vec3.dot (vec3.normalize Real.sqrt (vec3.sub cam.at_ cam.from_))
      (vec3.normalize Real.sqrt (vec3.sub cam.at_ cam.from_)) = 1 := vec3_normalize_dot_self hDpos
  have hc : vec3.cross (vec3.normalize Real.sqrt (vec3.sub cam.at_ cam.from_)) cam.up
      ≠ ⟨0, 0, 0⟩ := by
    unfold vec3.normalize vec3.length
    rw [vec3_cross_smul_left]
    exact vec3_smul_ne_zero (one_div_ne_zero hsq) hpar
  have hcpos := vec3_dot_self_pos hc
  have hnn := vec3_normalize_dot_self hcpos
  have hnd : vec3.dot (vec3.normalize Real.sqrt
      (vec3.cross (vec3.normalize Real.sqrt (vec3.sub cam.at_ cam.from_)) cam.up))
      (vec3.normalize Real.sqrt (vec3.sub cam.at_ cam.from_)) = 0 := by
    have := vec3_dot_cross_left (vec3.normalize Real.sqrt (vec3.sub cam.at_ cam.from_)) cam.up
    generalize vec3.cross (vec3.normalize Real.sqrt (vec3.sub cam.at_ cam.from_)) cam.up = c at *
    generalize vec3.normalize Real.sqrt (vec3.sub cam.at_ cam.from_) = d at *
    unfold vec3.normalize vec3.smul vec3.dot at *
    simp only at *
    linear_combination (1 / vec3.length Real.sqrt c) * this
  have hasp : (0 : ℝ) < (r.launchParams.frame.size.x : ℝ) / (r.launchParams.frame.size.y : ℝ) :=
    div_pos (Int.cast_pos.2 hw) (Int.cast_pos.2 hh)
  have hepos : 0 < vec3.dot
      (vec3.cross (setCamera Real.sqrt r cam).launchParams.camera.horizontal
        (setCamera Real.sqrt r cam).launchParams.camera.direction)
      (vec3.cross (setCamera Real.sqrt r cam).launchParams.camera.horizontal
        (setCamera Real.sqrt r cam).launchParams.camera.direction) := by
    rw [vec3_lagrange, eh, ed, vec3_dot_smul, hnn, hdd, vec3_dot_smul_left, hnd]
    have := mul_pos hasp hasp
    nlinarith
  refine ⟨by rw [ed]; exact hdd, ?_, hepos, ?_⟩
  · rw [eh, vec3_dot_smul, hnn]
    have := mul_pos hasp hasp
    nlinarith
  · rw [ev, vec3_dot_smul, vec3_normalize_dot_self hepos]
    ring

end Camera

theorem sqrt_25 : Real.sqrt 25 = 5 := by
  rw [show (25 : ℝ) = 5 * 5 by norm_num]
  exact Real.sqrt_mul_self (by norm_num)

theorem sqrt_1089 : Real.sqrt 1089 = 33 := by
  rw [show (1089 : ℝ) = 33 * 33 by norm_num]
  exact Real.sqrt_mul_self (by norm_num)

theorem sqrt_2500 : Real.sqrt 2500 = 50 := by
  rw [show (2500 : ℝ) = 50 * 50 by norm_num]
  exact Real.sqrt_mul_self (by norm_num)

theorem sample_direction :
    (setCamera Real.sqrt (resize Real.sqrt (blankRenderer ⟨[], []⟩) ⟨256, 256⟩)
      sampleCamera).launchParams.camera.direction = ⟨0, 0, -1⟩ := by
  show vec3.normalize Real.sqrt (vec3.sub sampleCamera.at_ sampleCamera.from_) = _
  unfold vec3.normalize vec3.length vec3.smul vec3.dot vec3.sub sampleCamera
  simp only [vec3.mk.injEq]
  norm_num [sqrt_25]

theorem sample_horizontal :
    (setCamera Real.sqrt (resize Real.sqrt (blankRenderer ⟨[], []⟩) ⟨256, 256⟩)
      sampleCamera).launchParams.camera.horizontal = ⟨66 / 100, 0, 0⟩ := by
  obtain ⟨-, eh, -⟩ := setCamera_basis
    (resize Real.sqrt (blankRenderer ⟨[], []⟩) ⟨256, 256⟩) sampleCamera
  rw [eh]
  have hd := sample_direction
  rw [show (setCamera Real.sqrt (resize Real.sqrt (blankRenderer ⟨[], []⟩) ⟨256, 256⟩)
      sampleCamera).launchParams.camera.direction
      = vec3.normalize Real.sqrt (vec3.sub sampleCamera.at_ sampleCamera.from_) from rfl] at hd
  rw [hd]
  show vec3.smul (66 / 100 * (((256 : Int) : ℝ) / ((256 : Int) : ℝ))) _ = _
  unfold vec3.normalize vec3.length vec3.smul vec3.dot vec3.cross sampleCamera
  simp only [vec3.mk.injEq]
  norm_num

theorem sample_vertical :
    (setCamera Real.sqrt (resize Real.sqrt (blankRenderer ⟨[], []⟩) ⟨256, 256⟩)
      sampleCamera).launchParams.camera.vertical = ⟨0, 66 / 100, 0⟩ ∧
    vec3.normalize Real.sqrt (vec3.cross
      (setCamera Real.sqrt (resize Real.sqrt (blankRenderer ⟨[], []⟩) ⟨256, 256⟩)
        sampleCamera).launchParams.camera.horizontal
      (setCamera Real.sqrt (resize Real.sqrt (blankRenderer ⟨[], []⟩) ⟨256, 256⟩)
        sampleCamera).launchParams.camera.direction) = ⟨0, 1, 0⟩ := by
  obtain ⟨-, -, ev, -⟩ := setCamera_basis
    (resize Real.sqrt (blankRenderer ⟨[], []⟩) ⟨256, 256⟩) sampleCamera
  rw [ev, sample_horizontal, sample_direction]
  unfold vec3.normalize vec3.length vec3.smul vec3.dot vec3.cross
  simp only [vec3.mk.injEq]
  norm_num [sqrt_1089, sqrt_2500]

theorem sampleCamera_nondegenerate :
    sampleCamera.at_ ≠ sampleCamera.from_ ∧ sampleCamera.up ≠ ⟨0, 0, 0⟩ ∧
    vec3.cross (vec3.sub sampleCamera.at_ sampleCamera.from_) sampleCamera.up ≠ ⟨0, 0, 0⟩ := by
  unfold sampleCamera vec3.cross vec3.sub
  simp only [ne_eq, vec3.mk.injEq]
  norm_num

/-! ## Construction: inverting the checks -/

section Construction
variable {α : Type}

theorem bind_eq_ok {ε β γ : Type} {x : Except ε β} {f : β → Except ε γ} {c : γ}
    (h : (x >>= f) = .ok c) : ∃ a, x = .ok a ∧ f a = .ok c := by
  cases x with
  | error e => cases h
  | ok a => exact ⟨a, rfl, h⟩

theorem OPTIX_CHECK_bind_ok {γ : Type} {res : OptixResult} {f : Unit → Except Error γ} {c : γ}
    (h : (OPTIX_CHECK res >>= f) = .ok c) : res = OPTIX_SUCCESS ∧ f () = .ok c := by
  unfold OPTIX_CHECK at h
  by_cases hr : res = OPTIX_SUCCESS
  · rw [if_pos hr] at h
    exact ⟨hr, h⟩
  · rw [if_neg hr] at h
    cases h

theorem CUDA_CHECK_bind_ok {γ : Type} {res : CudaResult} {f : Unit → Except Error γ} {c : γ}
    (h : (CUDA_CHECK res >>= f) = .ok c) : res = 0 ∧ f () = .ok c := by
  unfold CUDA_CHECK at h
  by_cases hr : res = 0
  · rw [if_pos hr] at h
    exact ⟨hr, h⟩
  · rw [if_neg hr] at h
    cases h

theorem CUDA_SYNC_CHECK_bind_ok {γ : Type} {be : Backend α} {d : Device α}
    {f : Device α → Except Error γ} {c : γ}
    (h : (CUDA_SYNC_CHECK be d >>= f) = .ok c) :
    be.cudaDeviceSynchronize d.calls = 0 ∧ f (d.record .sync) = .ok c := by
  unfold CUDA_SYNC_CHECK at h
  by_cases hr : be.cudaDeviceSynchronize d.calls = 0
  · rw [if_pos hr] at h
    exact ⟨hr, h⟩
  · rw [if_neg hr] at h
    cases h

theorem downloadedSize_bind_ok {γ : Type} {x : Option (DevData α)}
    {f : Nat → Except Error γ} {c : γ}
    (h : (downloadedSize x >>= f) = .ok c) : ∃ v, x = some (.u64 v) ∧ f v = .ok c := by
  obtain ⟨v, h1, h2⟩ := bind_eq_ok h
  refine ⟨v, ?_, h2⟩
  unfold downloadedSize at h1
  split at h1
  · cases h1; rfl
  · cases h1

theorem callsSucceeded_append (be : Backend α) (p : CallKind → Bool) (t1 t2 : List (Event α)) :
    ∀ base, callsSucceeded be p base (t1 ++ t2) ↔
      callsSucceeded be p base t1 ∧ callsSucceeded be p (base ++ t1) t2 := by
  induction t1 with
  | nil => intro base; simp [callsSucceeded]
  | cons e t ih =>
    intro base
    show (_ ∧ _ ∧ callsSucceeded be p (base ++ [e]) (t ++ t2)) ↔
      (_ ∧ _ ∧ callsSucceeded be p (base ++ [e]) t) ∧ callsSucceeded be p (base ++ e :: t) t2
    rw [ih, show base ++ e :: t = base ++ [e] ++ t by simp]
    tauto

theorem callsSucceeded_uploads (be : Backend α) (p : CallKind → Bool) (t : List (Event α))
    (ht : ∀ e ∈ t, e.kind = .memcpyHtoD) : ∀ base, callsSucceeded be p base t := by
  induction t with
  | nil => intro base; trivial
  | cons e t ih =>
    intro base
    have he : e.kind = .memcpyHtoD := ht e (List.mem_cons_self _ _)
    refine ⟨?_, ?_, ih (fun x hx => ht x (List.mem_cons_of_mem _ hx)) _⟩
    · intro _ s hs
      cases e <;> simp [Event.kind] at he
      simp [Event.status] at hs
    · intro h; rw [he] at h; cases h

theorem callsSucceeded_build (be : Backend α) (p : CallKind → Bool) (base : List (Event α))
    (b : BuildStep α)
    (h1 : (be.optixAccelComputeMemoryUsage b.usage).1 = 0)
    (h2 : (be.optixAccelBuild b.build).1 = 0)
    (h3 : (be.optixAccelCompact b.compact).1 = 0)
    (s1 : be.cudaDeviceSynchronize (base ++ [.accelComputeMemoryUsage b.usage b.sizes,
      .accelBuild b.build b.uncompacted b.compactedSize]) = 0)
    (s2 : be.cudaDeviceSynchronize (base ++ [.accelComputeMemoryUsage b.usage b.sizes,
      .accelBuild b.build b.uncompacted b.compactedSize, .sync,
      .memcpyDtoH b.build.emitResult (1 * sizeof_uint64_t),
      .accelCompact b.compact b.handle]) = 0) :
    callsSucceeded be p base b.calls := by
  simp only [BuildStep.calls, callsSucceeded, Event.kind, Event.status, List.append_assoc,
    List.singleton_append, List.cons_append, List.nil_append, Option.some.injEq, and_true,
    reduceCtorEq, false_implies, true_and, implies_true, forall_eq', true_implies]
  rw [Nat.one_mul] at s2
  simp [h1, h2, h3, s1, s2]

theorem initOptix_eq (sbe : SetupBackend) (r : SampleRenderer α) :
    initOptix sbe r =
      if sbe.cudaGetDeviceCount.2 = 0 then
        .error (.runtimeError "#osc: no CUDA capable devices found!")
      else if sbe.optixInit = OPTIX_SUCCESS then
        .ok { r with device := ⟨r.device.next, r.device.allocs, r.device.calls ++
          [.cudaFree 0 (sbe.cudaFree 0),
           .cudaGetDeviceCount sbe.cudaGetDeviceCount.1 sbe.cudaGetDeviceCount.2,
           .optixInit sbe.optixInit]⟩ }
      else .error (.optixCallFailed sbe.optixInit) := by
  unfold initOptix OPTIX_CHECK
  by_cases h0 : sbe.cudaGetDeviceCount.2 = 0
  · simp only [h0, if_true]
    rfl
  · by_cases h1 : sbe.optixInit = OPTIX_SUCCESS
    · simp only [if_neg h0, if_pos h1]
      simp [Device.record, bind, Except.bind, pure, Except.pure]
    · simp only [if_neg h0, if_neg h1]
      rfl

theorem createContext_inv {sbe : SetupBackend} {r r' : SampleRenderer α}
    (h : createContext sbe r = .ok r') :
    sbe.cudaSetDevice 0 = 0 ∧ sbe.cudaStreamCreate.1 = 0 ∧
    (sbe.optixDeviceContextCreate sbe.cuCtxGetCurrent.2).1 = OPTIX_SUCCESS ∧
    sbe.optixDeviceContextSetLogCallback (sbe.optixDeviceContextCreate sbe.cuCtxGetCurrent.2).2 4
      = OPTIX_SUCCESS ∧
    r' = { r with
      stream := sbe.cudaStreamCreate.2
      deviceProps := (sbe.cudaGetDeviceProperties 0).2
      cudaContext := sbe.cuCtxGetCurrent.2
      optixContext := (sbe.optixDeviceContextCreate sbe.cuCtxGetCurrent.2).2
      device := ⟨r.device.next, r.device.allocs, r.device.calls ++
        [.cudaSetDevice 0 (sbe.cudaSetDevice 0),
         .cudaStreamCreate sbe.cudaStreamCreate.1 sbe.cudaStreamCreate.2,
         .cudaGetDeviceProperties 0 (sbe.cudaGetDeviceProperties 0).1,
         .cuCtxGetCurrent sbe.cuCtxGetCurrent.1 sbe.cuCtxGetCurrent.2,
         .deviceContextCreate sbe.cuCtxGetCurrent.2
           (sbe.optixDeviceContextCreate sbe.cuCtxGetCurrent.2).1
           (sbe.optixDeviceContextCreate sbe.cuCtxGetCurrent.2).2,
         .deviceContextSetLogCallback (sbe.optixDeviceContextCreate sbe.cuCtxGetCurrent.2).2 4
           (sbe.optixDeviceContextSetLogCallback
             (sbe.optixDeviceContextCreate sbe.cuCtxGetCurrent.2).2 4)]⟩ } := by
  unfold createContext at h
  obtain ⟨c1, h⟩ := CUDA_CHECK_bind_ok h
  obtain ⟨c2, h⟩ := CUDA_CHECK_bind_ok h
  obtain ⟨c3, h⟩ := OPTIX_CHECK_bind_ok h
  obtain ⟨c4, h⟩ := OPTIX_CHECK_bind_ok h
  refine ⟨c1, c2, c3, c4, ?_⟩
  cases h
  simp [Device.record]

theorem createModule_inv {sbe : SetupBackend} {r r' : SampleRenderer α}
    (h : createModule sbe r = .ok r') :
    (sbe.optixModuleCreateFromPTX r.optixContext
      ⟨50, OPTIX_COMPILE_OPTIMIZATION_DEFAULT, OPTIX_COMPILE_DEBUG_LEVEL_NONE⟩
      ⟨false, OPTIX_TRAVERSABLE_GRAPH_FLAG_ALLOW_ANY, 4, 4, OPTIX_EXCEPTION_FLAG_NONE,
        "optixLaunchParams"⟩
      sbe.embedded_ptx_code sbe.embedded_ptx_code.length).1 = OPTIX_SUCCESS ∧
    r' = { r with
      moduleCompileOptions :=
        ⟨50, OPTIX_COMPILE_OPTIMIZATION_DEFAULT, OPTIX_COMPILE_DEBUG_LEVEL_NONE⟩
      pipelineCompileOptions :=
        ⟨false, OPTIX_TRAVERSABLE_GRAPH_FLAG_ALLOW_ANY, 4, 4, OPTIX_EXCEPTION_FLAG_NONE,
          "optixLaunchParams"⟩
      pipelineLinkOptions := ⟨2, r.pipelineLinkOptions.debugLevel, false⟩
      module := (sbe.optixModuleCreateFromPTX r.optixContext
        ⟨50, OPTIX_COMPILE_OPTIMIZATION_DEFAULT, OPTIX_COMPILE_DEBUG_LEVEL_NONE⟩
        ⟨false, OPTIX_TRAVERSABLE_GRAPH_FLAG_ALLOW_ANY, 4, 4, OPTIX_EXCEPTION_FLAG_NONE,
          "optixLaunchParams"⟩
        sbe.embedded_ptx_code sbe.embedded_ptx_code.length).2
      device := ⟨r.device.next, r.device.allocs, r.device.calls ++
        [.moduleCreateFromPTX r.optixContext
          ⟨50, OPTIX_COMPILE_OPTIMIZATION_DEFAULT, OPTIX_COMPILE_DEBUG_LEVEL_NONE⟩
          ⟨false, OPTIX_TRAVERSABLE_GRAPH_FLAG_ALLOW_ANY, 4, 4, OPTIX_EXCEPTION_FLAG_NONE,
            "optixLaunchParams"⟩ OPTIX_SUCCESS
          (sbe.optixModuleCreateFromPTX r.optixContext
            ⟨50, OPTIX_COMPILE_OPTIMIZATION_DEFAULT, OPTIX_COMPILE_DEBUG_LEVEL_NONE⟩
            ⟨false, OPTIX_TRAVERSABLE_GRAPH_FLAG_ALLOW_ANY, 4, 4, OPTIX_EXCEPTION_FLAG_NONE,
              "optixLaunchParams"⟩
            sbe.embedded_ptx_code sbe.embedded_ptx_code.length).2]⟩ } := by
  unfold createModule at h
  obtain ⟨c1, h⟩ := OPTIX_CHECK_bind_ok h
  refine ⟨c1, ?_⟩
  cases h
  simp only [Device.record]
  rw [c1]

theorem resizePGs_one_set (v : List OptixProgramGroup) (pg : OptixProgramGroup) :
    (resizePGs v 1).set 0 pg = [pg] := by
  cases v with
  | nil => rfl
  | cons a t => simp [resizePGs]

theorem createRaygenPrograms_inv {sbe : SetupBackend} {r r' : SampleRenderer α}
    (h : createRaygenPrograms sbe r = .ok r') :
    ∃ pg : OptixProgramGroup,
      sbe.optixProgramGroupCreate r.optixContext (.raygen r.module "__raygen__renderFrame") 1
        = (OPTIX_SUCCESS, pg) ∧
      r' = { r with
        raygenPGs := [pg]
        device := ⟨r.device.next, r.device.allocs, r.device.calls ++
          [.programGroupCreate r.optixContext (.raygen r.module "__raygen__renderFrame")
            OPTIX_SUCCESS pg]⟩ } := by
  unfold createRaygenPrograms at h
  obtain ⟨c1, h⟩ := OPTIX_CHECK_bind_ok h
  refine ⟨_, Prod.ext c1 rfl, ?_⟩
  cases h
  simp only [Device.record, resizePGs_one_set]
  rw [c1]

theorem createMissPrograms_inv {sbe : SetupBackend} {r r' : SampleRenderer α}
    (h : createMissPrograms sbe r = .ok r') :
    ∃ pg : OptixProgramGroup,
      sbe.optixProgramGroupCreate r.optixContext (.miss r.module "__miss__radiance") 1
        = (OPTIX_SUCCESS, pg) ∧
      r' = { r with
        missPGs := [pg]
        device := ⟨r.device.next, r.device.allocs, r.device.calls ++
          [.programGroupCreate r.optixContext (.miss r.module "__miss__radiance")
            OPTIX_SUCCESS pg]⟩ } := by
  unfold createMissPrograms at h
  obtain ⟨c1, h⟩ := OPTIX_CHECK_bind_ok h
  refine ⟨_, Prod.ext c1 rfl, ?_⟩
  cases h
  simp only [Device.record, resizePGs_one_set]
  rw [c1]

theorem createHitgroupPrograms_inv {sbe : SetupBackend} {r r' : SampleRenderer α}
    (h : createHitgroupPrograms sbe r = .ok r') :
    ∃ pg : OptixProgramGroup,
      sbe.optixProgramGroupCreate r.optixContext
        (.hitgroup r.module "__closesthit__radiance" r.module "__anyhit__radiance"
          r.module "__intersection__is") 1 = (OPTIX_SUCCESS, pg) ∧
      r' = { r with
        hitgroupPGs := [pg]
        device := ⟨r.device.next, r.device.allocs, r.device.calls ++
          [.programGroupCreate r.optixContext
            (.hitgroup r.module "__closesthit__radiance" r.module "__anyhit__radiance"
              r.module "__intersection__is") OPTIX_SUCCESS pg]⟩ } := by
  unfold createHitgroupPrograms at h
  obtain ⟨c1, h⟩ := OPTIX_CHECK_bind_ok h
  refine ⟨_, Prod.ext c1 rfl, ?_⟩
  cases h
  simp only [Device.record, resizePGs_one_set]
  rw [c1]

theorem foldl_push_back {β : Type} (l : List β) :
    ∀ init : List β, l.foldl (fun v x => v ++ [x]) init = init ++ l := by
  induction l with
  | nil => intro init; simp
  | cons a t ih => intro init; simp [ih]

theorem createPipeline_inv {sbe : SetupBackend} {r r' : SampleRenderer α}
    (h : createPipeline sbe r = .ok r') :
    ∃ pipeline : Nat,
      sbe.optixPipelineCreate r.optixContext r.pipelineCompileOptions r.pipelineLinkOptions
        (r.raygenPGs ++ r.missPGs ++ r.hitgroupPGs)
        (castInt (r.raygenPGs ++ r.missPGs ++ r.hitgroupPGs).length)
        = (OPTIX_SUCCESS, pipeline) ∧
      sbe.optixPipelineSetStackSize pipeline (2 * 1024) (2 * 1024) (2 * 1024) 1
        = OPTIX_SUCCESS ∧
      r' = { r with
        pipeline := pipeline
        device := ⟨r.device.next, r.device.allocs, r.device.calls ++
          [.pipelineCreate r.optixContext r.pipelineCompileOptions r.pipelineLinkOptions
            (r.raygenPGs ++ r.missPGs ++ r.hitgroupPGs)
            (castInt (r.raygenPGs ++ r.missPGs ++ r.hitgroupPGs).length) OPTIX_SUCCESS pipeline,
           .pipelineSetStackSize pipeline (2 * 1024) (2 * 1024) (2 * 1024) 1
            OPTIX_SUCCESS]⟩ } := by
  unfold createPipeline at h
  simp only [foldl_push_back, List.nil_append] at h
  obtain ⟨c1, h⟩ := OPTIX_CHECK_bind_ok h
  obtain ⟨c2, h⟩ := OPTIX_CHECK_bind_ok h
  refine ⟨_, Prod.ext c1 rfl, c2, ?_⟩
  cases h
  simp only [Device.record]
  rw [c1, c2]
  simp


theorem initOptix_ok {sbe : SetupBackend} (hs : sbe.succeeds) (r : SampleRenderer α) :
    ∃ r', initOptix sbe r = .ok r' := by
  rw [initOptix_eq, if_neg hs.1, if_pos hs.2.1]
  exact ⟨_, rfl⟩

theorem OPTIX_CHECK_zero {res : OptixResult} (h : res = OPTIX_SUCCESS) :
    OPTIX_CHECK res = .ok () := by
  rw [h]; rfl

theorem CUDA_CHECK_zero {res : CudaResult} (h : res = 0) : CUDA_CHECK res = .ok () := by
  rw [h]; rfl

theorem createContext_ok {sbe : SetupBackend} (hs : sbe.succeeds) (r : SampleRenderer α) :
    ∃ r', createContext sbe r = .ok r' := by
  obtain ⟨-, -, s3, s4, s5, s6, -⟩ := hs
  unfold createContext
  simp only [CUDA_CHECK_zero (s3 _), CUDA_CHECK_zero s4, OPTIX_CHECK_zero (s5 _),
    OPTIX_CHECK_zero (s6 _ _), bind_ok_eq, pure, Except.pure]
  exact ⟨_, rfl⟩

theorem createModule_ok {sbe : SetupBackend} (hs : sbe.succeeds) (r : SampleRenderer α) :
    ∃ r', createModule sbe r = .ok r' := by
  obtain ⟨-, -, -, -, -, -, s7, -⟩ := hs
  unfold createModule
  simp only [OPTIX_CHECK_zero (s7 _ _ _ _ _), bind_ok_eq, pure, Except.pure]
  exact ⟨_, rfl⟩

theorem createRaygenPrograms_ok {sbe : SetupBackend} (hs : sbe.succeeds) (r : SampleRenderer α) :
    ∃ r', createRaygenPrograms sbe r = .ok r' := by
  obtain ⟨-, -, -, -, -, -, -, s8, -⟩ := hs
  unfold createRaygenPrograms
  simp only [OPTIX_CHECK_zero (s8 _ _ _), bind_ok_eq, pure, Except.pure]
  exact ⟨_, rfl⟩

theorem createMissPrograms_ok {sbe : SetupBackend} (hs : sbe.succeeds) (r : SampleRenderer α) :
    ∃ r', createMissPrograms sbe r = .ok r' := by
  obtain ⟨-, -, -, -, -, -, -, s8, -⟩ := hs
  unfold createMissPrograms
  simp only [OPTIX_CHECK_zero (s8 _ _ _), bind_ok_eq, pure, Except.pure]
  exact ⟨_, rfl⟩

theorem createHitgroupPrograms_ok {sbe : SetupBackend} (hs : sbe.succeeds)
    (r : SampleRenderer α) : ∃ r', createHitgroupPrograms sbe r = .ok r' := by
  obtain ⟨-, -, -, -, -, -, -, s8, -⟩ := hs
  unfold createHitgroupPrograms
  simp only [OPTIX_CHECK_zero (s8 _ _ _), bind_ok_eq, pure, Except.pure]
  exact ⟨_, rfl⟩

theorem createPipeline_ok {sbe : SetupBackend} (hs : sbe.succeeds) (r : SampleRenderer α) :
    ∃ r', createPipeline sbe r = .ok r' := by
  obtain ⟨-, -, -, -, -, -, -, -, s9, s10⟩ := hs
  unfold createPipeline
  simp only [OPTIX_CHECK_zero (s9 _ _ _ _ _), OPTIX_CHECK_zero (s10 _ _ _ _ _), bind_ok_eq,
    pure, Except.pure]
  exact ⟨_, rfl⟩

theorem buildAccelMeshes_loop_calls (ms : List (TriangleMesh α)) :
    ∀ (k : Nat) (s : SampleRenderer α × BuildLocals),
      ∃ ups : List (Event α),
        ((ms.enumFrom k).foldl buildAccelMeshes.body s).1.device.calls
          = s.1.device.calls ++ ups ∧
        ups.map Event.kind = List.replicate (2 * ms.length) .memcpyHtoD := by
  induction ms with
  | nil => intro k s; exact ⟨[], by simp, rfl⟩
  | cons m t ih =>
    intro k s
    rw [List.enumFrom_cons, List.foldl_cons]
    obtain ⟨ups, h1, h2⟩ := ih (k + 1) (buildAccelMeshes.body s (k, m))
    obtain ⟨p1, n1, p2, n2, hb⟩ : ∃ p1 n1 p2 n2, (buildAccelMeshes.body s (k, m)).1.device.calls
        = (s.1.device.calls ++ [.memcpyHtoD p1 n1]) ++ [.memcpyHtoD p2 n2] :=
      ⟨_, _, _, _, rfl⟩
    refine ⟨[.memcpyHtoD p1 n1, .memcpyHtoD p2 n2] ++ ups, ?_, ?_⟩
    · rw [h1, hb]; simp
    · rw [List.map_append, h2]
      simp only [List.map_cons, List.map_nil, Event.kind, List.length_cons]
      rw [show 2 * (t.length + 1) = (2 * t.length + 1) + 1 by omega]
      simp [List.replicate_succ]

theorem uploads_of_kinds {t : List (Event α)} {n : Nat}
    (h : t.map Event.kind = List.replicate n .memcpyHtoD) : ∀ e ∈ t, e.kind = .memcpyHtoD := by
  intro e he
  have : e.kind ∈ t.map Event.kind := List.mem_map_of_mem _ he
  rw [h] at this
  exact (List.mem_replicate.mp this).2

theorem buildAccelMeshes_inv {be : Backend α} {r r' : SampleRenderer α}
    {h : OptixTraversableHandle} (hres : buildAccelMeshes be r = .ok (h, r')) :
    ∃ (ups : List (Event α)) (b : BuildStep α),
      r'.device.calls = r.device.calls ++ ups ++ b.calls ∧ b.handle = h ∧
      ups.map Event.kind = List.replicate (2 * r.scene.meshes.length) .memcpyHtoD ∧
      (∀ p, callsSucceeded be p (r.device.calls ++ ups) b.calls) ∧
      b.build.buildInputs.length = r.scene.meshes.length ∧
      b.build.numBuildInputs = castInt r.scene.meshes.length ∧
      (∀ x ∈ b.build.buildInputs, ∃ t, x = .triangles t) ∧
      r' = { r with vertexBuffer := r'.vertexBuffer, indexBuffer := r'.indexBuffer,
                    meshBlasBuffer := r'.meshBlasBuffer, device := r'.device } := by
  unfold buildAccelMeshes at hres
  lift_lets at hres
  extract_lets r0 locals S r1 geometryInput usageCall usage blasBufferSizes d0 cs
    compactedSizeBuffer emitResult tb tempBuffer ob outputBuffer d1 buildCall built asHandle d2
    at hres
  obtain ⟨e1, k1⟩ := OPTIX_CHECK_bind_ok hres
  clear hres
  obtain ⟨e2, k2⟩ := OPTIX_CHECK_bind_ok k1
  clear k1
  obtain ⟨y1, k3⟩ := CUDA_SYNC_CHECK_bind_ok k2
  clear k2
  obtain ⟨v, hv, k4⟩ := downloadedSize_bind_ok k3
  clear k3
  obtain ⟨e3, k5⟩ := OPTIX_CHECK_bind_ok k4
  clear k4
  obtain ⟨y2, hres⟩ := CUDA_SYNC_CHECK_bind_ok k5
  clear k5
  obtain ⟨ups, hu1, hu2⟩ := buildAccelMeshes_loop_calls r.scene.meshes 0 (r0, locals)
  obtain ⟨l1, ⟨l2, l3, l4, l5, l6, l7⟩, l8, -, l10⟩ :=
    buildAccelMeshes_loop_spec r.scene.meshes 0 (r0, locals)
  have hr1 : r1 = _ := l1
  have hc1 : r1.device.calls = r.device.calls ++ ups := hu1
  have hscene : r1.scene = r.scene := by rw [hr1]
  have hh := congrArg (fun x => match x with | .ok a => some a | .error _ => none) hres
  simp only [pure, Except.pure, Option.some.injEq, Prod.mk.injEq] at hh
  obtain ⟨hh1, hh2⟩ := hh
  have hd2 : d2.calls = r.device.calls ++ ups ++
      [.accelComputeMemoryUsage usageCall usage.2, .accelBuild buildCall built.2.1 built.2.2] := by
    simp only [d2, d1, ob, tb, cs, d0, CUDABuffer.alloc, Device.record_calls, Device.write_calls,
      Device.malloc_calls, hc1, blasBufferSizes, asHandle]
    simp
  refine ⟨ups, ⟨usageCall, usage.2, buildCall, built.2.1, built.2.2,
    ⟨built.2.1, (r1.meshBlasBuffer.alloc v
        (compactedSizeBuffer.download sizeof_uint64_t 1 (d2.record .sync)).2).1.d_pointer,
      (r1.meshBlasBuffer.alloc v
        (compactedSizeBuffer.download sizeof_uint64_t 1 (d2.record .sync)).2).1.sizeInBytes⟩,
    (be.optixAccelCompact ⟨built.2.1, (r1.meshBlasBuffer.alloc v
        (compactedSizeBuffer.download sizeof_uint64_t 1 (d2.record .sync)).2).1.d_pointer,
      (r1.meshBlasBuffer.alloc v
        (compactedSizeBuffer.download sizeof_uint64_t 1 (d2.record .sync)).2).1.sizeInBytes⟩).2⟩,
    ?_, hh1, ?_, ?_, ?_, ?_, ?_, ?_⟩
  · rw [← hh2]
    simp only [CUDABuffer.free, CUDABuffer.alloc, CUDABuffer.download, Device.record_calls,
      Device.free_calls, Device.malloc_calls, hd2, BuildStep.calls, asHandle]
    simp [emitResult, buildCall, CUDABuffer.d_pointer]
  · rw [hu2]
  · intro p
    apply callsSucceeded_build
    · exact e1
    · exact e2
    · exact e3
    · rw [← hd2]; exact y1
    · have y2' := y2
      simp only [CUDABuffer.alloc, CUDABuffer.download, Device.record_calls,
        Device.malloc_calls, hd2, asHandle] at y2'
      simpa [emitResult, buildCall, CUDABuffer.d_pointer, asHandle] using y2'
  · exact l4.trans (by simp [locals, r0])
  · show castInt r1.scene.meshes.length = _
    rw [hscene]
  · intro x hx
    have hx' : x ∈ S.2.geometryInput := hx
    clear hx
    obtain ⟨i, hi, rfl⟩ := List.getElem_of_mem hx'
    have hi' : i < r.scene.meshes.length := by
      have : (S.2.geometryInput).length = r.scene.meshes.length := l4.trans (by simp [locals, r0])
      exact this ▸ hi
    have hup := l10 (by simp [r0, length_resizeBuffers]) (by simp [r0, length_resizeBuffers])
      (by simp [locals, r0]) (by simp [locals, r0]) (by simp [locals, r0]) (by simp [locals, r0])
      i (r.scene.meshes[i]) (List.getElem?_eq_getElem hi')
    obtain ⟨vb, ib, -, -, -, -, u5⟩ := hup
    rw [Nat.zero_add] at u5
    have h1 : S.2.geometryInput[i]? = some S.2.geometryInput[i] := List.getElem?_eq_getElem hi
    have h2 : S.2.geometryInput[i]? = some (.triangles _) := u5
    exact ⟨_, Option.some.inj (h1.symm.trans h2)⟩
  · rw [← hh2, hr1]

theorem buildAccelSpheres_loop_calls [Neg α] (ss : List (Sphere α)) :
    ∀ (k : Nat) (s : SampleRenderer α × BuildLocals),
      ∃ ups : List (Event α),
        ((ss.enumFrom k).foldl buildAccelSpheres.body s).1.device.calls
          = s.1.device.calls ++ ups ∧
        ups.map Event.kind = List.replicate ss.length .memcpyHtoD := by
  induction ss with
  | nil => intro k s; exact ⟨[], by simp, rfl⟩
  | cons m t ih =>
    intro k s
    rw [List.enumFrom_cons, List.foldl_cons]
    obtain ⟨ups, h1, h2⟩ := ih (k + 1) (buildAccelSpheres.body s (k, m))
    obtain ⟨p1, n1, hb⟩ : ∃ p1 n1, (buildAccelSpheres.body s (k, m)).1.device.calls
        = s.1.device.calls ++ [.memcpyHtoD p1 n1] :=
      ⟨_, _, rfl⟩
    refine ⟨[.memcpyHtoD p1 n1] ++ ups, ?_, ?_⟩
    · rw [h1, hb]; simp
    · rw [List.map_append, h2]
      simp [Event.kind, List.replicate_succ]

theorem buildAccelSpheres_inv [Neg α] {be : Backend α} {r r' : SampleRenderer α}
    {h : OptixTraversableHandle} (hres : buildAccelSpheres be r = .ok (h, r')) :
    ∃ (ups : List (Event α)) (b : BuildStep α),
      r'.device.calls = r.device.calls ++ ups ++ b.calls ∧ b.handle = h ∧
      ups.map Event.kind = List.replicate r.scene.spheres.length .memcpyHtoD ∧
      (∀ p, callsSucceeded be p (r.device.calls ++ ups) b.calls) ∧
      b.build.buildInputs.length = r.scene.spheres.length ∧
      b.build.numBuildInputs = castInt r.scene.meshes.length ∧
      (∀ x ∈ b.build.buildInputs, ∃ t, x = .customPrimitives t) ∧
      r' = { r with aabbBuffer := r'.aabbBuffer, sphereBlasBuffer := r'.sphereBlasBuffer,
                    device := r'.device } := by
  unfold buildAccelSpheres at hres
  lift_lets at hres
  extract_lets r0 locals S r1 geometryInput usageCall usage blasBufferSizes d0 cs
    compactedSizeBuffer emitResult tb tempBuffer ob outputBuffer d1 buildCall built asHandle d2
    at hres
  obtain ⟨e1, k1⟩ := OPTIX_CHECK_bind_ok hres
  clear hres
  obtain ⟨e2, k2⟩ := OPTIX_CHECK_bind_ok k1
  clear k1
  obtain ⟨y1, k3⟩ := CUDA_SYNC_CHECK_bind_ok k2
  clear k2
  obtain ⟨v, hv, k4⟩ := downloadedSize_bind_ok k3
  clear k3
  obtain ⟨e3, k5⟩ := OPTIX_CHECK_bind_ok k4
  clear k4
  obtain ⟨y2, hres⟩ := CUDA_SYNC_CHECK_bind_ok k5
  clear k5
  obtain ⟨ups, hu1, hu2⟩ := buildAccelSpheres_loop_calls r.scene.spheres 0 (r0, locals)
  obtain ⟨l1, ⟨l2, l3, l4, l5⟩, l8, -, l10⟩ :=
    buildAccelSpheres_loop_spec r.scene.spheres 0 (r0, locals)
  have hr1 : r1 = _ := l1
  have hc1 : r1.device.calls = r.device.calls ++ ups := hu1
  have hscene : r1.scene = r.scene := by rw [hr1]
  have hh := congrArg (fun x => match x with | .ok a => some a | .error _ => none) hres
  simp only [pure, Except.pure, Option.some.injEq, Prod.mk.injEq] at hh
  obtain ⟨hh1, hh2⟩ := hh
  have hd2 : d2.calls = r.device.calls ++ ups ++
      [.accelComputeMemoryUsage usageCall usage.2, .accelBuild buildCall built.2.1 built.2.2] := by
    simp only [d2, d1, ob, tb, cs, d0, CUDABuffer.alloc, Device.record_calls, Device.write_calls,
      Device.malloc_calls, hc1, blasBufferSizes, asHandle]
    simp
  refine ⟨ups, ⟨usageCall, usage.2, buildCall, built.2.1, built.2.2,
    ⟨built.2.1, (r1.sphereBlasBuffer.alloc v
        (compactedSizeBuffer.download sizeof_uint64_t 1 (d2.record .sync)).2).1.d_pointer,
      (r1.sphereBlasBuffer.alloc v
        (compactedSizeBuffer.download sizeof_uint64_t 1 (d2.record .sync)).2).1.sizeInBytes⟩,
    (be.optixAccelCompact ⟨built.2.1, (r1.sphereBlasBuffer.alloc v
        (compactedSizeBuffer.download sizeof_uint64_t 1 (d2.record .sync)).2).1.d_pointer,
      (r1.sphereBlasBuffer.alloc v
        (compactedSizeBuffer.download sizeof_uint64_t 1 (d2.record .sync)).2).1.sizeInBytes⟩).2⟩,
    ?_, hh1, ?_, ?_, ?_, ?_, ?_, ?_⟩
  · rw [← hh2]
    simp only [CUDABuffer.free, CUDABuffer.alloc, CUDABuffer.download, Device.record_calls,
      Device.free_calls, Device.malloc_calls, hd2, BuildStep.calls, asHandle]
    simp [emitResult, buildCall, CUDABuffer.d_pointer]
  · rw [hu2]
  · intro p
    apply callsSucceeded_build
    · exact e1
    · exact e2
    · exact e3
    · rw [← hd2]; exact y1
    · have y2' := y2
      simp only [CUDABuffer.alloc, CUDABuffer.download, Device.record_calls,
        Device.malloc_calls, hd2, asHandle] at y2'
      simpa [emitResult, buildCall, CUDABuffer.d_pointer, asHandle] using y2'
  · exact l3.trans (by simp [locals, r0])
  · show castInt r1.scene.meshes.length = _
    rw [hscene]
  · intro x hx
    have hx' : x ∈ S.2.geometryInput := hx
    clear hx
    obtain ⟨i, hi, rfl⟩ := List.getElem_of_mem hx'
    have hi' : i < r.scene.spheres.length := by
      have : (S.2.geometryInput).length = r.scene.spheres.length := l3.trans (by simp [locals, r0])
      exact this ▸ hi
    have hup := l10 (by simp [r0, length_resizeBuffers])
      (by simp [locals, r0]) (by simp [locals, r0]) (by simp [locals, r0])
      i (r.scene.spheres[i]) (List.getElem?_eq_getElem hi')
    obtain ⟨ab, -, -, u5⟩ := hup
    rw [Nat.zero_add] at u5
    have h1 : S.2.geometryInput[i]? = some S.2.geometryInput[i] := List.getElem?_eq_getElem hi
    have h2 : S.2.geometryInput[i]? = some (.customPrimitives _) := u5
    exact ⟨_, Option.some.inj (h1.symm.trans h2)⟩
  · rw [← hh2, hr1]

theorem buildAccelInstances_inv [Zero α] [One α] {be : Backend α} {r r' : SampleRenderer α}
    {meshes spheres h : OptixTraversableHandle}
    (hres : buildAccelInstances be r meshes spheres = .ok (h, r')) :
    ∃ (ip : CUdeviceptr) (b : BuildStep α),
      r'.device.calls = r.device.calls ++ [.memcpyHtoD ip (2 * sizeof_OptixInstance)] ++ b.calls ∧
      b.handle = h ∧
      (∀ p, callsSucceeded be p (r.device.calls ++ [.memcpyHtoD ip (2 * sizeof_OptixInstance)])
        b.calls) ∧
      b.build.buildInputs = [.instances ⟨ip, 2, 0, 0⟩] ∧ b.build.numBuildInputs = 1 ∧
      readAt b.build.memory ip = some (.instances
        [⟨[1, 0, 0, 0, 0, 1, 0, 0, 0, 0, 1, 0], 0, 0, 255, OPTIX_INSTANCE_FLAG_NONE, meshes⟩,
         ⟨[1, 0, 0, 0, 0, 1, 0, 0, 0, 0, 1, 0], 1, castUInt32 r.scene.meshes.length, 255,
           OPTIX_INSTANCE_FLAG_NONE, spheres⟩]) ∧
      r' = { r with sceneTlasBuffer := r'.sceneTlasBuffer, device := r'.device } := by
  unfold buildAccelInstances at hres
  lift_lets at hres
  extract_lets transform instances meshInstance instances1 sphereInstance instances2 ibuf
    instanceBuffer buildInput usageCall usage tlasBufferSizes d0 cs compactedSizeBuffer emitResult
    tb tempBuffer ob outputBuffer d1 buildCall built asHandle d2 at hres
  obtain ⟨e1, k1⟩ := OPTIX_CHECK_bind_ok hres
  clear hres
  obtain ⟨e2, k2⟩ := OPTIX_CHECK_bind_ok k1
  clear k1
  obtain ⟨y1, k3⟩ := CUDA_SYNC_CHECK_bind_ok k2
  clear k2
  obtain ⟨v, hv, k4⟩ := downloadedSize_bind_ok k3
  clear k3
  obtain ⟨e3, k5⟩ := OPTIX_CHECK_bind_ok k4
  clear k4
  obtain ⟨y2, hres⟩ := CUDA_SYNC_CHECK_bind_ok k5
  clear k5
  have hh := congrArg (fun x => match x with | .ok a => some a | .error _ => none) hres
  simp only [pure, Except.pure, Option.some.injEq, Prod.mk.injEq] at hh
  obtain ⟨hh1, hh2⟩ := hh
  have hc1 : ibuf.2.calls = r.device.calls ++
      [.memcpyHtoD instanceBuffer.d_ptr (2 * sizeof_OptixInstance)] := rfl
  have hd2 : d2.calls = r.device.calls ++
      [.memcpyHtoD instanceBuffer.d_ptr (2 * sizeof_OptixInstance)] ++
      [.accelComputeMemoryUsage usageCall usage.2, .accelBuild buildCall built.2.1 built.2.2] := by
    simp only [d2, d1, ob, tb, cs, d0, CUDABuffer.alloc, Device.record_calls, Device.write_calls,
      Device.malloc_calls, hc1, tlasBufferSizes, asHandle]
    simp
  have key := compaction_steps d0 cs.2 tb.2 ob.2 (d2.record .sync)
    ((d2.record .sync).record (.memcpyDtoH compactedSizeBuffer.d_ptr (1 * sizeof_uint64_t)))
    _ _ _ sizeof_uint64_t tlasBufferSizes.tempSizeInBytes tlasBufferSizes.outputSizeInBytes
    built.2.2 0 (.accelBuild buildCall asHandle built.2.2) .sync
    (.memcpyDtoH compactedSizeBuffer.d_ptr (1 * sizeof_uint64_t)) .sync .sync
    rfl rfl rfl rfl rfl rfl rfl rfl
  refine ⟨instanceBuffer.d_ptr, ⟨usageCall, usage.2, buildCall, built.2.1, built.2.2,
    ⟨built.2.1, (r.sceneTlasBuffer.alloc v
        (compactedSizeBuffer.download sizeof_uint64_t 1 (d2.record .sync)).2).1.d_pointer,
      (r.sceneTlasBuffer.alloc v
        (compactedSizeBuffer.download sizeof_uint64_t 1 (d2.record .sync)).2).1.sizeInBytes⟩,
    (be.optixAccelCompact ⟨built.2.1, (r.sceneTlasBuffer.alloc v
        (compactedSizeBuffer.download sizeof_uint64_t 1 (d2.record .sync)).2).1.d_pointer,
      (r.sceneTlasBuffer.alloc v
        (compactedSizeBuffer.download sizeof_uint64_t 1 (d2.record .sync)).2).1.sizeInBytes⟩).2⟩,
    ?_, hh1, ?_, rfl, rfl, ?_, ?_⟩
  · rw [← hh2]
    simp only [CUDABuffer.free, CUDABuffer.alloc, CUDABuffer.download, Device.record_calls,
      Device.free_calls, Device.malloc_calls, hd2, BuildStep.calls, asHandle]
    simp [emitResult, buildCall, CUDABuffer.d_pointer]
  · intro p
    apply callsSucceeded_build
    · exact e1
    · exact e2
    · exact e3
    · rw [← hd2]; exact y1
    · have y2' := y2
      simp only [CUDABuffer.alloc, CUDABuffer.download, Device.record_calls,
        Device.malloc_calls, hd2, asHandle] at y2'
      simpa [emitResult, buildCall, CUDABuffer.d_pointer, asHandle] using y2'
  · exact (key.2.2.2 _ _ (CUDABuffer.alloc_and_upload_read_self _ _ _ _ _)).1
  · rw [← hh2]

theorem vectorAt_ok {β : Type} {v : List β} {i : Nat} {x : β} (h : vectorAt v i = .ok x) :
    v[i]? = some x := by
  unfold vectorAt at h
  split at h
  · cases h; assumption
  · cases h

theorem buildSBT_raygen_statuses {be : Backend α} (pgs : List OptixProgramGroup) :
    ∀ (init recs : List RaygenRecord), pgs.foldlM (buildSBT.raygenBody be) init = .ok recs →
      ∀ pg ∈ pgs, (be.optixSbtRecordPackHeader pg).1 = OPTIX_SUCCESS := by
  induction pgs with
  | nil => intro _ _ _ pg hpg; cases hpg
  | cons a t ih =>
    intro init recs h pg hpg
    rw [List.foldlM_cons] at h
    obtain ⟨recs1, h1, h2⟩ := bind_eq_ok h
    rcases List.mem_cons.mp hpg with rfl | hmem
    · unfold buildSBT.raygenBody at h1
      exact (OPTIX_CHECK_bind_ok h1).1
    · exact ih _ _ h2 pg hmem

theorem buildSBT_miss_statuses {be : Backend α} (pgs : List OptixProgramGroup) :
    ∀ (init recs : List MissRecord), pgs.foldlM (buildSBT.missBody be) init = .ok recs →
      ∀ pg ∈ pgs, (be.optixSbtRecordPackHeader pg).1 = OPTIX_SUCCESS := by
  induction pgs with
  | nil => intro _ _ _ pg hpg; cases hpg
  | cons a t ih =>
    intro init recs h pg hpg
    rw [List.foldlM_cons] at h
    obtain ⟨recs1, h1, h2⟩ := bind_eq_ok h
    rcases List.mem_cons.mp hpg with rfl | hmem
    · unfold buildSBT.missBody at h1
      exact (OPTIX_CHECK_bind_ok h1).1
    · exact ih _ _ h2 pg hmem

theorem buildSBT_mesh_statuses {be : Backend α} {r : SampleRenderer α} {l : List Nat}
    {init recs : List (HitgroupRecord α)}
    (h : l.foldlM (buildSBT.meshBody be r) init = .ok recs) (hl : l ≠ [])
    {pg : OptixProgramGroup} (hpg : r.hitgroupPGs[0]? = some pg) :
    (be.optixSbtRecordPackHeader pg).1 = OPTIX_SUCCESS := by
  cases l with
  | nil => exact absurd rfl hl
  | cons a t =>
    rw [List.foldlM_cons] at h
    obtain ⟨recs1, h1, -⟩ := bind_eq_ok h
    unfold buildSBT.meshBody at h1
    obtain ⟨pg', g1, g2⟩ := bind_eq_ok h1
    have := vectorAt_ok g1
    rw [hpg] at this
    cases this
    exact (OPTIX_CHECK_bind_ok g2).1

theorem buildSBT_sphere_statuses {be : Backend α} {r : SampleRenderer α} {l : List Nat}
    {init recs : List (HitgroupRecord α)}
    (h : l.foldlM (buildSBT.sphereBody be r) init = .ok recs) (hl : l ≠ [])
    {pg : OptixProgramGroup} (hpg : r.hitgroupPGs[0]? = some pg) :
    (be.optixSbtRecordPackHeader pg).1 = OPTIX_SUCCESS := by
  cases l with
  | nil => exact absurd rfl hl
  | cons a t =>
    rw [List.foldlM_cons] at h
    obtain ⟨recs1, h1, -⟩ := bind_eq_ok h
    unfold buildSBT.sphereBody at h1
    obtain ⟨pg', g1, g2⟩ := bind_eq_ok h1
    have := vectorAt_ok g1
    rw [hpg] at this
    cases this
    exact (OPTIX_CHECK_bind_ok g2).1

theorem buildSBT_inv {be : Backend α} {r r' : SampleRenderer α} (hres : buildSBT be r = .ok r') :
    ∃ n1 n2 n3 : Nat,
      r'.device.calls = r.device.calls ++
        [.memcpyHtoD r'.raygenRecordsBuffer.d_ptr n1, .memcpyHtoD r'.missRecordsBuffer.d_ptr n2,
         .memcpyHtoD r'.hitgroupRecordsBuffer.d_ptr n3] ∧
      (∀ pg ∈ r.raygenPGs ++ r.missPGs, (be.optixSbtRecordPackHeader pg).1 = OPTIX_SUCCESS) ∧
      (∀ pg, r.hitgroupPGs[0]? = some pg →
        0 < (castInt r.scene.meshes.length).toNat + (castInt r.scene.spheres.length).toNat →
        (be.optixSbtRecordPackHeader pg).1 = OPTIX_SUCCESS) ∧
      r' = { r with raygenRecordsBuffer := r'.raygenRecordsBuffer,
                    missRecordsBuffer := r'.missRecordsBuffer,
                    hitgroupRecordsBuffer := r'.hitgroupRecordsBuffer,
                    sbt := r'.sbt, device := r'.device } := by
  unfold buildSBT at hres
  obtain ⟨recsR, hR, k1⟩ := bind_eq_ok hres
  clear hres
  lift_lets at k1
  extract_lets rb ra src1 rb1 at k1
  obtain ⟨recsM, hM, k2⟩ := bind_eq_ok k1
  clear k1
  lift_lets at k2
  extract_lets mb rc src2 rd numMeshes numSpheres at k2
  obtain ⟨recsH1, hH1, k3⟩ := bind_eq_ok k2
  clear k2
  obtain ⟨recsH2, hH2, k4⟩ := bind_eq_ok k3
  clear k3
  lift_lets at k4
  extract_lets hb re src3 rf at k4
  have hh := congrArg (fun x => match x with | .ok a => some a | .error _ => none) k4
  simp only [pure, Except.pure, Option.some.injEq] at hh
  refine ⟨recsR.length * sizeof_RaygenRecord, recsM.length * sizeof_RaygenRecord,
    recsH2.length * sizeof_HitgroupRecord be, ?_, ?_, ?_, ?_⟩
  · rw [← hh]
    show ((r.device.calls ++ [_]) ++ [_]) ++ [_] = _
    simp only [List.append_assoc, List.singleton_append, List.cons_append, List.nil_append]
    rfl
  · intro pg hpg
    rcases List.mem_append.mp hpg with h1 | h1
    · exact buildSBT_raygen_statuses _ _ _ hR pg h1
    · exact buildSBT_miss_statuses _ _ _ hM pg h1
  · intro pg hpg hpos
    by_cases hm : (castInt r.scene.meshes.length).toNat = 0
    · have hs : List.range numSpheres.toNat ≠ [] := by
        intro hnil
        have := congrArg List.length hnil
        simp only [List.length_range, List.length_nil] at this
        have h2 : (castInt r.scene.spheres.length).toNat = 0 := this
        omega
      exact buildSBT_sphere_statuses hH2 hs hpg
    · have hs : List.range numMeshes.toNat ≠ [] := by
        intro hnil
        have := congrArg List.length hnil
        simp only [List.length_range, List.length_nil] at this
        exact hm this
      exact buildSBT_mesh_statuses hH1 hs hpg
  · rw [← hh]

theorem initOptix_inv {sbe : SetupBackend} {r r' : SampleRenderer α}
    (h : initOptix sbe r = .ok r') :
    sbe.cudaGetDeviceCount.2 ≠ 0 ∧ sbe.optixInit = OPTIX_SUCCESS ∧
    r' = { r with device := ⟨r.device.next, r.device.allocs, r.device.calls ++
      [.cudaFree 0 (sbe.cudaFree 0),
       .cudaGetDeviceCount sbe.cudaGetDeviceCount.1 sbe.cudaGetDeviceCount.2,
       .optixInit sbe.optixInit]⟩ } := by
  rw [initOptix_eq] at h
  by_cases h0 : sbe.cudaGetDeviceCount.2 = 0
  · rw [if_pos h0] at h; cases h
  · rw [if_neg h0] at h
    by_cases h1 : sbe.optixInit = OPTIX_SUCCESS
    · rw [if_pos h1] at h
      cases h
      exact ⟨h0, h1, rfl⟩
    · rw [if_neg h1] at h; cases h

theorem constructor_steps [Zero α] [One α] [Neg α] {be : Backend α} {sbe : SetupBackend}
    {members r : SampleRenderer α} {scene : Geometry α}
    (hres : SampleRenderer.SampleRenderer be sbe members scene = .ok r) :
    ∃ (r1 r2 r3 r4 r5 r6 rM rS rT r10 r11 : SampleRenderer α) (hM hS hT : OptixTraversableHandle),
      initOptix sbe { members with scene := scene } = .ok r1 ∧
      createContext sbe r1 = .ok r2 ∧ createModule sbe r2 = .ok r3 ∧
      createRaygenPrograms sbe r3 = .ok r4 ∧ createMissPrograms sbe r4 = .ok r5 ∧
      createHitgroupPrograms sbe r5 = .ok r6 ∧
      buildAccelMeshes be r6 = .ok (hM, rM) ∧ buildAccelSpheres be rM = .ok (hS, rS) ∧
      buildAccelInstances be rS hM hS = .ok (hT, rT) ∧
      createPipeline sbe { rT with launchParams := { rT.launchParams with traversable := hT } }
        = .ok r10 ∧
      buildSBT be r10 = .ok r11 ∧
      r = { r11 with
        launchParamsBuffer := (r11.launchParamsBuffer.alloc sizeof_LaunchParams r11.device).1
        device := (r11.launchParamsBuffer.alloc sizeof_LaunchParams r11.device).2 } := by
  unfold SampleRenderer.SampleRenderer at hres
  obtain ⟨r1, h1, k1⟩ := bind_eq_ok hres
  clear hres
  obtain ⟨r2, h2, k2⟩ := bind_eq_ok k1
  clear k1
  obtain ⟨r3, h3, k3⟩ := bind_eq_ok k2
  clear k2
  obtain ⟨r4, h4, k4⟩ := bind_eq_ok k3
  clear k3
  obtain ⟨r5, h5, k5⟩ := bind_eq_ok k4
  clear k4
  obtain ⟨r6, h6, k6⟩ := bind_eq_ok k5
  clear k5
  obtain ⟨⟨hM, rM⟩, h7, k7⟩ := bind_eq_ok k6
  clear k6
  obtain ⟨⟨hS, rS⟩, h8, k8⟩ := bind_eq_ok k7
  clear k7
  obtain ⟨⟨hT, rT⟩, h9, k9⟩ := bind_eq_ok k8
  clear k8
  obtain ⟨r10, h10, k10⟩ := bind_eq_ok k9
  clear k9
  obtain ⟨r11, h11, k11⟩ := bind_eq_ok k10
  clear k10
  have hh := congrArg (fun x => match x with | .ok a => some a | .error _ => none) k11
  simp only [pure, Except.pure, Option.some.injEq] at hh
  exact ⟨r1, r2, r3, r4, r5, r6, rM, rS, rT, r10, r11, hM, hS, hT, h1, h2, h3, h4, h5, h6, h7, h8,
    h9, h10, h11, hh.symm⟩

theorem castInt_three : castInt 3 = 3 := by decide

theorem constructor_inv [Zero α] [One α] [Neg α] {be : Backend α} {sbe : SetupBackend}
    {members r : SampleRenderer α} {scene : Geometry α}
    (hres : SampleRenderer.SampleRenderer be sbe members scene = .ok r) :
    ∃ (pgR pgM pgH : OptixProgramGroup) (upsM upsS : List (Event α)) (M S T : BuildStep α)
      (ip : CUdeviceptr) (n1 n2 n3 : Nat),
      r.device.calls = members.device.calls ++ setupCalls sbe r pgR pgM pgH ++
        upsM ++ M.calls ++ upsS ++ S.calls ++
        [.memcpyHtoD ip (2 * sizeof_OptixInstance)] ++ T.calls ++ pipelineCalls r pgR pgM pgH ++
        [.memcpyHtoD r.raygenRecordsBuffer.d_ptr n1, .memcpyHtoD r.missRecordsBuffer.d_ptr n2,
         .memcpyHtoD r.hitgroupRecordsBuffer.d_ptr n3] ∧
      (sbe.cudaGetDeviceCount.2 ≠ 0 ∧ sbe.optixInit = OPTIX_SUCCESS ∧ sbe.cudaSetDevice 0 = 0 ∧
        sbe.cudaStreamCreate.1 = 0) ∧
      (r.scene = scene ∧
        r.moduleCompileOptions
          = ⟨50, OPTIX_COMPILE_OPTIMIZATION_DEFAULT, OPTIX_COMPILE_DEBUG_LEVEL_NONE⟩ ∧
        r.pipelineCompileOptions
          = ⟨false, OPTIX_TRAVERSABLE_GRAPH_FLAG_ALLOW_ANY, 4, 4, OPTIX_EXCEPTION_FLAG_NONE,
              "optixLaunchParams"⟩ ∧
        r.pipelineLinkOptions = ⟨2, members.pipelineLinkOptions.debugLevel, false⟩ ∧
        r.raygenPGs = [pgR] ∧ r.missPGs = [pgM] ∧ r.hitgroupPGs = [pgH] ∧
        r.launchParams.traversable = T.handle) ∧
      (upsM.map Event.kind = List.replicate (2 * scene.meshes.length) .memcpyHtoD ∧
        upsS.map Event.kind = List.replicate scene.spheres.length .memcpyHtoD) ∧
      ((∀ p, callsSucceeded be p
          (members.device.calls ++ setupCalls sbe r pgR pgM pgH ++ upsM) M.calls) ∧
        (∀ p, callsSucceeded be p
          (members.device.calls ++ setupCalls sbe r pgR pgM pgH ++ upsM ++ M.calls ++ upsS)
          S.calls) ∧
        (∀ p, callsSucceeded be p
          (members.device.calls ++ setupCalls sbe r pgR pgM pgH ++ upsM ++ M.calls ++ upsS ++
            S.calls ++ [.memcpyHtoD ip (2 * sizeof_OptixInstance)]) T.calls)) ∧
      (M.build.buildInputs.length = scene.meshes.length ∧
        (∀ x ∈ M.build.buildInputs, ∃ t, x = .triangles t) ∧
        S.build.buildInputs.length = scene.spheres.length ∧
        (∀ x ∈ S.build.buildInputs, ∃ t, x = .customPrimitives t) ∧
        T.build.buildInputs = [.instances ⟨ip, 2, 0, 0⟩] ∧
        readAt T.build.memory ip = some (.instances
          [⟨[1, 0, 0, 0, 0, 1, 0, 0, 0, 0, 1, 0], 0, 0, 255, OPTIX_INSTANCE_FLAG_NONE, M.handle⟩,
           ⟨[1, 0, 0, 0, 0, 1, 0, 0, 0, 0, 1, 0], 1, castUInt32 scene.meshes.length, 255,
             OPTIX_INSTANCE_FLAG_NONE, S.handle⟩])) ∧
      ((∀ pg ∈ [pgR, pgM], (be.optixSbtRecordPackHeader pg).1 = OPTIX_SUCCESS) ∧
        (0 < (castInt scene.meshes.length).toNat + (castInt scene.spheres.length).toNat →
          (be.optixSbtRecordPackHeader pgH).1 = OPTIX_SUCCESS)) ∧
      r.device.allocs.getLast?
        = some ⟨r.launchParamsBuffer.d_ptr, sizeof_LaunchParams, .raw⟩ := by
  obtain ⟨r1, r2, r3, r4, r5, r6, rM, rS, rT, r10, r11, hM, hS, hT, h1, h2, h3, h4, h5, h6, h7,
    h8, h9, h10, h11, hr⟩ := constructor_steps hres
  clear hres
  obtain ⟨a1, a2, e1⟩ := initOptix_inv h1
  obtain ⟨b1, b2, b3, b4, e2⟩ := createContext_inv h2
  obtain ⟨c1, e3⟩ := createModule_inv h3
  obtain ⟨pgR, d1, e4⟩ := createRaygenPrograms_inv h4
  obtain ⟨pgM, d2, e5⟩ := createMissPrograms_inv h5
  obtain ⟨pgH, d3, e6⟩ := createHitgroupPrograms_inv h6
  obtain ⟨upsM, M, m1, m2, m3, m4, m5, m6, m7, e7⟩ := buildAccelMeshes_inv h7
  obtain ⟨upsS, S, s1, s2, s3, s4, s5, s6, s7, e8⟩ := buildAccelSpheres_inv h8
  obtain ⟨ip, T, t1, t2, t4, t5, t6, t7, e9⟩ := buildAccelInstances_inv h9
  obtain ⟨pl, p1, p2, e10⟩ := createPipeline_inv h10
  obtain ⟨n1, n2, n3, q1, q2, q3, e11⟩ := buildSBT_inv h11
  clear h1 h2 h3 h4 h5 h6 h7 h8 h9 h10 h11
  subst e1 e2 e3 e4 e5 e6
  -- the members that the builds and the SBT leave alone
  have fM : rM.scene = scene ∧ rM.stream = sbe.cudaStreamCreate.2 ∧
      rM.cudaContext = sbe.cuCtxGetCurrent.2 ∧
      rM.optixContext = (sbe.optixDeviceContextCreate sbe.cuCtxGetCurrent.2).2 ∧
      rM.moduleCompileOptions
        = ⟨50, OPTIX_COMPILE_OPTIMIZATION_DEFAULT, OPTIX_COMPILE_DEBUG_LEVEL_NONE⟩ ∧
      rM.pipelineCompileOptions
        = ⟨false, OPTIX_TRAVERSABLE_GRAPH_FLAG_ALLOW_ANY, 4, 4, OPTIX_EXCEPTION_FLAG_NONE,
            "optixLaunchParams"⟩ ∧
      rM.pipelineLinkOptions = ⟨2, members.pipelineLinkOptions.debugLevel, false⟩ ∧
      rM.raygenPGs = [pgR] ∧ rM.missPGs = [pgM] ∧ rM.hitgroupPGs = [pgH] ∧
      rM.module = (sbe.optixModuleCreateFromPTX
        (sbe.optixDeviceContextCreate sbe.cuCtxGetCurrent.2).2
        ⟨50, OPTIX_COMPILE_OPTIMIZATION_DEFAULT, OPTIX_COMPILE_DEBUG_LEVEL_NONE⟩
        ⟨false, OPTIX_TRAVERSABLE_GRAPH_FLAG_ALLOW_ANY, 4, 4, OPTIX_EXCEPTION_FLAG_NONE,
          "optixLaunchParams"⟩
        sbe.embedded_ptx_code sbe.embedded_ptx_code.length).2 := by
    rw [e7]
    exact ⟨rfl, rfl, rfl, rfl, rfl, rfl, rfl, rfl, rfl, rfl, rfl⟩
  obtain ⟨fM1, fM2, fM3, fM4, fM5, fM6, fM7, fM8, fM9, fM10, fM11⟩ := fM
  have fS : rS.scene = rM.scene ∧ rS.stream = rM.stream ∧ rS.cudaContext = rM.cudaContext ∧
      rS.optixContext = rM.optixContext ∧ rS.moduleCompileOptions = rM.moduleCompileOptions ∧
      rS.pipelineCompileOptions = rM.pipelineCompileOptions ∧
      rS.pipelineLinkOptions = rM.pipelineLinkOptions ∧ rS.raygenPGs = rM.raygenPGs ∧
      rS.missPGs = rM.missPGs ∧ rS.hitgroupPGs = rM.hitgroupPGs ∧ rS.module = rM.module := by
    rw [e8]
    exact ⟨rfl, rfl, rfl, rfl, rfl, rfl, rfl, rfl, rfl, rfl, rfl⟩
  obtain ⟨fS1, fS2, fS3, fS4, fS5, fS6, fS7, fS8, fS9, fS10, fS11⟩ := fS
  rw [fM1] at fS1
  rw [fM2] at fS2
  rw [fM3] at fS3
  rw [fM4] at fS4
  rw [fM5] at fS5
  rw [fM6] at fS6
  rw [fM7] at fS7
  rw [fM8] at fS8
  rw [fM9] at fS9
  rw [fM10] at fS10
  rw [fM11] at fS11
  have fT : rT.scene = rS.scene ∧ rT.stream = rS.stream ∧ rT.cudaContext = rS.cudaContext ∧
      rT.optixContext = rS.optixContext ∧ rT.moduleCompileOptions = rS.moduleCompileOptions ∧
      rT.pipelineCompileOptions = rS.pipelineCompileOptions ∧
      rT.pipelineLinkOptions = rS.pipelineLinkOptions ∧ rT.raygenPGs = rS.raygenPGs ∧
      rT.missPGs = rS.missPGs ∧ rT.hitgroupPGs = rS.hitgroupPGs ∧ rT.module = rS.module := by
    rw [e9]
    exact ⟨rfl, rfl, rfl, rfl, rfl, rfl, rfl, rfl, rfl, rfl, rfl⟩
  obtain ⟨fT1, fT2, fT3, fT4, fT5, fT6, fT7, fT8, fT9, fT10, fT11⟩ := fT
  rw [fS1] at fT1
  rw [fS2] at fT2
  rw [fS3] at fT3
  rw [fS4] at fT4
  rw [fS5] at fT5
  rw [fS6] at fT6
  rw [fS7] at fT7
  rw [fS8] at fT8
  rw [fS9] at fT9
  rw [fS10] at fT10
  rw [fS11] at fT11
  subst e10
  have f11 : r11.scene = rT.scene ∧ r11.stream = rT.stream ∧ r11.cudaContext = rT.cudaContext ∧
      r11.optixContext = rT.optixContext ∧ r11.moduleCompileOptions = rT.moduleCompileOptions ∧
      r11.pipelineCompileOptions = rT.pipelineCompileOptions ∧
      r11.pipelineLinkOptions = rT.pipelineLinkOptions ∧ r11.raygenPGs = rT.raygenPGs ∧
      r11.missPGs = rT.missPGs ∧ r11.hitgroupPGs = rT.hitgroupPGs ∧ r11.module = rT.module ∧
      r11.pipeline = pl ∧ r11.launchParams.traversable = hT := by
    rw [e11]
    exact ⟨rfl, rfl, rfl, rfl, rfl, rfl, rfl, rfl, rfl, rfl, rfl, rfl, rfl⟩
  obtain ⟨g1, g2, g3, g4, g5, g6, g7, g8, g9, g10, g11, g12, g13⟩ := f11
  rw [fT1] at g1
  rw [fT2] at g2
  rw [fT3] at g3
  rw [fT4] at g4
  rw [fT5] at g5
  rw [fT6] at g6
  rw [fT7] at g7
  rw [fT8] at g8
  rw [fT9] at g9
  rw [fT10] at g10
  rw [fT11] at g11
  subst hr
  -- the hypotheses in terms of the explicit members
  dsimp only at m1 m3 m4 m5 m6 p1 p2 q1 q2 q3
  rw [fM1] at s3 s5
  rw [fS1, ← m2, ← s2] at t7
  rw [fT4, fT6, fT7, fT8, fT9, fT10] at p1
  rw [fT4, fT6, fT7, fT8, fT9, fT10] at q1
  rw [fT8, fT9] at q2
  rw [fT10, fT1] at q3
  rw [m1] at s1 s4
  rw [s1] at t1 t4
  rw [t1] at q1
  have hp : castInt ([pgR] ++ [pgM] ++ [pgH]).length = 3 := castInt_three
  rw [hp] at p1 q1
  refine ⟨pgR, pgM, pgH, upsM, upsS, M, S, T, ip, n1, n2, n3, ?_, ⟨a1, a2, b1, b2⟩,
    ⟨g1, g5, g6, g7, g8, g9, g10, ?_⟩, ⟨m3, s3⟩, ⟨?_, ?_, ?_⟩,
    ⟨m5, m7, s5, s7, t5, t7⟩, ⟨?_, ?_⟩, ?_⟩
  · show r11.device.calls = _
    rw [q1]
    dsimp only [setupCalls, pipelineCalls]
    rw [g2, g3, g4, g5, g6, g7, g11, g12, b3, b4]
    simp only [List.append_assoc, List.cons_append, List.nil_append, List.singleton_append]
  · show r11.launchParams.traversable = T.handle
    rw [g13, t2]
  · intro p
    have := m4 p
    dsimp only [setupCalls]
    rw [g2, g3, g4, g5, g6, g11]
    rw [b3, b4] at this
    simp only [List.append_assoc, List.cons_append, List.nil_append, List.singleton_append]
      at this ⊢
    exact this
  · intro p
    have := s4 p
    dsimp only [setupCalls]
    rw [g2, g3, g4, g5, g6, g11]
    rw [b3, b4] at this
    simp only [List.append_assoc, List.cons_append, List.nil_append, List.singleton_append]
      at this ⊢
    exact this
  · intro p
    have := t4 p
    dsimp only [setupCalls]
    rw [g2, g3, g4, g5, g6, g11]
    rw [b3, b4] at this
    simp only [List.append_assoc, List.cons_append, List.nil_append, List.singleton_append]
      at this ⊢
    exact this
  · intro pg hpg
    exact q2 pg (by simpa using hpg)
  · intro hpos
    exact q3 pgH rfl hpos
  · show ((r11.launchParamsBuffer.alloc sizeof_LaunchParams r11.device).2).allocs.getLast? = _
    simp [CUDABuffer.alloc, Device.malloc]

theorem constructor_ok [Zero α] [One α] [Neg α] {be : Backend α} {sbe : SetupBackend}
    (hbe : be.succeeds) (hsbe : sbe.succeeds) (members : SampleRenderer α) (scene : Geometry α)
    (hcount : scene.meshes.length + scene.spheres.length < 2 ^ 31) :
    ∃ r, SampleRenderer.SampleRenderer be sbe members scene = .ok r := by
  obtain ⟨r1, h1⟩ := initOptix_ok hsbe { members with scene := scene }
  obtain ⟨r2, h2⟩ := createContext_ok hsbe r1
  obtain ⟨r3, h3⟩ := createModule_ok hsbe r2
  obtain ⟨r4, h4⟩ := createRaygenPrograms_ok hsbe r3
  obtain ⟨r5, h5⟩ := createMissPrograms_ok hsbe r4
  obtain ⟨r6, h6⟩ := createHitgroupPrograms_ok hsbe r5
  obtain ⟨hM, rM, -, -, -, -, -, -, -, h7, eM, lv, li, -⟩ := buildAccelMeshes_spec hbe r6
  obtain ⟨hS, rS, -, -, -, -, -, -, -, h8, eS, -⟩ := buildAccelSpheres_spec hbe rM
  obtain ⟨hT, rT, -, -, -, -, -, -, -, h9, eT, -⟩ := buildAccelInstances_spec hbe rS hM hS
  obtain ⟨r10, h10⟩ := createPipeline_ok hsbe
    { rT with launchParams := { rT.launchParams with traversable := hT } }
  obtain ⟨-, -, e1⟩ := initOptix_inv h1
  obtain ⟨-, -, -, -, e2⟩ := createContext_inv h2
  obtain ⟨-, e3⟩ := createModule_inv h3
  obtain ⟨pgR, -, e4⟩ := createRaygenPrograms_inv h4
  obtain ⟨pgM, -, e5⟩ := createMissPrograms_inv h5
  obtain ⟨pgH, -, e6⟩ := createHitgroupPrograms_inv h6
  obtain ⟨pl, -, -, e10⟩ := createPipeline_inv h10
  have f6 : r6.scene = scene ∧ r6.hitgroupPGs = [pgH] := by
    subst e1 e2 e3 e4 e5 e6
    exact ⟨rfl, rfl⟩
  have fM : rM.scene = r6.scene ∧ rM.hitgroupPGs = r6.hitgroupPGs := by
    rw [eM]; exact ⟨rfl, rfl⟩
  have fS : rS.scene = rM.scene ∧ rS.hitgroupPGs = rM.hitgroupPGs ∧
      rS.vertexBuffer = rM.vertexBuffer ∧ rS.indexBuffer = rM.indexBuffer := by
    rw [eS]; exact ⟨rfl, rfl, rfl, rfl⟩
  have fT : rT.scene = rS.scene ∧ rT.hitgroupPGs = rS.hitgroupPGs ∧
      rT.vertexBuffer = rS.vertexBuffer ∧ rT.indexBuffer = rS.indexBuffer := by
    rw [eT]; exact ⟨rfl, rfl, rfl, rfl⟩
  have f10 : r10.scene = scene ∧ r10.hitgroupPGs = [pgH] ∧
      r10.vertexBuffer = rM.vertexBuffer ∧ r10.indexBuffer = rM.indexBuffer := by
    rw [e10]
    refine ⟨?_, ?_, ?_, ?_⟩
    · show rT.scene = _
      rw [fT.1, fS.1, fM.1, f6.1]
    · show rT.hitgroupPGs = _
      rw [fT.2.1, fS.2.1, fM.2, f6.2]
    · show rT.vertexBuffer = _
      rw [fT.2.2.1, fS.2.2.1]
    · show rT.indexBuffer = _
      rw [fT.2.2.2, fS.2.2.2]
  obtain ⟨g1, g2, g3, g4⟩ := f10
  have hm6 : r6.scene.meshes.length = scene.meshes.length := by rw [f6.1]
  obtain ⟨r11, -, h11, -⟩ := buildSBT_spec hbe r10 (show r10.hitgroupPGs[0]? = some pgH by rw [g2]; rfl)
    (by rw [g1]; exact hcount) (by rw [g1, g3, lv, hm6]) (by rw [g1, g4, li, hm6])
  unfold SampleRenderer.SampleRenderer
  dsimp only
  rw [h1, bind_ok_eq, h2, bind_ok_eq, h3, bind_ok_eq, h4, bind_ok_eq, h5, bind_ok_eq, h6,
    bind_ok_eq, h7, bind_ok_eq, h8, bind_ok_eq, h9, bind_ok_eq]
  dsimp only
  rw [h10, bind_ok_eq, h11, bind_ok_eq]
  exact ⟨_, rfl⟩

/-- On the sample set-up backend a device is present and every checked call succeeds. -/
theorem okSetupBackend_succeeds : okSetupBackend.succeeds := by
  refine ⟨by decide, rfl, fun _ => rfl, rfl, fun _ => rfl, fun _ _ => rfl, fun _ _ _ _ _ => rfl,
    ?_, fun _ _ _ _ _ => rfl, fun _ _ _ _ _ => rfl⟩
  intro c g n
  cases g <;> rfl

/-- The set-up backend on which `cuCtxGetCurrent` fails still has a device, and every call
whose status the constructor checks succeeds on it. -/
theorem noContextBackend_succeeds : noContextBackend.succeeds := by
  refine ⟨by decide, rfl, fun _ => rfl, rfl, fun _ => rfl, fun _ _ => rfl, fun _ _ _ _ _ => rfl,
    ?_, fun _ _ _ _ _ => rfl, fun _ _ _ _ _ => rfl⟩
  intro c g n
  cases g <;> rfl

/-- A run of uploads contributes nothing to the calls other than uploads. -/
theorem filter_uploads {α : Type} {t : List (Event α)} {n : Nat}
    (h : t.map Event.kind = List.replicate n .memcpyHtoD) :
    (t.map Event.kind).filter (fun k => decide (k ≠ .memcpyHtoD)) = [] := by
  rw [h]
  simp


end Construction

/-! ## Construction: the calls made when a check aborts it -/

section Aborts
variable {α : Type}

theorem mapError_abortsAt {σ : Type} (t : List (Event α)) (x : Except Error σ) :
    (abortsAt t x).mapError Prod.fst = x := by
  cases x <;> rfl

theorem mapError_bind {ε ε' β γ : Type} (g : ε → ε') (x : Except ε β) (f : β → Except ε γ) :
    (x >>= f).mapError g = (x.mapError g >>= fun a => (f a).mapError g) := by
  cases x <;> rfl

theorem mapError_pure {ε ε' β : Type} (g : ε → ε') (a : β) :
    (pure a : Except ε β).mapError g = pure a := rfl

theorem mapError_ok {ε ε' β : Type} {g : ε → ε'} {x : Except ε β} {y : Except ε' β} {a : β}
    (h : x.mapError g = y) (hx : x = .ok a) : y = .ok a := by
  subst hx; exact h.symm

theorem mapError_error {ε ε' β : Type} {g : ε → ε'} {x : Except ε β} {y : Except ε' β} {e : ε}
    (h : x.mapError g = y) (hx : x = .error e) : y = .error (g e) := by
  subst hx; exact h.symm

theorem initOptix_traced_agrees (sbe : SetupBackend) (r : SampleRenderer α) :
    (initOptix.traced sbe r).mapError Prod.fst = initOptix sbe r := by
  unfold initOptix.traced initOptix
  by_cases h : sbe.cudaGetDeviceCount.2 = 0
  · simp only [h, if_true]
    rfl
  · simp only [h, if_false, mapError_bind, mapError_abortsAt, mapError_pure]

theorem createContext_traced_agrees (sbe : SetupBackend) (r : SampleRenderer α) :
    (createContext.traced sbe r).mapError Prod.fst = createContext sbe r := by
  unfold createContext.traced createContext
  simp only [mapError_bind, mapError_abortsAt, mapError_pure]

theorem createModule_traced_agrees (sbe : SetupBackend) (r : SampleRenderer α) :
    (createModule.traced sbe r).mapError Prod.fst = createModule sbe r := by
  unfold createModule.traced createModule
  simp only [mapError_bind, mapError_abortsAt, mapError_pure]

theorem createRaygenPrograms_traced_agrees (sbe : SetupBackend) (r : SampleRenderer α) :
    (createRaygenPrograms.traced sbe r).mapError Prod.fst = createRaygenPrograms sbe r := by
  unfold createRaygenPrograms.traced createRaygenPrograms
  simp only [mapError_bind, mapError_abortsAt, mapError_pure]

theorem createMissPrograms_traced_agrees (sbe : SetupBackend) (r : SampleRenderer α) :
    (createMissPrograms.traced sbe r).mapError Prod.fst = createMissPrograms sbe r := by
  unfold createMissPrograms.traced createMissPrograms
  simp only [mapError_bind, mapError_abortsAt, mapError_pure]

theorem createHitgroupPrograms_traced_agrees (sbe : SetupBackend) (r : SampleRenderer α) :
    (createHitgroupPrograms.traced sbe r).mapError Prod.fst = createHitgroupPrograms sbe r := by
  unfold createHitgroupPrograms.traced createHitgroupPrograms
  simp only [mapError_bind, mapError_abortsAt, mapError_pure]

theorem createPipeline_traced_agrees (sbe : SetupBackend) (r : SampleRenderer α) :
    (createPipeline.traced sbe r).mapError Prod.fst = createPipeline sbe r := by
  unfold createPipeline.traced createPipeline
  simp only [mapError_bind, mapError_abortsAt, mapError_pure]

theorem buildAccelMeshes_traced_agrees (be : Backend α) (r : SampleRenderer α) :
    (buildAccelMeshes.traced be r).mapError Prod.fst = buildAccelMeshes be r := by
  unfold buildAccelMeshes.traced buildAccelMeshes
  simp only [mapError_bind, mapError_abortsAt, mapError_pure]

theorem buildAccelSpheres_traced_agrees [Neg α] (be : Backend α) (r : SampleRenderer α) :
    (buildAccelSpheres.traced be r).mapError Prod.fst = buildAccelSpheres be r := by
  unfold buildAccelSpheres.traced buildAccelSpheres
  simp only [mapError_bind, mapError_abortsAt, mapError_pure]

theorem buildAccelInstances_traced_agrees [Zero α] [One α] (be : Backend α)
    (r : SampleRenderer α) (meshes spheres : OptixTraversableHandle) :
    (buildAccelInstances.traced be r meshes spheres).mapError Prod.fst
      = buildAccelInstances be r meshes spheres := by
  unfold buildAccelInstances.traced buildAccelInstances
  simp only [mapError_bind, mapError_abortsAt, mapError_pure]

theorem buildSBT_traced_agrees (be : Backend α) (r : SampleRenderer α) :
    (buildSBT.traced be r).mapError Prod.fst = buildSBT be r := by
  unfold buildSBT.traced buildSBT
  simp only [mapError_bind, mapError_abortsAt, mapError_pure]

theorem constructor_traced_agrees [Zero α] [One α] [Neg α] (be : Backend α) (sbe : SetupBackend)
    (members : SampleRenderer α) (scene : Geometry α) :
    (SampleRenderer.SampleRenderer.traced be sbe members scene).mapError Prod.fst
      = SampleRenderer.SampleRenderer be sbe members scene := by
  unfold SampleRenderer.SampleRenderer.traced SampleRenderer.SampleRenderer
  simp only [mapError_bind, mapError_pure, initOptix_traced_agrees, createContext_traced_agrees,
    createModule_traced_agrees, createRaygenPrograms_traced_agrees,
    createMissPrograms_traced_agrees, createHitgroupPrograms_traced_agrees,
    createPipeline_traced_agrees, buildAccelMeshes_traced_agrees,
    buildAccelSpheres_traced_agrees, buildAccelInstances_traced_agrees, buildSBT_traced_agrees]

theorem bind_eq_error {ε β γ : Type} {x : Except ε β} {f : β → Except ε γ} {a : ε}
    (h : (x >>= f) = .error a) : x = .error a ∨ ∃ v, x = .ok v ∧ f v = .error a := by
  cases x with
  | error e =>
    left
    have h' : (Except.error e : Except ε γ) = .error a := h
    injection h' with h'
    rw [h']
  | ok v => right; exact ⟨v, rfl, h⟩

theorem OPTIX_CHECK_bind_error {γ : Type} {t : List (Event α)} {res : OptixResult}
    {f : Unit → Except (Abort α) γ} {e : Error} {tr : List (Event α)}
    (h : (abortsAt t (OPTIX_CHECK res) >>= f) = .error (e, tr)) :
    (res ≠ OPTIX_SUCCESS ∧ e = .optixCallFailed res ∧ tr = t) ∨
      (res = OPTIX_SUCCESS ∧ f () = .error (e, tr)) := by
  unfold OPTIX_CHECK at h
  by_cases hr : res = OPTIX_SUCCESS
  · rw [if_pos hr] at h
    exact Or.inr ⟨hr, h⟩
  · rw [if_neg hr] at h
    have h' : (Except.error (Error.optixCallFailed res, t) : Except (Abort α) γ)
        = .error (e, tr) := h
    injection h' with h'
    injection h' with h1 h2
    exact Or.inl ⟨hr, h1.symm, h2.symm⟩

theorem CUDA_CHECK_bind_error {γ : Type} {t : List (Event α)} {res : CudaResult}
    {f : Unit → Except (Abort α) γ} {e : Error} {tr : List (Event α)}
    (h : (abortsAt t (CUDA_CHECK res) >>= f) = .error (e, tr)) :
    (res ≠ 0 ∧ e = .cudaCallFailed res ∧ tr = t) ∨ (res = 0 ∧ f () = .error (e, tr)) := by
  unfold CUDA_CHECK at h
  by_cases hr : res = 0
  · rw [if_pos hr] at h
    exact Or.inr ⟨hr, h⟩
  · rw [if_neg hr] at h
    have h' : (Except.error (Error.cudaCallFailed res, t) : Except (Abort α) γ)
        = .error (e, tr) := h
    injection h' with h'
    injection h' with h1 h2
    exact Or.inl ⟨hr, h1.symm, h2.symm⟩

theorem CUDA_SYNC_CHECK_bind_error {γ : Type} {be : Backend α} {t : List (Event α)}
    {d : Device α} {f : Device α → Except (Abort α) γ} {e : Error} {tr : List (Event α)}
    (h : (abortsAt t (CUDA_SYNC_CHECK be d) >>= f) = .error (e, tr)) :
    (be.cudaDeviceSynchronize d.calls ≠ 0 ∧
        e = .cudaCallFailed (be.cudaDeviceSynchronize d.calls) ∧ tr = t) ∨
      (be.cudaDeviceSynchronize d.calls = 0 ∧ f (d.record .sync) = .error (e, tr)) := by
  unfold CUDA_SYNC_CHECK at h
  by_cases hr : be.cudaDeviceSynchronize d.calls = 0
  · rw [if_pos hr] at h
    exact Or.inr ⟨hr, h⟩
  · rw [if_neg hr] at h
    have h' : (Except.error (Error.cudaCallFailed (be.cudaDeviceSynchronize d.calls), t) :
        Except (Abort α) γ) = .error (e, tr) := h
    injection h' with h'
    injection h' with h1 h2
    exact Or.inl ⟨hr, h1.symm, h2.symm⟩

theorem callKinds_append (t1 t2 : List (Event α)) :
    callKinds (t1 ++ t2) = callKinds t1 ++ callKinds t2 := by
  simp [callKinds]

theorem callKinds_uploads {t : List (Event α)} (h : ∀ e ∈ t, e.kind = .memcpyHtoD) :
    callKinds t = [] := by
  simp only [callKinds, List.filter_eq_nil_iff, List.mem_map]
  rintro k ⟨e, he, rfl⟩
  simp [h e he]

theorem callKinds_single {c : Event α} (h : c.kind ≠ .memcpyHtoD) : callKinds [c] = [c.kind] := by
  simp [callKinds, h]

theorem ran_refl (be : Backend α) (base : List (Event α)) : Ran be base base [] :=
  ⟨[], by simp, trivial, rfl⟩

theorem ran_append {be : Backend α} {base cur t : List (Event α)} {ks : List CallKind}
    (h : Ran be base cur ks) (hc : callsSucceeded be CallKind.checked cur t) :
    Ran be base (cur ++ t) (ks ++ callKinds t) := by
  obtain ⟨t0, h1, h2, h3⟩ := h
  refine ⟨t0 ++ t, by rw [h1, List.append_assoc], ?_, by rw [callKinds_append, h3]⟩
  rw [callsSucceeded_append]
  exact ⟨h2, h1 ▸ hc⟩

theorem ran_snoc {be : Backend α} {base cur : List (Event α)} {ks : List CallKind}
    {c : Event α} (h : Ran be base cur ks)
    (hc : callsSucceeded be CallKind.checked cur [c]) (hk : c.kind ≠ .memcpyHtoD) :
    Ran be base (cur ++ [c]) (ks ++ [c.kind]) := by
  have := ran_append h hc
  rwa [callKinds_single hk] at this

theorem ran_uploads {be : Backend α} {base cur ups : List (Event α)} {ks : List CallKind}
    (h : Ran be base cur ks) (hu : ∀ e ∈ ups, e.kind = .memcpyHtoD) :
    Ran be base (cur ++ ups) ks := by
  have := ran_append h (callsSucceeded_uploads be _ ups hu cur)
  rwa [callKinds_uploads hu, List.append_nil] at this

theorem ran_abort {be : Backend α} {base cur : List (Event α)} {ks : List CallKind}
    {c : Event α} {e : Error} (h : Ran be base cur ks)
    (hf : c.failure be cur = some e) (hk : c.kind ≠ .memcpyHtoD) :
    AbortsWith be base (cur ++ [c]) e (ks ++ [c.kind]) := by
  obtain ⟨t0, h1, h2, h3⟩ := h
  refine ⟨t0 ++ [c], by rw [h1, List.append_assoc], ?_, t0, c, rfl, h2, h1 ▸ hf⟩
  rw [callKinds_append, h3, callKinds_single hk]

theorem initOptix_traced_error {be : Backend α} {base : List (Event α)}
    {ks : List CallKind} {sbe : SetupBackend} {r : SampleRenderer α}
    {e : Error} {tr : List (Event α)} (hR : Ran be base r.device.calls ks)
    (h : initOptix.traced sbe r = .error (e, tr)) :
    (∃ ks', AbortsWith be base tr e ks' ∧
      ks' <+: ks ++ [.cudaFree, .cudaGetDeviceCount, .optixInit]) ∨
    (sbe.cudaGetDeviceCount.2 = 0 ∧
      e = .runtimeError "#osc: no CUDA capable devices found!" ∧
      tr = r.device.calls ++ [.cudaFree 0 (sbe.cudaFree 0),
        .cudaGetDeviceCount sbe.cudaGetDeviceCount.1 sbe.cudaGetDeviceCount.2]) := by
  unfold initOptix.traced at h
  dsimp only at h
  by_cases h0 : sbe.cudaGetDeviceCount.2 = 0
  · right
    rw [if_pos h0] at h
    have h' : (Except.error (Error.runtimeError "#osc: no CUDA capable devices found!",
        ((r.device.record (.cudaFree 0 (sbe.cudaFree 0))).record
          (.cudaGetDeviceCount sbe.cudaGetDeviceCount.1 sbe.cudaGetDeviceCount.2)).calls) :
        Except (Abort α) (SampleRenderer α)) = .error (e, tr) := h
    injection h' with h'
    injection h' with h1 h2
    refine ⟨h0, h1.symm, ?_⟩
    rw [← h2]
    simp [Device.record]
  · left
    rw [if_neg h0] at h
    have R1 := ran_snoc hR (c := .cudaFree 0 (sbe.cudaFree 0))
      (by simp [callsSucceeded, Event.kind, Event.status, CallKind.checked])
      (by simp [Event.kind])
    have R2 := ran_snoc R1
      (c := .cudaGetDeviceCount sbe.cudaGetDeviceCount.1 sbe.cudaGetDeviceCount.2)
      (by simp [callsSucceeded, Event.kind, Event.status, CallKind.checked])
      (by simp [Event.kind])
    rcases OPTIX_CHECK_bind_error h with ⟨c1, he, ht⟩ | ⟨c1, k1⟩
    · subst he ht
      refine ⟨_, ran_abort R2 ?_ ?_, ?_⟩
      · simp [Event.failure, Event.kind, Event.status, CallKind.checked, c1]
      · simp [Event.kind]
      · simp [Event.kind]
    · cases k1

theorem createContext_traced_error {be : Backend α} {base : List (Event α)}
    {ks : List CallKind} {sbe : SetupBackend} {r : SampleRenderer α}
    {e : Error} {tr : List (Event α)} (hR : Ran be base r.device.calls ks)
    (h : createContext.traced sbe r = .error (e, tr)) :
    ∃ ks', AbortsWith be base tr e ks' ∧
      ks' <+: ks ++ [.cudaSetDevice, .cudaStreamCreate, .cudaGetDeviceProperties,
        .cuCtxGetCurrent, .deviceContextCreate, .deviceContextSetLogCallback] := by
  unfold createContext.traced at h
  dsimp only at h
  rcases CUDA_CHECK_bind_error h with ⟨c1, he, ht⟩ | ⟨c1, k1⟩
  · subst he ht
    refine ⟨_, ran_abort hR ?_ ?_, ?_⟩
    · simp [Event.failure, c1]
    · simp [Event.kind]
    · simp [Event.kind]
  clear h
  have R1 := ran_snoc hR (c := .cudaSetDevice 0 (sbe.cudaSetDevice 0))
    (by simp [callsSucceeded, Event.kind, Event.status, c1]) (by simp [Event.kind])
  rcases CUDA_CHECK_bind_error k1 with ⟨c2, he, ht⟩ | ⟨c2, k2⟩
  · subst he ht
    refine ⟨_, ran_abort R1 ?_ ?_, ?_⟩
    · simp [Event.failure, c2]
    · simp [Event.kind]
    · simp [Event.kind]
  clear k1
  have R2 := ran_snoc R1 (c := .cudaStreamCreate sbe.cudaStreamCreate.1 sbe.cudaStreamCreate.2)
    (by simp [callsSucceeded, Event.kind, Event.status, c2]) (by simp [Event.kind])
  have R3 := ran_snoc R2 (c := .cudaGetDeviceProperties 0 (sbe.cudaGetDeviceProperties 0).1)
    (by simp [callsSucceeded, Event.kind, Event.status, CallKind.checked])
    (by simp [Event.kind])
  have R4 := ran_snoc R3 (c := .cuCtxGetCurrent sbe.cuCtxGetCurrent.1 sbe.cuCtxGetCurrent.2)
    (by simp [callsSucceeded, Event.kind, Event.status, CallKind.checked])
    (by simp [Event.kind])
  rcases OPTIX_CHECK_bind_error k2 with ⟨c3, he, ht⟩ | ⟨c3, k3⟩
  · subst he ht
    refine ⟨_, ran_abort R4 ?_ ?_, ?_⟩
    · simp [Event.failure, Event.kind, Event.status, CallKind.checked, c3]
    · simp [Event.kind]
    · simp [Event.kind]
  clear k2
  have R5 := ran_snoc R4 (c := .deviceContextCreate sbe.cuCtxGetCurrent.2
      (sbe.optixDeviceContextCreate sbe.cuCtxGetCurrent.2).1
      (sbe.optixDeviceContextCreate sbe.cuCtxGetCurrent.2).2)
    (by simp [callsSucceeded, Event.kind, Event.status, CallKind.checked, c3, OPTIX_SUCCESS.eq_1]
        )
    (by simp [Event.kind])
  rcases OPTIX_CHECK_bind_error k3 with ⟨c4, he, ht⟩ | ⟨c4, k4⟩
  · subst he ht
    refine ⟨_, ran_abort R5 ?_ ?_, ?_⟩
    · simp [Event.failure, Event.kind, Event.status, CallKind.checked, c4]
    · simp [Event.kind]
    · simp [Event.kind]
  · cases k4

theorem createModule_traced_error {be : Backend α} {base : List (Event α)}
    {ks : List CallKind} {sbe : SetupBackend} {r : SampleRenderer α}
    {e : Error} {tr : List (Event α)} (hR : Ran be base r.device.calls ks)
    (h : createModule.traced sbe r = .error (e, tr)) :
    ∃ ks', AbortsWith be base tr e ks' ∧ ks' <+: ks ++ [.moduleCreateFromPTX] := by
  unfold createModule.traced at h
  dsimp only at h
  rcases OPTIX_CHECK_bind_error h with ⟨c1, he, ht⟩ | ⟨c1, k1⟩
  · subst he ht
    refine ⟨_, ran_abort hR ?_ ?_, ?_⟩
    · simp [Event.failure, Event.kind, Event.status, CallKind.checked, c1]
    · simp [Event.kind]
    · simp [Event.kind]
  · cases k1

theorem createRaygenPrograms_traced_error {be : Backend α} {base : List (Event α)}
    {ks : List CallKind} {sbe : SetupBackend} {r : SampleRenderer α}
    {e : Error} {tr : List (Event α)} (hR : Ran be base r.device.calls ks)
    (h : createRaygenPrograms.traced sbe r = .error (e, tr)) :
    ∃ ks', AbortsWith be base tr e ks' ∧ ks' <+: ks ++ [.programGroupCreate] := by
  unfold createRaygenPrograms.traced at h
  dsimp only at h
  rcases OPTIX_CHECK_bind_error h with ⟨c1, he, ht⟩ | ⟨c1, k1⟩
  · subst he ht
    refine ⟨_, ran_abort hR ?_ ?_, ?_⟩
    · simp [Event.failure, Event.kind, Event.status, CallKind.checked, c1]
    · simp [Event.kind]
    · simp [Event.kind]
  · cases k1

theorem createMissPrograms_traced_error {be : Backend α} {base : List (Event α)}
    {ks : List CallKind} {sbe : SetupBackend} {r : SampleRenderer α}
    {e : Error} {tr : List (Event α)} (hR : Ran be base r.device.calls ks)
    (h : createMissPrograms.traced sbe r = .error (e, tr)) :
    ∃ ks', AbortsWith be base tr e ks' ∧ ks' <+: ks ++ [.programGroupCreate] := by
  unfold createMissPrograms.traced at h
  dsimp only at h
  rcases OPTIX_CHECK_bind_error h with ⟨c1, he, ht⟩ | ⟨c1, k1⟩
  · subst he ht
    refine ⟨_, ran_abort hR ?_ ?_, ?_⟩
    · simp [Event.failure, Event.kind, Event.status, CallKind.checked, c1]
    · simp [Event.kind]
    · simp [Event.kind]
  · cases k1

theorem createHitgroupPrograms_traced_error {be : Backend α} {base : List (Event α)}
    {ks : List CallKind} {sbe : SetupBackend} {r : SampleRenderer α}
    {e : Error} {tr : List (Event α)} (hR : Ran be base r.device.calls ks)
    (h : createHitgroupPrograms.traced sbe r = .error (e, tr)) :
    ∃ ks', AbortsWith be base tr e ks' ∧ ks' <+: ks ++ [.programGroupCreate] := by
  unfold createHitgroupPrograms.traced at h
  dsimp only at h
  rcases OPTIX_CHECK_bind_error h with ⟨c1, he, ht⟩ | ⟨c1, k1⟩
  · subst he ht
    refine ⟨_, ran_abort hR ?_ ?_, ?_⟩
    · simp [Event.failure, Event.kind, Event.status, CallKind.checked, c1]
    · simp [Event.kind]
    · simp [Event.kind]
  · cases k1

theorem createPipeline_traced_error {be : Backend α} {base : List (Event α)}
    {ks : List CallKind} {sbe : SetupBackend} {r : SampleRenderer α}
    {e : Error} {tr : List (Event α)} (hR : Ran be base r.device.calls ks)
    (h : createPipeline.traced sbe r = .error (e, tr)) :
    ∃ ks', AbortsWith be base tr e ks' ∧
      ks' <+: ks ++ [.pipelineCreate, .pipelineSetStackSize] := by
  unfold createPipeline.traced at h
  dsimp only at h
  rcases OPTIX_CHECK_bind_error h with ⟨c1, he, ht⟩ | ⟨c1, k1⟩
  · subst he ht
    refine ⟨_, ran_abort hR ?_ ?_, ?_⟩
    · simp [Event.failure, Event.kind, Event.status, CallKind.checked, c1]
    · simp [Event.kind]
    · simp [Event.kind]
  clear h
  rcases OPTIX_CHECK_bind_error k1 with ⟨c2, he, ht⟩ | ⟨c2, k2⟩
  · subst he ht
    refine ⟨_, ran_abort (ran_snoc hR ?_ ?_) ?_ ?_, ?_⟩
    · simp [callsSucceeded, Event.kind, Event.status, CallKind.checked, c1, OPTIX_SUCCESS.eq_1]
    · simp [Event.kind]
    · simp [Event.failure, Event.kind, Event.status, CallKind.checked, c2]
    · simp [Event.kind]
    · simp [Event.kind]
  · cases k2

theorem initOptix_ran {be : Backend α} {base : List (Event α)} {ks : List CallKind}
    {sbe : SetupBackend} {r r' : SampleRenderer α} (hR : Ran be base r.device.calls ks)
    (h : initOptix sbe r = .ok r') :
    Ran be base r'.device.calls (ks ++ [.cudaFree, .cudaGetDeviceCount, .optixInit]) := by
  obtain ⟨-, a2, rfl⟩ := initOptix_inv h
  have := ran_append hR (t := [.cudaFree 0 (sbe.cudaFree 0),
       .cudaGetDeviceCount sbe.cudaGetDeviceCount.1 sbe.cudaGetDeviceCount.2,
       .optixInit sbe.optixInit])
    (by simp [callsSucceeded, Event.kind, Event.status, CallKind.checked, a2, OPTIX_SUCCESS.eq_1])
  simpa [callKinds, Event.kind] using this

theorem createContext_ran {be : Backend α} {base : List (Event α)} {ks : List CallKind}
    {sbe : SetupBackend} {r r' : SampleRenderer α} (hR : Ran be base r.device.calls ks)
    (h : createContext sbe r = .ok r') :
    Ran be base r'.device.calls (ks ++ [.cudaSetDevice, .cudaStreamCreate,
      .cudaGetDeviceProperties, .cuCtxGetCurrent, .deviceContextCreate,
      .deviceContextSetLogCallback]) := by
  obtain ⟨b1, b2, b3, b4, rfl⟩ := createContext_inv h
  have := ran_append hR (t := [.cudaSetDevice 0 (sbe.cudaSetDevice 0),
         .cudaStreamCreate sbe.cudaStreamCreate.1 sbe.cudaStreamCreate.2,
         .cudaGetDeviceProperties 0 (sbe.cudaGetDeviceProperties 0).1,
         .cuCtxGetCurrent sbe.cuCtxGetCurrent.1 sbe.cuCtxGetCurrent.2,
         .deviceContextCreate sbe.cuCtxGetCurrent.2
           (sbe.optixDeviceContextCreate sbe.cuCtxGetCurrent.2).1
           (sbe.optixDeviceContextCreate sbe.cuCtxGetCurrent.2).2,
         .deviceContextSetLogCallback (sbe.optixDeviceContextCreate sbe.cuCtxGetCurrent.2).2 4
           (sbe.optixDeviceContextSetLogCallback
             (sbe.optixDeviceContextCreate sbe.cuCtxGetCurrent.2).2 4)])
    (by simp [callsSucceeded, Event.kind, Event.status, CallKind.checked, b1, b2, b3, b4,
          OPTIX_SUCCESS.eq_1])
  simpa [callKinds, Event.kind] using this

theorem createModule_ran {be : Backend α} {base : List (Event α)} {ks : List CallKind}
    {sbe : SetupBackend} {r r' : SampleRenderer α} (hR : Ran be base r.device.calls ks)
    (h : createModule sbe r = .ok r') :
    Ran be base r'.device.calls (ks ++ [.moduleCreateFromPTX]) := by
  obtain ⟨-, e3⟩ := createModule_inv h
  rw [e3]
  exact ran_snoc hR (by simp [callsSucceeded, Event.kind, Event.status, OPTIX_SUCCESS.eq_1])
    (by simp [Event.kind])

theorem createRaygenPrograms_ran {be : Backend α} {base : List (Event α)} {ks : List CallKind}
    {sbe : SetupBackend} {r r' : SampleRenderer α} (hR : Ran be base r.device.calls ks)
    (h : createRaygenPrograms sbe r = .ok r') :
    Ran be base r'.device.calls (ks ++ [.programGroupCreate]) := by
  obtain ⟨pg, -, e3⟩ := createRaygenPrograms_inv h
  rw [e3]
  exact ran_snoc hR (by simp [callsSucceeded, Event.kind, Event.status, OPTIX_SUCCESS.eq_1])
    (by simp [Event.kind])

theorem createMissPrograms_ran {be : Backend α} {base : List (Event α)} {ks : List CallKind}
    {sbe : SetupBackend} {r r' : SampleRenderer α} (hR : Ran be base r.device.calls ks)
    (h : createMissPrograms sbe r = .ok r') :
    Ran be base r'.device.calls (ks ++ [.programGroupCreate]) := by
  obtain ⟨pg, -, e3⟩ := createMissPrograms_inv h
  rw [e3]
  exact ran_snoc hR (by simp [callsSucceeded, Event.kind, Event.status, OPTIX_SUCCESS.eq_1])
    (by simp [Event.kind])

theorem createHitgroupPrograms_ran {be : Backend α} {base : List (Event α)}
    {ks : List CallKind} {sbe : SetupBackend} {r r' : SampleRenderer α}
    (hR : Ran be base r.device.calls ks) (h : createHitgroupPrograms sbe r = .ok r') :
    Ran be base r'.device.calls (ks ++ [.programGroupCreate]) := by
  obtain ⟨pg, -, e3⟩ := createHitgroupPrograms_inv h
  rw [e3]
  exact ran_snoc hR (by simp [callsSucceeded, Event.kind, Event.status, OPTIX_SUCCESS.eq_1])
    (by simp [Event.kind])

theorem createPipeline_ran {be : Backend α} {base : List (Event α)} {ks : List CallKind}
    {sbe : SetupBackend} {r r' : SampleRenderer α} (hR : Ran be base r.device.calls ks)
    (h : createPipeline sbe r = .ok r') :
    Ran be base r'.device.calls (ks ++ [.pipelineCreate, .pipelineSetStackSize]) := by
  obtain ⟨pl, -, -, e3⟩ := createPipeline_inv h
  rw [e3]
  have := ran_append hR (t := [.pipelineCreate r.optixContext r.pipelineCompileOptions
      r.pipelineLinkOptions (r.raygenPGs ++ r.missPGs ++ r.hitgroupPGs)
      (castInt (r.raygenPGs ++ r.missPGs ++ r.hitgroupPGs).length) OPTIX_SUCCESS pl,
     .pipelineSetStackSize pl (2 * 1024) (2 * 1024) (2 * 1024) 1 OPTIX_SUCCESS])
    (by simp [callsSucceeded, Event.kind, Event.status, OPTIX_SUCCESS.eq_1])
  simpa [callKinds, Event.kind] using this

theorem abortsAt_ok_bind {σ γ : Type} (t : List (Event α)) (v : σ)
    (f : σ → Except (Abort α) γ) : (abortsAt t (Except.ok v) >>= f) = f v := rfl

theorem callKinds_build (b : BuildStep α) : callKinds b.calls = buildKinds := rfl

theorem good_call {be : Backend α} {cur : List (Event α)} {c : Event α}
    (h : ∀ s, c.status be = some s → s = 0) (hs : c.kind ≠ .sync) :
    callsSucceeded be CallKind.checked cur [c] := by
  show _ ∧ _ ∧ True
  exact ⟨fun _ => h, fun hk => absurd hk hs, trivial⟩

theorem good_sync {be : Backend α} {cur : List (Event α)}
    (h : be.cudaDeviceSynchronize cur = 0) :
    callsSucceeded be CallKind.checked cur [.sync] := by
  show _ ∧ _ ∧ True
  exact ⟨fun _ s hs => (nomatch hs), fun _ => h, trivial⟩

theorem good_download {be : Backend α} {cur : List (Event α)} (p : CUdeviceptr) (n : Nat) :
    callsSucceeded be CallKind.checked cur [.memcpyDtoH p n] := by
  show _ ∧ _ ∧ True
  exact ⟨fun _ s hs => (nomatch hs), fun hk => (nomatch hk), trivial⟩

theorem buildAccelMeshes_ran {be : Backend α} {base : List (Event α)} {ks : List CallKind}
    {r r' : SampleRenderer α} {h : OptixTraversableHandle}
    (hR : Ran be base r.device.calls ks) (hres : buildAccelMeshes be r = .ok (h, r')) :
    Ran be base r'.device.calls (ks ++ buildKinds) := by
  obtain ⟨ups, b, m1, -, m3, m4, -⟩ := buildAccelMeshes_inv hres
  rw [m1, ← callKinds_build b]
  exact ran_append (ran_uploads hR (uploads_of_kinds m3)) (m4 _)

theorem buildAccelMeshes_traced_error {be : Backend α} {base : List (Event α)}
    {ks : List CallKind} {r : SampleRenderer α} {e : Error} {tr : List (Event α)}
    (hR : Ran be base r.device.calls ks)
    (h : buildAccelMeshes.traced be r = .error (e, tr)) :
    ∃ ks', AbortsWith be base tr e ks' ∧ ks' <+: ks ++ buildKinds := by
  unfold buildAccelMeshes.traced at h
  lift_lets at h
  extract_lets r0 locals S r1 geometryInput usageCall usage blasBufferSizes d0 cs
    compactedSizeBuffer emitResult tb tempBuffer ob outputBuffer d1 buildCall built asHandle d2
    at h
  obtain ⟨ups, hu1, hu2⟩ := buildAccelMeshes_loop_calls r.scene.meshes 0 (r0, locals)
  have hc1 : r1.device.calls = r.device.calls ++ ups := hu1
  have R0 : Ran be base r1.device.calls ks := hc1 ▸ ran_uploads hR (uploads_of_kinds hu2)
  clear hR hu1 hc1
  rcases OPTIX_CHECK_bind_error h with ⟨c1, he, ht⟩ | ⟨c1, k1⟩
  · subst he ht
    refine ⟨_, ran_abort R0 ?_ ?_, ?_⟩
    · simp [Event.failure, Event.kind, Event.status, CallKind.checked, c1, usage]
    · simp [Event.kind]
    · simp [Event.kind, buildKinds]
  clear h
  have R1 : Ran be base d0.calls _ := ran_snoc R0
    (good_call (fun s hs => (Option.some.inj hs).symm.trans c1) (by simp [Event.kind]))
    (by simp [Event.kind])
  rcases OPTIX_CHECK_bind_error k1 with ⟨c2, he, ht⟩ | ⟨c2, k2⟩
  · subst he ht
    refine ⟨_, ran_abort R1 ?_ ?_, ?_⟩
    · simp [Event.failure, Event.kind, Event.status, CallKind.checked, c2, built]
    · simp [Event.kind]
    · simp [Event.kind, buildKinds]
  clear k1
  have R2 : Ran be base d2.calls _ := ran_snoc R1
    (good_call (fun s hs => (Option.some.inj hs).symm.trans c2) (by simp [Event.kind]))
    (by simp [Event.kind])
  rcases CUDA_SYNC_CHECK_bind_error k2 with ⟨c3, he, ht⟩ | ⟨c3, k3⟩
  · subst he ht
    refine ⟨_, ran_abort R2 ?_ ?_, ?_⟩
    · simp [Event.failure, c3]
    · simp [Event.kind]
    · simp [Event.kind, buildKinds]
  clear k2
  have R3 : Ran be base (d2.record .sync).calls _ := ran_snoc R2 (good_sync c3)
    (by simp [Event.kind])
  have key := compaction_steps d0 cs.2 tb.2 ob.2 (d2.record .sync)
    ((d2.record .sync).record (.memcpyDtoH compactedSizeBuffer.d_ptr (1 * sizeof_uint64_t)))
    _ _ _ sizeof_uint64_t blasBufferSizes.tempSizeInBytes blasBufferSizes.outputSizeInBytes
    built.2.2 0 (.accelBuild buildCall asHandle built.2.2) .sync
    (.memcpyDtoH compactedSizeBuffer.d_ptr (1 * sizeof_uint64_t)) .sync .sync
    rfl rfl rfl rfl rfl rfl rfl rfl
  lift_lets at k3
  extract_lets dl at k3
  have hdl : downloadedSize dl.1 = .ok built.2.2 := by
    show downloadedSize ((d2.record .sync).read d0.fresh) = _
    rw [key.1]
    rfl
  rw [hdl, abortsAt_ok_bind] at k3
  have R4 : Ran be base dl.2.calls _ :=
    ran_snoc R3 (good_download compactedSizeBuffer.d_ptr (1 * sizeof_uint64_t))
      (by simp [Event.kind])
  clear key hdl
  lift_lets at k3
  extract_lets mb r2 compactCall compacted asHandle2 d3 at k3
  rcases OPTIX_CHECK_bind_error k3 with ⟨c4, he, ht⟩ | ⟨c4, k4⟩
  · subst he ht
    refine ⟨_, ran_abort R4 ?_ ?_, ?_⟩
    · simp [Event.failure, Event.kind, Event.status, CallKind.checked, c4, compacted]
    · simp [Event.kind]
    · simp [Event.kind, buildKinds]
  clear k3
  have R5 : Ran be base d3.calls _ := ran_snoc R4
    (good_call (fun s hs => (Option.some.inj hs).symm.trans c4) (by simp [Event.kind]))
    (by simp [Event.kind])
  rcases CUDA_SYNC_CHECK_bind_error k4 with ⟨c5, he, ht⟩ | ⟨c5, k5⟩
  · subst he ht
    refine ⟨_, ran_abort R5 ?_ ?_, ?_⟩
    · simp [Event.failure, c5]
    · simp [Event.kind]
    · simp [Event.kind, buildKinds]
  · cases k5

theorem buildAccelSpheres_ran [Neg α] {be : Backend α} {base : List (Event α)} {ks : List CallKind}
    {r r' : SampleRenderer α} {h : OptixTraversableHandle}
    (hR : Ran be base r.device.calls ks) (hres : buildAccelSpheres be r = .ok (h, r')) :
    Ran be base r'.device.calls (ks ++ buildKinds) := by
  obtain ⟨ups, b, m1, -, m3, m4, -⟩ := buildAccelSpheres_inv hres
  rw [m1, ← callKinds_build b]
  exact ran_append (ran_uploads hR (uploads_of_kinds m3)) (m4 _)

theorem buildAccelSpheres_traced_error [Neg α] {be : Backend α} {base : List (Event α)}
    {ks : List CallKind} {r : SampleRenderer α} {e : Error} {tr : List (Event α)}
    (hR : Ran be base r.device.calls ks)
    (h : buildAccelSpheres.traced be r = .error (e, tr)) :
    ∃ ks', AbortsWith be base tr e ks' ∧ ks' <+: ks ++ buildKinds := by
  unfold buildAccelSpheres.traced at h
  lift_lets at h
  extract_lets r0 locals S r1 geometryInput usageCall usage blasBufferSizes d0 cs
    compactedSizeBuffer emitResult tb tempBuffer ob outputBuffer d1 buildCall built asHandle d2
    at h
  obtain ⟨ups, hu1, hu2⟩ := buildAccelSpheres_loop_calls r.scene.spheres 0 (r0, locals)
  have hc1 : r1.device.calls = r.device.calls ++ ups := hu1
  have R0 : Ran be base r1.device.calls ks := hc1 ▸ ran_uploads hR (uploads_of_kinds hu2)
  clear hR hu1 hc1
  rcases OPTIX_CHECK_bind_error h with ⟨c1, he, ht⟩ | ⟨c1, k1⟩
  · subst he ht
    refine ⟨_, ran_abort R0 ?_ ?_, ?_⟩
    · simp [Event.failure, Event.kind, Event.status, CallKind.checked, c1, usage]
    · simp [Event.kind]
    · simp [Event.kind, buildKinds]
  clear h
  have R1 : Ran be base d0.calls _ := ran_snoc R0
    (good_call (fun s hs => (Option.some.inj hs).symm.trans c1) (by simp [Event.kind]))
    (by simp [Event.kind])
  rcases OPTIX_CHECK_bind_error k1 with ⟨c2, he, ht⟩ | ⟨c2, k2⟩
  · subst he ht
    refine ⟨_, ran_abort R1 ?_ ?_, ?_⟩
    · simp [Event.failure, Event.kind, Event.status, CallKind.checked, c2, built]
    · simp [Event.kind]
    · simp [Event.kind, buildKinds]
  clear k1
  have R2 : Ran be base d2.calls _ := ran_snoc R1
    (good_call (fun s hs => (Option.some.inj hs).symm.trans c2) (by simp [Event.kind]))
    (by simp [Event.kind])
  rcases CUDA_SYNC_CHECK_bind_error k2 with ⟨c3, he, ht⟩ | ⟨c3, k3⟩
  · subst he ht
    refine ⟨_, ran_abort R2 ?_ ?_, ?_⟩
    · simp [Event.failure, c3]
    · simp [Event.kind]
    · simp [Event.kind, buildKinds]
  clear k2
  have R3 : Ran be base (d2.record .sync).calls _ := ran_snoc R2 (good_sync c3)
    (by simp [Event.kind])
  have key := compaction_steps d0 cs.2 tb.2 ob.2 (d2.record .sync)
    ((d2.record .sync).record (.memcpyDtoH compactedSizeBuffer.d_ptr (1 * sizeof_uint64_t)))
    _ _ _ sizeof_uint64_t blasBufferSizes.tempSizeInBytes blasBufferSizes.outputSizeInBytes
    built.2.2 0 (.accelBuild buildCall asHandle built.2.2) .sync
    (.memcpyDtoH compactedSizeBuffer.d_ptr (1 * sizeof_uint64_t)) .sync .sync
    rfl rfl rfl rfl rfl rfl rfl rfl
  lift_lets at k3
  extract_lets dl at k3
  have hdl : downloadedSize dl.1 = .ok built.2.2 := by
    show downloadedSize ((d2.record .sync).read d0.fresh) = _
    rw [key.1]
    rfl
  rw [hdl, abortsAt_ok_bind] at k3
  have R4 : Ran be base dl.2.calls _ :=
    ran_snoc R3 (good_download compactedSizeBuffer.d_ptr (1 * sizeof_uint64_t))
      (by simp [Event.kind])
  clear key hdl
  lift_lets at k3
  extract_lets mb r2 compactCall compacted asHandle2 d3 at k3
  rcases OPTIX_CHECK_bind_error k3 with ⟨c4, he, ht⟩ | ⟨c4, k4⟩
  · subst he ht
    refine ⟨_, ran_abort R4 ?_ ?_, ?_⟩
    · simp [Event.failure, Event.kind, Event.status, CallKind.checked, c4, compacted]
    · simp [Event.kind]
    · simp [Event.kind, buildKinds]
  clear k3
  have R5 : Ran be base d3.calls _ := ran_snoc R4
    (good_call (fun s hs => (Option.some.inj hs).symm.trans c4) (by simp [Event.kind]))
    (by simp [Event.kind])
  rcases CUDA_SYNC_CHECK_bind_error k4 with ⟨c5, he, ht⟩ | ⟨c5, k5⟩
  · subst he ht
    refine ⟨_, ran_abort R5 ?_ ?_, ?_⟩
    · simp [Event.failure, c5]
    · simp [Event.kind]
    · simp [Event.kind, buildKinds]
  · cases k5

theorem buildAccelInstances_ran [Zero α] [One α] {be : Backend α} {base : List (Event α)} {ks : List CallKind}
    {r r' : SampleRenderer α} {meshes spheres h : OptixTraversableHandle}
    (hR : Ran be base r.device.calls ks)
    (hres : buildAccelInstances be r meshes spheres = .ok (h, r')) :
    Ran be base r'.device.calls (ks ++ buildKinds) := by
  obtain ⟨ip, b, m1, -, m4, -⟩ := buildAccelInstances_inv hres
  rw [m1, ← callKinds_build b]
  exact ran_append (ran_uploads hR (by simp [Event.kind])) (m4 _)

theorem buildAccelInstances_traced_error [Zero α] [One α] {be : Backend α} {base : List (Event α)}
    {ks : List CallKind} {r : SampleRenderer α} {meshes spheres : OptixTraversableHandle}
    {e : Error} {tr : List (Event α)} (hR : Ran be base r.device.calls ks)
    (h : buildAccelInstances.traced be r meshes spheres = .error (e, tr)) :
    ∃ ks', AbortsWith be base tr e ks' ∧ ks' <+: ks ++ buildKinds := by
  unfold buildAccelInstances.traced at h
  lift_lets at h
  extract_lets transform instances meshInstance instances1 sphereInstance instances2 ibuf
    instanceBuffer buildInput usageCall usage blasBufferSizes d0 cs compactedSizeBuffer emitResult
    tb tempBuffer ob outputBuffer d1 buildCall built asHandle d2 at h
  have R0 : Ran be base ibuf.2.calls ks :=
    @ran_uploads α be base r.device.calls
      [.memcpyHtoD instanceBuffer.d_ptr (2 * sizeof_OptixInstance)] ks hR
      (by simp [Event.kind])
  clear hR
  rcases OPTIX_CHECK_bind_error h with ⟨c1, he, ht⟩ | ⟨c1, k1⟩
  · subst he ht
    refine ⟨_, ran_abort R0 ?_ ?_, ?_⟩
    · simp [Event.failure, Event.kind, Event.status, CallKind.checked, c1, usage]
    · simp [Event.kind]
    · simp [Event.kind, buildKinds]
  clear h
  have R1 : Ran be base d0.calls _ := ran_snoc R0
    (good_call (fun s hs => (Option.some.inj hs).symm.trans c1) (by simp [Event.kind]))
    (by simp [Event.kind])
  rcases OPTIX_CHECK_bind_error k1 with ⟨c2, he, ht⟩ | ⟨c2, k2⟩
  · subst he ht
    refine ⟨_, ran_abort R1 ?_ ?_, ?_⟩
    · simp [Event.failure, Event.kind, Event.status, CallKind.checked, c2, built]
    · simp [Event.kind]
    · simp [Event.kind, buildKinds]
  clear k1
  have R2 : Ran be base d2.calls _ := ran_snoc R1
    (good_call (fun s hs => (Option.some.inj hs).symm.trans c2) (by simp [Event.kind]))
    (by simp [Event.kind])
  rcases CUDA_SYNC_CHECK_bind_error k2 with ⟨c3, he, ht⟩ | ⟨c3, k3⟩
  · subst he ht
    refine ⟨_, ran_abort R2 ?_ ?_, ?_⟩
    · simp [Event.failure, c3]
    · simp [Event.kind]
    · simp [Event.kind, buildKinds]
  clear k2
  have R3 : Ran be base (d2.record .sync).calls _ := ran_snoc R2 (good_sync c3)
    (by simp [Event.kind])
  have key := compaction_steps d0 cs.2 tb.2 ob.2 (d2.record .sync)
    ((d2.record .sync).record (.memcpyDtoH compactedSizeBuffer.d_ptr (1 * sizeof_uint64_t)))
    _ _ _ sizeof_uint64_t blasBufferSizes.tempSizeInBytes blasBufferSizes.outputSizeInBytes
    built.2.2 0 (.accelBuild buildCall asHandle built.2.2) .sync
    (.memcpyDtoH compactedSizeBuffer.d_ptr (1 * sizeof_uint64_t)) .sync .sync
    rfl rfl rfl rfl rfl rfl rfl rfl
  lift_lets at k3
  extract_lets dl at k3
  have hdl : downloadedSize dl.1 = .ok built.2.2 := by
    show downloadedSize ((d2.record .sync).read d0.fresh) = _
    rw [key.1]
    rfl
  rw [hdl, abortsAt_ok_bind] at k3
  have R4 : Ran be base dl.2.calls _ :=
    ran_snoc R3 (good_download compactedSizeBuffer.d_ptr (1 * sizeof_uint64_t))
      (by simp [Event.kind])
  clear key hdl
  lift_lets at k3
  extract_lets mb r2 compactCall compacted asHandle2 d3 at k3
  rcases OPTIX_CHECK_bind_error k3 with ⟨c4, he, ht⟩ | ⟨c4, k4⟩
  · subst he ht
    refine ⟨_, ran_abort R4 ?_ ?_, ?_⟩
    · simp [Event.failure, Event.kind, Event.status, CallKind.checked, c4, compacted]
    · simp [Event.kind]
    · simp [Event.kind, buildKinds]
  clear k3
  have R5 : Ran be base d3.calls _ := ran_snoc R4
    (good_call (fun s hs => (Option.some.inj hs).symm.trans c4) (by simp [Event.kind]))
    (by simp [Event.kind])
  rcases CUDA_SYNC_CHECK_bind_error k4 with ⟨c5, he, ht⟩ | ⟨c5, k5⟩
  · subst he ht
    refine ⟨_, ran_abort R5 ?_ ?_, ?_⟩
    · simp [Event.failure, c5]
    · simp [Event.kind]
    · simp [Event.kind, buildKinds]
  · cases k5

theorem abortsAt_bind_error {σ γ : Type} {t : List (Event α)} {x : Except Error σ}
    {f : σ → Except (Abort α) γ} {e : Error} {tr : List (Event α)}
    (h : (abortsAt t x >>= f) = .error (e, tr)) :
    (x = .error e ∧ tr = t) ∨ ∃ v, x = .ok v ∧ f v = .error (e, tr) := by
  cases x with
  | ok v => exact Or.inr ⟨v, rfl, h⟩
  | error e0 =>
    have h' : (Except.error (e0, t) : Except (Abort α) γ) = .error (e, tr) := h
    injection h' with h'
    injection h' with h1 h2
    exact Or.inl ⟨by rw [h1], h2.symm⟩

theorem OPTIX_CHECK_error {γ : Type} {res : OptixResult} {f : Unit → Except Error γ}
    {e : Error} (h : (OPTIX_CHECK res >>= f) = .error e) :
    (res ≠ OPTIX_SUCCESS ∧ e = .optixCallFailed res) ∨ (res = OPTIX_SUCCESS ∧ f () = .error e) := by
  unfold OPTIX_CHECK at h
  by_cases hr : res = OPTIX_SUCCESS
  · rw [if_pos hr] at h
    exact Or.inr ⟨hr, h⟩
  · rw [if_neg hr] at h
    have h' : (Except.error (Error.optixCallFailed res) : Except Error γ) = .error e := h
    injection h' with h'
    exact Or.inl ⟨hr, h'.symm⟩

theorem castInt_toNat_le (n : Nat) : (castInt n).toNat ≤ n := by
  unfold castInt
  have : n % 2 ^ 32 ≤ n := Nat.mod_le _ _
  split <;> omega

theorem buildSBT_raygen_error {be : Backend α} (pgs : List OptixProgramGroup) :
    ∀ (init : List RaygenRecord) (e : Error),
      pgs.foldlM (buildSBT.raygenBody be) init = .error e →
      ∃ pg ∈ pgs, (be.optixSbtRecordPackHeader pg).1 ≠ OPTIX_SUCCESS ∧
        e = .optixCallFailed (be.optixSbtRecordPackHeader pg).1 := by
  induction pgs with
  | nil => intro init e h; cases h
  | cons a t ih =>
    intro init e h
    rw [List.foldlM_cons] at h
    rcases bind_eq_error h with h1 | ⟨v, -, h2⟩
    · unfold buildSBT.raygenBody at h1
      rcases OPTIX_CHECK_error h1 with ⟨c, he⟩ | ⟨-, k⟩
      · exact ⟨a, List.mem_cons_self _ _, c, he⟩
      · cases k
    · obtain ⟨pg, hpg, c, he⟩ := ih _ _ h2
      exact ⟨pg, List.mem_cons_of_mem _ hpg, c, he⟩

theorem buildSBT_miss_error {be : Backend α} (pgs : List OptixProgramGroup) :
    ∀ (init : List MissRecord) (e : Error),
      pgs.foldlM (buildSBT.missBody be) init = .error e →
      ∃ pg ∈ pgs, (be.optixSbtRecordPackHeader pg).1 ≠ OPTIX_SUCCESS ∧
        e = .optixCallFailed (be.optixSbtRecordPackHeader pg).1 := by
  induction pgs with
  | nil => intro init e h; cases h
  | cons a t ih =>
    intro init e h
    rw [List.foldlM_cons] at h
    rcases bind_eq_error h with h1 | ⟨v, -, h2⟩
    · unfold buildSBT.missBody at h1
      rcases OPTIX_CHECK_error h1 with ⟨c, he⟩ | ⟨-, k⟩
      · exact ⟨a, List.mem_cons_self _ _, c, he⟩
      · cases k
    · obtain ⟨pg, hpg, c, he⟩ := ih _ _ h2
      exact ⟨pg, List.mem_cons_of_mem _ hpg, c, he⟩

theorem vectorAt_of_lt {β : Type} {v : List β} {i : Nat} (h : i < v.length) :
    vectorAt v i = .ok v[i] := by
  unfold vectorAt
  rw [List.getElem?_eq_getElem h]

theorem buildSBT_mesh_error {be : Backend α} {r : SampleRenderer α} {pg : OptixProgramGroup}
    (hpg : r.hitgroupPGs[0]? = some pg) (l : List Nat)
    (hl : ∀ i ∈ l, i < r.scene.meshes.length ∧ i < r.vertexBuffer.length ∧
      i < r.indexBuffer.length) :
    ∀ (init : List (HitgroupRecord α)) (e : Error),
      l.foldlM (buildSBT.meshBody be r) init = .error e →
      (be.optixSbtRecordPackHeader pg).1 ≠ OPTIX_SUCCESS ∧
        e = .optixCallFailed (be.optixSbtRecordPackHeader pg).1 := by
  induction l with
  | nil => intro init e h; cases h
  | cons a t ih =>
    intro init e h
    rw [List.foldlM_cons] at h
    rcases bind_eq_error h with h1 | ⟨v, -, h2⟩
    · unfold buildSBT.meshBody at h1
      obtain ⟨g1, g2, g3⟩ := hl a (List.mem_cons_self _ _)
      rw [vectorAt_of_some hpg, bind_ok_eq] at h1
      rcases OPTIX_CHECK_error h1 with ⟨c, he⟩ | ⟨-, k⟩
      · exact ⟨c, he⟩
      · rw [vectorAt_of_lt g1, bind_ok_eq, vectorAt_of_lt g2, bind_ok_eq, vectorAt_of_lt g3,
          bind_ok_eq] at k
        cases k
    · exact ih (fun i hi => hl i (List.mem_cons_of_mem _ hi)) _ _ h2

theorem buildSBT_sphere_error {be : Backend α} {r : SampleRenderer α} {pg : OptixProgramGroup}
    (hpg : r.hitgroupPGs[0]? = some pg) (l : List Nat)
    (hl : ∀ i ∈ l, i < r.scene.spheres.length) :
    ∀ (init : List (HitgroupRecord α)) (e : Error),
      l.foldlM (buildSBT.sphereBody be r) init = .error e →
      (be.optixSbtRecordPackHeader pg).1 ≠ OPTIX_SUCCESS ∧
        e = .optixCallFailed (be.optixSbtRecordPackHeader pg).1 := by
  induction l with
  | nil => intro init e h; cases h
  | cons a t ih =>
    intro init e h
    rw [List.foldlM_cons] at h
    rcases bind_eq_error h with h1 | ⟨v, -, h2⟩
    · unfold buildSBT.sphereBody at h1
      have g1 := hl a (List.mem_cons_self _ _)
      rw [vectorAt_of_some hpg, bind_ok_eq] at h1
      rcases OPTIX_CHECK_error h1 with ⟨c, he⟩ | ⟨-, k⟩
      · exact ⟨c, he⟩
      · rw [vectorAt_of_lt g1, bind_ok_eq] at k
        cases k
    · exact ih (fun i hi => hl i (List.mem_cons_of_mem _ hi)) _ _ h2

theorem buildSBT_ran {be : Backend α} {base : List (Event α)} {ks : List CallKind}
    {r r' : SampleRenderer α} (hR : Ran be base r.device.calls ks)
    (h : buildSBT be r = .ok r') : Ran be base r'.device.calls ks := by
  obtain ⟨n1, n2, n3, q1, -⟩ := buildSBT_inv h
  rw [q1]
  exact ran_uploads hR (by simp [Event.kind])

theorem buildSBT_traced_error {be : Backend α} {r : SampleRenderer α} {pgH : OptixProgramGroup}
    {e : Error} {tr : List (Event α)} (hpg : r.hitgroupPGs[0]? = some pgH)
    (hv : r.scene.meshes.length ≤ r.vertexBuffer.length)
    (hi : r.scene.meshes.length ≤ r.indexBuffer.length)
    (h : buildSBT.traced be r = .error (e, tr)) :
    ∃ (pg : OptixProgramGroup) (ups : List (Event α)),
      (be.optixSbtRecordPackHeader pg).1 ≠ OPTIX_SUCCESS ∧
      e = .optixCallFailed (be.optixSbtRecordPackHeader pg).1 ∧
      tr = r.device.calls ++ ups ∧
      ((pg ∈ r.raygenPGs ∧ ups.map Event.kind = List.replicate 0 .memcpyHtoD) ∨
       (pg ∈ r.missPGs ∧ ups.map Event.kind = List.replicate 1 .memcpyHtoD) ∨
       (pg = pgH ∧ ups.map Event.kind = List.replicate 2 .memcpyHtoD)) := by
  unfold buildSBT.traced at h
  rcases abortsAt_bind_error h with ⟨h1, ht⟩ | ⟨recsR, -, k1⟩
  · obtain ⟨pg, hm, c, he⟩ := buildSBT_raygen_error _ _ _ h1
    exact ⟨pg, [], c, he, by rw [ht, List.append_nil], Or.inl ⟨hm, rfl⟩⟩
  clear h
  lift_lets at k1
  extract_lets rb ra src1 rb1 at k1
  rcases abortsAt_bind_error k1 with ⟨h1, ht⟩ | ⟨recsM, -, k2⟩
  · obtain ⟨pg, hm, c, he⟩ := buildSBT_miss_error _ _ _ h1
    exact ⟨pg, [_], c, he, ht, Or.inr (Or.inl ⟨hm, rfl⟩)⟩
  clear k1
  lift_lets at k2
  extract_lets mb rc src2 rd numMeshes numSpheres at k2
  have hpg' : rd.hitgroupPGs[0]? = some pgH := hpg
  have hrange : ∀ i ∈ List.range numMeshes.toNat, i < rd.scene.meshes.length ∧
      i < rd.vertexBuffer.length ∧ i < rd.indexBuffer.length := by
    intro i hi'
    have h1 : i < (castInt r.scene.meshes.length).toNat := List.mem_range.mp hi'
    have h2 := castInt_toNat_le r.scene.meshes.length
    have h3 : i < r.scene.meshes.length := by omega
    exact ⟨h3, by show i < r.vertexBuffer.length; omega, by show i < r.indexBuffer.length; omega⟩
  have hrange2 : ∀ i ∈ List.range numSpheres.toNat, i < rd.scene.spheres.length := by
    intro i hi'
    have h1 : i < (castInt r.scene.spheres.length).toNat := List.mem_range.mp hi'
    have h2 := castInt_toNat_le r.scene.spheres.length
    show i < r.scene.spheres.length
    omega
  obtain ⟨p1, n1, p2, n2, hcalls0⟩ : ∃ p1 n1 p2 n2, rd.device.calls
      = (r.device.calls ++ [.memcpyHtoD p1 n1]) ++ [.memcpyHtoD p2 n2] := ⟨_, _, _, _, rfl⟩
  have hcalls : rd.device.calls = r.device.calls ++ [.memcpyHtoD p1 n1, .memcpyHtoD p2 n2] := by
    rw [hcalls0]
    simp
  rcases abortsAt_bind_error k2 with ⟨h1, ht⟩ | ⟨recsH1, -, k3⟩
  · obtain ⟨c, he⟩ := buildSBT_mesh_error hpg' _ hrange _ _ h1
    exact ⟨pgH, _, c, he, ht.trans hcalls, Or.inr (Or.inr ⟨rfl, rfl⟩)⟩
  clear k2
  rcases abortsAt_bind_error k3 with ⟨h1, ht⟩ | ⟨recsH2, -, k4⟩
  · obtain ⟨c, he⟩ := buildSBT_sphere_error hpg' _ hrange2 _ _ h1
    exact ⟨pgH, _, c, he, ht.trans hcalls, Or.inr (Or.inr ⟨rfl, rfl⟩)⟩
  · cases k4

theorem buildAccelMeshes_lengths {be : Backend α} {r r' : SampleRenderer α}
    {h : OptixTraversableHandle} (hres : buildAccelMeshes be r = .ok (h, r')) :
    r'.vertexBuffer.length = r.scene.meshes.length ∧
    r'.indexBuffer.length = r.scene.meshes.length := by
  unfold buildAccelMeshes at hres
  lift_lets at hres
  extract_lets r0 locals S r1 geometryInput usageCall usage blasBufferSizes d0 cs
    compactedSizeBuffer emitResult tb tempBuffer ob outputBuffer d1 buildCall built asHandle d2
    at hres
  obtain ⟨e1, k1⟩ := OPTIX_CHECK_bind_ok hres
  clear hres
  obtain ⟨e2, k2⟩ := OPTIX_CHECK_bind_ok k1
  clear k1
  obtain ⟨y1, k3⟩ := CUDA_SYNC_CHECK_bind_ok k2
  clear k2
  obtain ⟨v, hv, k4⟩ := downloadedSize_bind_ok k3
  clear k3
  obtain ⟨e3, k5⟩ := OPTIX_CHECK_bind_ok k4
  clear k4
  obtain ⟨y2, hres⟩ := CUDA_SYNC_CHECK_bind_ok k5
  clear k5
  obtain ⟨-, ⟨l2, l3, -⟩, -⟩ := buildAccelMeshes_loop_spec r.scene.meshes 0 (r0, locals)
  have hh := congrArg (fun x => match x with | .ok a => some a | .error _ => none) hres
  simp only [pure, Except.pure, Option.some.injEq, Prod.mk.injEq] at hh
  obtain ⟨-, hh2⟩ := hh
  rw [← hh2]
  exact ⟨l2.trans (by simp [r0, length_resizeBuffers]),
    l3.trans (by simp [r0, length_resizeBuffers])⟩

theorem abort_of_aborts {be : Backend α} {base tr : List (Event α)} {e : Error}
    {ks : List CallKind} {P : List (Event α) → Prop}
    (h : AbortsWith be base tr e ks) (hp : ks <+: constructionKinds) :
    ∃ t, tr = base ++ t ∧ callKinds t <+: constructionKinds ∧ (AbortedAt be base t e ∨ P t) := by
  obtain ⟨t, h1, h2, h3⟩ := h
  exact ⟨t, h1, h2 ▸ hp, Or.inl h3⟩

theorem constructor_traced_error [Zero α] [One α] [Neg α] {be : Backend α} {sbe : SetupBackend}
    {members : SampleRenderer α} {scene : Geometry α} {e : Error} {tr : List (Event α)}
    (h : SampleRenderer.SampleRenderer.traced be sbe members scene = .error (e, tr)) :
    ∃ t, tr = members.device.calls ++ t ∧ callKinds t <+: constructionKinds ∧
      (AbortedAt be members.device.calls t e ∨
       ((sbe.cudaGetDeviceCount.2 = 0 ∧
          e = .runtimeError "#osc: no CUDA capable devices found!" ∧
          t = [.cudaFree 0 (sbe.cudaFree 0),
            .cudaGetDeviceCount sbe.cudaGetDeviceCount.1 sbe.cudaGetDeviceCount.2]) ∨
        (∃ (pg : OptixProgramGroup) (ctx : Nat) (desc : OptixProgramGroupDesc)
            (pre post ups : List (Event α)) (c : Event α),
          (be.optixSbtRecordPackHeader pg).1 ≠ OPTIX_SUCCESS ∧
          e = .optixCallFailed (be.optixSbtRecordPackHeader pg).1 ∧
          callsSucceeded be CallKind.checked members.device.calls t ∧
          callKinds t = constructionKinds ∧
          t = pre ++ [.programGroupCreate ctx desc OPTIX_SUCCESS pg] ++ post ++ [c] ++ ups ∧
          c.kind = .pipelineSetStackSize ∧
          ups.map Event.kind = List.replicate desc.uploadsBefore .memcpyHtoD))) := by
  unfold SampleRenderer.SampleRenderer.traced at h
  dsimp only at h
  have R0 : Ran be members.device.calls ({ members with scene := scene }).device.calls [] :=
    ran_refl be members.device.calls
  rcases bind_eq_error h with h1 | ⟨r1, h1, k1⟩
  · rcases initOptix_traced_error R0 h1 with ⟨ks', hA, hp⟩ | ⟨h0, he, ht⟩
    · exact abort_of_aborts hA (hp.trans (by decide))
    · exact ⟨_, ht, ⟨_, rfl⟩, Or.inr (Or.inl ⟨h0, he, rfl⟩)⟩
  have o1 := mapError_ok (initOptix_traced_agrees sbe _) h1
  have R1 := initOptix_ran R0 o1
  clear h h1 R0
  rcases bind_eq_error k1 with h2 | ⟨r2, h2, k2⟩
  · obtain ⟨ks', hA, hp⟩ := createContext_traced_error R1 h2
    exact abort_of_aborts hA (hp.trans (by decide))
  have o2 := mapError_ok (createContext_traced_agrees sbe _) h2
  have R2 := createContext_ran R1 o2
  clear k1 h2 R1
  rcases bind_eq_error k2 with h3 | ⟨r3, h3, k3⟩
  · obtain ⟨ks', hA, hp⟩ := createModule_traced_error R2 h3
    exact abort_of_aborts hA (hp.trans (by decide))
  have o3 := mapError_ok (createModule_traced_agrees sbe _) h3
  have R3 := createModule_ran R2 o3
  clear k2 h3 R2
  rcases bind_eq_error k3 with h4 | ⟨r4, h4, k4⟩
  · obtain ⟨ks', hA, hp⟩ := createRaygenPrograms_traced_error R3 h4
    exact abort_of_aborts hA (hp.trans (by decide))
  have o4 := mapError_ok (createRaygenPrograms_traced_agrees sbe _) h4
  have R4 := createRaygenPrograms_ran R3 o4
  clear k3 h4
  rcases bind_eq_error k4 with h5 | ⟨r5, h5, k5⟩
  · obtain ⟨ks', hA, hp⟩ := createMissPrograms_traced_error R4 h5
    exact abort_of_aborts hA (hp.trans (by decide))
  have o5 := mapError_ok (createMissPrograms_traced_agrees sbe _) h5
  have R5 := createMissPrograms_ran R4 o5
  clear k4 h5 R4
  rcases bind_eq_error k5 with h6 | ⟨r6, h6, k6⟩
  · obtain ⟨ks', hA, hp⟩ := createHitgroupPrograms_traced_error R5 h6
    exact abort_of_aborts hA (hp.trans (by decide))
  have o6 := mapError_ok (createHitgroupPrograms_traced_agrees sbe _) h6
  have R6 := createHitgroupPrograms_ran R5 o6
  clear k5 h6 R5
  rcases bind_eq_error k6 with h7 | ⟨⟨hM, rM⟩, h7, k7⟩
  · obtain ⟨ks', hA, hp⟩ := buildAccelMeshes_traced_error R6 h7
    exact abort_of_aborts hA (hp.trans (by decide))
  have o7 := mapError_ok (buildAccelMeshes_traced_agrees be _) h7
  have R7 := buildAccelMeshes_ran R6 o7
  clear k6 h7 R6
  rcases bind_eq_error k7 with h8 | ⟨⟨hS, rS⟩, h8, k8⟩
  · obtain ⟨ks', hA, hp⟩ := buildAccelSpheres_traced_error R7 h8
    exact abort_of_aborts hA (hp.trans (by decide))
  have o8 := mapError_ok (buildAccelSpheres_traced_agrees be _) h8
  have R8 := buildAccelSpheres_ran R7 o8
  clear k7 h8 R7
  rcases bind_eq_error k8 with h9 | ⟨⟨hT, rT⟩, h9, k9⟩
  · obtain ⟨ks', hA, hp⟩ := buildAccelInstances_traced_error R8 h9
    exact abort_of_aborts hA (hp.trans (by decide))
  have o9 := mapError_ok (buildAccelInstances_traced_agrees be _ _ _) h9
  have R9 := buildAccelInstances_ran R8 o9
  clear k8 h9 R8
  dsimp only at k9
  have R9' : Ran be members.device.calls
      ({ rT with launchParams := { rT.launchParams with traversable := hT } }).device.calls _ :=
    R9
  rcases bind_eq_error k9 with h10 | ⟨r10, h10, k10⟩
  · obtain ⟨ks', hA, hp⟩ := createPipeline_traced_error R9' h10
    exact abort_of_aborts hA (hp.trans (by decide))
  have o10 := mapError_ok (createPipeline_traced_agrees sbe _) h10
  have R10 := createPipeline_ran R9' o10
  clear k9 h10 R9 R9'
  rcases bind_eq_error k10 with h11 | ⟨r11, h11, k11⟩
  swap
  · cases k11
  clear k10
  -- the renderer that `buildSBT` starts from
  obtain ⟨pgR, -, e4⟩ := createRaygenPrograms_inv o4
  obtain ⟨pgM, -, e5⟩ := createMissPrograms_inv o5
  obtain ⟨pgH, -, e6⟩ := createHitgroupPrograms_inv o6
  obtain ⟨upsM, M, m1, -, -, -, -, -, -, e7⟩ := buildAccelMeshes_inv o7
  obtain ⟨lv, li⟩ := buildAccelMeshes_lengths o7
  obtain ⟨upsS, S, s1, -, -, -, -, -, -, e8⟩ := buildAccelSpheres_inv o8
  obtain ⟨ip, T, t1, -, -, -, -, -, e9⟩ := buildAccelInstances_inv o9
  obtain ⟨pl, -, -, e10⟩ := createPipeline_inv o10
  clear o1 o2 o3 o4 o5 o6 o7 o8 o9 o10
  subst e4 e5 e6
  have fM : rM.scene = r3.scene ∧ rM.raygenPGs = [pgR] ∧ rM.missPGs = [pgM] ∧
      rM.hitgroupPGs = [pgH] := by
    rw [e7]; exact ⟨rfl, rfl, rfl, rfl⟩
  have fS : rS.scene = rM.scene ∧ rS.raygenPGs = rM.raygenPGs ∧ rS.missPGs = rM.missPGs ∧
      rS.hitgroupPGs = rM.hitgroupPGs ∧ rS.vertexBuffer = rM.vertexBuffer ∧
      rS.indexBuffer = rM.indexBuffer := by
    rw [e8]; exact ⟨rfl, rfl, rfl, rfl, rfl, rfl⟩
  have fT : rT.scene = rS.scene ∧ rT.raygenPGs = rS.raygenPGs ∧ rT.missPGs = rS.missPGs ∧
      rT.hitgroupPGs = rS.hitgroupPGs ∧ rT.vertexBuffer = rS.vertexBuffer ∧
      rT.indexBuffer = rS.indexBuffer := by
    rw [e9]; exact ⟨rfl, rfl, rfl, rfl, rfl, rfl⟩
  subst e10
  dsimp only at m1 lv li
  obtain ⟨fM1, fM2, fM3, fM4⟩ := fM
  obtain ⟨fS1, fS2, fS3, fS4, fS5, fS6⟩ := fS
  obtain ⟨fT1, fT2, fT3, fT4, fT5, fT6⟩ := fT
  rw [fM1] at fS1
  rw [fM2] at fS2
  rw [fM3] at fS3
  rw [fM4] at fS4
  rw [fS1] at fT1
  rw [fS2] at fT2
  rw [fS3] at fT3
  rw [fS4] at fT4
  rw [fS5] at fT5
  rw [fS6] at fT6
  obtain ⟨pg, ups, c, he, ht, hk⟩ := buildSBT_traced_error
    (show _ = some pgH by
      show rT.hitgroupPGs[0]? = _
      rw [fT4]; rfl)
    (show _ ≤ _ by
      show rT.scene.meshes.length ≤ rT.vertexBuffer.length
      rw [fT1, fT5, lv])
    (show _ ≤ _ by
      show rT.scene.meshes.length ≤ rT.indexBuffer.length
      rw [fT1, fT6, li])
    h11
  clear h11
  obtain ⟨t3, p3, -, -⟩ := R3
  obtain ⟨t10, q1, q2, q3⟩ := R10
  dsimp only at s1 t1 q1 ht hk
  rw [fT2, fT3] at hk
  have hX : rT.device.calls = members.device.calls ++ (t3 ++
      ([.programGroupCreate r3.optixContext (.raygen r3.module "__raygen__renderFrame")
          OPTIX_SUCCESS pgR] ++
       ([.programGroupCreate r3.optixContext (.miss r3.module "__miss__radiance")
          OPTIX_SUCCESS pgM] ++
        ([.programGroupCreate r3.optixContext
            (.hitgroup r3.module "__closesthit__radiance" r3.module "__anyhit__radiance"
              r3.module "__intersection__is") OPTIX_SUCCESS pgH] ++
         (upsM ++ M.calls ++ upsS ++ S.calls ++
           [.memcpyHtoD ip (2 * sizeof_OptixInstance)] ++ T.calls))))) := by
    rw [t1, s1, m1, p3]
    simp only [List.append_assoc]
  generalize upsM ++ M.calls ++ upsS ++ S.calls ++
    [Event.memcpyHtoD ip (2 * sizeof_OptixInstance)] ++ T.calls = X at hX
  generalize Event.pipelineCreate rT.optixContext rT.pipelineCompileOptions
    rT.pipelineLinkOptions (rT.raygenPGs ++ rT.missPGs ++ rT.hitgroupPGs)
    (castInt (rT.raygenPGs ++ rT.missPGs ++ rT.hitgroupPGs).length) OPTIX_SUCCESS pl = pc
    at q1 ht
  obtain ⟨eR, heR⟩ : ∃ x : Event α, x = .programGroupCreate r3.optixContext
    (.raygen r3.module "__raygen__renderFrame") OPTIX_SUCCESS pgR := ⟨_, rfl⟩
  obtain ⟨eM, heM⟩ : ∃ x : Event α, x = .programGroupCreate r3.optixContext
    (.miss r3.module "__miss__radiance") OPTIX_SUCCESS pgM := ⟨_, rfl⟩
  obtain ⟨eH, heH⟩ : ∃ x : Event α, x = .programGroupCreate r3.optixContext
    (.hitgroup r3.module "__closesthit__radiance" r3.module "__anyhit__radiance"
      r3.module "__intersection__is") OPTIX_SUCCESS pgH := ⟨_, rfl⟩
  rw [← heR, ← heM, ← heH] at hX
  obtain ⟨ss, hss⟩ : ∃ x : Event α, x = .pipelineSetStackSize pl (2 * 1024) (2 * 1024)
    (2 * 1024) 1 OPTIX_SUCCESS := ⟨_, rfl⟩
  rw [← hss] at q1 ht
  have hssk : ss.kind = .pipelineSetStackSize := by rw [hss]; rfl
  clear hss
  rw [hX] at q1 ht
  have ht10 := List.append_cancel_left
    (((List.append_assoc _ _ _).symm.trans q1).symm)
  subst ht10
  have hups : ∀ x ∈ ups, x.kind = .memcpyHtoD := by
    rcases hk with ⟨-, h⟩ | ⟨-, h⟩ | ⟨-, h⟩ <;> exact uploads_of_kinds h
  have hsucc : callsSucceeded be CallKind.checked members.device.calls
      (t3 ++ ([eR] ++ ([eM] ++ ([eH] ++ X))) ++ [pc, ss] ++ ups) := by
    rw [callsSucceeded_append]
    exact ⟨q2, callsSucceeded_uploads _ _ _ hups _⟩
  have hkinds : callKinds (t3 ++ ([eR] ++ ([eM] ++ ([eH] ++ X))) ++ [pc, ss] ++ ups)
      = constructionKinds := by
    rw [callKinds_append, q3, callKinds_uploads hups]
    rfl
  refine ⟨t3 ++ ([eR] ++ ([eM] ++ ([eH] ++ X))) ++ [pc, ss] ++ ups,
    ht.trans (by simp only [List.append_assoc]), ⟨[], by rw [List.append_nil, hkinds]⟩,
    Or.inr (Or.inr ?_)⟩
  rcases hk with ⟨hpg, hu⟩ | ⟨hpg, hu⟩ | ⟨hpg, hu⟩
  · have := List.mem_singleton.mp hpg
    subst this
    exact ⟨pg, r3.optixContext, .raygen r3.module "__raygen__renderFrame", t3,
      [eM] ++ ([eH] ++ X) ++ [pc], ups, ss, c, he, hsucc, hkinds,
      by rw [heR]; simp only [List.append_assoc, List.singleton_append, List.cons_append,
        List.nil_append], hssk, hu⟩
  · have := List.mem_singleton.mp hpg
    subst this
    exact ⟨pg, r3.optixContext, .miss r3.module "__miss__radiance", t3 ++ [eR],
      [eH] ++ X ++ [pc], ups, ss, c, he, hsucc, hkinds,
      by rw [heM]; simp only [List.append_assoc, List.singleton_append, List.cons_append,
        List.nil_append], hssk, hu⟩
  · subst hpg
    exact ⟨pg, r3.optixContext, .hitgroup r3.module "__closesthit__radiance" r3.module
        "__anyhit__radiance" r3.module "__intersection__is", t3 ++ [eR] ++ [eM],
      X ++ [pc], ups, ss, c, he, hsucc, hkinds,
      by rw [heH]; simp only [List.append_assoc, List.singleton_append, List.cons_append,
        List.nil_append], hssk, hu⟩

end Aborts

/-! ## Cubes and the frame loop -/

/-- The mesh `addUnitCube` returns, in closed form: eight transformed corners are appended
to the vertices and the twelve triplets of the table, offset by the old vertex count, to the
indices. -/
theorem addUnitCube_eq {α : Type} [Zero α] [One α] [Add α] [Mul α]
    (mesh : TriangleMesh α) (xfm : affine3 α) :
    mesh.addUnitCube xfm =
      { mesh with
        vertex := mesh.vertex ++
          [xfmPoint xfm ⟨0, 0, 0⟩, xfmPoint xfm ⟨1, 0, 0⟩, xfmPoint xfm ⟨0, 1, 0⟩,
           xfmPoint xfm ⟨1, 1, 0⟩, xfmPoint xfm ⟨0, 0, 1⟩, xfmPoint xfm ⟨1, 0, 1⟩,
           xfmPoint xfm ⟨0, 1, 1⟩, xfmPoint xfm ⟨1, 1, 1⟩]
        index := mesh.index ++
          ([⟨0, 1, 3⟩, ⟨2, 3, 0⟩, ⟨5, 7, 6⟩, ⟨5, 6, 4⟩, ⟨0, 4, 5⟩, ⟨0, 5, 1⟩,
            ⟨2, 3, 7⟩, ⟨2, 7, 6⟩, ⟨1, 5, 7⟩, ⟨1, 7, 3⟩, ⟨4, 0, 2⟩, ⟨4, 2, 6⟩] : List vec3i).map
            (vec3i.addScalar (castInt mesh.vertex.length)) } := by
  simp [TriangleMesh.addUnitCube, List.range, List.range.loop]

/-- Adding a vertex count to a triplet of corner numbers does not wrap while the count plus
eight fits in an `int`. -/
theorem addScalar_of_range {n : Nat} (hn : n + 8 ≤ 2 ^ 31) (v : vec3i)
    (hx : 0 ≤ v.x ∧ v.x < 8) (hy : 0 ≤ v.y ∧ v.y < 8) (hz : 0 ≤ v.z ∧ v.z < 8) :
    vec3i.addScalar (castInt n) v = ⟨n + v.x, n + v.y, n + v.z⟩ := by
  have hc : castInt n = (n : Int) := castInt_of_lt (by omega)
  unfold vec3i.addScalar
  rw [hc, wrapInt_of_range (by omega) (by omega), wrapInt_of_range (by omega) (by omega),
    wrapInt_of_range (by omega) (by omega)]

/-- With a non-zero frame width and a backend whose calls succeed, `render` returns, and the
only calls it makes are one upload of the launch parameters, one launch over
`(width, height, 1)` and one synchronisation; no field other than the device changes. -/
theorem render_nonzero_width {α : Type} {be : Backend α} (hbe : be.succeeds)
    (r : SampleRenderer α) (hx : r.launchParams.frame.size.x ≠ 0) :
    ∃ (r' : SampleRenderer α) (call : LaunchCall α),
      render be r = .ok r' ∧ r' = { r with device := r'.device } ∧
      r'.device.calls = r.device.calls ++
        [.memcpyHtoD r.launchParamsBuffer.d_ptr (1 * sizeof_LaunchParams), .launch call, .sync] ∧
      call.width = r.launchParams.frame.size.x ∧ call.height = r.launchParams.frame.size.y ∧
      call.depth = 1 ∧ call.pipelineParams = r.launchParamsBuffer.d_ptr ∧
      (∀ a, r.device.block r.launchParamsBuffer.d_ptr = some a →
        readAt call.memory r.launchParamsBuffer.d_ptr = some (.launchParams r.launchParams)) := by
  unfold render
  rw [if_neg hx]
  lift_lets
  intro d call launched
  have e1 : OPTIX_CHECK launched.1 = .ok () := by
    rw [show launched.1 = OPTIX_SUCCESS from hbe.2.2.2.2.1 _]; rfl
  simp only [e1, CUDA_SYNC_CHECK_ok hbe, bind_ok_eq, pure, Except.pure]
  refine ⟨_, call, rfl, rfl, ?_, rfl, rfl, rfl, rfl, ?_⟩
  · simp [d, CUDABuffer.upload]
  · intro a hb
    exact Device.read_write_same (.launchParams r.launchParams) hb

/-! # The claims -/

/-- C1: on a backend whose calls succeed, for a scene with `m` meshes and `s` spheres
(`m + s` representable as `int`), `buildAccelMeshes` returns a renderer `r1`, and on every
renderer `r2` that still has the scene and the vertex and index buffers of `r1`, `buildSBT`
returns and uploads a hitgroup record array `recs` at `sbt.hitgroupRecordBase` with
`recs.length = m + s = sbt.hitgroupRecordCount`, such that record `i < m` carries mesh `i`'s
colour and the addresses of the buffers to which `buildAccelMeshes` uploaded the vertices and
indices of mesh `i`, and record `m + j` carries the colour and radius of sphere `j`. -/
theorem buildSBT_hitgroup_records {α : Type} {be : Backend α} (hbe : be.succeeds)
    (r : SampleRenderer α)
    (hcount : r.scene.meshes.length + r.scene.spheres.length < 2 ^ 31) :
    ∃ (h : OptixTraversableHandle) (r1 : SampleRenderer α),
      buildAccelMeshes be r = .ok (h, r1) ∧
      ∀ (r2 : SampleRenderer α) (pg : OptixProgramGroup),
        r2.scene = r.scene → r2.vertexBuffer = r1.vertexBuffer →
        r2.indexBuffer = r1.indexBuffer → r2.hitgroupPGs[0]? = some pg →
        ∃ (r3 : SampleRenderer α) (recs : List (HitgroupRecord α)),
          buildSBT be r2 = .ok r3 ∧
          r3.device.read r3.sbt.hitgroupRecordBase = some (.hitgroupRecords recs) ∧
          recs.length = r.scene.meshes.length + r.scene.spheres.length ∧
          r3.sbt.hitgroupRecordCount
            = ((r.scene.meshes.length + r.scene.spheres.length : Nat) : Int) ∧
          (∀ (i : Nat) (mesh : TriangleMesh α), r.scene.meshes[i]? = some mesh →
            ∃ (vb ib : CUDABuffer) (rec_ : HitgroupRecord α),
              r1.vertexBuffer[i]? = some vb ∧ r1.indexBuffer[i]? = some ib ∧
              r1.device.read vb.d_pointer = some (.vertices mesh.vertex) ∧
              r1.device.read ib.d_pointer = some (.indices mesh.index) ∧
              recs[i]? = some rec_ ∧
              rec_.data = .triangle_data mesh.color vb.d_pointer ib.d_pointer) ∧
          (∀ (j : Nat) (sphere : Sphere α), r.scene.spheres[j]? = some sphere →
            ∃ rec_ : HitgroupRecord α,
              recs[r.scene.meshes.length + j]? = some rec_ ∧
              rec_.data = .sphere_data sphere.color sphere.radius) := by
  obtain ⟨h, r1, bc, h1, c, cc, uc, us, pre, e, -, lv, li, hmesh, -⟩ := buildAccelMeshes_spec hbe r
  refine ⟨h, r1, e, ?_⟩
  intro r2 pg hs hv hi hpg
  obtain ⟨r3, recs, e3, -, -, hread, hlen, hcnt, hm, hsph, -⟩ :=
    buildSBT_spec hbe r2 hpg (by rw [hs]; exact hcount) (by rw [hs, hv, lv]) (by rw [hs, hi, li])
  rw [hs] at hlen hcnt hm hsph
  refine ⟨r3, recs, e3, hread, hlen, hcnt, ?_, ?_⟩
  · intro i mesh hmi
    obtain ⟨vb, ib, a1, a2, a3, a4, -⟩ := hmesh i mesh hmi
    exact ⟨vb, ib, _, a1, a2, a3, a4, hm i mesh vb ib hmi (hv ▸ a1) (hi ▸ a2), rfl⟩
  · intro j sphere hsj
    exact ⟨_, hsph j sphere hsj, rfl⟩

/-- Witness for C1: the scene with two meshes and one sphere on the succeeding backend. -/
theorem buildSBT_hitgroup_records_witness :
    (okBackend Int).succeeds ∧
    sampleScene.meshes.length + sampleScene.spheres.length < 2 ^ 31 ∧
    ∃ (h : OptixTraversableHandle) (r1 : SampleRenderer Int),
      buildAccelMeshes (okBackend Int) (blankRenderer sampleScene) = .ok (h, r1) ∧
      ∀ (r2 : SampleRenderer Int) (pg : OptixProgramGroup),
        r2.scene = (blankRenderer sampleScene).scene → r2.vertexBuffer = r1.vertexBuffer →
        r2.indexBuffer = r1.indexBuffer → r2.hitgroupPGs[0]? = some pg →
        ∃ (r3 : SampleRenderer Int) (recs : List (HitgroupRecord Int)),
          buildSBT (okBackend Int) r2 = .ok r3 ∧
          r3.device.read r3.sbt.hitgroupRecordBase = some (.hitgroupRecords recs) ∧
          recs.length = (blankRenderer sampleScene).scene.meshes.length
            + (blankRenderer sampleScene).scene.spheres.length ∧
          r3.sbt.hitgroupRecordCount
            = (((blankRenderer sampleScene).scene.meshes.length
                + (blankRenderer sampleScene).scene.spheres.length : Nat) : Int) ∧
          (∀ (i : Nat) (mesh : TriangleMesh Int),
            (blankRenderer sampleScene).scene.meshes[i]? = some mesh →
            ∃ (vb ib : CUDABuffer) (rec_ : HitgroupRecord Int),
              r1.vertexBuffer[i]? = some vb ∧ r1.indexBuffer[i]? = some ib ∧
              r1.device.read vb.d_pointer = some (.vertices mesh.vertex) ∧
              r1.device.read ib.d_pointer = some (.indices mesh.index) ∧
              recs[i]? = some rec_ ∧
              rec_.data = .triangle_data mesh.color vb.d_pointer ib.d_pointer) ∧
          (∀ (j : Nat) (sphere : Sphere Int),
            (blankRenderer sampleScene).scene.spheres[j]? = some sphere →
            ∃ rec_ : HitgroupRecord Int,
              recs[(blankRenderer sampleScene).scene.meshes.length + j]? = some rec_ ∧
              rec_.data = .sphere_data sphere.color sphere.radius) :=
  ⟨okBackend_succeeds Int, by decide,
    buildSBT_hitgroup_records (okBackend_succeeds Int) (blankRenderer sampleScene) (by decide)⟩

/-- C2: on a backend whose calls succeed, for a scene with `m` meshes and `s` spheres
(`m + s` representable as `int`): every build input of the mesh build and of the sphere
build owns exactly one SBT record; the instance array that `buildAccelInstances` hands to
the build is `[mi, si]` with `mi.sbtOffset = 0` and `si.sbtOffset = m`; and on every renderer
with the same scene whose buffers cover the meshes, `buildSBT` uploads records `recs` such
that `recs[mi.sbtOffset + i]` is the record of mesh `i`, `recs[si.sbtOffset + j]` is the
record of sphere `j`, and the ranges `[mi.sbtOffset, mi.sbtOffset + m)` and
`[si.sbtOffset, si.sbtOffset + s)` are adjacent, disjoint and cover exactly the indices of
`recs`. -/
theorem sbtOffsets_index_hitgroup_records {α : Type} [Zero α] [One α] [Neg α] {be : Backend α}
    (hbe : be.succeeds) (r : SampleRenderer α) (meshes spheres : OptixTraversableHandle)
    (hcount : r.scene.meshes.length + r.scene.spheres.length < 2 ^ 31) :
    (∃ (h : OptixTraversableHandle) (r1 : SampleRenderer α) (bc : AccelBuildCall α)
      (h1 c : Nat) (pre post : List (Event α)),
      buildAccelMeshes be r = .ok (h, r1) ∧
      r1.device.calls = pre ++ .accelBuild bc h1 c :: post ∧
      bc.buildInputs.length = r.scene.meshes.length ∧
      ∀ gi ∈ bc.buildInputs, gi.numSbtRecords = 1) ∧
    (∃ (h : OptixTraversableHandle) (r1 : SampleRenderer α) (bc : AccelBuildCall α)
      (h1 c : Nat) (pre post : List (Event α)),
      buildAccelSpheres be r = .ok (h, r1) ∧
      r1.device.calls = pre ++ .accelBuild bc h1 c :: post ∧
      bc.buildInputs.length = r.scene.spheres.length ∧
      ∀ gi ∈ bc.buildInputs, gi.numSbtRecords = 1) ∧
    ∃ (h : OptixTraversableHandle) (r' : SampleRenderer α) (bc : AccelBuildCall α)
      (h1 c : Nat) (pre post : List (Event α)) (ip : CUdeviceptr) (mi si : OptixInstance α),
      buildAccelInstances be r meshes spheres = .ok (h, r') ∧
      r'.device.calls = pre ++ .accelBuild bc h1 c :: post ∧
      bc.buildInputs = [.instances ⟨ip, 2, 0, 0⟩] ∧
      readAt bc.memory ip = some (.instances [mi, si]) ∧
      mi.traversableHandle = meshes ∧ si.traversableHandle = spheres ∧
      mi.sbtOffset = 0 ∧ si.sbtOffset = r.scene.meshes.length ∧
      ∀ (r2 : SampleRenderer α) (pg : OptixProgramGroup),
        r2.scene = r.scene → r.scene.meshes.length ≤ r2.vertexBuffer.length →
        r.scene.meshes.length ≤ r2.indexBuffer.length → r2.hitgroupPGs[0]? = some pg →
        ∃ (r3 : SampleRenderer α) (recs : List (HitgroupRecord α)),
          buildSBT be r2 = .ok r3 ∧
          r3.device.read r3.sbt.hitgroupRecordBase = some (.hitgroupRecords recs) ∧
          (∀ (i : Nat) (mesh : TriangleMesh α) (vb ib : CUDABuffer),
            r.scene.meshes[i]? = some mesh → r2.vertexBuffer[i]? = some vb →
            r2.indexBuffer[i]? = some ib →
            ∃ rec_ : HitgroupRecord α,
              recs[mi.sbtOffset + i]? = some rec_ ∧
              rec_.data = .triangle_data mesh.color vb.d_pointer ib.d_pointer) ∧
          (∀ (j : Nat) (sphere : Sphere α), r.scene.spheres[j]? = some sphere →
            ∃ rec_ : HitgroupRecord α,
              recs[si.sbtOffset + j]? = some rec_ ∧
              rec_.data = .sphere_data sphere.color sphere.radius) ∧
          mi.sbtOffset + r.scene.meshes.length = si.sbtOffset ∧
          si.sbtOffset + r.scene.spheres.length = recs.length ∧
          (∀ k : Nat, k < recs.length ↔
            (mi.sbtOffset ≤ k ∧ k < mi.sbtOffset + r.scene.meshes.length) ∨
            (si.sbtOffset ≤ k ∧ k < si.sbtOffset + r.scene.spheres.length)) ∧
          (∀ k : Nat, ¬ ((mi.sbtOffset ≤ k ∧ k < mi.sbtOffset + r.scene.meshes.length) ∧
            (si.sbtOffset ≤ k ∧ k < si.sbtOffset + r.scene.spheres.length))) := by
  refine ⟨buildAccelMeshes_one_record hbe r, buildAccelSpheres_one_record hbe r, ?_⟩
  obtain ⟨h, r', bc, uc, us, h1, c, cc, ip, e, -, hcalls, hbi, -, hmem, -⟩ :=
    buildAccelInstances_spec hbe r meshes spheres
  refine ⟨h, r', bc, h1, c,
    r.device.calls ++ [.memcpyHtoD ip (2 * sizeof_OptixInstance), .accelComputeMemoryUsage uc us],
    [.sync, .memcpyDtoH bc.emitResult (1 * sizeof_uint64_t), .accelCompact cc h, .sync],
    ip, _, _, e, ?_, hbi, hmem, rfl, rfl, rfl, castUInt32_of_lt (by omega), ?_⟩
  · rw [hcalls]
    exact (List.append_assoc _ [_, _] _).symm
  · intro r2 pg hs hv hi hpg
    obtain ⟨r3, recs, e3, -, -, hread, hlen, -, hm, hsph, -⟩ :=
      buildSBT_spec hbe r2 hpg (by rw [hs]; exact hcount) (by rw [hs]; exact hv)
        (by rw [hs]; exact hi)
    rw [hs] at hlen hm hsph
    have hoff : castUInt32 r.scene.meshes.length = r.scene.meshes.length :=
      castUInt32_of_lt (by omega)
    refine ⟨r3, recs, e3, hread, ?_, ?_, ?_, ?_, ?_, ?_⟩
    · intro i mesh vb ib hmi hvb hib
      refine ⟨⟨(be.optixSbtRecordPackHeader pg).2,
        .triangle_data mesh.color vb.d_ptr ib.d_ptr⟩, ?_, rfl⟩
      show recs[0 + i]? = _
      rw [Nat.zero_add]
      exact hm i mesh vb ib hmi hvb hib
    · intro j sphere hsj
      refine ⟨⟨(be.optixSbtRecordPackHeader pg).2,
        .sphere_data sphere.color sphere.radius⟩, ?_, rfl⟩
      show recs[castUInt32 r.scene.meshes.length + j]? = _
      rw [hoff]
      exact hsph j sphere hsj
    · show 0 + r.scene.meshes.length = castUInt32 r.scene.meshes.length
      rw [hoff, Nat.zero_add]
    · show castUInt32 r.scene.meshes.length + r.scene.spheres.length = recs.length
      rw [hoff, hlen]
    · intro k
      show k < recs.length ↔ (0 ≤ k ∧ k < 0 + r.scene.meshes.length) ∨
        (castUInt32 r.scene.meshes.length ≤ k ∧
          k < castUInt32 r.scene.meshes.length + r.scene.spheres.length)
      rw [hoff, hlen]
      omega
    · intro k
      show ¬ ((0 ≤ k ∧ k < 0 + r.scene.meshes.length) ∧
        (castUInt32 r.scene.meshes.length ≤ k ∧
          k < castUInt32 r.scene.meshes.length + r.scene.spheres.length))
      rw [hoff]
      omega

/-- Witness for C2: the scene with two meshes and one sphere on the succeeding backend, with
handles 11 and 22. -/
theorem sbtOffsets_index_hitgroup_records_witness :
    (okBackend Int).succeeds ∧
    (blankRenderer sampleScene).scene.meshes.length
      + (blankRenderer sampleScene).scene.spheres.length < 2 ^ 31 ∧
    ((∃ (h : OptixTraversableHandle) (r1 : SampleRenderer Int) (bc : AccelBuildCall Int)
      (h1 c : Nat) (pre post : List (Event Int)),
      buildAccelMeshes (okBackend Int) (blankRenderer sampleScene) = .ok (h, r1) ∧
      r1.device.calls = pre ++ .accelBuild bc h1 c :: post ∧
      bc.buildInputs.length = (blankRenderer sampleScene).scene.meshes.length ∧
      ∀ gi ∈ bc.buildInputs, gi.numSbtRecords = 1) ∧
    (∃ (h : OptixTraversableHandle) (r1 : SampleRenderer Int) (bc : AccelBuildCall Int)
      (h1 c : Nat) (pre post : List (Event Int)),
      buildAccelSpheres (okBackend Int) (blankRenderer sampleScene) = .ok (h, r1) ∧
      r1.device.calls = pre ++ .accelBuild bc h1 c :: post ∧
      bc.buildInputs.length = (blankRenderer sampleScene).scene.spheres.length ∧
      ∀ gi ∈ bc.buildInputs, gi.numSbtRecords = 1) ∧
    ∃ (h : OptixTraversableHandle) (r' : SampleRenderer Int) (bc : AccelBuildCall Int)
      (h1 c : Nat) (pre post : List (Event Int)) (ip : CUdeviceptr) (mi si : OptixInstance Int),
      buildAccelInstances (okBackend Int) (blankRenderer sampleScene) 11 22 = .ok (h, r') ∧
      r'.device.calls = pre ++ .accelBuild bc h1 c :: post ∧
      bc.buildInputs = [.instances ⟨ip, 2, 0, 0⟩] ∧
      readAt bc.memory ip = some (.instances [mi, si]) ∧
      mi.traversableHandle = 11 ∧ si.traversableHandle = 22 ∧
      mi.sbtOffset = 0 ∧ si.sbtOffset = (blankRenderer sampleScene).scene.meshes.length ∧
      ∀ (r2 : SampleRenderer Int) (pg : OptixProgramGroup),
        r2.scene = (blankRenderer sampleScene).scene → (blankRenderer sampleScene).scene.meshes.length ≤ r2.vertexBuffer.length →
        (blankRenderer sampleScene).scene.meshes.length ≤ r2.indexBuffer.length → r2.hitgroupPGs[0]? = some pg →
        ∃ (r3 : SampleRenderer Int) (recs : List (HitgroupRecord Int)),
          buildSBT (okBackend Int) r2 = .ok r3 ∧
          r3.device.read r3.sbt.hitgroupRecordBase = some (.hitgroupRecords recs) ∧
          (∀ (i : Nat) (mesh : TriangleMesh Int) (vb ib : CUDABuffer),
            (blankRenderer sampleScene).scene.meshes[i]? = some mesh → r2.vertexBuffer[i]? = some vb →
            r2.indexBuffer[i]? = some ib →
            ∃ rec_ : HitgroupRecord Int,
              recs[mi.sbtOffset + i]? = some rec_ ∧
              rec_.data = .triangle_data mesh.color vb.d_pointer ib.d_pointer) ∧
          (∀ (j : Nat) (sphere : Sphere Int), (blankRenderer sampleScene).scene.spheres[j]? = some sphere →
            ∃ rec_ : HitgroupRecord Int,
              recs[si.sbtOffset + j]? = some rec_ ∧
              rec_.data = .sphere_data sphere.color sphere.radius) ∧
          mi.sbtOffset + (blankRenderer sampleScene).scene.meshes.length = si.sbtOffset ∧
          si.sbtOffset + (blankRenderer sampleScene).scene.spheres.length = recs.length ∧
          (∀ k : Nat, k < recs.length ↔
            (mi.sbtOffset ≤ k ∧ k < mi.sbtOffset + (blankRenderer sampleScene).scene.meshes.length) ∨
            (si.sbtOffset ≤ k ∧ k < si.sbtOffset + (blankRenderer sampleScene).scene.spheres.length)) ∧
          (∀ k : Nat, ¬ ((mi.sbtOffset ≤ k ∧ k < mi.sbtOffset + (blankRenderer sampleScene).scene.meshes.length) ∧
            (si.sbtOffset ≤ k ∧ k < si.sbtOffset + (blankRenderer sampleScene).scene.spheres.length)))) :=
  ⟨okBackend_succeeds Int, by decide,
    sbtOffsets_index_hitgroup_records (okBackend_succeeds Int) (blankRenderer sampleScene) 11 22
      (by decide)⟩

/-- C3: while the launch-parameter frame size is `(0,0)`, `render` returns without error and
returns the renderer it was given: the launch parameters, every other field, the device
memory and the call trace (no upload, no launch) are unchanged. -/
theorem render_before_resize {α : Type} (be : Backend α) (r : SampleRenderer α)
    (hsize : r.launchParams.frame.size = ⟨0, 0⟩) :
    render be r = .ok r := by
  unfold render
  rw [hsize]
  rfl

/-- Witness for C3: the renderer before any resize. -/
theorem render_before_resize_witness :
    (blankRenderer sampleScene).launchParams.frame.size = ⟨0, 0⟩ ∧
    render (okBackend Int) (blankRenderer sampleScene) = .ok (blankRenderer sampleScene) :=
  ⟨rfl, render_before_resize (okBackend Int) (blankRenderer sampleScene) rfl⟩

/-- C4: over the reals, for a frame with positive dimensions and a camera whose look-at
point differs from its position and whose up vector is non-zero and not parallel to the view
direction, after `resize(w,h)` and `setCamera` the stored horizontal vector is orthogonal to
the direction, the vertical vector is orthogonal to the direction, and the horizontal vector
is orthogonal to the vertical vector; none of the three vectors is zero, so the three dot
products vanish for perpendicular vectors and not for want of a vector. -/
theorem camera_basis_orthogonal (r : SampleRenderer ℝ) (w h : Int) (cam : Camera ℝ)
    (hw : 0 < w) (hh : 0 < h) (hat : cam.at_ ≠ cam.from_) (hup : cam.up ≠ ⟨0, 0, 0⟩)
    (hpar : vec3.cross (vec3.sub cam.at_ cam.from_) cam.up ≠ ⟨0, 0, 0⟩) :
    vec3.dot
      (setCamera Real.sqrt (resize Real.sqrt r ⟨w, h⟩) cam).launchParams.camera.horizontal
      (setCamera Real.sqrt (resize Real.sqrt r ⟨w, h⟩) cam).launchParams.camera.direction = 0 ∧
    vec3.dot
      (setCamera Real.sqrt (resize Real.sqrt r ⟨w, h⟩) cam).launchParams.camera.vertical
      (setCamera Real.sqrt (resize Real.sqrt r ⟨w, h⟩) cam).launchParams.camera.direction = 0 ∧
    vec3.dot
      (setCamera Real.sqrt (resize Real.sqrt r ⟨w, h⟩) cam).launchParams.camera.horizontal
      (setCamera Real.sqrt (resize Real.sqrt r ⟨w, h⟩) cam).launchParams.camera.vertical = 0 ∧
    (setCamera Real.sqrt (resize Real.sqrt r ⟨w, h⟩) cam).launchParams.camera.direction
      ≠ ⟨0, 0, 0⟩ ∧
    (setCamera Real.sqrt (resize Real.sqrt r ⟨w, h⟩) cam).launchParams.camera.horizontal
      ≠ ⟨0, 0, 0⟩ ∧
    (setCamera Real.sqrt (resize Real.sqrt r ⟨w, h⟩) cam).launchParams.camera.vertical
      ≠ ⟨0, 0, 0⟩ := by
  obtain ⟨ed, eh, ev, -, -, -⟩ := setCamera_basis (resize Real.sqrt r ⟨w, h⟩) cam
  obtain ⟨l1, l2, -, l4⟩ := setCamera_lengths (resize Real.sqrt r ⟨w, h⟩) cam hw hh hat hpar
  refine ⟨?_, ?_, ?_, vec3_ne_zero_of_dot_pos (by rw [l1]; norm_num),
    vec3_ne_zero_of_dot_pos l2, vec3_ne_zero_of_dot_pos (by rw [l4]; norm_num)⟩
  · rw [eh, ← ed]
    unfold vec3.normalize
    rw [vec3_dot_smul_left, vec3_dot_smul_left, vec3_dot_cross_left]
    ring
  · rw [ev]
    unfold vec3.normalize
    rw [vec3_dot_smul_left, vec3_dot_smul_left, vec3_dot_cross_right]
    ring
  · rw [vec3_dot_comm, ev]
    unfold vec3.normalize
    rw [vec3_dot_smul_left, vec3_dot_smul_left, vec3_dot_cross_left]
    ring

/-- Witness for C4: the camera at `(0,0,5)` looking at the origin with up `(0,1,0)` on a
256x256 frame. -/
theorem camera_basis_orthogonal_witness :
    (0 : Int) < 256 ∧ sampleCamera.at_ ≠ sampleCamera.from_ ∧ sampleCamera.up ≠ ⟨0, 0, 0⟩ ∧
    vec3.cross (vec3.sub sampleCamera.at_ sampleCamera.from_) sampleCamera.up ≠ ⟨0, 0, 0⟩ ∧
    vec3.dot
      (setCamera Real.sqrt (resize Real.sqrt (blankRenderer ⟨[], []⟩) ⟨256, 256⟩)
        sampleCamera).launchParams.camera.horizontal
      (setCamera Real.sqrt (resize Real.sqrt (blankRenderer ⟨[], []⟩) ⟨256, 256⟩)
        sampleCamera).launchParams.camera.direction = 0 ∧
    vec3.dot
      (setCamera Real.sqrt (resize Real.sqrt (blankRenderer ⟨[], []⟩) ⟨256, 256⟩)
        sampleCamera).launchParams.camera.vertical
      (setCamera Real.sqrt (resize Real.sqrt (blankRenderer ⟨[], []⟩) ⟨256, 256⟩)
        sampleCamera).launchParams.camera.direction = 0 ∧
    vec3.dot
      (setCamera Real.sqrt (resize Real.sqrt (blankRenderer ⟨[], []⟩) ⟨256, 256⟩)
        sampleCamera).launchParams.camera.horizontal
      (setCamera Real.sqrt (resize Real.sqrt (blankRenderer ⟨[], []⟩) ⟨256, 256⟩)
        sampleCamera).launchParams.camera.vertical = 0 ∧
    (setCamera Real.sqrt (resize Real.sqrt (blankRenderer ⟨[], []⟩) ⟨256, 256⟩)
      sampleCamera).launchParams.camera.direction ≠ ⟨0, 0, 0⟩ ∧
    (setCamera Real.sqrt (resize Real.sqrt (blankRenderer ⟨[], []⟩) ⟨256, 256⟩)
      sampleCamera).launchParams.camera.horizontal ≠ ⟨0, 0, 0⟩ ∧
    (setCamera Real.sqrt (resize Real.sqrt (blankRenderer ⟨[], []⟩) ⟨256, 256⟩)
      sampleCamera).launchParams.camera.vertical ≠ ⟨0, 0, 0⟩ :=
  ⟨by decide, sampleCamera_nondegenerate.1, sampleCamera_nondegenerate.2.1,
    sampleCamera_nondegenerate.2.2,
    camera_basis_orthogonal (blankRenderer ⟨[], []⟩) 256 256 sampleCamera (by decide) (by decide)
      sampleCamera_nondegenerate.1 sampleCamera_nondegenerate.2.1
      sampleCamera_nondegenerate.2.2⟩

/-- C5, as amended: over the reals, for a non-degenerate camera and a frame with positive
dimensions, the vertical vector stored by `setCamera` is 66/100 times the normalised cross
product of the horizontal vector and the view direction; that normalised cross product has
length 1 and the vertical vector has length 66/100. -/
theorem camera_vertical_scaled (r : SampleRenderer ℝ) (w h : Int) (cam : Camera ℝ)
    (hw : 0 < w) (hh : 0 < h) (hat : cam.at_ ≠ cam.from_) (hup : cam.up ≠ ⟨0, 0, 0⟩)
    (hpar : vec3.cross (vec3.sub cam.at_ cam.from_) cam.up ≠ ⟨0, 0, 0⟩) :
    (setCamera Real.sqrt (resize Real.sqrt r ⟨w, h⟩) cam).launchParams.camera.vertical
      = vec3.smul (66 / 100) (vec3.normalize Real.sqrt (vec3.cross
          (setCamera Real.sqrt (resize Real.sqrt r ⟨w, h⟩) cam).launchParams.camera.horizontal
          (setCamera Real.sqrt (resize Real.sqrt r ⟨w, h⟩) cam).launchParams.camera.direction)) ∧
    vec3.length Real.sqrt (vec3.normalize Real.sqrt (vec3.cross
        (setCamera Real.sqrt (resize Real.sqrt r ⟨w, h⟩) cam).launchParams.camera.horizontal
        (setCamera Real.sqrt (resize Real.sqrt r ⟨w, h⟩) cam).launchParams.camera.direction))
      = 1 ∧
    vec3.length Real.sqrt
      (setCamera Real.sqrt (resize Real.sqrt r ⟨w, h⟩) cam).launchParams.camera.vertical
      = 66 / 100 := by
  obtain ⟨-, -, he, hv⟩ := setCamera_lengths (resize Real.sqrt r ⟨w, h⟩) cam hw hh hat hpar
  refine ⟨rfl, ?_, ?_⟩
  · unfold vec3.length
    rw [vec3_normalize_dot_self he]
    exact Real.sqrt_one
  · unfold vec3.length
    rw [hv]
    exact Real.sqrt_mul_self (by norm_num)

/-- Witness for C5 as amended: the camera at `(0,0,5)` looking at the origin with up
`(0,1,0)` on a 256x256 frame. -/
theorem camera_vertical_scaled_witness :
    (0 : Int) < 256 ∧ sampleCamera.at_ ≠ sampleCamera.from_ ∧ sampleCamera.up ≠ ⟨0, 0, 0⟩ ∧
    vec3.cross (vec3.sub sampleCamera.at_ sampleCamera.from_) sampleCamera.up ≠ ⟨0, 0, 0⟩ ∧
    vec3.length Real.sqrt
      (setCamera Real.sqrt (resize Real.sqrt (blankRenderer ⟨[], []⟩) ⟨256, 256⟩)
        sampleCamera).launchParams.camera.vertical = 66 / 100 :=
  ⟨by decide, sampleCamera_nondegenerate.1, sampleCamera_nondegenerate.2.1,
    sampleCamera_nondegenerate.2.2,
    (camera_vertical_scaled (blankRenderer ⟨[], []⟩) 256 256 sampleCamera (by decide) (by decide)
      sampleCamera_nondegenerate.1 sampleCamera_nondegenerate.2.1
      sampleCamera_nondegenerate.2.2).2.2⟩

/-- C5 fails as stated: for the camera at `(0,0,5)` looking at the origin with up `(0,1,0)`
on a 256x256 frame, `setCamera` stores the vertical vector `(0, 66/100, 0)`, whereas the
normalised cross product of the horizontal vector and the direction is `(0, 1, 0)`; the
vertical vector differs from it and its length is not 1. -/
theorem camera_vertical_not_unit :
    (setCamera Real.sqrt (resize Real.sqrt (blankRenderer ⟨[], []⟩) ⟨256, 256⟩)
      sampleCamera).launchParams.camera.vertical = ⟨0, 66 / 100, 0⟩ ∧
    vec3.normalize Real.sqrt (vec3.cross
      (setCamera Real.sqrt (resize Real.sqrt (blankRenderer ⟨[], []⟩) ⟨256, 256⟩)
        sampleCamera).launchParams.camera.horizontal
      (setCamera Real.sqrt (resize Real.sqrt (blankRenderer ⟨[], []⟩) ⟨256, 256⟩)
        sampleCamera).launchParams.camera.direction) = ⟨0, 1, 0⟩ ∧
    (setCamera Real.sqrt (resize Real.sqrt (blankRenderer ⟨[], []⟩) ⟨256, 256⟩)
      sampleCamera).launchParams.camera.vertical
      ≠ vec3.normalize Real.sqrt (vec3.cross
          (setCamera Real.sqrt (resize Real.sqrt (blankRenderer ⟨[], []⟩) ⟨256, 256⟩)
            sampleCamera).launchParams.camera.horizontal
          (setCamera Real.sqrt (resize Real.sqrt (blankRenderer ⟨[], []⟩) ⟨256, 256⟩)
            sampleCamera).launchParams.camera.direction) ∧
    vec3.length Real.sqrt
      (setCamera Real.sqrt (resize Real.sqrt (blankRenderer ⟨[], []⟩) ⟨256, 256⟩)
        sampleCamera).launchParams.camera.vertical ≠ 1 := by
  obtain ⟨e1, e2⟩ := sample_vertical
  refine ⟨e1, e2, ?_, ?_⟩
  · rw [e1, e2]
    simp only [ne_eq, vec3.mk.injEq]
    norm_num
  · rw [e1]
    unfold vec3.length vec3.dot
    simp only
    norm_num [sqrt_1089, sqrt_2500]

/-- C6: for `w ≥ 0` and `h ≥ 0` with `w * h` representable as `int`, after `resize(w,h)` the
colour buffer is a live allocation of exactly `4 * w * h` bytes (`w * h` 32-bit pixels), the
launch-parameter frame size is `(w,h)` and its buffer address is that of the colour buffer;
a following `downloadPixels` issues one device-to-host copy of `w * h` elements of 4 bytes
from the colour buffer, which is the whole buffer, and hands the host its contents; for
`resize(256,256)` the buffer has `4 * 65536` bytes. -/
theorem resize_then_downloadPixels {α : Type} [Field α] (sqrt : α → α) (r : SampleRenderer α)
    (w h : Int) (hw : 0 ≤ w) (hh : 0 ≤ h) (hfit : w * h < 2 ^ 31) :
    (resize sqrt r ⟨w, h⟩).colorBuffer.sizeInBytes = 4 * (w * h).toNat ∧
    (resize sqrt r ⟨w, h⟩).device.block (resize sqrt r ⟨w, h⟩).colorBuffer.d_pointer
      = some ⟨(resize sqrt r ⟨w, h⟩).colorBuffer.d_pointer, 4 * (w * h).toNat, .raw⟩ ∧
    (resize sqrt r ⟨w, h⟩).launchParams.frame.size = ⟨w, h⟩ ∧
    (resize sqrt r ⟨w, h⟩).launchParams.frame.colorBuffer
      = (resize sqrt r ⟨w, h⟩).colorBuffer.d_pointer ∧
    (downloadPixels (resize sqrt r ⟨w, h⟩)).2.device.calls
      = (resize sqrt r ⟨w, h⟩).device.calls ++
        [.memcpyDtoH (resize sqrt r ⟨w, h⟩).colorBuffer.d_pointer
          ((w * h).toNat * sizeof_uint32_t)] ∧
    (w * h).toNat * sizeof_uint32_t = (resize sqrt r ⟨w, h⟩).colorBuffer.sizeInBytes ∧
    (downloadPixels (resize sqrt r ⟨w, h⟩)).1
      = (resize sqrt r ⟨w, h⟩).device.read (resize sqrt r ⟨w, h⟩).colorBuffer.d_pointer ∧
    (w = 256 → h = 256 → (resize sqrt r ⟨w, h⟩).colorBuffer.sizeInBytes = 4 * 65536) := by
  have h0 : 0 ≤ w * h := Int.mul_nonneg hw hh
  have hb := pixelBytes_of_range h0 hfit
  obtain ⟨s1, s2, -⟩ := CUDABuffer_resize_spec r.colorBuffer hb r.device
  have hcount : castSizeT (wrapInt (w * h)) = (w * h).toNat := by
    rw [wrapInt_of_range h0 hfit, castSizeT_of_range h0 hfit]
  refine ⟨s1, s2, rfl, rfl, ?_, ?_, rfl, ?_⟩
  · show _ ++ [Event.memcpyDtoH _ (castSizeT (wrapInt (w * h)) * sizeof_uint32_t)] = _
    rw [hcount]
    rfl
  · have : (resize sqrt r ⟨w, h⟩).colorBuffer.sizeInBytes = 4 * (w * h).toNat := s1
    rw [this]
    unfold sizeof_uint32_t
    omega
  · intro e1 e2
    have : (resize sqrt r ⟨w, h⟩).colorBuffer.sizeInBytes = 4 * (w * h).toNat := s1
    rw [this, e1, e2]
    rfl

/-- Witness for C6: `resize(256,256)` on the renderer before any resize, over the reals. -/
theorem resize_then_downloadPixels_witness :
    (0 : Int) ≤ 256 ∧ (256 : Int) * 256 < 2 ^ 31 ∧
    (resize Real.sqrt (blankRenderer ⟨[], []⟩) ⟨256, 256⟩).colorBuffer.sizeInBytes
      = 4 * 65536 ∧
    (downloadPixels (resize Real.sqrt (blankRenderer ⟨[], []⟩) ⟨256, 256⟩)).2.device.calls
      = (resize Real.sqrt (blankRenderer ⟨[], []⟩) ⟨256, 256⟩).device.calls ++
        [.memcpyDtoH (resize Real.sqrt (blankRenderer ⟨[], []⟩) ⟨256, 256⟩).colorBuffer.d_pointer
          (((256 : Int) * 256).toNat * sizeof_uint32_t)] :=
  ⟨by decide, by decide,
    (resize_then_downloadPixels Real.sqrt (blankRenderer ⟨[], []⟩) 256 256
      (by decide) (by decide) (by decide)).2.2.2.2.2.2.2 rfl rfl,
    (resize_then_downloadPixels Real.sqrt (blankRenderer ⟨[], []⟩) 256 256
      (by decide) (by decide) (by decide)).2.2.2.2.1⟩

/-- C7 (evaluation at the failing input): for the scene with two meshes and one sphere, the
mesh build and then the sphere build return; the pairs (entries in the build-input array,
build-input count passed) of their memory-usage queries and build calls are `(2, 2)` twice
for the meshes and `(1, 2)` twice for the spheres: `buildAccelSpheres` passes the number of
meshes, which exceeds its one-entry array. -/
theorem buildAccelSpheres_passes_mesh_count :
    ((buildAccelMeshes (okBackend Int) (blankRenderer sampleScene)).bind fun m =>
      (buildAccelSpheres (okBackend Int) m.2).map fun s =>
        buildInputCounts s.2.device.calls)
      = .ok [(2, 2), (2, 2), (1, 2), (1, 2)] := by
  rfl

/-- C8: on a backend whose calls succeed, each of the three builds ends with the calls
`optixAccelBuild` (reporting handle `h1` and emitting compacted size `c`), a synchronisation,
the read-back of the emitted size, `optixAccelCompact` of `h1` into the retained buffer, and a
synchronisation; the retained buffer (`meshBlasBuffer`, `sphereBlasBuffer`, `sceneTlasBuffer`)
is a live allocation of exactly `c` bytes, and the handle returned is the one the compaction
call reports. -/
theorem builds_return_compacted {α : Type} [Zero α] [One α] [Neg α] {be : Backend α}
    (hbe : be.succeeds) (r : SampleRenderer α) (meshes spheres : OptixTraversableHandle) :
    (∃ (h : OptixTraversableHandle) (r' : SampleRenderer α) (bc : AccelBuildCall α)
      (h1 c : Nat) (pre : List (Event α)),
      buildAccelMeshes be r = .ok (h, r') ∧
      r'.device.calls = pre ++
        [.accelBuild bc h1 c, .sync, .memcpyDtoH bc.emitResult (1 * sizeof_uint64_t),
         .accelCompact ⟨h1, r'.meshBlasBuffer.d_pointer, r'.meshBlasBuffer.sizeInBytes⟩ h,
         .sync] ∧
      (be.optixAccelBuild bc).2 = (h1, c) ∧
      r'.meshBlasBuffer.sizeInBytes = c ∧
      r'.device.block r'.meshBlasBuffer.d_pointer
        = some ⟨r'.meshBlasBuffer.d_pointer, c, .raw⟩ ∧
      h = (be.optixAccelCompact ⟨h1, r'.meshBlasBuffer.d_pointer, c⟩).2) ∧
    (∃ (h : OptixTraversableHandle) (r' : SampleRenderer α) (bc : AccelBuildCall α)
      (h1 c : Nat) (pre : List (Event α)),
      buildAccelSpheres be r = .ok (h, r') ∧
      r'.device.calls = pre ++
        [.accelBuild bc h1 c, .sync, .memcpyDtoH bc.emitResult (1 * sizeof_uint64_t),
         .accelCompact ⟨h1, r'.sphereBlasBuffer.d_pointer, r'.sphereBlasBuffer.sizeInBytes⟩ h,
         .sync] ∧
      (be.optixAccelBuild bc).2 = (h1, c) ∧
      r'.sphereBlasBuffer.sizeInBytes = c ∧
      r'.device.block r'.sphereBlasBuffer.d_pointer
        = some ⟨r'.sphereBlasBuffer.d_pointer, c, .raw⟩ ∧
      h = (be.optixAccelCompact ⟨h1, r'.sphereBlasBuffer.d_pointer, c⟩).2) ∧
    (∃ (h : OptixTraversableHandle) (r' : SampleRenderer α) (bc : AccelBuildCall α)
      (h1 c : Nat) (pre : List (Event α)),
      buildAccelInstances be r meshes spheres = .ok (h, r') ∧
      r'.device.calls = pre ++
        [.accelBuild bc h1 c, .sync, .memcpyDtoH bc.emitResult (1 * sizeof_uint64_t),
         .accelCompact ⟨h1, r'.sceneTlasBuffer.d_pointer, r'.sceneTlasBuffer.sizeInBytes⟩ h,
         .sync] ∧
      (be.optixAccelBuild bc).2 = (h1, c) ∧
      r'.sceneTlasBuffer.sizeInBytes = c ∧
      r'.device.block r'.sceneTlasBuffer.d_pointer
        = some ⟨r'.sceneTlasBuffer.d_pointer, c, .raw⟩ ∧
      h = (be.optixAccelCompact ⟨h1, r'.sceneTlasBuffer.d_pointer, c⟩).2) := by
  refine ⟨?_, ?_, ?_⟩
  · obtain ⟨h, r', bc, h1, c, cc, uc, us, pre, e, -, -, -, -, -, -, -, hcalls, hb, hcc, hh, hsz,
      hblk, -⟩ := buildAccelMeshes_spec hbe r
    subst hcc
    refine ⟨h, r', bc, h1, c, pre ++ [.accelComputeMemoryUsage uc us], e, ?_, hb, hsz, hblk,
      hh.symm⟩
    rw [hcalls, hsz]
    exact (List.append_assoc _ [_] _).symm
  · obtain ⟨h, r', bc, h1, c, cc, uc, us, pre, e, -, -, -, -, -, -, hcalls, hb, hcc, hh, hsz,
      hblk, -⟩ := buildAccelSpheres_spec hbe r
    subst hcc
    refine ⟨h, r', bc, h1, c, pre ++ [.accelComputeMemoryUsage uc us], e, ?_, hb, hsz, hblk,
      hh.symm⟩
    rw [hcalls, hsz]
    exact (List.append_assoc _ [_] _).symm
  · obtain ⟨h, r', bc, uc, us, h1, c, cc, ip, e, -, hcalls, -, -, -, hb, hcc, hh, hsz, hblk, -⟩ :=
      buildAccelInstances_spec hbe r meshes spheres
    subst hcc
    refine ⟨h, r', bc, h1, c,
      r.device.calls ++ [.memcpyHtoD ip (2 * sizeof_OptixInstance),
        .accelComputeMemoryUsage uc us], e, ?_, hb, hsz, hblk, hh.symm⟩
    rw [hcalls, hsz]
    exact (List.append_assoc _ [_, _] _).symm

/-- Witness for C8: the scene with two meshes and one sphere on the succeeding backend, with
handles 11 and 22. -/
theorem builds_return_compacted_witness :
    (okBackend Int).succeeds ∧
    ((∃ (h : OptixTraversableHandle) (r' : SampleRenderer Int) (bc : AccelBuildCall Int)
      (h1 c : Nat) (pre : List (Event Int)),
      buildAccelMeshes (okBackend Int) (blankRenderer sampleScene) = .ok (h, r') ∧
      r'.device.calls = pre ++
        [.accelBuild bc h1 c, .sync, .memcpyDtoH bc.emitResult (1 * sizeof_uint64_t),
         .accelCompact ⟨h1, r'.meshBlasBuffer.d_pointer, r'.meshBlasBuffer.sizeInBytes⟩ h,
         .sync] ∧
      ((okBackend Int).optixAccelBuild bc).2 = (h1, c) ∧
      r'.meshBlasBuffer.sizeInBytes = c ∧
      r'.device.block r'.meshBlasBuffer.d_pointer
        = some ⟨r'.meshBlasBuffer.d_pointer, c, .raw⟩ ∧
      h = ((okBackend Int).optixAccelCompact ⟨h1, r'.meshBlasBuffer.d_pointer, c⟩).2) ∧
    (∃ (h : OptixTraversableHandle) (r' : SampleRenderer Int) (bc : AccelBuildCall Int)
      (h1 c : Nat) (pre : List (Event Int)),
      buildAccelSpheres (okBackend Int) (blankRenderer sampleScene) = .ok (h, r') ∧
      r'.device.calls = pre ++
        [.accelBuild bc h1 c, .sync, .memcpyDtoH bc.emitResult (1 * sizeof_uint64_t),
         .accelCompact ⟨h1, r'.sphereBlasBuffer.d_pointer, r'.sphereBlasBuffer.sizeInBytes⟩ h,
         .sync] ∧
      ((okBackend Int).optixAccelBuild bc).2 = (h1, c) ∧
      r'.sphereBlasBuffer.sizeInBytes = c ∧
      r'.device.block r'.sphereBlasBuffer.d_pointer
        = some ⟨r'.sphereBlasBuffer.d_pointer, c, .raw⟩ ∧
      h = ((okBackend Int).optixAccelCompact ⟨h1, r'.sphereBlasBuffer.d_pointer, c⟩).2) ∧
    (∃ (h : OptixTraversableHandle) (r' : SampleRenderer Int) (bc : AccelBuildCall Int)
      (h1 c : Nat) (pre : List (Event Int)),
      buildAccelInstances (okBackend Int) (blankRenderer sampleScene) 11 22 = .ok (h, r') ∧
      r'.device.calls = pre ++
        [.accelBuild bc h1 c, .sync, .memcpyDtoH bc.emitResult (1 * sizeof_uint64_t),
         .accelCompact ⟨h1, r'.sceneTlasBuffer.d_pointer, r'.sceneTlasBuffer.sizeInBytes⟩ h,
         .sync] ∧
      ((okBackend Int).optixAccelBuild bc).2 = (h1, c) ∧
      r'.sceneTlasBuffer.sizeInBytes = c ∧
      r'.device.block r'.sceneTlasBuffer.d_pointer
        = some ⟨r'.sceneTlasBuffer.d_pointer, c, .raw⟩ ∧
      h = ((okBackend Int).optixAccelCompact ⟨h1, r'.sceneTlasBuffer.d_pointer, c⟩).2)) :=
  ⟨okBackend_succeeds Int,
    builds_return_compacted (okBackend_succeeds Int) (blankRenderer sampleScene) 11 22⟩

/-- C9 (evaluation at the failing input): for the scene with two meshes and one sphere, the
mesh build, the sphere build and the instance build return in that order.  Before the
instance build the live allocations are the geometry buffers and the two compacted BLAS
buffers (addresses 1, 2, 3, 4, 8, 9, 13).  After it the three temporaries (15, 16, 17) are
gone and two more allocations are live: the compacted TLAS buffer (18), held by
`sceneTlasBuffer`, and the instance array (14), which no buffer member of the renderer
holds. -/
theorem buildAccelInstances_leaves_instance_buffer :
    ((buildAccelMeshes (okBackend Int) (blankRenderer sampleScene)).bind fun m =>
      (buildAccelSpheres (okBackend Int) m.2).bind fun s =>
        (buildAccelInstances (okBackend Int) s.2 m.1 s.1).map fun t =>
          (s.2.device.live, t.2.device.live, ownedBuffers t.2, t.2.device.read 14))
      = .ok ([1, 2, 3, 4, 8, 9, 13], [1, 2, 3, 4, 8, 9, 13, 14, 18],
          [1, 3, 2, 4, 9, 8, 13, 18, 0, 0, 0, 0, 0],
          some (.instances
            [⟨[1, 0, 0, 0, 0, 1, 0, 0, 0, 0, 1, 0], 0, 0, 255, 0, 17⟩,
             ⟨[1, 0, 0, 0, 0, 1, 0, 0, 0, 0, 1, 0], 1, 2, 255, 0, 27⟩])) := by
  rfl

/-- C10: on a backend whose calls succeed, for every pair of handles `buildAccelInstances`
passes one build input to `optixAccelBuild`, an instance array with instance count 2 whose
device memory holds exactly two instances, in the order mesh then sphere: the first refers
to the mesh-group handle, the second to the primitive-group handle, and both carry the
row-major 3x4 identity transform and visibility mask 255, which is all eight mask bits. -/
theorem instance_array_contents {α : Type} [Zero α] [One α] {be : Backend α}
    (hbe : be.succeeds) (r : SampleRenderer α) (meshes spheres : OptixTraversableHandle) :
    ∃ (h : OptixTraversableHandle) (r' : SampleRenderer α) (bc : AccelBuildCall α)
      (h1 c : Nat) (pre post : List (Event α)) (ia : OptixBuildInputInstanceArray)
      (mi si : OptixInstance α),
      buildAccelInstances be r meshes spheres = .ok (h, r') ∧
      r'.device.calls = pre ++ .accelBuild bc h1 c :: post ∧
      bc.buildInputs = [.instances ia] ∧ bc.numBuildInputs = 1 ∧
      ia.numInstances = 2 ∧
      readAt bc.memory ia.instances = some (.instances [mi, si]) ∧
      mi.traversableHandle = meshes ∧ si.traversableHandle = spheres ∧
      mi.transform = [1, 0, 0, 0, 0, 1, 0, 0, 0, 0, 1, 0] ∧
      si.transform = [1, 0, 0, 0, 0, 1, 0, 0, 0, 0, 1, 0] ∧
      mi.visibilityMask = 255 ∧ si.visibilityMask = 255 ∧ 255 = 2 ^ 8 - 1 := by
  obtain ⟨h, r', bc, uc, us, h1, c, cc, ip, e, -, hcalls, hbi, hn, hmem, -⟩ :=
    buildAccelInstances_spec hbe r meshes spheres
  refine ⟨h, r', bc, h1, c,
    r.device.calls ++ [.memcpyHtoD ip (2 * sizeof_OptixInstance), .accelComputeMemoryUsage uc us],
    [.sync, .memcpyDtoH bc.emitResult (1 * sizeof_uint64_t), .accelCompact cc h, .sync],
    ⟨ip, 2, 0, 0⟩, _, _, e, ?_, hbi, hn, rfl, hmem, rfl, rfl, rfl, rfl, rfl, rfl, by decide⟩
  rw [hcalls]
  exact (List.append_assoc _ [_, _] _).symm

/-- Witness for C10: the scene with two meshes and one sphere on the succeeding backend,
with handles 11 and 22. -/
theorem instance_array_contents_witness :
    (okBackend Int).succeeds ∧
    (∃ (h : OptixTraversableHandle) (r' : SampleRenderer Int) (bc : AccelBuildCall Int)
      (h1 c : Nat) (pre post : List (Event Int)) (ia : OptixBuildInputInstanceArray)
      (mi si : OptixInstance Int),
      buildAccelInstances (okBackend Int) (blankRenderer sampleScene) 11 22 = .ok (h, r') ∧
      r'.device.calls = pre ++ .accelBuild bc h1 c :: post ∧
      bc.buildInputs = [.instances ia] ∧ bc.numBuildInputs = 1 ∧
      ia.numInstances = 2 ∧
      readAt bc.memory ia.instances = some (.instances [mi, si]) ∧
      mi.traversableHandle = 11 ∧ si.traversableHandle = 22 ∧
      mi.transform = [1, 0, 0, 0, 0, 1, 0, 0, 0, 0, 1, 0] ∧
      si.transform = [1, 0, 0, 0, 0, 1, 0, 0, 0, 0, 1, 0] ∧
      mi.visibilityMask = 255 ∧ si.visibilityMask = 255 ∧ 255 = 2 ^ 8 - 1) :=
  ⟨okBackend_succeeds Int,
    instance_array_contents (okBackend_succeeds Int) (blankRenderer sampleScene) 11 22⟩

/-- C11 (as amended): the constructor is embedded a second time, as
`SampleRenderer.SampleRenderer.traced`, which returns the same result and, when a check
aborts it, also the calls made up to the abort.  (1) Whenever construction completes, every
call it made whose status the source passes through `OPTIX_CHECK`, `CUDA_CHECK` or
`CUDA_SYNC_CHECK` reported success, and all steps ran: uploads apart, the calls made are
those of `initOptix`, `createContext`, `createModule`, the three program-group functions,
the three builds and `createPipeline`, in this order; the `optixSbtRecordPackHeader` calls
succeeded too.  (2) Whenever construction aborts, the calls made are an initial segment of
that sequence, and one of three things happened.  Either the last call made is a checked
call that reported an error, the error raised is the one of that call, and every checked call
before it succeeded: the failing call aborts construction at its call site and nothing runs
after it.  Or the device-count query reported zero devices and the two calls of `initOptix`
up to that query are all that was made.  Or an `optixSbtRecordPackHeader` call (which is not
a recorded call) failed for a program group created earlier: then every recorded call
succeeded, the calls go up to `optixPipelineSetStackSize` followed by the uploads of the
record arrays that `buildSBT` completes before it packs a record of that kind, and nothing
else. -/
theorem constructor_checked_calls {α : Type} [Zero α] [One α] [Neg α] (be : Backend α)
    (sbe : SetupBackend) (members : SampleRenderer α) (scene : Geometry α) :
    (SampleRenderer.SampleRenderer.traced be sbe members scene).mapError Prod.fst
      = SampleRenderer.SampleRenderer be sbe members scene ∧
    (∀ r, SampleRenderer.SampleRenderer be sbe members scene = .ok r →
      ∃ t : List (Event α),
        r.device.calls = members.device.calls ++ t ∧
        callsSucceeded be CallKind.checked members.device.calls t ∧
        callKinds t = constructionKinds ∧
        (∀ pg ∈ r.raygenPGs ++ r.missPGs,
          (be.optixSbtRecordPackHeader pg).1 = OPTIX_SUCCESS) ∧
        (0 < (castInt scene.meshes.length).toNat + (castInt scene.spheres.length).toNat →
          ∀ pg ∈ r.hitgroupPGs, (be.optixSbtRecordPackHeader pg).1 = OPTIX_SUCCESS)) ∧
    (∀ e tr, SampleRenderer.SampleRenderer.traced be sbe members scene = .error (e, tr) →
      ∃ t : List (Event α),
        tr = members.device.calls ++ t ∧ callKinds t <+: constructionKinds ∧
        (AbortedAt be members.device.calls t e ∨
         ((sbe.cudaGetDeviceCount.2 = 0 ∧
            e = .runtimeError "#osc: no CUDA capable devices found!" ∧
            t = [.cudaFree 0 (sbe.cudaFree 0),
              .cudaGetDeviceCount sbe.cudaGetDeviceCount.1 sbe.cudaGetDeviceCount.2]) ∨
          (∃ (pg : OptixProgramGroup) (ctx : Nat) (desc : OptixProgramGroupDesc)
              (pre post ups : List (Event α)) (c : Event α),
            (be.optixSbtRecordPackHeader pg).1 ≠ OPTIX_SUCCESS ∧
            e = .optixCallFailed (be.optixSbtRecordPackHeader pg).1 ∧
            callsSucceeded be CallKind.checked members.device.calls t ∧
            callKinds t = constructionKinds ∧
            t = pre ++ [.programGroupCreate ctx desc OPTIX_SUCCESS pg] ++ post ++ [c] ++ ups ∧
            c.kind = .pipelineSetStackSize ∧
            ups.map Event.kind = List.replicate desc.uploadsBefore .memcpyHtoD)))) := by
  refine ⟨constructor_traced_agrees be sbe members scene, ?_, fun e tr h =>
    constructor_traced_error h⟩
  intro r hres
  obtain ⟨pgR, pgM, pgH, upsM, upsS, M, S, T, ip, n1, n2, n3, hc, ⟨a1, a2, a3, a4⟩,
    ⟨-, -, -, -, f5, f6, f7, -⟩, ⟨k1, k2⟩, ⟨cM, cS, cT⟩, -, ⟨q1, q2⟩, -⟩ := constructor_inv hres
  refine ⟨setupCalls sbe r pgR pgM pgH ++ (upsM ++ (M.calls ++ (upsS ++ (S.calls ++
    ([.memcpyHtoD ip (2 * sizeof_OptixInstance)] ++ (T.calls ++ (pipelineCalls r pgR pgM pgH ++
      [.memcpyHtoD r.raygenRecordsBuffer.d_ptr n1, .memcpyHtoD r.missRecordsBuffer.d_ptr n2,
       .memcpyHtoD r.hitgroupRecordsBuffer.d_ptr n3]))))))),
    hc.trans (by simp only [List.append_assoc]), ?_, ?_, ?_, ?_⟩
  · simp only [callsSucceeded_append]
    refine ⟨?_, ?_, ?_, ?_, ?_, ?_, ?_, ?_, ?_⟩
    · simp [setupCalls, callsSucceeded, Event.kind, Event.status, CallKind.checked, a2, a3, a4,
        OPTIX_SUCCESS]
    · exact callsSucceeded_uploads _ _ _ (uploads_of_kinds k1) _
    · exact cM _
    · exact callsSucceeded_uploads _ _ _ (uploads_of_kinds k2) _
    · have := cS CallKind.checked
      simp only [List.append_assoc] at this ⊢
      exact this
    · simp [callsSucceeded, Event.kind, Event.status, CallKind.checked]
    · have := cT CallKind.checked
      simp only [List.append_assoc] at this ⊢
      exact this
    · simp [pipelineCalls, callsSucceeded, Event.kind, Event.status, CallKind.checked,
        OPTIX_SUCCESS]
    · simp [callsSucceeded, Event.kind, Event.status, CallKind.checked]
  · simp only [callKinds_append, callKinds_uploads (uploads_of_kinds k1),
      callKinds_uploads (uploads_of_kinds k2), callKinds_build]
    rfl
  · rw [f5, f6]
    intro pg hpg
    exact q1 pg (by simpa using hpg)
  · rw [f7]
    intro hpos pg hpg
    have : pg = pgH := by simpa using hpg
    rw [this]
    exact q2 hpos

/-- Witness for C11: on the backend where only `cuCtxGetCurrent` fails, construction of the
sample scene completes and every checked call succeeded; on the backend where
`cudaStreamCreate` fails with status 2, construction aborts with that error after five
calls, the failed `cudaStreamCreate` being the last of them. -/
theorem constructor_checked_calls_witness :
    (∃ r : SampleRenderer Int,
      SampleRenderer.SampleRenderer (okBackend Int) noContextBackend (blankRenderer ⟨[], []⟩)
        sampleScene = .ok r ∧
      ∃ t : List (Event Int),
        r.device.calls = (blankRenderer (⟨[], []⟩ : Geometry Int)).device.calls ++ t ∧
        callsSucceeded (okBackend Int) CallKind.checked
          (blankRenderer (⟨[], []⟩ : Geometry Int)).device.calls t ∧
        callKinds t = constructionKinds) ∧
    SampleRenderer.SampleRenderer.traced (okBackend Int) noStreamBackend
        (blankRenderer ⟨[], []⟩) sampleScene
      = .error (.cudaCallFailed 2,
          [.cudaFree 0 0, .cudaGetDeviceCount 0 1, .optixInit 0, .cudaSetDevice 0 0,
           .cudaStreamCreate 2 0]) ∧
    AbortedAt (okBackend Int) []
      [.cudaFree 0 0, .cudaGetDeviceCount 0 1, .optixInit 0, .cudaSetDevice 0 0,
       .cudaStreamCreate 2 0] (.cudaCallFailed 2) := by
  refine ⟨?_, rfl, ?_⟩
  · exact (constructor_ok (okBackend_succeeds Int) noContextBackend_succeeds
      (blankRenderer ⟨[], []⟩) sampleScene (by decide)).imp fun r h =>
        ⟨h, ((constructor_checked_calls (okBackend Int) noContextBackend
          (blankRenderer ⟨[], []⟩) sampleScene).2.1 r h).imp
            fun _ ht => ⟨ht.1, ht.2.1, ht.2.2.1⟩⟩
  · obtain ⟨t, h1, -, h3⟩ := (constructor_checked_calls (okBackend Int) noStreamBackend
      (blankRenderer ⟨[], []⟩) sampleScene).2.2 _ _ rfl
    have ht : t = [.cudaFree 0 0, .cudaGetDeviceCount 0 1, .optixInit 0, .cudaSetDevice 0 0,
      .cudaStreamCreate 2 0] := h1.symm
    subst ht
    rcases h3 with h | ⟨h0, -⟩ | ⟨pg, _, _, _, _, _, _, -, he, -⟩
    · exact h
    · exact absurd h0 (by decide)
    · cases he

/-- C11 (counterexample): on the backend where `cuCtxGetCurrent` reports the error status 3,
construction of the sample scene completes: the seventh recorded call is that failing call,
and the constructor goes on to make 35 more calls, from `optixDeviceContextCreate` to the
SBT uploads.  So not every call in the trace of the completed construction succeeded. -/
theorem constructor_continues_after_failed_call :
    ∃ r : SampleRenderer Int,
      SampleRenderer.SampleRenderer (okBackend Int) noContextBackend (blankRenderer ⟨[], []⟩)
        sampleScene = .ok r ∧
      r.device.calls[6]? = some (.cuCtxGetCurrent 3 0) ∧
      (Event.cuCtxGetCurrent 3 0 : Event Int).status (okBackend Int) = some 3 ∧
      (r.device.calls.drop 7).map Event.kind =
        [.deviceContextCreate, .deviceContextSetLogCallback,
         .moduleCreateFromPTX, .programGroupCreate, .programGroupCreate, .programGroupCreate,
         .memcpyHtoD, .memcpyHtoD, .memcpyHtoD, .memcpyHtoD,
         .accelComputeMemoryUsage, .accelBuild, .sync, .memcpyDtoH, .accelCompact, .sync,
         .memcpyHtoD,
         .accelComputeMemoryUsage, .accelBuild, .sync, .memcpyDtoH, .accelCompact, .sync,
         .memcpyHtoD,
         .accelComputeMemoryUsage, .accelBuild, .sync, .memcpyDtoH, .accelCompact, .sync] ++
        [.pipelineCreate, .pipelineSetStackSize, .memcpyHtoD, .memcpyHtoD, .memcpyHtoD] ∧
      ¬ callsSucceeded (okBackend Int) (fun _ => true) [] r.device.calls := by
  obtain ⟨r, hres⟩ := constructor_ok (okBackend_succeeds Int) noContextBackend_succeeds
    (blankRenderer ⟨[], []⟩) sampleScene (by decide)
  have ev : ((SampleRenderer.SampleRenderer (okBackend Int) noContextBackend
      (blankRenderer ⟨[], []⟩) sampleScene).map fun r =>
        (r.device.calls.take 7, (r.device.calls.drop 7).map Event.kind)) = .ok
      ([.cudaFree 0 0, .cudaGetDeviceCount 0 1, .optixInit 0, .cudaSetDevice 0 0,
        .cudaStreamCreate 0 5, .cudaGetDeviceProperties 0 0, .cuCtxGetCurrent 3 0],
       [.deviceContextCreate, .deviceContextSetLogCallback,
         .moduleCreateFromPTX, .programGroupCreate, .programGroupCreate, .programGroupCreate,
         .memcpyHtoD, .memcpyHtoD, .memcpyHtoD, .memcpyHtoD,
         .accelComputeMemoryUsage, .accelBuild, .sync, .memcpyDtoH, .accelCompact, .sync,
         .memcpyHtoD,
         .accelComputeMemoryUsage, .accelBuild, .sync, .memcpyDtoH, .accelCompact, .sync,
         .memcpyHtoD,
         .accelComputeMemoryUsage, .accelBuild, .sync, .memcpyDtoH, .accelCompact, .sync] ++
        [.pipelineCreate, .pipelineSetStackSize, .memcpyHtoD, .memcpyHtoD, .memcpyHtoD]) := rfl
  rw [hres] at ev
  have ev' := Except.ok.inj ev
  obtain ⟨ev1, ev2⟩ := Prod.mk.inj ev'
  have hsplit : r.device.calls = r.device.calls.take 7 ++ r.device.calls.drop 7 :=
    (List.take_append_drop 7 _).symm
  refine ⟨r, hres, ?_, rfl, ev2, ?_⟩
  · rw [hsplit, ev1, List.getElem?_append_left (by decide)]
    rfl
  · intro h
    rw [hsplit, ev1, callsSucceeded_append] at h
    have := h.1
    simp [callsSucceeded, Event.kind, Event.status] at this

/-- C12: if the device-count query reports zero devices, `initOptix` fails with the runtime
error "#osc: no CUDA capable devices found!" on every renderer, and so does the constructor,
whatever the backends answer to any other call: no later step contributes, and no renderer
(no context, module, program group, acceleration structure, pipeline or SBT) results.  If
the query reports a non-zero count, `initOptix` does not fail with that error: it returns
the renderer with its three calls recorded when `optixInit` succeeds, and fails with the
status of `optixInit` otherwise. -/
theorem initOptix_device_check {α : Type} [Zero α] [One α] [Neg α] (be : Backend α)
    (sbe : SetupBackend) (members : SampleRenderer α) (scene : Geometry α) :
    (sbe.cudaGetDeviceCount.2 = 0 →
      (∀ r : SampleRenderer α, initOptix sbe r
        = .error (.runtimeError "#osc: no CUDA capable devices found!")) ∧
      SampleRenderer.SampleRenderer be sbe members scene
        = .error (.runtimeError "#osc: no CUDA capable devices found!")) ∧
    (sbe.cudaGetDeviceCount.2 ≠ 0 →
      ∀ r : SampleRenderer α,
        initOptix sbe r ≠ .error (.runtimeError "#osc: no CUDA capable devices found!") ∧
        initOptix sbe r =
          if sbe.optixInit = OPTIX_SUCCESS then
            .ok { r with device := ⟨r.device.next, r.device.allocs, r.device.calls ++
              [.cudaFree 0 (sbe.cudaFree 0),
               .cudaGetDeviceCount sbe.cudaGetDeviceCount.1 sbe.cudaGetDeviceCount.2,
               .optixInit sbe.optixInit]⟩ }
          else .error (.optixCallFailed sbe.optixInit)) := by
  constructor
  · intro h0
    have hi : ∀ r : SampleRenderer α, initOptix sbe r
        = .error (.runtimeError "#osc: no CUDA capable devices found!") := by
      intro r
      rw [initOptix_eq, if_pos h0]
    refine ⟨hi, ?_⟩
    unfold SampleRenderer.SampleRenderer
    dsimp only
    rw [hi]
    rfl
  · intro h0 r
    rw [initOptix_eq, if_neg h0]
    refine ⟨?_, rfl⟩
    by_cases h1 : sbe.optixInit = OPTIX_SUCCESS
    · rw [if_pos h1]
      intro h; cases h
    · rw [if_neg h1]
      intro h; cases h

/-- Witness for C12: the backend without a device, and the backend with one. -/
theorem initOptix_device_check_witness :
    noDeviceBackend.cudaGetDeviceCount.2 = 0 ∧
    SampleRenderer.SampleRenderer (okBackend Int) noDeviceBackend (blankRenderer ⟨[], []⟩)
      sampleScene = .error (.runtimeError "#osc: no CUDA capable devices found!") ∧
    okSetupBackend.cudaGetDeviceCount.2 ≠ 0 ∧
    initOptix okSetupBackend (blankRenderer sampleScene)
      ≠ .error (.runtimeError "#osc: no CUDA capable devices found!") :=
  ⟨rfl,
    ((initOptix_device_check (okBackend Int) noDeviceBackend (blankRenderer ⟨[], []⟩)
      sampleScene).1 rfl).2,
    by decide,
    ((initOptix_device_check (okBackend Int) okSetupBackend (blankRenderer ⟨[], []⟩)
      sampleScene).2 (by decide) (blankRenderer sampleScene)).1⟩

/-- C13 (as amended): on backends whose checked calls succeed, for a scene with fewer than
2^31 meshes and spheres, the constructor returns a renderer, and the calls it has made are,
in this order: those of `initOptix` and `createContext`, the module compilation, the three
program-group creations (raygen, miss, hitgroup), the mesh BLAS (two uploads per mesh, then
size query, build, synchronisation, read-back, compaction, synchronisation), the primitive
BLAS (one upload per sphere, then the same six calls), the instance TLAS (the upload of the
two instances, which hold the handles of the two BLAS, then the same six calls), pipeline
creation and stack sizes, and the three SBT uploads.  The handle stored in the launch
parameters is the one of the TLAS, and the launch-parameter block is the last allocation
made. -/
theorem constructor_order {α : Type} [Zero α] [One α] [Neg α] {be : Backend α}
    {sbe : SetupBackend} (hbe : be.succeeds) (hsbe : sbe.succeeds) (members : SampleRenderer α)
    (scene : Geometry α) (hcount : scene.meshes.length + scene.spheres.length < 2 ^ 31) :
    ∃ (r : SampleRenderer α) (pgR pgM pgH : OptixProgramGroup) (upsM upsS : List (Event α))
      (M S T : BuildStep α) (ip : CUdeviceptr) (n1 n2 n3 : Nat),
      SampleRenderer.SampleRenderer be sbe members scene = .ok r ∧
      r.device.calls = members.device.calls ++ setupCalls sbe r pgR pgM pgH ++
        upsM ++ M.calls ++ upsS ++ S.calls ++
        [.memcpyHtoD ip (2 * sizeof_OptixInstance)] ++ T.calls ++ pipelineCalls r pgR pgM pgH ++
        [.memcpyHtoD r.raygenRecordsBuffer.d_ptr n1, .memcpyHtoD r.missRecordsBuffer.d_ptr n2,
         .memcpyHtoD r.hitgroupRecordsBuffer.d_ptr n3] ∧
      (r.device.calls.drop members.device.calls.length).map Event.kind =
        [.cudaFree, .cudaGetDeviceCount, .optixInit, .cudaSetDevice, .cudaStreamCreate,
         .cudaGetDeviceProperties, .cuCtxGetCurrent, .deviceContextCreate,
         .deviceContextSetLogCallback,
         .moduleCreateFromPTX, .programGroupCreate, .programGroupCreate, .programGroupCreate] ++
        List.replicate (2 * scene.meshes.length) .memcpyHtoD ++
        [.accelComputeMemoryUsage, .accelBuild, .sync, .memcpyDtoH, .accelCompact, .sync] ++
        List.replicate scene.spheres.length .memcpyHtoD ++
        [.accelComputeMemoryUsage, .accelBuild, .sync, .memcpyDtoH, .accelCompact, .sync] ++
        [.memcpyHtoD,
         .accelComputeMemoryUsage, .accelBuild, .sync, .memcpyDtoH, .accelCompact, .sync] ++
        [.pipelineCreate, .pipelineSetStackSize] ++
        [.memcpyHtoD, .memcpyHtoD, .memcpyHtoD] ∧
      (M.build.buildInputs.length = scene.meshes.length ∧
        (∀ x ∈ M.build.buildInputs, ∃ t, x = .triangles t) ∧
        S.build.buildInputs.length = scene.spheres.length ∧
        (∀ x ∈ S.build.buildInputs, ∃ t, x = .customPrimitives t) ∧
        T.build.buildInputs = [.instances ⟨ip, 2, 0, 0⟩] ∧
        readAt T.build.memory ip = some (.instances
          [⟨[1, 0, 0, 0, 0, 1, 0, 0, 0, 0, 1, 0], 0, 0, 255, OPTIX_INSTANCE_FLAG_NONE, M.handle⟩,
           ⟨[1, 0, 0, 0, 0, 1, 0, 0, 0, 0, 1, 0], 1, castUInt32 scene.meshes.length, 255,
             OPTIX_INSTANCE_FLAG_NONE, S.handle⟩])) ∧
      r.launchParams.traversable = T.handle ∧
      r.device.allocs.getLast?
        = some ⟨r.launchParamsBuffer.d_ptr, sizeof_LaunchParams, .raw⟩ := by
  obtain ⟨r, hres⟩ := constructor_ok hbe hsbe members scene hcount
  obtain ⟨pgR, pgM, pgH, upsM, upsS, M, S, T, ip, n1, n2, n3, hc, -, ⟨-, -, -, -, -, -, -, f8⟩,
    ⟨k1, k2⟩, -, hb, -, hl⟩ := constructor_inv hres
  refine ⟨r, pgR, pgM, pgH, upsM, upsS, M, S, T, ip, n1, n2, n3, hres, hc, ?_, hb, f8, hl⟩
  rw [hc]
  simp only [List.append_assoc, List.drop_left]
  simp only [List.map_append, k1, k2]
  simp [setupCalls, pipelineCalls, BuildStep.calls, Event.kind]

/-- Witness for C13: construction of the scene with two meshes and one sphere. -/
theorem constructor_order_witness :
    (okBackend Int).succeeds ∧ okSetupBackend.succeeds ∧
    sampleScene.meshes.length + sampleScene.spheres.length < 2 ^ 31 ∧
    ∃ (r : SampleRenderer Int) (pgR pgM pgH : OptixProgramGroup) (upsM upsS : List (Event Int))
      (M S T : BuildStep Int) (ip : CUdeviceptr) (n1 n2 n3 : Nat),
      SampleRenderer.SampleRenderer (okBackend Int) okSetupBackend (blankRenderer ⟨[], []⟩)
        sampleScene = .ok r ∧
      r.device.calls = (blankRenderer (⟨[], []⟩ : Geometry Int)).device.calls ++
        setupCalls okSetupBackend r pgR pgM pgH ++
        upsM ++ M.calls ++ upsS ++ S.calls ++
        [.memcpyHtoD ip (2 * sizeof_OptixInstance)] ++ T.calls ++ pipelineCalls r pgR pgM pgH ++
        [.memcpyHtoD r.raygenRecordsBuffer.d_ptr n1, .memcpyHtoD r.missRecordsBuffer.d_ptr n2,
         .memcpyHtoD r.hitgroupRecordsBuffer.d_ptr n3] :=
  ⟨okBackend_succeeds Int, okSetupBackend_succeeds, by decide,
    (constructor_order (okBackend_succeeds Int) okSetupBackend_succeeds (blankRenderer ⟨[], []⟩)
      sampleScene (by decide)).imp fun _ h => h.imp fun _ h => h.imp fun _ h => h.imp fun _ h =>
        h.imp fun _ h => h.imp fun _ h => h.imp fun _ h => h.imp fun _ h => h.imp fun _ h =>
        h.imp fun _ h => h.imp fun _ h => h.imp fun _ h => h.imp fun _ h => ⟨h.1, h.2.1⟩⟩

/-- C13 (counterexample): the kinds of the calls that construction of the scene with two
meshes and one sphere makes, in order.  Module compilation (position 9) and the three
program-group creations (positions 10 to 12) precede every acceleration-structure build; the
TLAS build is at position 32.  So it is not the case that every build call precedes every
module, program-group and pipeline-creation call. -/
theorem constructor_module_before_builds :
    ((SampleRenderer.SampleRenderer (okBackend Int) okSetupBackend (blankRenderer ⟨[], []⟩)
      sampleScene).map fun r => r.device.calls.map Event.kind) = .ok
      [.cudaFree, .cudaGetDeviceCount, .optixInit, .cudaSetDevice, .cudaStreamCreate,
       .cudaGetDeviceProperties, .cuCtxGetCurrent, .deviceContextCreate,
       .deviceContextSetLogCallback,
       .moduleCreateFromPTX, .programGroupCreate, .programGroupCreate, .programGroupCreate,
       .memcpyHtoD, .memcpyHtoD, .memcpyHtoD, .memcpyHtoD,
       .accelComputeMemoryUsage, .accelBuild, .sync, .memcpyDtoH, .accelCompact, .sync,
       .memcpyHtoD,
       .accelComputeMemoryUsage, .accelBuild, .sync, .memcpyDtoH, .accelCompact, .sync,
       .memcpyHtoD,
       .accelComputeMemoryUsage, .accelBuild, .sync, .memcpyDtoH, .accelCompact, .sync,
       .pipelineCreate, .pipelineSetStackSize,
       .memcpyHtoD, .memcpyHtoD, .memcpyHtoD] ∧
    ¬ (∀ ks : List CallKind,
        ((SampleRenderer.SampleRenderer (okBackend Int) okSetupBackend
          (blankRenderer ⟨[], []⟩) sampleScene).map fun r => r.device.calls.map Event.kind)
          = .ok ks →
        ∀ i j : Nat, ks[i]? = some CallKind.accelBuild →
          (ks[j]? = some CallKind.moduleCreateFromPTX ∨
            ks[j]? = some CallKind.programGroupCreate ∨
            ks[j]? = some CallKind.pipelineCreate) → i < j) := by
  refine ⟨rfl, ?_⟩
  intro h
  have := h _ rfl 32 9 rfl (Or.inl rfl)
  omega

/-- C14: over the reals, for a camera `c` whose look-at point differs from its position and
whose up vector is not parallel to the view direction, and a frame `(w,h)` with `w > 0` and
`h > 0`: after `setCamera(c)` followed by `resize(w,h)` the stored last camera is `c`, the
frame size is `(w,h)`, the position is `c.from`, the direction is
`normalize(c.at - c.from)`, the horizontal vector is
`0.66 * (w/h) * normalize(cross(direction, c.up))`, the whole camera basis is the one
`setCamera(c)` computes on a frame of size `(w,h)`, and calling `setCamera(c)` again
returns the same renderer; the direction has unit length and the horizontal vector is not
zero, so the formulas describe a genuine basis. -/
theorem setCamera_then_resize (r : SampleRenderer ℝ) (c : Camera ℝ) (w h : Int)
    (hw : 0 < w) (hh : 0 < h) (hat : c.at_ ≠ c.from_)
    (hpar : vec3.cross (vec3.sub c.at_ c.from_) c.up ≠ ⟨0, 0, 0⟩) :
    (resize Real.sqrt (setCamera Real.sqrt r c) ⟨w, h⟩).lastSetCamera = c ∧
    (resize Real.sqrt (setCamera Real.sqrt r c) ⟨w, h⟩).launchParams.frame.size = ⟨w, h⟩ ∧
    (resize Real.sqrt (setCamera Real.sqrt r c) ⟨w, h⟩).launchParams.camera.position
      = c.from_ ∧
    (resize Real.sqrt (setCamera Real.sqrt r c) ⟨w, h⟩).launchParams.camera.direction
      = vec3.normalize Real.sqrt (vec3.sub c.at_ c.from_) ∧
    (resize Real.sqrt (setCamera Real.sqrt r c) ⟨w, h⟩).launchParams.camera.horizontal
      = vec3.smul (66 / 100 * ((w : ℝ) / (h : ℝ)))
          (vec3.normalize Real.sqrt
            (vec3.cross (vec3.normalize Real.sqrt (vec3.sub c.at_ c.from_)) c.up)) ∧
    (resize Real.sqrt (setCamera Real.sqrt r c) ⟨w, h⟩).launchParams.camera
      = (setCamera Real.sqrt
          { r with launchParams := { r.launchParams with
              frame := { r.launchParams.frame with size := ⟨w, h⟩ } } } c).launchParams.camera ∧
    setCamera Real.sqrt (resize Real.sqrt (setCamera Real.sqrt r c) ⟨w, h⟩) c
      = resize Real.sqrt (setCamera Real.sqrt r c) ⟨w, h⟩ ∧
    vec3.dot (resize Real.sqrt (setCamera Real.sqrt r c) ⟨w, h⟩).launchParams.camera.direction
      (resize Real.sqrt (setCamera Real.sqrt r c) ⟨w, h⟩).launchParams.camera.direction = 1 ∧
    (resize Real.sqrt (setCamera Real.sqrt r c) ⟨w, h⟩).launchParams.camera.horizontal
      ≠ ⟨0, 0, 0⟩ := by
  have key := setCamera_lengths
    ({ (setCamera Real.sqrt r c) with
        launchParams := { (setCamera Real.sqrt r c).launchParams with
          frame := ⟨0, ⟨w, h⟩⟩ } } : SampleRenderer ℝ) c hw hh hat hpar
  exact ⟨rfl, rfl, rfl, rfl, rfl, rfl, rfl, key.1, vec3_ne_zero_of_dot_pos key.2.1⟩

/-- Witness for C14: the camera at `(0,0,5)` looking at the origin with up `(0,1,0)`, then a
resize to 512x256. -/
theorem setCamera_then_resize_witness :
    (0 : Int) < 512 ∧ (0 : Int) < 256 ∧ sampleCamera.at_ ≠ sampleCamera.from_ ∧
    vec3.cross (vec3.sub sampleCamera.at_ sampleCamera.from_) sampleCamera.up ≠ ⟨0, 0, 0⟩ ∧
    (resize Real.sqrt (setCamera Real.sqrt (blankRenderer ⟨[], []⟩) sampleCamera)
      ⟨512, 256⟩).lastSetCamera = sampleCamera ∧
    setCamera Real.sqrt (resize Real.sqrt (setCamera Real.sqrt (blankRenderer ⟨[], []⟩)
        sampleCamera) ⟨512, 256⟩) sampleCamera
      = resize Real.sqrt (setCamera Real.sqrt (blankRenderer ⟨[], []⟩) sampleCamera)
          ⟨512, 256⟩ :=
  ⟨by decide, by decide, sampleCamera_nondegenerate.1, sampleCamera_nondegenerate.2.2,
    (setCamera_then_resize (blankRenderer ⟨[], []⟩) sampleCamera 512 256 (by decide) (by decide)
      sampleCamera_nondegenerate.1 sampleCamera_nondegenerate.2.2).1,
    (setCamera_then_resize (blankRenderer ⟨[], []⟩) sampleCamera 512 256 (by decide) (by decide)
      sampleCamera_nondegenerate.1 sampleCamera_nondegenerate.2.2).2.2.2.2.2.2.1⟩

/-- C15: in every completed construction the pipeline compile options hold payload-value
count 4, attribute-value count 4, exception flags none, traversable-graph flags allow-any and
motion blur off (also in the link options); the module is compiled and the pipeline created
with exactly these options, and the one stack-size call sets the three stack sizes to
`2 * 1024` each with maximum traversable graph depth 1; no other module, pipeline or
stack-size call is made.  The same holds of `createModule` and `createPipeline` run on any
renderer. -/
theorem pipeline_configuration {α : Type} [Zero α] [One α] [Neg α] {be : Backend α}
    {sbe : SetupBackend} {members r : SampleRenderer α} {scene : Geometry α}
    (hres : SampleRenderer.SampleRenderer be sbe members scene = .ok r) :
    (r.pipelineCompileOptions.numPayloadValues = 4 ∧
      r.pipelineCompileOptions.numAttributeValues = 4 ∧
      r.pipelineCompileOptions.exceptionFlags = OPTIX_EXCEPTION_FLAG_NONE ∧
      r.pipelineCompileOptions.traversableGraphFlags = OPTIX_TRAVERSABLE_GRAPH_FLAG_ALLOW_ANY ∧
      r.pipelineCompileOptions.usesMotionBlur = false ∧
      r.pipelineLinkOptions.overrideUsesMotionBlur = false) ∧
    (∃ pre mid post : List (Event α),
      r.device.calls = members.device.calls ++ pre ++
        [.moduleCreateFromPTX r.optixContext r.moduleCompileOptions r.pipelineCompileOptions
          OPTIX_SUCCESS r.module] ++ mid ++
        [.pipelineCreate r.optixContext r.pipelineCompileOptions r.pipelineLinkOptions
           (r.raygenPGs ++ r.missPGs ++ r.hitgroupPGs) 3 OPTIX_SUCCESS r.pipeline,
         .pipelineSetStackSize r.pipeline (2 * 1024) (2 * 1024) (2 * 1024) 1 OPTIX_SUCCESS] ++
        post ∧
      (∀ e ∈ pre ++ mid ++ post, e.kind ≠ .moduleCreateFromPTX ∧ e.kind ≠ .pipelineCreate ∧
        e.kind ≠ .pipelineSetStackSize)) ∧
    (∀ (x x' : SampleRenderer α), createModule sbe x = .ok x' →
      x'.pipelineCompileOptions
        = ⟨false, OPTIX_TRAVERSABLE_GRAPH_FLAG_ALLOW_ANY, 4, 4, OPTIX_EXCEPTION_FLAG_NONE,
            "optixLaunchParams"⟩) ∧
    (∀ (x x' : SampleRenderer α), createPipeline sbe x = .ok x' →
      x'.device.calls = x.device.calls ++
        [.pipelineCreate x.optixContext x.pipelineCompileOptions x.pipelineLinkOptions
           (x.raygenPGs ++ x.missPGs ++ x.hitgroupPGs)
           (castInt (x.raygenPGs ++ x.missPGs ++ x.hitgroupPGs).length) OPTIX_SUCCESS
           x'.pipeline,
         .pipelineSetStackSize x'.pipeline (2 * 1024) (2 * 1024) (2 * 1024) 1
           OPTIX_SUCCESS]) := by
  obtain ⟨pgR, pgM, pgH, upsM, upsS, M, S, T, ip, n1, n2, n3, hc, -, ⟨-, -, f3, f4, f5, f6, f7, -⟩,
    ⟨k1, k2⟩, -, -, -, -⟩ := constructor_inv hres
  refine ⟨?_, ?_, ?_, ?_⟩
  · rw [f3, f4]
    exact ⟨rfl, rfl, rfl, rfl, rfl, rfl⟩
  · refine ⟨(setupCalls sbe r pgR pgM pgH).take 9,
      (setupCalls sbe r pgR pgM pgH).drop 10 ++ upsM ++ M.calls ++ upsS ++ S.calls ++
        [.memcpyHtoD ip (2 * sizeof_OptixInstance)] ++ T.calls,
      [.memcpyHtoD r.raygenRecordsBuffer.d_ptr n1, .memcpyHtoD r.missRecordsBuffer.d_ptr n2,
       .memcpyHtoD r.hitgroupRecordsBuffer.d_ptr n3], ?_, ?_⟩
    · rw [hc, f5, f6, f7]
      simp [setupCalls, pipelineCalls]
    · intro e he
      have hM := uploads_of_kinds k1
      have hS := uploads_of_kinds k2
      simp only [List.mem_append, setupCalls, List.take, List.drop, BuildStep.calls,
        List.mem_cons, List.mem_singleton, List.not_mem_nil, or_false] at he
      rcases he with ((h | h | h | h | h | h | h | h | h) |
        ((((((h | h | h) | h) | h) | h) | h) | h) | h) | h
      all_goals first
        | (subst h; simp [Event.kind])
        | (rw [hM e h]; simp)
        | (rw [hS e h]; simp)
        | (rcases h with h | h | h | h | h | h <;> subst h <;> simp [Event.kind])
        | (rcases h with h | h | h <;> subst h <;> simp [Event.kind])
  · intro x x' hx
    rw [(createModule_inv hx).2]
  · intro x x' hx
    obtain ⟨pl, -, -, e⟩ := createPipeline_inv hx
    rw [e]

/-- Witness for C15: construction of the scene with two meshes and one sphere. -/
theorem pipeline_configuration_witness :
    ∃ r : SampleRenderer Int,
      SampleRenderer.SampleRenderer (okBackend Int) okSetupBackend (blankRenderer ⟨[], []⟩)
        sampleScene = .ok r ∧
      r.pipelineCompileOptions.numPayloadValues = 4 ∧
      r.pipelineCompileOptions.numAttributeValues = 4 ∧
      r.pipelineCompileOptions.exceptionFlags = OPTIX_EXCEPTION_FLAG_NONE ∧
      r.pipelineCompileOptions.traversableGraphFlags = OPTIX_TRAVERSABLE_GRAPH_FLAG_ALLOW_ANY ∧
      r.pipelineCompileOptions.usesMotionBlur = false ∧
      r.pipelineLinkOptions.overrideUsesMotionBlur = false :=
  (constructor_ok (okBackend_succeeds Int) okSetupBackend_succeeds (blankRenderer ⟨[], []⟩)
    sampleScene (by decide)).imp fun _ h => ⟨h, (pipeline_configuration h).1⟩

/-- C16: for a mesh with `n` vertices, `n + 8` within the range of `int`, whose index
triplets are all valid, after `addUnitCube` the mesh has `n + 8` vertices and 12 more index
triplets, the earlier vertices and triplets and the colour are unchanged, every component of
every new triplet lies in `[n, n + 8)`, the three components of every new triplet are
distinct, and every triplet of the new mesh is a valid index into its vertex sequence. -/
theorem addUnitCube_preserves_valid {α : Type} [Zero α] [One α] [Add α] [Mul α]
    (mesh : TriangleMesh α) (xfm : affine3 α)
    (hn : mesh.vertex.length + 8 ≤ 2 ^ 31) (hvalid : mesh.Valid) :
    (mesh.addUnitCube xfm).vertex.length = mesh.vertex.length + 8 ∧
    (mesh.addUnitCube xfm).index.length = mesh.index.length + 12 ∧
    (mesh.addUnitCube xfm).vertex.take mesh.vertex.length = mesh.vertex ∧
    (mesh.addUnitCube xfm).index.take mesh.index.length = mesh.index ∧
    (mesh.addUnitCube xfm).color = mesh.color ∧
    (∀ t ∈ (mesh.addUnitCube xfm).index.drop mesh.index.length,
      ((mesh.vertex.length : Int) ≤ t.x ∧ t.x < mesh.vertex.length + 8) ∧
      ((mesh.vertex.length : Int) ≤ t.y ∧ t.y < mesh.vertex.length + 8) ∧
      ((mesh.vertex.length : Int) ≤ t.z ∧ t.z < mesh.vertex.length + 8) ∧
      t.x ≠ t.y ∧ t.y ≠ t.z ∧ t.x ≠ t.z) ∧
    (mesh.addUnitCube xfm).Valid := by
  have hnew : ∀ t ∈ (mesh.addUnitCube xfm).index.drop mesh.index.length,
      ((mesh.vertex.length : Int) ≤ t.x ∧ t.x < mesh.vertex.length + 8) ∧
      ((mesh.vertex.length : Int) ≤ t.y ∧ t.y < mesh.vertex.length + 8) ∧
      ((mesh.vertex.length : Int) ≤ t.z ∧ t.z < mesh.vertex.length + 8) ∧
      t.x ≠ t.y ∧ t.y ≠ t.z ∧ t.x ≠ t.z := by
    intro t ht
    rw [addUnitCube_eq] at ht
    simp only [List.drop_left, List.map_cons, List.map_nil] at ht
    iterate 12 rw [addScalar_of_range hn _ (by decide) (by decide) (by decide)] at ht
    simp only [List.mem_cons, List.mem_singleton, List.not_mem_nil, or_false] at ht
    rcases ht with h | h | h | h | h | h | h | h | h | h | h | h <;> subst h <;>
      refine ⟨⟨?_, ?_⟩, ⟨?_, ?_⟩, ⟨?_, ?_⟩, ?_, ?_, ?_⟩ <;> simp
  refine ⟨?_, ?_, ?_, ?_, ?_, hnew, ?_⟩
  · rw [addUnitCube_eq]; simp
  · rw [addUnitCube_eq]; simp
  · rw [addUnitCube_eq]; simp
  · rw [addUnitCube_eq]; simp
  · rw [addUnitCube_eq]
  · intro t ht
    have hlen : (mesh.addUnitCube xfm).vertex.length = mesh.vertex.length + 8 := by
      rw [addUnitCube_eq]; simp
    have hsplit : t ∈ mesh.index ∨ t ∈ (mesh.addUnitCube xfm).index.drop mesh.index.length := by
      have h2 : (mesh.addUnitCube xfm).index = mesh.index ++
          (mesh.addUnitCube xfm).index.drop mesh.index.length := by
        rw [addUnitCube_eq]; simp
      rw [h2] at ht
      exact List.mem_append.mp ht
    rw [hlen]
    rcases hsplit with h | h
    · obtain ⟨⟨a1, a2⟩, ⟨b1, b2⟩, c1, c2⟩ := hvalid t h
      push_cast
      exact ⟨⟨a1, by omega⟩, ⟨b1, by omega⟩, c1, by omega⟩
    · obtain ⟨⟨a1, a2⟩, ⟨b1, b2⟩, ⟨c1, c2⟩, -⟩ := hnew t h
      push_cast
      exact ⟨⟨by omega, a2⟩, ⟨by omega, b2⟩, by omega, c2⟩

/-- Witness for C16: the unit cube under the identity transform added to a one-triangle
mesh. -/
theorem addUnitCube_preserves_valid_witness :
    (sampleMesh 1).vertex.length + 8 ≤ 2 ^ 31 ∧ (sampleMesh 1).Valid ∧
    ((sampleMesh 1).addUnitCube ⟨⟨⟨1, 0, 0⟩, ⟨0, 1, 0⟩, ⟨0, 0, 1⟩⟩, ⟨0, 0, 0⟩⟩).vertex.length
      = 11 ∧
    ((sampleMesh 1).addUnitCube ⟨⟨⟨1, 0, 0⟩, ⟨0, 1, 0⟩, ⟨0, 0, 1⟩⟩, ⟨0, 0, 0⟩⟩).index.length
      = 13 ∧
    ((sampleMesh 1).addUnitCube ⟨⟨⟨1, 0, 0⟩, ⟨0, 1, 0⟩, ⟨0, 0, 1⟩⟩, ⟨0, 0, 0⟩⟩).Valid :=
  have h1 : (sampleMesh 1).vertex.length + 8 ≤ 2 ^ 31 := by decide
  have h2 : (sampleMesh 1).Valid := by
    intro t ht
    simp only [sampleMesh, List.mem_singleton] at ht
    subst ht
    decide
  have h := addUnitCube_preserves_valid (sampleMesh 1)
    ⟨⟨⟨1, 0, 0⟩, ⟨0, 1, 0⟩, ⟨0, 0, 1⟩⟩, ⟨0, 0, 0⟩⟩ h1 h2
  ⟨h1, h2, h.1, h.2.1, h.2.2.2.2.2.2⟩

/-- C17: `addCube` takes its first argument as the centre of the cube, not as its minimum
corner: called on an empty mesh with first argument `(0,0,0)` and size `(2,2,2)` it appends
the eight vertices `(±1,±1,±1)`, starting at `(-1,-1,-1)`, and not the vertices
`(0,0,0) + (2a, 2b, 2c)` for `a, b, c` in `{0,1}`. -/
theorem addCube_first_argument_is_centre :
    (emptyMesh.addCube ⟨0, 0, 0⟩ ⟨2, 2, 2⟩).vertex =
      [⟨-1, -1, -1⟩, ⟨1, -1, -1⟩, ⟨-1, 1, -1⟩, ⟨1, 1, -1⟩,
       ⟨-1, -1, 1⟩, ⟨1, -1, 1⟩, ⟨-1, 1, 1⟩, ⟨1, 1, 1⟩] ∧
    (emptyMesh.addCube ⟨0, 0, 0⟩ ⟨2, 2, 2⟩).vertex ≠
      [⟨0, 0, 0⟩, ⟨2, 0, 0⟩, ⟨0, 2, 0⟩, ⟨2, 2, 0⟩,
       ⟨0, 0, 2⟩, ⟨2, 0, 2⟩, ⟨0, 2, 2⟩, ⟨2, 2, 2⟩] := by
  have h : (emptyMesh.addCube ⟨0, 0, 0⟩ ⟨2, 2, 2⟩).vertex =
      [⟨-1, -1, -1⟩, ⟨1, -1, -1⟩, ⟨-1, 1, -1⟩, ⟨1, 1, -1⟩,
       ⟨-1, -1, 1⟩, ⟨1, -1, 1⟩, ⟨-1, 1, 1⟩, ⟨1, 1, 1⟩] := by
    unfold TriangleMesh.addCube
    rw [addUnitCube_eq]
    norm_num [emptyMesh, xfmPoint, vec3.add, vec3.smul, vec3.sub]
  refine ⟨h, ?_⟩
  rw [h]
  intro hne
  have := (List.cons.inj hne).1
  norm_num at this

/-- C18: on a backend whose calls succeed `render` returns and leaves the launch parameters
as they were, and it issues a launch exactly when the frame width is non-zero.  With width
zero it returns the renderer it was given.  With a non-zero width the calls it makes are one
upload of the launch parameters, one launch with grid `(width, height, 1)` reading the
uploaded parameters, and one synchronisation.  The height plays no part: after
`resize(w,0)` with `w > 0`, `render` issues one launch with grid `(w, 0, 1)`. -/
theorem render_launches_iff_width {α : Type} [Field α] (sqrt : α → α) {be : Backend α}
    (hbe : be.succeeds) (r : SampleRenderer α) :
    (∃ r' : SampleRenderer α, render be r = .ok r' ∧
      r'.launchParams = r.launchParams ∧
      ((∃ call, Event.launch call ∈ r'.device.calls.drop r.device.calls.length) ↔
        r.launchParams.frame.size.x ≠ 0) ∧
      (r.launchParams.frame.size.x = 0 → r' = r) ∧
      (r.launchParams.frame.size.x ≠ 0 → ∃ call : LaunchCall α,
        r'.device.calls = r.device.calls ++
          [.memcpyHtoD r.launchParamsBuffer.d_ptr (1 * sizeof_LaunchParams),
           .launch call, .sync] ∧
        call.width = r.launchParams.frame.size.x ∧
        call.height = r.launchParams.frame.size.y ∧ call.depth = 1 ∧
        call.pipelineParams = r.launchParamsBuffer.d_ptr ∧
        (∀ a, r.device.block r.launchParamsBuffer.d_ptr = some a →
          readAt call.memory r.launchParamsBuffer.d_ptr
            = some (.launchParams r.launchParams)))) ∧
    (∀ w : Int, 0 < w → ∃ (r' : SampleRenderer α) (call : LaunchCall α),
      render be (resize sqrt r ⟨w, 0⟩) = .ok r' ∧
      r'.device.calls = (resize sqrt r ⟨w, 0⟩).device.calls ++
        [.memcpyHtoD r.launchParamsBuffer.d_ptr (1 * sizeof_LaunchParams),
         .launch call, .sync] ∧
      call.width = w ∧ call.height = 0 ∧ call.depth = 1) := by
  constructor
  · by_cases hx : r.launchParams.frame.size.x = 0
    · refine ⟨r, ?_, rfl, ?_, fun _ => rfl, fun h => absurd hx h⟩
      · unfold render
        rw [if_pos hx]
        rfl
      · simp [hx]
    · obtain ⟨r', call, h1, h2, h3, h4, h5, h6, h7, h8⟩ := render_nonzero_width hbe r hx
      refine ⟨r', h1, ?_, ?_, fun h => absurd h hx, fun _ => ⟨call, h3, h4, h5, h6, h7, h8⟩⟩
      · rw [h2]
      · rw [h3]
        simp [hx]
  · intro w hw
    have hx : (resize sqrt r ⟨w, 0⟩).launchParams.frame.size.x ≠ 0 := by
      show w ≠ 0
      omega
    obtain ⟨r', call, h1, h2, h3, h4, h5, h6, h7, h8⟩ :=
      render_nonzero_width hbe (resize sqrt r ⟨w, 0⟩) hx
    exact ⟨r', call, h1, h3, h4, h5, h6⟩

/-- Witness for C18: a backend whose calls succeed and a renderer resized to 4x0. -/
theorem render_launches_iff_width_witness :
    (okBackend ℝ).succeeds ∧
    ∃ (r' : SampleRenderer ℝ) (call : LaunchCall ℝ),
      render (okBackend ℝ) (resize Real.sqrt (blankRenderer ⟨[], []⟩) ⟨4, 0⟩) = .ok r' ∧
      r'.device.calls = (resize Real.sqrt (blankRenderer ⟨[], []⟩) ⟨4, 0⟩).device.calls ++
        [.memcpyHtoD (blankRenderer (⟨[], []⟩ : Geometry ℝ)).launchParamsBuffer.d_ptr
          (1 * sizeof_LaunchParams), .launch call, .sync] ∧
      call.width = 4 ∧ call.height = 0 ∧ call.depth = 1 :=
  ⟨okBackend_succeeds ℝ,
    (render_launches_iff_width Real.sqrt (okBackend_succeeds ℝ) (blankRenderer ⟨[], []⟩)).2 4
      (by decide)⟩

end osc
